import Mathlib

/-!
# Kinect Fusion Explorer: pose utilities and the depth-frame pipeline

A shallow embedding of
`v1.x/ToolkitSamples1.7.0/C++/KinectFusionExplorer-D2D/KinectFusionHelper.cpp`
(pose and matrix helpers, and the two mesh writers), of the worker thread of
`KinectFusionProcessor.cpp` (frame pipeline, volume lifecycle, main loop, storing of
images) and of the part of `KinectFusionExplorer.cpp` that drives it.

Scalars of type `float` and `double` are modelled by an arbitrary linearly ordered
field `K` (exact arithmetic, no rounding): the definitions are computable and can be
run at `K = ℚ`, and every theorem proved for all `K` holds in particular at `K = ℝ`.
The C mathematical library (`M_PI`, `atan2f`, `asinf`) is not part of the repository
and is passed to the functions that use it as a record `Libm K`.
-/

set_option linter.unusedSectionVars false

namespace KinectFusion

variable {K : Type} [LinearOrderedField K]

/-! ## Data model of the helper (SDK types `Matrix4` and `Vector3`) -/

/-- The SDK type `Matrix4`: sixteen scalars `M11 .. M44`, `Mrc` being row `r`, column `c`.
The translation of a pose is stored in the fourth row (`M41`, `M42`, `M43`). -/
structure Matrix4 (K : Type) where
  M11 : K
  M12 : K
  M13 : K
  M14 : K
  M21 : K
  M22 : K
  M23 : K
  M24 : K
  M31 : K
  M32 : K
  M33 : K
  M34 : K
  M41 : K
  M42 : K
  M43 : K
  M44 : K
deriving DecidableEq

/-- The SDK type `Vector3`. -/
structure Vector3 (K : Type) where
  x : K
  y : K
  z : K
deriving DecidableEq

/-- The part of the C mathematical library used by the helper: the constant `M_PI`
(converted to `float`) and the functions `atan2f` and `asinf`. -/
structure Libm (K : Type) where
  pi : K
  atan2f : K → K → K
  asinf : K → K

/-! ## `KinectFusionHelper.cpp` -/

/-- The function `SetIdentityMatrix(mat)`: every one of the sixteen fields is overwritten. -/
def SetIdentityMatrix (_mat : Matrix4 K) : Matrix4 K :=
  { M11 := 1, M12 := 0, M13 := 0, M14 := 0,
    M21 := 0, M22 := 1, M23 := 0, M24 := 0,
    M31 := 0, M32 := 0, M33 := 1, M34 := 0,
    M41 := 0, M42 := 0, M43 := 0, M44 := 1 }

/-- The function `ExtractVector3Translation(transform, translation)`, the overload that fills
an array of three floats: `translation[0..2] = M41, M42, M43`. -/
def ExtractVector3TranslationArray (transform : Matrix4 K) : Fin 3 → K :=
  ![transform.M41, transform.M42, transform.M43]

/-- The function `ExtractVector3Translation(transform)`, the overload that returns a `Vector3`. -/
def ExtractVector3Translation (transform : Matrix4 K) : Vector3 K :=
  { x := transform.M41, y := transform.M42, z := transform.M43 }

/-- The function `Extract3x3Rotation(transform)`: copies the upper-left 3x3 block, zeroes the
fourth column and the translation row, and sets `M44 = 1`. -/
def Extract3x3Rotation (transform : Matrix4 K) : Matrix4 K :=
  { M11 := transform.M11, M12 := transform.M12, M13 := transform.M13, M14 := 0,
    M21 := transform.M21, M22 := transform.M22, M23 := transform.M23, M24 := 0,
    M31 := transform.M31, M32 := transform.M32, M33 := transform.M33, M34 := 0,
    M41 := 0, M42 := 0, M43 := 0, M44 := 1 }

/-- The function `ExtractRot2Euler(transform, rotation)`:
`rotation[0] = phi = atan2f(M23, M33)`, `rotation[1] = theta = asinf(-M13)`,
`rotation[2] = psi = atan2f(M12, M11)`. -/
def ExtractRot2Euler (libm : Libm K) (transform : Matrix4 K) : Fin 3 → K :=
  let phi := libm.atan2f transform.M23 transform.M33
  let theta := libm.asinf (-transform.M13)
  let psi := libm.atan2f transform.M12 transform.M11
  ![phi, theta, psi]

/-- The `for (int i = 0; i < 3; i++)` loop of `CameraTransformFailed`, run over the list of
axes still to visit. It returns the pair `(failRot, failTrans)` the loop ends with.
The two `-= pi * 2` assignments change `eulerInitial[i]` or `eulerFinal[i]` only, and these
are read in iteration `i` only, so the adjusted values are the locals `eI` and `eF`.
Each `break` ends the loop with the flag just set. -/
def CameraTransformFailed.loop (pi deltaRot deltaTrans : K)
    (eulerInitial eulerFinal transInitial transFinal : Fin 3 → K) :
    List (Fin 3) → Bool × Bool
  | [] => (false, false)
  | i :: rest =>
    let wrapInitial : Bool :=
      decide (eulerInitial i ≥ pi - deltaRot) && decide (eulerFinal i < deltaRot - pi)
    let wrapFinal : Bool :=
      decide (eulerFinal i ≥ pi - deltaRot) && decide (eulerInitial i < deltaRot - pi)
    let eI := if wrapInitial then eulerInitial i - pi * 2 else eulerInitial i
    let eF := if !wrapInitial && wrapFinal then eulerFinal i - pi * 2 else eulerFinal i
    let rDelta := eI - eF
    let tDelta := transInitial i - transFinal i
    if |rDelta| > deltaRot then (true, false)
    else if |tDelta| > deltaTrans then (false, true)
    else CameraTransformFailed.loop pi deltaRot deltaTrans
      eulerInitial eulerFinal transInitial transFinal rest

/-- The function `CameraTransformFailed(T_initial, T_final, maxTrans, maxRotDegrees)`. -/
def CameraTransformFailed (libm : Libm K) (T_initial T_final : Matrix4 K)
    (maxTrans maxRotDegrees : K) : Bool :=
  let deltaTrans := maxTrans
  let angDeg := maxRotDegrees
  let deltaRot := (angDeg * libm.pi) / 180
  let eulerInitial := ExtractRot2Euler libm T_initial
  let eulerFinal := ExtractRot2Euler libm T_final
  let transInitial := ExtractVector3TranslationArray T_initial
  let transFinal := ExtractVector3TranslationArray T_final
  let fails := CameraTransformFailed.loop libm.pi deltaRot deltaTrans
    eulerInitial eulerFinal transInitial transFinal [0, 1, 2]
  fails.1 || fails.2

/-- The function `InvertRotation(rot)`: swaps `M12`/`M21`, `M13`/`M31` and `M23`/`M32` in
place; all other fields are untouched. -/
def InvertRotation (rot : Matrix4 K) : Matrix4 K :=
  { rot with
    M12 := rot.M21, M21 := rot.M12,
    M13 := rot.M31, M31 := rot.M13,
    M23 := rot.M32, M32 := rot.M23 }

/-- The function `NegateRotation(rot)`: negates the nine fields of the 3x3 block in place. -/
def NegateRotation (rot : Matrix4 K) : Matrix4 K :=
  { rot with
    M11 := -rot.M11, M12 := -rot.M12, M13 := -rot.M13,
    M21 := -rot.M21, M22 := -rot.M22, M23 := -rot.M23,
    M31 := -rot.M31, M32 := -rot.M32, M33 := -rot.M33 }

/-- The function `RotateVector(vec, rot)`: component `i` of the result is
`Σ_j rot.Mij * vec_j`. -/
def RotateVector (vec : Vector3 K) (rot : Matrix4 K) : Vector3 K :=
  { x := (rot.M11 * vec.x) + (rot.M12 * vec.y) + (rot.M13 * vec.z),
    y := (rot.M21 * vec.x) + (rot.M22 * vec.y) + (rot.M23 * vec.z),
    z := (rot.M31 * vec.x) + (rot.M32 * vec.y) + (rot.M33 * vec.z) }

/-- The function `InvertMatrix4Pose(transform)`. -/
def InvertMatrix4Pose (transform : Matrix4 K) : Matrix4 K :=
  let rotation := Extract3x3Rotation transform
  let invRotation := InvertRotation rotation
  let negRotation := NegateRotation rotation
  let translation := ExtractVector3Translation transform
  let invTranslation := RotateVector translation negRotation
  { invRotation with
    M41 := invTranslation.x, M42 := invTranslation.y, M43 := invTranslation.z }

/-! ## Vocabulary of the specification for poses -/

/-- The upper-left 3x3 block `R` of a `Matrix4`, as a matrix. -/
def rotationBlock (T : Matrix4 K) : Matrix (Fin 3) (Fin 3) K :=
  !![T.M11, T.M12, T.M13; T.M21, T.M22, T.M23; T.M31, T.M32, T.M33]

/-- A `Matrix4` as a 4x4 matrix, row `r` and column `c` holding the field `Mrc`. -/
def toMatrix (T : Matrix4 K) : Matrix (Fin 4) (Fin 4) K :=
  !![T.M11, T.M12, T.M13, T.M14; T.M21, T.M22, T.M23, T.M24;
     T.M31, T.M32, T.M33, T.M34; T.M41, T.M42, T.M43, T.M44]

/-- The 3x3 block is orthonormal: `R * Rᵀ = 1`. -/
def Orthonormal (T : Matrix4 K) : Prop :=
  rotationBlock T * (rotationBlock T).transpose = 1

/-- The fourth column is `(0, 0, 0, 1)`. -/
def AffineColumn (T : Matrix4 K) : Prop :=
  T.M14 = 0 ∧ T.M24 = 0 ∧ T.M34 = 0 ∧ T.M44 = 1

/-- The translation row `(M41, M42, M43)` as a `Vector3`, negated. -/
def negTranslation (T : Matrix4 K) : Vector3 K :=
  { x := -T.M41, y := -T.M42, z := -T.M43 }

/-- A rigid pose over the rationals used to exercise the inversion: a quarter turn about the
z axis followed by the translation `(1, 2, 3)`. -/
def quarterTurnPose : Matrix4 ℚ :=
  { M11 := 0, M12 := 1, M13 := 0, M14 := 0,
    M21 := -1, M22 := 0, M23 := 0, M24 := 0,
    M31 := 0, M32 := 0, M33 := 1, M34 := 0,
    M41 := 1, M42 := 2, M43 := 3, M44 := 1 }

/-! ## The mathematical library over the reals, and vocabulary for the pose-jump test -/

/-- The real-number mathematical library: `M_PI` is `π`, `atan2f y x` is the argument of
`x + y i` (in `(-π, π]`), `asinf` is the arcsine. -/
noncomputable def realLibm : Libm ℝ :=
  { pi := Real.pi
    atan2f := fun y x => Complex.arg ⟨x, y⟩
    asinf := Real.arcsin }

/-- The rotation threshold in radians, `deltaRot = (maxRotDegrees * pi) / 180`. -/
def rotationThreshold (libm : Libm K) (maxRotDegrees : K) : K :=
  (maxRotDegrees * libm.pi) / 180

/-- The difference `rDeltas[i]` the loop computes on one axis from the two Euler angles,
after the wraparound adjustment. -/
def adjustedDelta (pi deltaRot eI eF : K) : K :=
  let wrapInitial : Bool := decide (eI ≥ pi - deltaRot) && decide (eF < deltaRot - pi)
  let wrapFinal : Bool := decide (eF ≥ pi - deltaRot) && decide (eI < deltaRot - pi)
  (if wrapInitial then eI - pi * 2 else eI) -
    (if !wrapInitial && wrapFinal then eF - pi * 2 else eF)

/-- A pose that turns by an angle with cosine `c` and sine `s` about the z axis, with no
translation: its Euler angles are `phi = 0`, `theta = 0` and `psi` the angle of the turn.
At `c = 1`, `s = 0` it is the identity. -/
def zTurnPose (c s : K) : Matrix4 K :=
  { M11 := c, M12 := s, M13 := 0, M14 := 0,
    M21 := -s, M22 := c, M23 := 0, M24 := 0,
    M31 := 0, M32 := 0, M33 := 1, M34 := 0,
    M41 := 0, M42 := 0, M43 := 0, M44 := 1 }

/-! ## `KinectFusionParams.h` -/

/-- The SDK type `HRESULT`: a signed 32-bit code, modelled as an integer. -/
abbrev HRESULT := Int

/-- The macro `SUCCEEDED(hr)`: the code is nonnegative. -/
def SUCCEEDED (hr : HRESULT) : Bool := decide (0 ≤ hr)

/-- The macro `FAILED(hr)`: the code is negative. -/
def FAILED (hr : HRESULT) : Bool := decide (hr < 0)

/-- The code `S_OK`. -/
def S_OK : HRESULT := 0

/-- The code `E_FAIL` (`0x80004005` as a signed 32-bit integer). -/
def E_FAIL : HRESULT := -2147467259

/-- The SDK enumeration `NUI_FUSION_RECONSTRUCTION_PROCESSOR_TYPE`. -/
inductive NUI_FUSION_RECONSTRUCTION_PROCESSOR_TYPE where
  | NUI_FUSION_RECONSTRUCTION_PROCESSOR_TYPE_CPU
  | NUI_FUSION_RECONSTRUCTION_PROCESSOR_TYPE_AMP
deriving DecidableEq, Repr

/-- The SDK structure `NUI_FUSION_RECONSTRUCTION_PARAMETERS` (a `FLOAT` and three `UINT`). -/
structure NUI_FUSION_RECONSTRUCTION_PARAMETERS (K : Type) where
  voxelsPerMeter : K
  voxelCountX : Nat
  voxelCountY : Nat
  voxelCountZ : Nat
deriving DecidableEq

/-- The structure `KinectFusionParams`, field by field. `m_imageResolution` is the code of
the `NUI_IMAGE_RESOLUTION` enumeration. -/
structure KinectFusionParams (K : Type) where
  m_deviceIndex : Int
  m_processorType : NUI_FUSION_RECONSTRUCTION_PROCESSOR_TYPE
  m_bPauseIntegration : Bool
  m_bNearMode : Bool
  m_imageResolution : Int
  m_cDepthWidth : Int
  m_cDepthHeight : Int
  m_cImageSize : Int
  m_reconstructionParams : NUI_FUSION_RECONSTRUCTION_PARAMETERS K
  m_bAutoResetReconstructionWhenLost : Bool
  m_fMinDepthThreshold : K
  m_fMaxDepthThreshold : K
  m_bMirrorDepthFrame : Bool
  m_cMaxIntegrationWeight : Nat
  m_bDisplaySurfaceNormals : Bool
  m_bTranslateResetPoseByMinDepthThreshold : Bool
deriving DecidableEq

/-- The function `KinectFusionParams::VolumeChanged(params)`. -/
def KinectFusionParams.VolumeChanged (self params : KinectFusionParams K) : Bool :=
  self.m_reconstructionParams.voxelCountX != params.m_reconstructionParams.voxelCountX ||
  self.m_reconstructionParams.voxelCountY != params.m_reconstructionParams.voxelCountY ||
  self.m_reconstructionParams.voxelCountZ != params.m_reconstructionParams.voxelCountZ ||
  self.m_reconstructionParams.voxelsPerMeter != params.m_reconstructionParams.voxelsPerMeter ||
  self.m_processorType != params.m_processorType ||
  self.m_deviceIndex != params.m_deviceIndex

/-! ## `KinectFusionProcessor.h`: constants and state -/

/-- The constant `cResetOnTimeStampSkippedMillisecondsGPU`. -/
def cResetOnTimeStampSkippedMillisecondsGPU : Int := 1000

/-- The constant `cResetOnTimeStampSkippedMillisecondsCPU`. -/
def cResetOnTimeStampSkippedMillisecondsCPU : Int := 6000

/-- The constant `cResetOnNumberOfLostFrames`. -/
def cResetOnNumberOfLostFrames : Int := 100

/-- The constant `cTimeDisplayInterval`. -/
def cTimeDisplayInterval : Int := 4

/-- The constant `cRenderIntervalMilliseconds`. -/
def cRenderIntervalMilliseconds : Int := 100

/-- The three critical sections of the processor. -/
inductive Lock where
  | m_lockParams
  | m_lockFrame
  | m_lockVolume
deriving DecidableEq, Repr

/-- The Kinect Fusion image frames owned by the processor. -/
inductive FusionImage where
  | m_pDepthFloatImage
  | m_pPointCloud
  | m_pShadedSurface
  | m_pShadedSurfaceNormals
  | m_pFloatDeltaFromReference
  | m_pShadedDeltaFromReference
deriving DecidableEq, Repr

/-- The three byte buffers of the output bundle `m_frame`. -/
inductive FrameBuffer where
  | m_pDepthRGBX
  | m_pReconstructionRGBX
  | m_pTrackingDataRGBX
deriving DecidableEq, Repr

/-- The calls the processor makes to its collaborators (sensor, sensor chooser, volume, SDK
functions, critical sections, frame buffers, message queue of the window), with the arguments
that matter. `InternalResetReconstruction`, `RecreateVolume` and `SetParams` mark an
invocation of the member function of that name; `ResetReconstruction` is the call of the
volume method made when a volume exists; `InitializeFrameBuffers` is the call
`m_frame.Initialize(m_cImageSize)`; `CreateFrame` is the call of the member function for one
image; `WaitForThread` is `WaitForSingleObject(m_hThread, INFINITE)`;
`NuiImageStreamSetImageFrameFlags true` passes `NUI_IMAGE_STREAM_FLAG_ENABLE_NEAR_MODE` and
`false` passes `0`. -/
inductive Event (K : Type) where
  | EnterCriticalSection (lock : Lock)
  | LeaveCriticalSection (lock : Lock)
  | NuiImageStreamGetNextFrame
  | NuiImageStreamReleaseFrame
  | NuiImageFrameGetDepthImagePixelFrameTexture
  | InternalResetReconstruction
  | ResetReconstruction (worldToCamera : Matrix4 K) (worldToVolume : Option (Matrix4 K))
  | NuiFusionDepthToDepthFloatFrame
  | AlignDepthFloatToReconstruction
  | GetCurrentWorldToCameraTransform
  | IntegrateFrame (maxIntegrationWeight : Nat) (worldToCamera : Matrix4 K)
  | CalculatePointCloud (worldToCamera : Matrix4 K)
  | NuiFusionShadePointCloud (worldToCamera worldToBGR : Matrix4 K)
  | StoreImageToFrameBuffer (image : FusionImage) (buffer : FrameBuffer)
  | ColorResiduals
  | RecreateVolume
  | NuiFusionCreateReconstruction
      (reconstructionParams : NUI_FUSION_RECONSTRUCTION_PARAMETERS K)
      (processorType : NUI_FUSION_RECONSTRUCTION_PROCESSOR_TYPE) (deviceIndex : Int)
      (worldToCamera : Matrix4 K)
  | GetCurrentWorldToVolumeTransform
  | NuiImageStreamSetImageFrameFlags (nearMode : Bool)
  | PostMessage (msg : Nat) (wParam : Nat)
  | TryResolveConflict
  | HandleNuiStatusChanged
  | GetSensor
  | NuiImageStreamOpen
  | ResetEvent
  | GetStatus
  | NuiShutdown
  | InitializeFrameBuffers (cImageSize : Int)
  | CreateFrame (image : FusionImage)
  | CalculateMesh
  | WaitForThread
  | SetParams (params : KinectFusionParams K)
deriving DecidableEq

/-- The fields of `KinectFusionProcessorFrame` (declared in a header that is not part of the
sources at hand) that the worker writes besides the byte buffers. -/
structure KinectFusionProcessorFrame (K : Type) where
  m_bIntegrationResumed : Bool
  m_fFramesPerSecond : K
  m_statusMessage : String
deriving DecidableEq

/-- The reconstruction volume behind `m_pVolume`, an object of the SDK: the model records the
parameters it was created with. -/
structure INuiFusionReconstruction (K : Type) where
  reconstructionParams : NUI_FUSION_RECONSTRUCTION_PARAMETERS K
  processorType : NUI_FUSION_RECONSTRUCTION_PROCESSOR_TYPE
  deviceIndex : Int
deriving DecidableEq

/-- The member variables of `KinectFusionProcessor` used by the frame pipeline. Pointers are
modelled by what the pipeline tests: `m_pVolume` is `none` for `nullptr`, `m_pNuiSensor`,
`m_pDepthImagePixelBuffer`, `m_hWnd`, `m_hThread` and `m_pSensorChooser` are `true` when
non-null. Counters of type `int` are unbounded integers. `trace` is not a member variable: it
records, oldest first, the calls made so far. -/
structure KinectFusionProcessor (K : Type) where
  m_paramsNext : KinectFusionParams K
  m_paramsCurrent : KinectFusionParams K
  m_pNuiSensor : Bool
  m_cLastFrameTimeStamp : Int
  m_statusMessage : String
  m_frame : KinectFusionProcessorFrame K
  m_bKinectFusionInitialized : Bool
  m_bResetReconstruction : Bool
  m_bStopProcessing : Bool
  m_bResolveSensorConflict : Bool
  m_bIntegrationResumed : Bool
  m_hrRecreateVolume : HRESULT
  m_pVolume : Option (INuiFusionReconstruction K)
  m_worldToCameraTransform : Matrix4 K
  m_defaultWorldToVolumeTransform : Matrix4 K
  m_pDepthImagePixelBuffer : Bool
  m_cLostFrameCounter : Int
  m_bTrackingFailed : Bool
  m_cFrameCounter : Int
  m_fFrameCounterStartTime : K
  m_fMostRecentRaycastTime : K
  m_hWnd : Bool
  m_msgFrameReady : Nat
  m_msgUpdateSensorStatus : Nat
  m_hThread : Bool
  m_pSensorChooser : Bool
  m_cPixelBufferLength : Int
  trace : List (Event K)

/-- Constants of the SDK headers the pipeline compares against. -/
structure Sdk where
  E_NUI_FUSION_TRACKING_ERROR : HRESULT
  E_NUI_GPU_FAIL : HRESULT
  E_NUI_GPU_OUTOFMEMORY : HRESULT

/-- What the collaborators answer during one call of `ProcessDepth`: return codes of the
sensor, the volume and the SDK functions, the timestamp of the depth frame, the pose the
volume reports, the state of the next-frame event and the readings of `m_timer`.
There is one field per call site, in the order of the calls. -/
structure ProcessDepthEnv (K : Type) where
  /-- Code returned by `NuiImageStreamGetNextFrame` (line 897). -/
  hrGetNextFrame : HRESULT
  /-- Code returned by `NuiImageFrameGetDepthImagePixelFrameTexture` in `CopyExtendedDepth`. -/
  hrGetDepthImagePixelFrameTexture : HRESULT
  /-- Code returned by `LockRect` in `CopyExtendedDepth`. -/
  hrLockRect : HRESULT
  /-- Value of `extendedDepthLockedRect.Pitch` in `CopyExtendedDepth`. -/
  lockedRectPitch : Int
  /-- Value returned by `memcpy_s` in `CopyExtendedDepth`. -/
  memcpyErr : Int
  /-- Value of `imageFrame.liTimeStamp.QuadPart`, a 64-bit integer taken without wraparound. -/
  liTimeStamp : Int
  /-- Code returned by the volume reset, should the timestamp test invoke it. -/
  hrResetOnTimeStamp : HRESULT
  /-- Reading of `m_timer.AbsoluteTime()` in that reset. -/
  timeResetOnTimeStamp : K
  /-- Code returned by `NuiFusionDepthToDepthFloatFrame` (line 951). -/
  hrDepthToDepthFloat : HRESULT
  /-- Code returned by `AlignDepthFloatToReconstruction` (line 981). -/
  tracking : HRESULT
  /-- Matrix written by `GetCurrentWorldToCameraTransform` (line 1007). -/
  currentWorldToCameraTransform : Matrix4 K
  /-- Code returned by the volume reset, should tracking loss invoke it (line 1017). -/
  hrResetWhenLost : HRESULT
  /-- Reading of `m_timer.AbsoluteTime()` in that reset. -/
  timeResetWhenLost : K
  /-- Code returned by `IntegrateFrame` (line 1040). -/
  hrIntegrateFrame : HRESULT
  /-- Reading of `m_timer.AbsoluteTime()` at line 1053. -/
  currentTime : K
  /-- Whether `WaitForSingleObject(m_hNextDepthFrameEvent, 0)` returns something other than
  `WAIT_TIMEOUT` (line 1056). -/
  nextDepthFrameSignalled : Bool
  /-- Code returned by `CalculatePointCloud` (line 1081). -/
  hrCalculatePointCloud : HRESULT
  /-- Code returned by `NuiFusionShadePointCloud` (line 1102). -/
  hrShadePointCloud : HRESULT
  /-- Code returned by `ColorResiduals` (line 1145). -/
  hrColorResiduals : HRESULT
  /-- Reading of `m_timer.AbsoluteTime()` at line 1159. -/
  timeAtFrameEnd : K
  /-- Reading of `m_timer.AbsoluteTime()` at line 1171. -/
  timeAtCounterRestart : K

/-! ## `KinectFusionProcessor.cpp` -/

/-- Appends a call to the trace. -/
def KinectFusionProcessor.log (s : KinectFusionProcessor K) (e : Event K) :
    KinectFusionProcessor K :=
  { s with trace := s.trace ++ [e] }

/-- The function `SetStatusMessage(szMessage)`: copies the message into `m_statusMessage`. -/
def SetStatusMessage (s : KinectFusionProcessor K) (szMessage : String) :
    KinectFusionProcessor K :=
  { s with m_statusMessage := szMessage }

/-- The function `InternalResetReconstruction()`. The arguments are the code returned by the
volume method `ResetReconstruction` and the reading of `m_timer.AbsoluteTime()`, used when a
volume exists. -/
def InternalResetReconstruction (s : KinectFusionProcessor K) (hrVolumeReset : HRESULT)
    (absoluteTime : K) : HRESULT × KinectFusionProcessor K :=
  let s := s.log Event.InternalResetReconstruction
  if s.m_pVolume.isNone then
    (E_FAIL, s)
  else
    let s := { s with m_worldToCameraTransform := SetIdentityMatrix s.m_worldToCameraTransform }
    let s :=
      if s.m_paramsCurrent.m_bTranslateResetPoseByMinDepthThreshold then
        let worldToVolumeTransform := s.m_defaultWorldToVolumeTransform
        let minDist :=
          if s.m_paramsCurrent.m_fMinDepthThreshold < s.m_paramsCurrent.m_fMaxDepthThreshold
          then s.m_paramsCurrent.m_fMinDepthThreshold
          else s.m_paramsCurrent.m_fMaxDepthThreshold
        let worldToVolumeTransform :=
          { worldToVolumeTransform with
            M43 := worldToVolumeTransform.M43 -
              (minDist * s.m_paramsCurrent.m_reconstructionParams.voxelsPerMeter) }
        s.log (Event.ResetReconstruction s.m_worldToCameraTransform
          (some worldToVolumeTransform))
      else
        s.log (Event.ResetReconstruction s.m_worldToCameraTransform none)
    let hr := hrVolumeReset
    let s := { s with
      m_cLostFrameCounter := 0
      m_cFrameCounter := 0
      m_fFrameCounterStartTime := absoluteTime }
    let s := s.log (Event.EnterCriticalSection Lock.m_lockFrame)
    let s := { s with m_frame := { s.m_frame with m_fFramesPerSecond := 0 } }
    let s := s.log (Event.LeaveCriticalSection Lock.m_lockFrame)
    let s :=
      if SUCCEEDED hr then
        { s with
          m_bTrackingFailed := false
          m_paramsCurrent := { s.m_paramsCurrent with m_bPauseIntegration := false }
          m_bIntegrationResumed := true }
      else s
    (hr, s)

/-- The function `CopyExtendedDepth(imageFrame)`: the status messages and the code returned
on each path; the pixels copied are not modelled. -/
def CopyExtendedDepth (s : KinectFusionProcessor K) (env : ProcessDepthEnv K) :
    HRESULT × KinectFusionProcessor K :=
  if !s.m_pDepthImagePixelBuffer then
    (E_FAIL, SetStatusMessage s "Error depth image pixel buffer is nullptr.")
  else
    let s := s.log Event.NuiImageFrameGetDepthImagePixelFrameTexture
    let hr := env.hrGetDepthImagePixelFrameTexture
    if FAILED hr then
      (hr, SetStatusMessage s "Error getting extended depth texture.")
    else
      let hr := env.hrLockRect
      if FAILED hr || env.lockedRectPitch == 0 then
        (hr, SetStatusMessage s "Error getting extended depth texture pixels.")
      else if env.memcpyErr != 0 then
        (hr, SetStatusMessage s "Error copying extended depth texture pixels.")
      else
        (hr, s)

/-- The locals of `ProcessDepth` that are read after the label `FinishFrame`. -/
structure ProcessDepthLocals where
  hr : HRESULT
  depthAvailable : Bool
  raycastFrame : Bool
deriving DecidableEq, Repr

/-- The threshold `cResetOnTimeStampSkippedMilliseconds` chosen in `ProcessDepth` from the
processor type (lines 922 to 927). -/
def ProcessDepth.cResetOnTimeStampSkippedMilliseconds (s : KinectFusionProcessor K) : Int :=
  if s.m_paramsCurrent.m_processorType =
      NUI_FUSION_RECONSTRUCTION_PROCESSOR_TYPE.NUI_FUSION_RECONSTRUCTION_PROCESSOR_TYPE_CPU
  then cResetOnTimeStampSkippedMillisecondsCPU
  else cResetOnTimeStampSkippedMillisecondsGPU

/-- The condition of the timestamp test of `ProcessDepth` (lines 929 and 930):
`m_cFrameCounter > 0 && abs(currentFrameTime - m_cLastFrameTimeStamp) > threshold`.
The 64-bit difference and its absolute value are taken in the integers. -/
def ProcessDepth.timeStampSkipped (s : KinectFusionProcessor K) (currentFrameTime : Int) :
    Bool :=
  decide (s.m_cFrameCounter > 0) &&
    decide (|currentFrameTime - s.m_cLastFrameTimeStamp| >
      ProcessDepth.cResetOnTimeStampSkippedMilliseconds s)

/-- The timestamp test and reset of `ProcessDepth` followed by the update of
`m_cLastFrameTimeStamp` (lines 922 to 944). The inner `hr` shadows the one of the function. -/
def ProcessDepth.timeStampGuard (s : KinectFusionProcessor K) (env : ProcessDepthEnv K)
    (currentFrameTime : Int) : KinectFusionProcessor K :=
  let s :=
    if ProcessDepth.timeStampSkipped s currentFrameTime then
      let r := InternalResetReconstruction s env.hrResetOnTimeStamp env.timeResetOnTimeStamp
      if SUCCEEDED r.1 then SetStatusMessage r.2 "Reconstruction has been reset."
      else SetStatusMessage r.2 "Failed to reset reconstruction."
    else s
  { s with m_cLastFrameTimeStamp := currentFrameTime }

/-- The camera tracking step of `ProcessDepth` (lines 981 to 1010): the call of
`AlignDepthFloatToReconstruction` and the update of the pose, the lost-frame counter and the
tracking flag. It returns the value of `hr` after the step. -/
def ProcessDepth.track (sdk : Sdk) (s : KinectFusionProcessor K) (env : ProcessDepthEnv K)
    (hr : HRESULT) : HRESULT × KinectFusionProcessor K :=
  let s := s.log Event.AlignDepthFloatToReconstruction
  let tracking := env.tracking
  if FAILED tracking then
    if tracking = sdk.E_NUI_FUSION_TRACKING_ERROR then
      let s := { s with m_cLostFrameCounter := s.m_cLostFrameCounter + 1 }
      let s := { s with m_bTrackingFailed := true }
      (hr, SetStatusMessage s
        "Kinect Fusion camera tracking failed! Align the camera to the last tracked position.")
    else
      let s := { s with m_cLostFrameCounter := s.m_cLostFrameCounter + 1 }
      let s := { s with m_bTrackingFailed := true }
      (tracking, SetStatusMessage s "Kinect Fusion AlignDepthFloatToReconstruction call failed!")
  else
    let s := s.log Event.GetCurrentWorldToCameraTransform
    let s := { s with m_worldToCameraTransform := env.currentWorldToCameraTransform }
    let s := { s with m_cLostFrameCounter := 0 }
    let s := { s with m_bTrackingFailed := false }
    (hr, s)

/-- The matrix `worldToBGRTransform` built in `ProcessDepth` (lines 1094 to 1100). -/
def ProcessDepth.worldToBGRTransform (params : KinectFusionParams K) : Matrix4 K :=
  { M11 := params.m_reconstructionParams.voxelsPerMeter /
      (params.m_reconstructionParams.voxelCountX : K),
    M12 := 0, M13 := 0, M14 := 0,
    M21 := 0,
    M22 := params.m_reconstructionParams.voxelsPerMeter /
      (params.m_reconstructionParams.voxelCountY : K),
    M23 := 0, M24 := 0,
    M31 := 0, M32 := 0,
    M33 := params.m_reconstructionParams.voxelsPerMeter /
      (params.m_reconstructionParams.voxelCountZ : K),
    M34 := 0,
    M41 := 1 / 2, M42 := 1 / 2, M43 := 0, M44 := 1 }

/-- The raycast decision and the raycast of `ProcessDepth` (lines 1052 to 1114), entered with
the current value of `hr`. -/
def ProcessDepth.raycast (s : KinectFusionProcessor K) (env : ProcessDepthEnv K)
    (hr : HRESULT) : ProcessDepthLocals × KinectFusionProcessor K :=
  let currentTime := env.currentTime
  let raycastFrame : Bool :=
    if !env.nextDepthFrameSignalled then true
    else
      let renderIntervalSeconds : K := (1 / 1000) * (cRenderIntervalMilliseconds : K)
      decide (currentTime - s.m_fMostRecentRaycastTime > renderIntervalSeconds)
  let s := if raycastFrame then { s with m_fMostRecentRaycastTime := currentTime } else s
  if raycastFrame then
    let s := s.log (Event.CalculatePointCloud s.m_worldToCameraTransform)
    let hr := env.hrCalculatePointCloud
    if FAILED hr then
      (⟨hr, true, raycastFrame⟩,
        SetStatusMessage s "Kinect Fusion CalculatePointCloud call failed.")
    else
      let s := s.log (Event.NuiFusionShadePointCloud s.m_worldToCameraTransform
        (ProcessDepth.worldToBGRTransform s.m_paramsCurrent))
      let hr := env.hrShadePointCloud
      if FAILED hr then
        (⟨hr, true, raycastFrame⟩,
          SetStatusMessage s "Kinect Fusion NuiFusionShadePointCloud call failed.")
      else
        (⟨hr, true, raycastFrame⟩, s)
  else
    (⟨hr, true, raycastFrame⟩, s)

/-- The integration step of `ProcessDepth` (lines 1037 to 1050) followed by the raycast. -/
def ProcessDepth.integrate (s : KinectFusionProcessor K) (env : ProcessDepthEnv K)
    (hr : HRESULT) : ProcessDepthLocals × KinectFusionProcessor K :=
  if !s.m_bTrackingFailed && !s.m_paramsCurrent.m_bPauseIntegration then
    let s := s.log (Event.IntegrateFrame s.m_paramsCurrent.m_cMaxIntegrationWeight
      s.m_worldToCameraTransform)
    let hr := env.hrIntegrateFrame
    if FAILED hr then
      (⟨hr, true, false⟩, SetStatusMessage s "Kinect Fusion IntegrateFrame call failed.")
    else
      ProcessDepth.raycast s env hr
  else
    ProcessDepth.raycast s env hr

/-- The condition of the automatic reset of `ProcessDepth` (lines 1012 to 1014):
`m_bAutoResetReconstructionWhenLost && m_bTrackingFailed &&
m_cLostFrameCounter >= cResetOnNumberOfLostFrames`. -/
def ProcessDepth.lostTooLong (s : KinectFusionProcessor K) : Bool :=
  s.m_paramsCurrent.m_bAutoResetReconstructionWhenLost &&
    s.m_bTrackingFailed &&
    decide (s.m_cLostFrameCounter ≥ cResetOnNumberOfLostFrames)

/-- The automatic reset of `ProcessDepth` when tracking is lost (lines 1012 to 1031), followed
by the integration step. -/
def ProcessDepth.resetWhenLost (s : KinectFusionProcessor K) (env : ProcessDepthEnv K)
    (hr : HRESULT) : ProcessDepthLocals × KinectFusionProcessor K :=
  if ProcessDepth.lostTooLong s then
    let r := InternalResetReconstruction s env.hrResetWhenLost env.timeResetWhenLost
    let hr := r.1
    if SUCCEEDED hr then
      ProcessDepth.integrate
        (SetStatusMessage r.2
          "Kinect Fusion camera tracking failed, automatically reset volume.") env hr
    else
      (⟨hr, true, false⟩,
        SetStatusMessage r.2 "Kinect Fusion Reset Reconstruction call failed.")
  else
    ProcessDepth.integrate s env hr

/-- The part of `ProcessDepth` before the label `FinishFrame` (lines 897 to 1114): it returns
the locals and the state with which `FinishFrame` is reached. -/
def ProcessDepth.body (sdk : Sdk) (s : KinectFusionProcessor K) (env : ProcessDepthEnv K) :
    ProcessDepthLocals × KinectFusionProcessor K :=
  let s := s.log Event.NuiImageStreamGetNextFrame
  let hr := env.hrGetNextFrame
  if FAILED hr then
    (⟨hr, false, false⟩, SetStatusMessage s "Kinect NuiImageStreamGetNextFrame call failed.")
  else
    let r := CopyExtendedDepth s env
    let hr := r.1
    let s := r.2
    let currentFrameTime := env.liTimeStamp
    let s := s.log Event.NuiImageStreamReleaseFrame
    if FAILED hr then
      (⟨hr, false, false⟩, s)
    else
      let s := ProcessDepth.timeStampGuard s env currentFrameTime
      let s := s.log Event.NuiFusionDepthToDepthFloatFrame
      let hr := env.hrDepthToDepthFloat
      if FAILED hr then
        (⟨hr, false, false⟩,
          SetStatusMessage s "Kinect Fusion NuiFusionDepthToDepthFloatFrame call failed.")
      else if s.m_pVolume.isNone then
        (⟨hr, true, false⟩,
          SetStatusMessage s
            ("Kinect Fusion reconstruction volume not initialized. " ++
              "Please try reducing volume size or restarting."))
      else
        let r := ProcessDepth.track sdk s env hr
        ProcessDepth.resetWhenLost r.2 env r.1

/-- The conversion `static_cast<int>(x)` of a `double`: truncation toward zero. -/
def truncToInt [FloorRing K] (x : K) : Int :=
  if 0 ≤ x then ⌊x⌋ else ⌈x⌉

/-- The first statements after the label `FinishFrame` (lines 1118 to 1121): the frame lock is
taken and the integration-resumed flag is handed over to the output bundle. -/
def ProcessDepth.enterFrame (s : KinectFusionProcessor K) : KinectFusionProcessor K :=
  let s := s.log (Event.EnterCriticalSection Lock.m_lockFrame)
  let s := { s with
    m_frame := { s.m_frame with m_bIntegrationResumed := s.m_bIntegrationResumed } }
  { s with m_bIntegrationResumed := false }

/-- The copy of the images to the frame buffers (lines 1126 to 1148). It returns the value of
`hr` after the copy. -/
def ProcessDepth.storeImages (s : KinectFusionProcessor K) (env : ProcessDepthEnv K)
    (l : ProcessDepthLocals) : HRESULT × KinectFusionProcessor K :=
  let s :=
    if l.depthAvailable then
      s.log (Event.StoreImageToFrameBuffer FusionImage.m_pDepthFloatImage
        FrameBuffer.m_pDepthRGBX)
    else s
  if SUCCEEDED l.hr then
    let s :=
      if l.raycastFrame then
        if s.m_paramsCurrent.m_bDisplaySurfaceNormals then
          s.log (Event.StoreImageToFrameBuffer FusionImage.m_pShadedSurfaceNormals
            FrameBuffer.m_pReconstructionRGBX)
        else
          s.log (Event.StoreImageToFrameBuffer FusionImage.m_pShadedSurface
            FrameBuffer.m_pReconstructionRGBX)
      else s
    let s := s.log Event.ColorResiduals
    let hr := env.hrColorResiduals
    let s := s.log (Event.StoreImageToFrameBuffer FusionImage.m_pShadedDeltaFromReference
      FrameBuffer.m_pTrackingDataRGBX)
    (hr, s)
  else (l.hr, s)

/-- The update of the frame counter and of the frames-per-second display (lines 1153 to
1173). -/
def ProcessDepth.updateFps [FloorRing K] (s : KinectFusionProcessor K)
    (env : ProcessDepthEnv K) (hr : HRESULT) : KinectFusionProcessor K :=
  if SUCCEEDED hr then
    let s := { s with m_cFrameCounter := s.m_cFrameCounter + 1 }
    let elapsed := env.timeAtFrameEnd - s.m_fFrameCounterStartTime
    if truncToInt elapsed ≥ cTimeDisplayInterval then
      let s := { s with m_frame := { s.m_frame with m_fFramesPerSecond := 0 } }
      let s :=
        if !s.m_bTrackingFailed then
          { s with m_frame :=
            { s.m_frame with m_fFramesPerSecond := (s.m_cFrameCounter : K) / elapsed } }
        else s
      let s := { s with m_cFrameCounter := 0 }
      { s with m_fFrameCounterStartTime := env.timeAtCounterRestart }
    else s
  else s

/-- The last statements of `ProcessDepth` (lines 1175 to 1177): the status message is copied
to the output bundle and the frame lock is released. -/
def ProcessDepth.leaveFrame (s : KinectFusionProcessor K) : KinectFusionProcessor K :=
  let s := { s with m_frame := { s.m_frame with m_statusMessage := s.m_statusMessage } }
  s.log (Event.LeaveCriticalSection Lock.m_lockFrame)

/-- The part of `ProcessDepth` after the label `FinishFrame` (lines 1116 to 1177). -/
def ProcessDepth.FinishFrame [FloorRing K] (s : KinectFusionProcessor K)
    (env : ProcessDepthEnv K) (l : ProcessDepthLocals) : KinectFusionProcessor K :=
  let r := ProcessDepth.storeImages (ProcessDepth.enterFrame s) env l
  ProcessDepth.leaveFrame (ProcessDepth.updateFps r.2 env r.1)

/-- The function `ProcessDepth()`. -/
def ProcessDepth [FloorRing K] (sdk : Sdk) (s : KinectFusionProcessor K)
    (env : ProcessDepthEnv K) : KinectFusionProcessor K :=
  let r := ProcessDepth.body sdk s env
  ProcessDepth.FinishFrame r.2 env r.1

/-! ## `KinectFusionProcessor.cpp`: notifications, sensor session and volume lifecycle -/

/-- The Windows message code `WM_NULL`. -/
def WM_NULL : Nat := 0

/-- The function `NotifyFrameReady()`: posts the frame-ready message when a window and a
message code have been set. -/
def NotifyFrameReady (s : KinectFusionProcessor K) : KinectFusionProcessor K :=
  if s.m_hWnd && s.m_msgFrameReady != WM_NULL then
    s.log (Event.PostMessage s.m_msgFrameReady 0)
  else s

/-- The function `NotifyEmptyFrame()`. -/
def NotifyEmptyFrame (s : KinectFusionProcessor K) : KinectFusionProcessor K :=
  let s := s.log (Event.EnterCriticalSection Lock.m_lockFrame)
  let s := { s with m_frame := { s.m_frame with m_fFramesPerSecond := 0 } }
  let s := { s with m_frame := { s.m_frame with m_statusMessage := s.m_statusMessage } }
  let s := s.log (Event.LeaveCriticalSection Lock.m_lockFrame)
  NotifyFrameReady s

/-- The function `ShutdownSensor()`. -/
def ShutdownSensor (s : KinectFusionProcessor K) : KinectFusionProcessor K :=
  if s.m_pNuiSensor then
    let s := s.log Event.NuiShutdown
    { s with m_pNuiSensor := false }
  else s

/-- What the sensor chooser, the sensor and the allocator answer during one call of
`UpdateSensorAndStatus`. -/
structure UpdateSensorEnv where
  /-- Code returned by `m_pSensorChooser->GetSensor` in `CreateFirstConnected`. -/
  hrGetSensor : HRESULT
  /-- Whether `GetSensor` leaves a non-null pointer in `m_pNuiSensor`. -/
  sensorReturned : Bool
  /-- Code returned by `NuiImageStreamOpen`. -/
  hrNuiImageStreamOpen : HRESULT
  /-- Code returned by `m_frame.Initialize` in `InitializeKinectFusion`. -/
  hrInitializeFrame : HRESULT
  /-- Code returned by `CreateFrame` for each image (`S_OK` when the existing image is kept,
  otherwise the code of `NuiFusionCreateImageFrame`). -/
  hrCreateFrame : FusionImage → HRESULT
  /-- Whether `new(std::nothrow) NUI_DEPTH_IMAGE_PIXEL[...]` returns a non-null pointer. -/
  pixelBufferAllocated : Bool
  /-- Code returned by `m_pSensorChooser->GetStatus`. -/
  hrGetStatus : HRESULT
  /-- Status written by `GetStatus`. -/
  dwSensorStatus : Nat

/-- The function `CreateFirstConnected()`. -/
def CreateFirstConnected (s : KinectFusionProcessor K) (env : UpdateSensorEnv) :
    HRESULT × KinectFusionProcessor K :=
  let s := s.log Event.GetSensor
  let hr := env.hrGetSensor
  let s := { s with m_pNuiSensor := env.sensorReturned }
  let r : HRESULT × KinectFusionProcessor K :=
    if SUCCEEDED hr && s.m_pNuiSensor then
      (env.hrNuiImageStreamOpen, s.log Event.NuiImageStreamOpen)
    else
      (hr, s.log Event.ResetEvent)
  let hr := r.1
  let s := r.2
  if !s.m_pNuiSensor || FAILED hr then
    let s := { s with m_pNuiSensor := false }
    (E_FAIL, SetStatusMessage s "No ready Kinect found!")
  else
    (hr, s)

/-- The function `CreateFrame(frameType, ppImageFrame)` for one of the images: the code it
returns and the status message set when the creation fails. The image frames themselves are
not modelled. -/
def CreateFrame (s : KinectFusionProcessor K) (env : UpdateSensorEnv) (image : FusionImage) :
    HRESULT × KinectFusionProcessor K :=
  let s := s.log (Event.CreateFrame image)
  let hr := env.hrCreateFrame image
  if FAILED hr then
    (hr, SetStatusMessage s "Failed to initialize Kinect Fusion image.")
  else
    (hr, s)

/-- The end of `InitializeKinectFusion()` (lines 595 to 619): the depth pixel buffer is
released when its length no longer fits and allocated when it is missing. -/
def InitializeKinectFusion.pixelBuffer (s : KinectFusionProcessor K) (env : UpdateSensorEnv)
    (hr : HRESULT) : HRESULT × KinectFusionProcessor K :=
  let s :=
    if s.m_pDepthImagePixelBuffer then
      if s.m_paramsCurrent.m_cImageSize != s.m_cPixelBufferLength then
        { s with m_pDepthImagePixelBuffer := false }
      else s
    else s
  if !s.m_pDepthImagePixelBuffer then
    let s := { s with m_pDepthImagePixelBuffer := env.pixelBufferAllocated }
    if !s.m_pDepthImagePixelBuffer then
      (hr, SetStatusMessage s "Failed to initialize Kinect Fusion depth image pixel buffer.")
    else
      (hr, { s with m_cPixelBufferLength := s.m_paramsCurrent.m_cImageSize })
  else
    (hr, s)

/-- The function `InitializeKinectFusion()`. -/
def InitializeKinectFusion (s : KinectFusionProcessor K) (env : UpdateSensorEnv) :
    HRESULT × KinectFusionProcessor K :=
  let s := s.log (Event.InitializeFrameBuffers s.m_paramsCurrent.m_cImageSize)
  let hr := env.hrInitializeFrame
  if FAILED hr then
    (hr, SetStatusMessage s "Failed to allocate frame buffers.")
  else
    let r := CreateFrame s env FusionImage.m_pDepthFloatImage
    if FAILED r.1 then r else
    let r := CreateFrame r.2 env FusionImage.m_pPointCloud
    if FAILED r.1 then r else
    let r := CreateFrame r.2 env FusionImage.m_pShadedSurface
    if FAILED r.1 then r else
    let r := CreateFrame r.2 env FusionImage.m_pShadedSurfaceNormals
    if FAILED r.1 then r else
    let r := CreateFrame r.2 env FusionImage.m_pFloatDeltaFromReference
    if FAILED r.1 then r else
    let r := CreateFrame r.2 env FusionImage.m_pShadedDeltaFromReference
    if FAILED r.1 then r else
    InitializeKinectFusion.pixelBuffer r.2 env r.1

/-- The value of `dwChangeFlags` as far as the `switch` of `UpdateSensorAndStatus`
distinguishes it. -/
inductive SensorChange where
  | NUISENSORCHOOSER_SENSOR_CHANGED_FLAG
  | NUISENSORCHOOSER_STATUS_CHANGED_FLAG
  | other
deriving DecidableEq, Repr

/-- The case `NUISENSORCHOOSER_STATUS_CHANGED_FLAG` of `UpdateSensorAndStatus` (lines 421 to
428). -/
def UpdateSensorAndStatus.postStatus (s : KinectFusionProcessor K) (env : UpdateSensorEnv) :
    KinectFusionProcessor K :=
  let s := s.log Event.GetStatus
  if SUCCEEDED env.hrGetStatus then
    if s.m_hWnd && s.m_msgUpdateSensorStatus != WM_NULL then
      s.log (Event.PostMessage s.m_msgUpdateSensorStatus env.dwSensorStatus)
    else s
  else s

/-- The case `NUISENSORCHOOSER_SENSOR_CHANGED_FLAG` of `UpdateSensorAndStatus` (lines 404 to
416), before it falls through to the next case. -/
def UpdateSensorAndStatus.sensorChanged (s : KinectFusionProcessor K)
    (env : UpdateSensorEnv) : KinectFusionProcessor K :=
  let s := { s with m_pNuiSensor := false }
  let r := CreateFirstConnected s env
  if SUCCEEDED r.1 then
    let r := InitializeKinectFusion r.2 env
    if SUCCEEDED r.1 then
      { r.2 with m_bKinectFusionInitialized := true }
    else
      NotifyEmptyFrame r.2
  else r.2

/-- The function `UpdateSensorAndStatus(dwChangeFlags)`. -/
def UpdateSensorAndStatus (s : KinectFusionProcessor K) (env : UpdateSensorEnv)
    (dwChangeFlags : SensorChange) : KinectFusionProcessor K :=
  match dwChangeFlags with
  | SensorChange.NUISENSORCHOOSER_SENSOR_CHANGED_FLAG =>
    UpdateSensorAndStatus.postStatus (UpdateSensorAndStatus.sensorChanged s env) env
  | SensorChange.NUISENSORCHOOSER_STATUS_CHANGED_FLAG =>
    UpdateSensorAndStatus.postStatus s env
  | SensorChange.other => s

/-- What the SDK and the volume answer during one call of `RecreateVolume`. -/
structure RecreateVolumeEnv (K : Type) where
  /-- Code returned by `NuiFusionCreateReconstruction` (line 675). -/
  hrCreateReconstruction : HRESULT
  /-- Code returned by `GetCurrentWorldToVolumeTransform` (line 714). -/
  hrGetCurrentWorldToVolumeTransform : HRESULT
  /-- Matrix written by `GetCurrentWorldToVolumeTransform`. -/
  worldToVolumeTransform : Matrix4 K
  /-- Code returned by the volume reset of line 724. -/
  hrResetReconstruction : HRESULT
  /-- Reading of `m_timer.AbsoluteTime()` in that reset. -/
  timeReset : K

/-- The status message `RecreateVolume` sets when the creation of the volume fails (lines 684
to 707); `swprintf_s` formats the device index in decimal. -/
def RecreateVolume.failureMessage (sdk : Sdk) (params : KinectFusionParams K) (hr : HRESULT) :
    String :=
  if sdk.E_NUI_GPU_FAIL = hr then
    "Device " ++ toString params.m_deviceIndex ++
      " not able to run Kinect Fusion, or error initializing."
  else if sdk.E_NUI_GPU_OUTOFMEMORY = hr then
    "Device " ++ toString params.m_deviceIndex ++
      " out of memory error initializing reconstruction - try a smaller reconstruction volume."
  else if NUI_FUSION_RECONSTRUCTION_PROCESSOR_TYPE.NUI_FUSION_RECONSTRUCTION_PROCESSOR_TYPE_CPU
      ≠ params.m_processorType then
    "Failed to initialize Kinect Fusion reconstruction volume on device " ++
      toString params.m_deviceIndex ++ "."
  else
    "Failed to initialize Kinect Fusion reconstruction volume on CPU " ++
      toString params.m_deviceIndex ++ "."

/-- The last statements of `RecreateVolume` on success (lines 731 to 737): the pause flag is
cleared in both parameter sets and the resumption of the integration is signalled, in the
processor and in the output bundle. No critical section is entered here. -/
def RecreateVolume.resume (s : KinectFusionProcessor K) : KinectFusionProcessor K :=
  let s := { s with m_paramsCurrent := { s.m_paramsCurrent with m_bPauseIntegration := false } }
  let s := { s with m_paramsNext := { s.m_paramsNext with m_bPauseIntegration := false } }
  let s := { s with m_bIntegrationResumed := true }
  let s := { s with m_frame := { s.m_frame with m_bIntegrationResumed := true } }
  SetStatusMessage s "Reconstruction has been reset."

/-- The `else` branch of `RecreateVolume` (lines 713 to 738), entered when the volume has been
created. -/
def RecreateVolume.created (s : KinectFusionProcessor K) (env : RecreateVolumeEnv K) :
    HRESULT × KinectFusionProcessor K :=
  let s := s.log Event.GetCurrentWorldToVolumeTransform
  let hr := env.hrGetCurrentWorldToVolumeTransform
  if FAILED hr then
    (hr, SetStatusMessage s "Failed in call to GetCurrentWorldToVolumeTransform.")
  else
    let s := { s with m_defaultWorldToVolumeTransform := env.worldToVolumeTransform }
    if s.m_paramsCurrent.m_bTranslateResetPoseByMinDepthThreshold then
      let r := InternalResetReconstruction s env.hrResetReconstruction env.timeReset
      if FAILED r.1 then r
      else (r.1, RecreateVolume.resume r.2)
    else
      (hr, RecreateVolume.resume s)

/-- The first statements of `RecreateVolume()` (lines 667 to 680): the volume is released, the
pose is set to the identity and `NuiFusionCreateReconstruction` is called. -/
def RecreateVolume.begin (s : KinectFusionProcessor K) : KinectFusionProcessor K :=
  let s := s.log Event.RecreateVolume
  let s := { s with m_pVolume := none }
  let s := { s with m_worldToCameraTransform := SetIdentityMatrix s.m_worldToCameraTransform }
  s.log (Event.NuiFusionCreateReconstruction s.m_paramsCurrent.m_reconstructionParams
    s.m_paramsCurrent.m_processorType s.m_paramsCurrent.m_deviceIndex
    s.m_worldToCameraTransform)

/-- The function `RecreateVolume()`. The volume created records the parameters passed to
`NuiFusionCreateReconstruction`; when the creation fails `m_pVolume` stays null. -/
def RecreateVolume (sdk : Sdk) (s : KinectFusionProcessor K) (env : RecreateVolumeEnv K) :
    HRESULT × KinectFusionProcessor K :=
  let s := RecreateVolume.begin s
  let hr := env.hrCreateReconstruction
  if FAILED hr then
    (hr, SetStatusMessage s (RecreateVolume.failureMessage sdk s.m_paramsCurrent hr))
  else
    let volume : INuiFusionReconstruction K :=
      { reconstructionParams := s.m_paramsCurrent.m_reconstructionParams
        processorType := s.m_paramsCurrent.m_processorType
        deviceIndex := s.m_paramsCurrent.m_deviceIndex }
    RecreateVolume.created { s with m_pVolume := some volume } env

/-! ## `KinectFusionProcessor.cpp`: the operations called by the controller -/

/-- The function `SetWindow(hWnd, msgFrameReady, msgUpdateSensorStatus)`. -/
def SetWindow (s : KinectFusionProcessor K) (hWnd : Bool)
    (msgFrameReady msgUpdateSensorStatus : Nat) : KinectFusionProcessor K :=
  { s with
    m_hWnd := hWnd
    m_msgFrameReady := msgFrameReady
    m_msgUpdateSensorStatus := msgUpdateSensorStatus }

/-- The function `SetParams(params)`. -/
def SetParams (s : KinectFusionProcessor K) (params : KinectFusionParams K) :
    KinectFusionProcessor K :=
  let s := s.log (Event.SetParams params)
  let s := s.log (Event.EnterCriticalSection Lock.m_lockParams)
  let s := { s with m_paramsNext := params }
  s.log (Event.LeaveCriticalSection Lock.m_lockParams)

/-- The function `ResetReconstruction()`. -/
def ResetReconstruction (s : KinectFusionProcessor K) : KinectFusionProcessor K :=
  let s := s.log (Event.EnterCriticalSection Lock.m_lockParams)
  let s := { s with m_bResetReconstruction := true }
  s.log (Event.LeaveCriticalSection Lock.m_lockParams)

/-- The function `ResolveSensorConflict()`. -/
def ResolveSensorConflict (s : KinectFusionProcessor K) : KinectFusionProcessor K :=
  let s := s.log (Event.EnterCriticalSection Lock.m_lockParams)
  let s := { s with m_bResolveSensorConflict := true }
  s.log (Event.LeaveCriticalSection Lock.m_lockParams)

/-- The first part of `StopProcessing()` (lines 184 to 188): the stop flag is set under the
parameter lock when a worker thread exists. -/
def StopProcessing.request (s : KinectFusionProcessor K) : KinectFusionProcessor K :=
  if s.m_hThread then
    let s := s.log (Event.EnterCriticalSection Lock.m_lockParams)
    let s := { s with m_bStopProcessing := true }
    s.log (Event.LeaveCriticalSection Lock.m_lockParams)
  else s

/-- The second part of `StopProcessing()` (lines 190 and 191): the caller waits for the worker
thread to end and forgets its handle. -/
def StopProcessing.join (s : KinectFusionProcessor K) : KinectFusionProcessor K :=
  if s.m_hThread then
    let s := s.log Event.WaitForThread
    { s with m_hThread := false }
  else s

/-- The function `LockFrame(ppFrame)`; the pointer returned is `&m_frame`. -/
def LockFrame (s : KinectFusionProcessor K) : KinectFusionProcessor K :=
  s.log (Event.EnterCriticalSection Lock.m_lockFrame)

/-- The function `UnlockFrame()`. -/
def UnlockFrame (s : KinectFusionProcessor K) : KinectFusionProcessor K :=
  s.log (Event.LeaveCriticalSection Lock.m_lockFrame)

/-- The function `IsVolumeInitialized()`. -/
def IsVolumeInitialized (s : KinectFusionProcessor K) : Bool :=
  s.m_pVolume.isSome

/-- The function `CalculateMesh(ppMesh)`. The arguments are the code returned by the volume
method `CalculateMesh` and the reading of `m_timer.AbsoluteTime()`, used when a volume
exists. -/
def CalculateMesh (s : KinectFusionProcessor K) (hrVolumeMesh : HRESULT) (absoluteTime : K) :
    HRESULT × KinectFusionProcessor K :=
  let s := s.log (Event.EnterCriticalSection Lock.m_lockVolume)
  let hr := E_FAIL
  let r : HRESULT × KinectFusionProcessor K :=
    if s.m_pVolume.isSome then
      let s := s.log Event.CalculateMesh
      let hr := hrVolumeMesh
      let s := { s with m_cFrameCounter := 0 }
      let s := { s with m_fFrameCounterStartTime := absoluteTime }
      (hr, s)
    else (hr, s)
  (r.1, r.2.log (Event.LeaveCriticalSection Lock.m_lockVolume))

/-! ## `KinectFusionProcessor.cpp`: `MainLoop` -/

/-- The value of `waitResult` as far as the `switch` of `MainLoop` distinguishes it:
`WAIT_OBJECT_0` (the next-depth-frame event), `WAIT_OBJECT_0 + 1` (the status-change event),
`WAIT_TIMEOUT`, or any other value. -/
inductive WaitResult where
  | WAIT_OBJECT_0
  | WAIT_OBJECT_0_1
  | WAIT_TIMEOUT
  | other
deriving DecidableEq, Repr

/-- The locals of one iteration of `MainLoop` set in the parameter-acquisition step (lines 270
to 279). -/
structure MainLoopLocals where
  bChangeNearMode : Bool
  bRecreateVolume : Bool
  bStopProcessing : Bool
  bResetReconstruction : Bool
  bResolveSensorConflict : Bool
deriving DecidableEq, Repr

/-- What the collaborators answer during one iteration of `MainLoop`. -/
structure MainLoopEnv (K : Type) where
  /-- Value returned by `WaitForMultipleObjects` (line 266). -/
  waitResult : WaitResult
  /-- Code returned by `TryResolveConflict` (line 289). -/
  hrTryResolveConflict : HRESULT
  /-- Flags written by `TryResolveConflict`. -/
  dwChangeFlagsResolved : SensorChange
  /-- Answers for the call of `UpdateSensorAndStatus` of line 292. -/
  sensorResolved : UpdateSensorEnv
  /-- Answers for the call of `RecreateVolume` of line 324 or 335. -/
  volume : RecreateVolumeEnv K
  /-- Code returned by the volume reset of line 339. -/
  hrResetRequested : HRESULT
  /-- Reading of `m_timer.AbsoluteTime()` in that reset. -/
  timeResetRequested : K
  /-- Answers for the call of `ProcessDepth` (line 351). -/
  depth : ProcessDepthEnv K
  /-- Code returned by `HandleNuiStatusChanged` (line 366). -/
  hrHandleNuiStatusChanged : HRESULT
  /-- Flags written by `HandleNuiStatusChanged`. -/
  dwChangeFlagsStatus : SensorChange
  /-- Answers for the call of `UpdateSensorAndStatus` of line 369. -/
  sensorStatus : UpdateSensorEnv

/-- The parameter-acquisition step of an iteration of `MainLoop` (lines 270 to 279). -/
def MainLoop.acquireParams (s : KinectFusionProcessor K) :
    MainLoopLocals × KinectFusionProcessor K :=
  let s := s.log (Event.EnterCriticalSection Lock.m_lockParams)
  let bChangeNearMode := s.m_paramsCurrent.m_bNearMode != s.m_paramsNext.m_bNearMode
  let bRecreateVolume := s.m_paramsCurrent.VolumeChanged s.m_paramsNext
  let bStopProcessing := s.m_bStopProcessing
  let bResetReconstruction := s.m_bResetReconstruction
  let s := { s with m_bResetReconstruction := false }
  let bResolveSensorConflict := s.m_bResolveSensorConflict
  let s := { s with m_bResolveSensorConflict := false }
  let s := { s with m_paramsCurrent := s.m_paramsNext }
  let s := s.log (Event.LeaveCriticalSection Lock.m_lockParams)
  (⟨bChangeNearMode, bRecreateVolume, bStopProcessing, bResetReconstruction,
    bResolveSensorConflict⟩, s)

/-- The conflict-resolution step of an iteration of `MainLoop` (lines 286 to 294). -/
def MainLoop.resolveConflict (s : KinectFusionProcessor K) (env : MainLoopEnv K)
    (l : MainLoopLocals) : KinectFusionProcessor K :=
  if !s.m_pNuiSensor && l.bResolveSensorConflict then
    let s := s.log Event.TryResolveConflict
    if SUCCEEDED env.hrTryResolveConflict then
      let s := SetStatusMessage s ""
      UpdateSensorAndStatus s env.sensorResolved env.dwChangeFlagsResolved
    else s
  else s

/-- The near-mode step of a depth-frame iteration (lines 305 to 318). -/
def MainLoop.changeNearMode (s : KinectFusionProcessor K) (l : MainLoopLocals) :
    KinectFusionProcessor K :=
  if l.bChangeNearMode then
    if s.m_pNuiSensor then
      s.log (Event.NuiImageStreamSetImageFrameFlags s.m_paramsCurrent.m_bNearMode)
    else s
  else s

/-- The volume step of a depth-frame iteration (lines 322 to 349), executed under the volume
lock: the volume is created when there is none and the previous attempt did not fail,
re-created when the volume parameters changed, or reset when a reset was requested. -/
def MainLoop.volumeLifecycle (sdk : Sdk) (s : KinectFusionProcessor K) (env : MainLoopEnv K)
    (l : MainLoopLocals) : KinectFusionProcessor K :=
  if s.m_pVolume.isNone && !FAILED s.m_hrRecreateVolume then
    let r := RecreateVolume sdk s env.volume
    let s := { r.2 with m_hrRecreateVolume := r.1 }
    if SUCCEEDED s.m_hrRecreateVolume then
      SetStatusMessage s
        ("Click ‘Near Mode’ to change sensor range, " ++
          "and ‘Reset Reconstruction’ to clear!")
    else s
  else if l.bRecreateVolume then
    let r := RecreateVolume sdk s env.volume
    { r.2 with m_hrRecreateVolume := r.1 }
  else if l.bResetReconstruction then
    let r := InternalResetReconstruction s env.hrResetRequested env.timeResetRequested
    if SUCCEEDED r.1 then SetStatusMessage r.2 "Reconstruction has been reset."
    else SetStatusMessage r.2 "Failed to reset reconstruction."
  else s

/-- The case `WAIT_OBJECT_0` of the `switch` of `MainLoop` (lines 300 to 357). -/
def MainLoop.depthFrame [FloorRing K] (sdk : Sdk) (s : KinectFusionProcessor K)
    (env : MainLoopEnv K) (l : MainLoopLocals) : KinectFusionProcessor K :=
  if s.m_bKinectFusionInitialized then
    let s := SetStatusMessage s ""
    let s := MainLoop.changeNearMode s l
    let s := s.log (Event.EnterCriticalSection Lock.m_lockVolume)
    let s := MainLoop.volumeLifecycle sdk s env l
    let s := ProcessDepth sdk s env.depth
    let s := s.log (Event.LeaveCriticalSection Lock.m_lockVolume)
    NotifyFrameReady s
  else s

/-- The case `WAIT_OBJECT_0 + 1` of the `switch` of `MainLoop` (lines 361 to 372). -/
def MainLoop.statusChange (s : KinectFusionProcessor K) (env : MainLoopEnv K) :
    KinectFusionProcessor K :=
  if s.m_pSensorChooser then
    let s := s.log Event.HandleNuiStatusChanged
    if SUCCEEDED env.hrHandleNuiStatusChanged then
      UpdateSensorAndStatus s env.sensorStatus env.dwChangeFlagsStatus
    else s
  else s

/-- The `switch (waitResult)` of `MainLoop` (lines 296 to 379): it returns the value of
`bStopProcessing` after the switch. -/
def MainLoop.dispatch [FloorRing K] (sdk : Sdk) (s : KinectFusionProcessor K)
    (env : MainLoopEnv K) (l : MainLoopLocals) : Bool × KinectFusionProcessor K :=
  match env.waitResult with
  | WaitResult.WAIT_OBJECT_0 => (l.bStopProcessing, MainLoop.depthFrame sdk s env l)
  | WaitResult.WAIT_OBJECT_0_1 => (l.bStopProcessing, MainLoop.statusChange s env)
  | WaitResult.WAIT_TIMEOUT => (l.bStopProcessing, s)
  | WaitResult.other => (true, s)

/-- The last statement of the loop body (lines 381 to 385). -/
def MainLoop.notifyWithoutSensor (s : KinectFusionProcessor K) : KinectFusionProcessor K :=
  if !s.m_pNuiSensor then NotifyEmptyFrame s else s

/-- One iteration of the `while (!bStopProcessing)` loop of `MainLoop` (lines 265 to 385). It
returns the value of `bStopProcessing` with which the loop condition is tested next. -/
def MainLoop.iteration [FloorRing K] (sdk : Sdk) (s : KinectFusionProcessor K)
    (env : MainLoopEnv K) : Bool × KinectFusionProcessor K :=
  let r := MainLoop.acquireParams s
  let l := r.1
  let s := r.2
  if l.bStopProcessing then
    (l.bStopProcessing, s)
  else
    let s := MainLoop.resolveConflict s env l
    let r := MainLoop.dispatch sdk s env l
    (r.1, MainLoop.notifyWithoutSensor r.2)

/-- One pass of the loop of `MainLoop`: an iteration, followed by the statements after the
loop (line 388) when the loop condition fails. The first component tells whether the loop has
been left. -/
def MainLoop.pass [FloorRing K] (sdk : Sdk) (s : KinectFusionProcessor K)
    (env : MainLoopEnv K) : Bool × KinectFusionProcessor K :=
  let r := MainLoop.iteration sdk s env
  if r.1 then (true, ShutdownSensor r.2) else (false, r.2)

/-- The loop of `MainLoop` and the statements after it (lines 263 to 390), run on the answers
of the collaborators for the successive iterations. It returns the final state when the loop
is left, and `none` when the answers run out first. -/
def MainLoop.loop [FloorRing K] (sdk : Sdk) :
    KinectFusionProcessor K → List (MainLoopEnv K) → Option (KinectFusionProcessor K)
  | _, [] => none
  | s, env :: rest =>
    let r := MainLoop.pass sdk s env
    if r.1 then some r.2 else MainLoop.loop sdk r.2 rest

/-- The statements of `MainLoop` before the loop (lines 237 to 260). The arguments tell whether
`new(std::nothrow) NuiSensorChooser()` returns a non-null pointer and what the collaborators
answer in `UpdateSensorAndStatus`. The first component of the result tells whether the loop is
entered; otherwise `MainLoop` returns 1. -/
def MainLoop.prologue (s : KinectFusionProcessor K) (chooserAllocated : Bool)
    (env : UpdateSensorEnv) : Bool × KinectFusionProcessor K :=
  let s := s.log (Event.EnterCriticalSection Lock.m_lockParams)
  let s := { s with m_paramsCurrent := s.m_paramsNext }
  let s := s.log (Event.LeaveCriticalSection Lock.m_lockParams)
  let s := { s with m_pSensorChooser := chooserAllocated }
  if !s.m_pSensorChooser then
    let s := SetStatusMessage s "Memory allocation failure"
    (false, NotifyEmptyFrame s)
  else
    let s := { s with m_paramsNext :=
      { s.m_paramsNext with m_deviceIndex := s.m_paramsCurrent.m_deviceIndex } }
    (true, UpdateSensorAndStatus s env SensorChange.NUISENSORCHOOSER_SENSOR_CHANGED_FLAG)

/-- The state the constructor of `KinectFusionProcessor` builds; the argument is the value of
a default-constructed `KinectFusionParams`, which depends on constants of the SDK. The output
bundle starts with no status message. -/
def KinectFusionProcessor.new (params : KinectFusionParams K) : KinectFusionProcessor K :=
  { m_paramsNext := params
    m_paramsCurrent := params
    m_pNuiSensor := false
    m_cLastFrameTimeStamp := 0
    m_statusMessage := ""
    m_frame := { m_bIntegrationResumed := false, m_fFramesPerSecond := 0, m_statusMessage := "" }
    m_bKinectFusionInitialized := false
    m_bResetReconstruction := false
    m_bStopProcessing := false
    m_bResolveSensorConflict := false
    m_bIntegrationResumed := false
    m_hrRecreateVolume := S_OK
    m_pVolume := none
    m_worldToCameraTransform :=
      SetIdentityMatrix ⟨0, 0, 0, 0, 0, 0, 0, 0, 0, 0, 0, 0, 0, 0, 0, 0⟩
    m_defaultWorldToVolumeTransform :=
      SetIdentityMatrix ⟨0, 0, 0, 0, 0, 0, 0, 0, 0, 0, 0, 0, 0, 0, 0, 0⟩
    m_pDepthImagePixelBuffer := false
    m_cLostFrameCounter := 0
    m_bTrackingFailed := false
    m_cFrameCounter := 0
    m_fFrameCounterStartTime := 0
    m_fMostRecentRaycastTime := 0
    m_hWnd := false
    m_msgFrameReady := WM_NULL
    m_msgUpdateSensorStatus := WM_NULL
    m_hThread := false
    m_pSensorChooser := false
    m_cPixelBufferLength := 0
    trace := [] }

/-! ## The controller and the worker, interleaved at iteration boundaries -/

/-- One step of a run of the processor: a call of the controller, or one pass of the loop of
the worker. Calls of the controller are taken between two passes. `StopProcessing` is the part
of the call that sets the stop flag; the wait that follows ends when the loop is left. -/
inductive Step (K : Type) where
  | SetWindow (hWnd : Bool) (msgFrameReady msgUpdateSensorStatus : Nat)
  | SetParams (params : KinectFusionParams K)
  | ResetReconstruction
  | ResolveSensorConflict
  | StopProcessing
  | CalculateMesh (hrVolumeMesh : HRESULT) (absoluteTime : K)
  | LockFrame
  | UnlockFrame
  | pass (env : MainLoopEnv K)

/-- The effect of one step. The first component of the state of a run tells whether the worker
has left its loop; a worker that has left its loop makes no further pass. -/
def applyStep [FloorRing K] (sdk : Sdk) (w : Bool × KinectFusionProcessor K) :
    Step K → Bool × KinectFusionProcessor K
  | Step.SetWindow hWnd msgFrameReady msgUpdateSensorStatus =>
    (w.1, SetWindow w.2 hWnd msgFrameReady msgUpdateSensorStatus)
  | Step.SetParams params => (w.1, SetParams w.2 params)
  | Step.ResetReconstruction => (w.1, ResetReconstruction w.2)
  | Step.ResolveSensorConflict => (w.1, ResolveSensorConflict w.2)
  | Step.StopProcessing => (w.1, StopProcessing.request w.2)
  | Step.CalculateMesh hrVolumeMesh absoluteTime =>
    (w.1, (CalculateMesh w.2 hrVolumeMesh absoluteTime).2)
  | Step.LockFrame => (w.1, LockFrame w.2)
  | Step.UnlockFrame => (w.1, UnlockFrame w.2)
  | Step.pass env => if w.1 then w else MainLoop.pass sdk w.2 env

/-- A run: the steps are taken in order. -/
def run [FloorRing K] (sdk : Sdk) (w : Bool × KinectFusionProcessor K)
    (steps : List (Step K)) : Bool × KinectFusionProcessor K :=
  steps.foldl (applyStep sdk) w

/-! ## `KinectFusionExplorer.cpp` and `resource.h` -/

/-- The identifier `IDC_CHECK_NEARMODE` of `resource.h`. -/
def IDC_CHECK_NEARMODE : Nat := 1012
/-- The identifier `IDC_BUTTON_RESET_RECONSTRUCTION` of `resource.h`. -/
def IDC_BUTTON_RESET_RECONSTRUCTION : Nat := 1013
/-- The identifier `IDC_BUTTON_MESH_RECONSTRUCTION` of `resource.h`. -/
def IDC_BUTTON_MESH_RECONSTRUCTION : Nat := 1014
/-- The identifier `IDC_CHECK_PAUSE_INTEGRATION` of `resource.h`. -/
def IDC_CHECK_PAUSE_INTEGRATION : Nat := 1015
/-- The identifier `IDC_CHECK_MIRROR_DEPTH` of `resource.h`. -/
def IDC_CHECK_MIRROR_DEPTH : Nat := 1016
/-- The identifier `IDC_CHECK_DISPLAY_SURFACE_NORMALS` of `resource.h`. -/
def IDC_CHECK_DISPLAY_SURFACE_NORMALS : Nat := 1024
/-- The identifier `IDC_VPM_512` of `resource.h`. -/
def IDC_VPM_512 : Nat := 1027
/-- The identifier `IDC_VPM_384` of `resource.h`. -/
def IDC_VPM_384 : Nat := 1028
/-- The identifier `IDC_VPM_256` of `resource.h`. -/
def IDC_VPM_256 : Nat := 1029
/-- The identifier `IDC_VPM_128` of `resource.h`. -/
def IDC_VPM_128 : Nat := 1030
/-- The identifier `IDC_VPM_64` of `resource.h`. -/
def IDC_VPM_64 : Nat := 1031
/-- The identifier `IDC_VOXELS_X_512` of `resource.h`. -/
def IDC_VOXELS_X_512 : Nat := 1036
/-- The identifier `IDC_VOXELS_X_384` of `resource.h`. -/
def IDC_VOXELS_X_384 : Nat := 1037
/-- The identifier `IDC_VOXELS_X_256` of `resource.h`. -/
def IDC_VOXELS_X_256 : Nat := 1038
/-- The identifier `IDC_VOXELS_X_128` of `resource.h`. -/
def IDC_VOXELS_X_128 : Nat := 1039
/-- The identifier `IDC_VOXELS_X_640` of `resource.h`. -/
def IDC_VOXELS_X_640 : Nat := 1041
/-- The identifier `IDC_VOXELS_Y_512` of `resource.h`. -/
def IDC_VOXELS_Y_512 : Nat := 1042
/-- The identifier `IDC_VOXELS_Y_384` of `resource.h`. -/
def IDC_VOXELS_Y_384 : Nat := 1043
/-- The identifier `IDC_VOXELS_Y_256` of `resource.h`. -/
def IDC_VOXELS_Y_256 : Nat := 1044
/-- The identifier `IDC_VOXELS_Y_128` of `resource.h`. -/
def IDC_VOXELS_Y_128 : Nat := 1045
/-- The identifier `IDC_VOXELS_Y_640` of `resource.h`. -/
def IDC_VOXELS_Y_640 : Nat := 1046
/-- The identifier `IDC_VOXELS_Z_512` of `resource.h`. -/
def IDC_VOXELS_Z_512 : Nat := 1048
/-- The identifier `IDC_VOXELS_Z_384` of `resource.h`. -/
def IDC_VOXELS_Z_384 : Nat := 1049
/-- The identifier `IDC_VOXELS_Z_256` of `resource.h`. -/
def IDC_VOXELS_Z_256 : Nat := 1050
/-- The identifier `IDC_VOXELS_Z_128` of `resource.h`. -/
def IDC_VOXELS_Z_128 : Nat := 1051
/-- The identifier `IDC_VOXELS_Z_640` of `resource.h`. -/
def IDC_VOXELS_Z_640 : Nat := 1052
/-- The identifier `IDC_VPM_640` of `resource.h`. -/
def IDC_VPM_640 : Nat := 1054
/-- The identifier `IDC_MESH_FORMAT_OBJ_RADIO` of `resource.h`. -/
def IDC_MESH_FORMAT_OBJ_RADIO : Nat := 1058
/-- The identifier `IDC_MESH_FORMAT_STL_RADIO` of `resource.h`. -/
def IDC_MESH_FORMAT_STL_RADIO : Nat := 1059

/-- The Windows notification code `BN_CLICKED`. -/
def BN_CLICKED : Nat := 0

/-- The Windows macro `LOWORD`: the low 16 bits. -/
def LOWORD (wParam : Nat) : Nat := wParam % 65536

/-- The Windows macro `HIWORD`: bits 16 to 31. -/
def HIWORD (wParam : Nat) : Nat := (wParam / 65536) % 65536

/-- The test `id == LOWORD(wParam) && BN_CLICKED == HIWORD(wParam)` that guards every branch
of `ProcessUI`. -/
def ProcessUI.clicked (id wParam : Nat) : Bool :=
  id == LOWORD wParam && BN_CLICKED == HIWORD wParam

/-- The member variables of `CKinectFusionExplorer` that `ProcessUI` and
`HandleCompletedFrame` read or write, with the processor it owns. The dialog controls, the
Direct2D renderers and the status bar are not modelled. -/
structure CKinectFusionExplorer (K : Type) where
  m_params : KinectFusionParams K
  m_bSavingMesh : Bool
  m_bStlMeshFormat : Bool
  m_processor : KinectFusionProcessor K

/-- The function `HandleCompletedFrame()`. Between `LockFrame` and `UnlockFrame` it draws the
images and updates the status bar (not modelled), and hands the end of the pause back to the
processor when the frame says that the integration resumed. -/
def CKinectFusionExplorer.HandleCompletedFrame (e : CKinectFusionExplorer K) :
    CKinectFusionExplorer K :=
  let e := { e with m_processor := LockFrame e.m_processor }
  let pFrame := e.m_processor.m_frame
  let e :=
    if pFrame.m_bIntegrationResumed then
      let e := { e with m_params := { e.m_params with m_bPauseIntegration := false } }
      { e with m_processor := SetParams e.m_processor e.m_params }
    else e
  { e with m_processor := UnlockFrame e.m_processor }

/-- What the collaborators answer while `ProcessUI` handles the mesh button. -/
structure ProcessUIEnv (K : Type) where
  /-- Code returned by the volume method `CalculateMesh`, should a volume exist. -/
  hrVolumeMesh : HRESULT
  /-- Reading of `m_timer.AbsoluteTime()` in `CalculateMesh`. -/
  absoluteTime : K
  /-- Code returned by `SaveMeshFile` (success, `HRESULT_FROM_WIN32(ERROR_CANCELLED)` or any
  other failure). -/
  hrSaveMeshFile : HRESULT
  /-- The completed frames handled while the file dialog of `SaveMeshFile` is shown: for each
  of them, the value of `m_bIntegrationResumed` the worker has left in the output bundle. The
  list is empty when `SaveMeshFile` returns before showing the dialog. -/
  framesDuringSave : List Bool

/-- The function `SaveMeshFile(pMesh)` as far as the state of the explorer goes. The file
dialog it shows (`pSaveDlg->Show(m_hWnd)`, line 426) runs a message loop in which the
frame-ready messages of the worker are dispatched to `HandleCompletedFrame`, on the frames
`env.framesDuringSave` tells; the status bar, the cursor and the file written are not
modelled. -/
def CKinectFusionExplorer.SaveMeshFile (e : CKinectFusionExplorer K) (env : ProcessUIEnv K) :
    HRESULT × CKinectFusionExplorer K :=
  let e := env.framesDuringSave.foldl
    (fun e resumed =>
      CKinectFusionExplorer.HandleCompletedFrame
        { e with m_processor := { e.m_processor with
          m_frame := { e.m_processor.m_frame with m_bIntegrationResumed := resumed } } }) e
  (env.hrSaveMeshFile, e)

/-- The branch of `ProcessUI` for the mesh button (lines 690 to 731). The status bar messages
are not modelled; `SaveMeshFile` is called exactly when `CalculateMesh` succeeds, and its code
selects a status bar message only. -/
def ProcessUI.meshButton (e : CKinectFusionExplorer K) (env : ProcessUIEnv K) :
    CKinectFusionExplorer K :=
  let e := { e with m_bSavingMesh := true }
  let wasPaused := e.m_params.m_bPauseIntegration
  let e := { e with m_params := { e.m_params with m_bPauseIntegration := true } }
  let e := { e with m_processor := SetParams e.m_processor e.m_params }
  let r := CalculateMesh e.m_processor env.hrVolumeMesh env.absoluteTime
  let e := { e with m_processor := r.2 }
  let e := if SUCCEEDED r.1 then (e.SaveMeshFile env).2 else e
  let e := { e with m_params := { e.m_params with m_bPauseIntegration := wasPaused } }
  let e := { e with m_processor := SetParams e.m_processor e.m_params }
  { e with m_bSavingMesh := false }

/-- Assigns `voxelsPerMeter` in the parameters of the explorer. -/
def CKinectFusionExplorer.setVoxelsPerMeter (e : CKinectFusionExplorer K) (v : K) :
    CKinectFusionExplorer K :=
  { e with m_params := { e.m_params with
    m_reconstructionParams := { e.m_params.m_reconstructionParams with voxelsPerMeter := v } } }

/-- Assigns `voxelCountX` in the parameters of the explorer. -/
def CKinectFusionExplorer.setVoxelCountX (e : CKinectFusionExplorer K) (n : Nat) :
    CKinectFusionExplorer K :=
  { e with m_params := { e.m_params with
    m_reconstructionParams := { e.m_params.m_reconstructionParams with voxelCountX := n } } }

/-- Assigns `voxelCountY` in the parameters of the explorer. -/
def CKinectFusionExplorer.setVoxelCountY (e : CKinectFusionExplorer K) (n : Nat) :
    CKinectFusionExplorer K :=
  { e with m_params := { e.m_params with
    m_reconstructionParams := { e.m_params.m_reconstructionParams with voxelCountY := n } } }

/-- Assigns `voxelCountZ` in the parameters of the explorer. -/
def CKinectFusionExplorer.setVoxelCountZ (e : CKinectFusionExplorer K) (n : Nat) :
    CKinectFusionExplorer K :=
  { e with m_params := { e.m_params with
    m_reconstructionParams := { e.m_params.m_reconstructionParams with voxelCountZ := n } } }

/-- The function `ProcessUI(wParam, lParam)`: each `if` of the source in turn, then the final
call of `SetParams` (line 831). `lParam` is not used by the function. -/
def CKinectFusionExplorer.ProcessUI (e : CKinectFusionExplorer K) (wParam : Nat)
    (env : ProcessUIEnv K) : CKinectFusionExplorer K :=
  let e :=
    if ProcessUI.clicked IDC_CHECK_NEARMODE wParam then
      { e with m_params := { e.m_params with m_bNearMode := !e.m_params.m_bNearMode } }
    else e
  let e :=
    if ProcessUI.clicked IDC_CHECK_DISPLAY_SURFACE_NORMALS wParam then
      { e with m_params :=
        { e.m_params with m_bDisplaySurfaceNormals := !e.m_params.m_bDisplaySurfaceNormals } }
    else e
  let e :=
    if ProcessUI.clicked IDC_CHECK_MIRROR_DEPTH wParam then
      let e := { e with m_params :=
        { e.m_params with m_bMirrorDepthFrame := !e.m_params.m_bMirrorDepthFrame } }
      { e with m_processor := ResetReconstruction e.m_processor }
    else e
  let e :=
    if ProcessUI.clicked IDC_BUTTON_RESET_RECONSTRUCTION wParam then
      { e with m_processor := ResetReconstruction e.m_processor }
    else e
  let e :=
    if ProcessUI.clicked IDC_BUTTON_MESH_RECONSTRUCTION wParam then
      ProcessUI.meshButton e env
    else e
  let e :=
    if ProcessUI.clicked IDC_CHECK_PAUSE_INTEGRATION wParam then
      { e with m_params :=
        { e.m_params with m_bPauseIntegration := !e.m_params.m_bPauseIntegration } }
    else e
  let e := if ProcessUI.clicked IDC_VPM_640 wParam then e.setVoxelsPerMeter 640 else e
  let e := if ProcessUI.clicked IDC_VPM_512 wParam then e.setVoxelsPerMeter 512 else e
  let e := if ProcessUI.clicked IDC_VPM_384 wParam then e.setVoxelsPerMeter 384 else e
  let e := if ProcessUI.clicked IDC_VPM_256 wParam then e.setVoxelsPerMeter 256 else e
  let e := if ProcessUI.clicked IDC_VPM_128 wParam then e.setVoxelsPerMeter 128 else e
  let e := if ProcessUI.clicked IDC_VPM_64 wParam then e.setVoxelsPerMeter 64 else e
  let e := if ProcessUI.clicked IDC_VOXELS_X_640 wParam then e.setVoxelCountX 640 else e
  let e := if ProcessUI.clicked IDC_VOXELS_X_512 wParam then e.setVoxelCountX 512 else e
  let e := if ProcessUI.clicked IDC_VOXELS_X_384 wParam then e.setVoxelCountX 384 else e
  let e := if ProcessUI.clicked IDC_VOXELS_X_256 wParam then e.setVoxelCountX 256 else e
  let e := if ProcessUI.clicked IDC_VOXELS_X_128 wParam then e.setVoxelCountX 128 else e
  let e := if ProcessUI.clicked IDC_VOXELS_Y_640 wParam then e.setVoxelCountY 640 else e
  let e := if ProcessUI.clicked IDC_VOXELS_Y_512 wParam then e.setVoxelCountY 512 else e
  let e := if ProcessUI.clicked IDC_VOXELS_Y_384 wParam then e.setVoxelCountY 384 else e
  let e := if ProcessUI.clicked IDC_VOXELS_Y_256 wParam then e.setVoxelCountY 256 else e
  let e := if ProcessUI.clicked IDC_VOXELS_Y_128 wParam then e.setVoxelCountY 128 else e
  let e := if ProcessUI.clicked IDC_VOXELS_Z_640 wParam then e.setVoxelCountZ 640 else e
  let e := if ProcessUI.clicked IDC_VOXELS_Z_512 wParam then e.setVoxelCountZ 512 else e
  let e := if ProcessUI.clicked IDC_VOXELS_Z_384 wParam then e.setVoxelCountZ 384 else e
  let e := if ProcessUI.clicked IDC_VOXELS_Z_256 wParam then e.setVoxelCountZ 256 else e
  let e := if ProcessUI.clicked IDC_VOXELS_Z_128 wParam then e.setVoxelCountZ 128 else e
  let e :=
    if ProcessUI.clicked IDC_MESH_FORMAT_STL_RADIO wParam then
      { e with m_bStlMeshFormat := true }
    else e
  let e :=
    if ProcessUI.clicked IDC_MESH_FORMAT_OBJ_RADIO wParam then
      { e with m_bStlMeshFormat := false }
    else e
  { e with m_processor := SetParams e.m_processor e.m_params }

/-! ## `KinectFusionHelper.h` and `KinectFusionHelper.cpp`: the mesh writers -/

/-- The code `E_INVALIDARG` of the Windows headers (`0x80070057`). -/
def E_INVALIDARG : HRESULT := -2147024809

/-- The code `E_ACCESSDENIED` of the Windows headers (`0x80070005`). -/
def E_ACCESSDENIED : HRESULT := -2147024891

/-- The value of `sizeof(char)` and of `sizeof(unsigned char)`. -/
def sizeofChar : Nat := 1

/-- The value of `sizeof(int)` with the Visual C++ compiler the sample is built with. -/
def sizeofInt : Nat := 4

/-- The value of `sizeof(float)` with the Visual C++ compiler the sample is built with. -/
def sizeofFloat : Nat := 4

/-- The value of `sizeof(unsigned short)` with the Visual C++ compiler the sample is built
with. -/
def sizeofUnsignedShort : Nat := 2

/-- The SDK interface `INuiFusionMesh` as the writers use it: the two counts as the values
the writers store in their `int` locals, the codes returned by the three accessors, and the
arrays behind the pointers that `GetVertices` and `GetNormals` hand out (the array of
`GetTriangleIndices` is never read). -/
structure INuiFusionMesh (K : Type) where
  VertexCount : Int
  TriangleVertexIndexCount : Int
  hrGetVertices : HRESULT
  vertices : Nat → Vector3 K
  hrGetNormals : HRESULT
  normals : Nat → Vector3 K
  hrGetTriangleIndices : HRESULT

/-- What the C runtime and ATL answer to a mesh writer. -/
structure MeshFileEnv (K : Type) where
  /-- Whether `OLE2A(lpOleFileName)` returns; `false` when it throws. -/
  fileNameConverted : Bool
  /-- Value returned by `fopen_s`. -/
  fopenErr : Int
  /-- Whether `meshFile` is non-null after `fopen_s`. -/
  meshFileOpened : Bool
  /-- The function `_gcvt_s(buffer, _CVTBUFSIZE, value, 6)`: the error code it returns and the
  text it leaves in the buffer. -/
  gcvt_s : K → Int × String

/-- The object passed to `fwrite`. -/
inductive Payload (K : Type) where
  /-- The characters of a `std::string`. -/
  | chars (text : String)
  /-- An array of `unsigned char`. -/
  | bytes (values : List Nat)
  /-- One `int`. -/
  | int (value : Int)
  /-- The `float` fields of a `Vector3`, in the order `x`, `y`, `z`. -/
  | floats (values : List K)
  /-- One `unsigned short`. -/
  | unsignedShort (value : Nat)
deriving DecidableEq

/-- A call of the C runtime on the output file, in the order the writer makes them.
The call `fwrite(p, size, count, meshFile)` is recorded with what `p` points to. -/
inductive FileCall (K : Type) where
  | fopen_s (mode : String)
  | fwrite (data : Payload K) (size count : Nat)
  | fflush
  | fclose
deriving DecidableEq

/-- The overload `to_string(int theValue)`: `_itoa_s` with radix 10 writes the decimal digits,
with a leading minus sign for a negative value; the buffer of 65 characters holds every value
of an `int`, so the error path is not taken. -/
def to_string_int (theValue : Int) : String :=
  toString theValue

/-- The overload `to_string(float theValue)`: the text `_gcvt_s` produces, or the empty string
when `_gcvt_s` reports an error. -/
def to_string_float (env : MeshFileEnv K) (theValue : K) : String :=
  let err := (env.gcvt_s theValue).1
  if 0 ≠ err then "" else (env.gcvt_s theValue).2

/-- The statements `if (flipYZ) { v.y = -v.y; v.z = -v.z; }` that both writers apply to the
copy of every vertex and normal. -/
def flipYZVector (flipYZ : Bool) (v : Vector3 K) : Vector3 K :=
  if flipYZ then
    let v := { v with y := -v.y }
    { v with z := -v.z }
  else v

/-- The call `fwrite(s.c_str(), sizeof(char), s.length(), meshFile)` for a `std::string`. -/
def fwriteString (s : String) : FileCall K :=
  FileCall.fwrite (Payload.chars s) sizeofChar s.length

/-- The text of one `v` or `vn` line, built by the writer from the keyword and the vector. -/
def WriteAsciiObjMeshFile.vectorString (env : MeshFileEnv K) (keyword : String)
    (v : Vector3 K) : String :=
  keyword ++ to_string_float env v.x ++ " " ++ to_string_float env v.y ++ " " ++
    to_string_float env v.z ++ "\r\n"

/-- The first loop of `WriteAsciiObjMeshFile`: for each triangle `t < numTriangles` and each
`v < 3` one line `v x y z` for `vertices[(t*3) + v]`. -/
def WriteAsciiObjMeshFile.vertexLoop (env : MeshFileEnv K) (flipYZ : Bool)
    (vertices : Nat → Vector3 K) (numTriangles : Int) : List (FileCall K) :=
  (List.range numTriangles.toNat).flatMap fun t =>
    (List.range 3).map fun v =>
      let vertex := flipYZVector flipYZ (vertices ((t * 3) + v))
      let vertexString := WriteAsciiObjMeshFile.vectorString env "v " vertex
      fwriteString vertexString

/-- The second loop of `WriteAsciiObjMeshFile`: for each triangle `t < numTriangles` and each
`n < 3` one line `vn x y z` for `normals[(t*3) + n]`. -/
def WriteAsciiObjMeshFile.normalLoop (env : MeshFileEnv K) (flipYZ : Bool)
    (normals : Nat → Vector3 K) (numTriangles : Int) : List (FileCall K) :=
  (List.range numTriangles.toNat).flatMap fun t =>
    (List.range 3).map fun n =>
      let normal := flipYZVector flipYZ (normals ((t * 3) + n))
      let normalString := WriteAsciiObjMeshFile.vectorString env "vn " normal
      fwriteString normalString

/-- The third loop of `WriteAsciiObjMeshFile`: one face line for each triangle. -/
def WriteAsciiObjMeshFile.faceLoop (numTriangles : Int) : List (FileCall K) :=
  (List.range numTriangles.toNat).map fun (t : Nat) =>
    let baseIndex : Int := ((t : Int) * 3) + 1
    let faceString :=
      "f " ++ to_string_int baseIndex ++ "//" ++ to_string_int baseIndex ++ " " ++
        to_string_int (baseIndex + 1) ++ "//" ++ to_string_int (baseIndex + 1) ++ " " ++
        to_string_int (baseIndex + 2) ++ "//" ++ to_string_int (baseIndex + 2) ++ "\r\n"
    fwriteString faceString

/-- The function `WriteAsciiObjMeshFile(mesh, lpOleFileName, flipYZ)`: the code it returns and
the calls it makes on the output file. `mesh` is `none` for a null pointer. The C operators
`/` and `%` on `int` truncate toward zero. -/
def WriteAsciiObjMeshFile (mesh : Option (INuiFusionMesh K)) (env : MeshFileEnv K)
    (flipYZ : Bool) : HRESULT × List (FileCall K) :=
  match mesh with
  | none => (E_INVALIDARG, [])
  | some mesh =>
    let numVertices := mesh.VertexCount
    let numTriangleIndices := mesh.TriangleVertexIndexCount
    let numTriangles := Int.tdiv numVertices 3
    if decide (0 = numVertices) || decide (0 = numTriangleIndices) ||
        decide (0 ≠ Int.tmod numVertices 3) || decide (numVertices ≠ numTriangleIndices) then
      (E_INVALIDARG, [])
    else
      let hr := mesh.hrGetVertices
      if FAILED hr then (hr, [])
      else
        let hr := mesh.hrGetNormals
        if FAILED hr then (hr, [])
        else
          let hr := mesh.hrGetTriangleIndices
          if FAILED hr then (hr, [])
          else if !env.fileNameConverted then (E_INVALIDARG, [])
          else
            let calls := [FileCall.fopen_s "wt"]
            if decide (0 ≠ env.fopenErr) || !env.meshFileOpened then (E_ACCESSDENIED, calls)
            else
              let header := "#\r\n# OBJ file created by Microsoft Kinect Fusion\r\n#\r\n"
              let calls := calls ++ [fwriteString header]
              let calls := calls ++
                WriteAsciiObjMeshFile.vertexLoop env flipYZ mesh.vertices numTriangles
              let calls := calls ++
                WriteAsciiObjMeshFile.normalLoop env flipYZ mesh.normals numTriangles
              let calls := calls ++ WriteAsciiObjMeshFile.faceLoop numTriangles
              let calls := calls ++ [FileCall.fflush, FileCall.fclose]
              (hr, calls)

/-- The loop of `WriteBinarySTLMeshFile`: for each triangle `t < numTriangles` the normal
`normals[t*3]`, the three vertices `vertices[(t*3) + v]` and the attribute (the local `attr`
here), each written by its own `fwrite`. -/
def WriteBinarySTLMeshFile.triangleLoop (flipYZ : Bool) (vertices normals : Nat → Vector3 K)
    (numTriangles : Int) : List (FileCall K) :=
  (List.range numTriangles.toNat).flatMap fun t =>
    let normal := flipYZVector flipYZ (normals (t * 3))
    let calls := [FileCall.fwrite (Payload.floats [normal.x, normal.y, normal.z]) sizeofFloat 3]
    let calls := calls ++ (List.range 3).map fun v =>
      let vertex := flipYZVector flipYZ (vertices ((t * 3) + v))
      FileCall.fwrite (Payload.floats [vertex.x, vertex.y, vertex.z]) sizeofFloat 3
    let attr : Nat := 0
    calls ++ [FileCall.fwrite (Payload.unsignedShort attr) sizeofUnsignedShort 1]

/-- The function `WriteBinarySTLMeshFile(mesh, lpOleFileName, flipYZ)`: the code it returns
and the calls it makes on the output file. -/
def WriteBinarySTLMeshFile (mesh : Option (INuiFusionMesh K)) (env : MeshFileEnv K)
    (flipYZ : Bool) : HRESULT × List (FileCall K) :=
  match mesh with
  | none => (E_INVALIDARG, [])
  | some mesh =>
    let numVertices := mesh.VertexCount
    let numTriangleIndices := mesh.TriangleVertexIndexCount
    let numTriangles := Int.tdiv numVertices 3
    if decide (0 = numVertices) || decide (0 = numTriangleIndices) ||
        decide (0 ≠ Int.tmod numVertices 3) || decide (numVertices ≠ numTriangleIndices) then
      (E_INVALIDARG, [])
    else
      let hr := mesh.hrGetVertices
      if FAILED hr then (hr, [])
      else
        let hr := mesh.hrGetNormals
        if FAILED hr then (hr, [])
        else
          let hr := mesh.hrGetTriangleIndices
          if FAILED hr then (hr, [])
          else if !env.fileNameConverted then (E_INVALIDARG, [])
          else
            let calls := [FileCall.fopen_s "wb"]
            if decide (0 ≠ env.fopenErr) || !env.meshFileOpened then (E_ACCESSDENIED, calls)
            else
              let header : List Nat := List.replicate 80 0
              let calls := calls ++ [FileCall.fwrite (Payload.bytes header) sizeofChar 80]
              let calls := calls ++ [FileCall.fwrite (Payload.int numTriangles) sizeofInt 1]
              let calls := calls ++
                WriteBinarySTLMeshFile.triangleLoop flipYZ mesh.vertices mesh.normals
                  numTriangles
              let calls := calls ++ [FileCall.fflush, FileCall.fclose]
              (hr, calls)

/-! ## `KinectFusionProcessor.cpp`: `StoreImageToFrameBuffer` -/

/-- The code `E_NOINTERFACE` of the Windows headers (`0x80004002`). -/
def E_NOINTERFACE : HRESULT := -2147467262

/-- The constant `KinectFusionParams::BytesPerPixel`. -/
def KinectFusionParams.BytesPerPixel : Nat := 4

/-- The SDK enumeration `NUI_FUSION_IMAGE_TYPE`; the function names two of its values, any
other value is `other`. -/
inductive NUI_FUSION_IMAGE_TYPE where
  | NUI_FUSION_IMAGE_TYPE_COLOR
  | NUI_FUSION_IMAGE_TYPE_FLOAT
  | other
deriving DecidableEq, Repr

/-- The SDK structure `NUI_FUSION_IMAGE_FRAME` as the function reads it. `pFrameTexture` is
`true` when the pointer is non-null; `Pitch` is the value `LockRect` leaves in
`LockedRect.Pitch`; `floats` and `bytes` are the memory behind `LockedRect.pBits` read as an
array of `FLOAT` and as an array of `BYTE`. -/
structure NUI_FUSION_IMAGE_FRAME (K : Type) where
  width : Nat
  height : Nat
  imageType : NUI_FUSION_IMAGE_TYPE
  pFrameTexture : Bool
  Pitch : Int
  floats : Nat → K
  bytes : Nat → Nat

/-- The conversion `static_cast<BYTE>(v)` of an `int`: the value modulo 256. -/
def toBYTE (v : Int) : Nat :=
  (v % 256).toNat

/-- The expression that computes `intensity` from `depth` in `StoreImageToFrameBuffer`
(lines 1242 to 1244), with `range = 4.0f` and `minRange = 0.0f`. The conversion `(int)`
truncates toward zero and `%` is the remainder of the truncating division. -/
def StoreImageToFrameBuffer.intensity [FloorRing K] (depth : K) : Nat :=
  let range : K := 4
  let minRange : K := 0
  if depth ≥ minRange then
    toBYTE (Int.tmod (truncToInt (((depth - minRange) / range) * 256)) 256)
  else 0

/-- One turn of the `while` loop of `StoreImageToFrameBuffer` (lines 1236 to 1258) for the
pixel number `p`: the blue, green and red bytes are written and the fourth byte of the pixel
is skipped. -/
def StoreImageToFrameBuffer.writePixel [FloorRing K] (floats : Nat → K) (buffer : Nat → Nat)
    (p : Nat) : Nat → Nat :=
  let depth := floats p
  let intensity := StoreImageToFrameBuffer.intensity depth
  let buffer := Function.update buffer (4 * p) intensity
  let buffer := Function.update buffer (4 * p + 1) intensity
  Function.update buffer (4 * p + 2) intensity

/-- The function `StoreImageToFrameBuffer(imageFrame, buffer)`: the code it returns and the
bytes of the frame buffer afterwards. Null pointers are `none`; `memcpy_s` is the function of
the C runtime, called with the destination, its size, the source and the count. The product
`m_cDepthWidth * m_cDepthHeight` is taken to be a count that is not negative. -/
def StoreImageToFrameBuffer [FloorRing K] (params : KinectFusionParams K)
    (memcpy_s : (Nat → Nat) → Nat → (Nat → Nat) → Nat → (Nat → Nat))
    (imageFrame : Option (NUI_FUSION_IMAGE_FRAME K)) (buffer : Option (Nat → Nat)) :
    HRESULT × Option (Nat → Nat) :=
  match imageFrame, buffer with
  | none, _ => (E_INVALIDARG, buffer)
  | some _, none => (E_INVALIDARG, buffer)
  | some imageFrame, some bytes =>
    if !imageFrame.pFrameTexture then (E_INVALIDARG, buffer)
    else if imageFrame.imageType ≠ NUI_FUSION_IMAGE_TYPE.NUI_FUSION_IMAGE_TYPE_COLOR ∧
        imageFrame.imageType ≠ NUI_FUSION_IMAGE_TYPE.NUI_FUSION_IMAGE_TYPE_FLOAT then
      (E_INVALIDARG, buffer)
    else if imageFrame.width = 0 ∨ imageFrame.height = 0 then (E_NOINTERFACE, buffer)
    else if imageFrame.Pitch ≠ 0 then
      let destPixelCount : Nat := (params.m_cDepthWidth * params.m_cDepthHeight).toNat
      if imageFrame.imageType = NUI_FUSION_IMAGE_TYPE.NUI_FUSION_IMAGE_TYPE_FLOAT then
        (S_OK, some ((List.range destPixelCount).foldl
          (StoreImageToFrameBuffer.writePixel imageFrame.floats) bytes))
      else
        (S_OK, some (memcpy_s bytes (destPixelCount * KinectFusionParams.BytesPerPixel)
          imageFrame.bytes
          (imageFrame.width * imageFrame.height * KinectFusionParams.BytesPerPixel)))
    else (E_NOINTERFACE, buffer)

/-! ## Vocabulary of the specification for the pipeline -/

/-- The event is an invocation of `InternalResetReconstruction`. -/
def Event.isInternalReset : Event K → Bool
  | Event.InternalResetReconstruction => true
  | _ => false

/-- The event is a call of the volume method `IntegrateFrame`. -/
def Event.isIntegrateFrame : Event K → Bool
  | Event.IntegrateFrame _ _ => true
  | _ => false

/-- The number of invocations of `InternalResetReconstruction` in a trace. -/
def resetCount (trace : List (Event K)) : Nat :=
  trace.countP Event.isInternalReset

/-- The number of calls of `IntegrateFrame` in a trace. -/
def integrateCount (trace : List (Event K)) : Nat :=
  trace.countP Event.isIntegrateFrame

/-- The calls made between two states of a run, oldest first. -/
def eventsSince (before after : KinectFusionProcessor K) : List (Event K) :=
  after.trace.drop before.trace.length

/-- The depth frame is acquired and copied successfully: `NuiImageStreamGetNextFrame`, the
texture access and `LockRect` succeed, the pitch is not zero and `memcpy_s` reports no
error. -/
def ProcessDepthEnv.frameCopied (env : ProcessDepthEnv K) : Bool :=
  !FAILED env.hrGetNextFrame && !FAILED env.hrGetDepthImagePixelFrameTexture &&
    !FAILED env.hrLockRect && env.lockedRectPitch != 0 && env.memcpyErr == 0

/-- The depth frame is acquired, copied and converted to float successfully. -/
def ProcessDepthEnv.frameConverted (env : ProcessDepthEnv K) : Bool :=
  env.frameCopied && !FAILED env.hrDepthToDepthFloat

/-- One depth-frame iteration of the worker, as far as the pipeline state goes, on the path of
`MainLoop` where the volume is neither re-created nor reset by request: the parameter
snapshot becomes `m_paramsCurrent` (`m_paramsCurrent = m_paramsNext`, line 278), then
`ProcessDepth()` runs (line 351). The other statements of that path (clearing the status
message, the near-mode call, the volume lock, the notification) are left out. -/
def depthFrameIteration [FloorRing K] (sdk : Sdk) (s : KinectFusionProcessor K)
    (it : KinectFusionParams K × ProcessDepthEnv K) : KinectFusionProcessor K :=
  ProcessDepth sdk { s with m_paramsCurrent := it.1 } it.2

/-- Consecutive depth-frame iterations, one per element of the list. -/
def depthFrameIterations [FloorRing K] (sdk : Sdk) (s : KinectFusionProcessor K)
    (its : List (KinectFusionParams K × ProcessDepthEnv K)) : KinectFusionProcessor K :=
  its.foldl (depthFrameIteration sdk) s

/-- The state with which the timestamp guard is entered when the frame is acquired and copied:
three calls are added to the trace. -/
def acquiredState (s : KinectFusionProcessor K) : KinectFusionProcessor K :=
  ((s.log Event.NuiImageStreamGetNextFrame).log
    Event.NuiImageFrameGetDepthImagePixelFrameTexture).log Event.NuiImageStreamReleaseFrame

/-- The state after the timestamp guard and the call of the depth conversion. -/
def convertedState (s : KinectFusionProcessor K) (env : ProcessDepthEnv K) :
    KinectFusionProcessor K :=
  (ProcessDepth.timeStampGuard (acquiredState s) env env.liTimeStamp).log
    Event.NuiFusionDepthToDepthFloatFrame

/-- The stages after the integration step leave the tracking state alone: the second state
has the same lost-frame counter, tracking flag, volume, pixel buffer, last timestamp, pose and
current parameters as the first, and its trace extends the trace of the first without a new
invocation of `InternalResetReconstruction` or `IntegrateFrame`. -/
structure SameTracking (s s' : KinectFusionProcessor K) : Prop where
  lost : s'.m_cLostFrameCounter = s.m_cLostFrameCounter
  failed : s'.m_bTrackingFailed = s.m_bTrackingFailed
  volume : s'.m_pVolume = s.m_pVolume
  buffer : s'.m_pDepthImagePixelBuffer = s.m_pDepthImagePixelBuffer
  stamp : s'.m_cLastFrameTimeStamp = s.m_cLastFrameTimeStamp
  pose : s'.m_worldToCameraTransform = s.m_worldToCameraTransform
  params : s'.m_paramsCurrent = s.m_paramsCurrent
  grows : s.trace <+: s'.trace
  resets : resetCount s'.trace = resetCount s.trace
  integrates : integrateCount s'.trace = integrateCount s.trace

/-! ## Vocabulary of the specification for the worker loop and the locks -/

/-- The event is an invocation of `RecreateVolume`. -/
def Event.isRecreateVolume : Event K → Bool
  | Event.RecreateVolume => true
  | _ => false

/-- The event is an invocation of `SetParams`. -/
def Event.isSetParams : Event K → Bool
  | Event.SetParams _ => true
  | _ => false

/-- The event is a call of the volume method `CalculatePointCloud`, the raycast. -/
def Event.isCalculatePointCloud : Event K → Bool
  | Event.CalculatePointCloud _ => true
  | _ => false

/-- The event is a call of the volume method `AlignDepthFloatToReconstruction`. -/
def Event.isAlign : Event K → Bool
  | Event.AlignDepthFloatToReconstruction => true
  | _ => false

/-- The event is an operation on the reconstruction volume: its re-creation, a reset, an
alignment, an integration, a raycast or a meshing. -/
def Event.isVolumeOperation : Event K → Bool
  | Event.RecreateVolume => true
  | Event.NuiFusionCreateReconstruction _ _ _ _ => true
  | Event.GetCurrentWorldToVolumeTransform => true
  | Event.InternalResetReconstruction => true
  | Event.ResetReconstruction _ _ => true
  | Event.AlignDepthFloatToReconstruction => true
  | Event.GetCurrentWorldToCameraTransform => true
  | Event.IntegrateFrame _ _ => true
  | Event.CalculatePointCloud _ => true
  | Event.CalculateMesh => true
  | _ => false

/-- The event writes one of the byte buffers of the output bundle. -/
def Event.isStoreImage : Event K → Bool
  | Event.StoreImageToFrameBuffer _ _ => true
  | _ => false

/-- The event posts a message to the window of the controller. -/
def Event.isPostMessage : Event K → Bool
  | Event.PostMessage _ _ => true
  | _ => false

/-- The locks held after an event, given the locks held before it: entering a critical section
adds its lock, leaving it removes it. -/
def heldAfterEvent (held : List Lock) : Event K → List Lock
  | Event.EnterCriticalSection lock => lock :: held
  | Event.LeaveCriticalSection lock => held.erase lock
  | _ => held

/-- The locks held after a sequence of events. -/
def heldAfter (held : List Lock) (evs : List (Event K)) : List Lock :=
  evs.foldl heldAfterEvent held

/-- The two locks are not both held, neither before the sequence of events nor after any of its
events. -/
def neverHeldTogether (a b : Lock) : List Lock → List (Event K) → Bool
  | held, [] => !(decide (a ∈ held) && decide (b ∈ held))
  | held, e :: rest =>
    !(decide (a ∈ held) && decide (b ∈ held)) &&
      neverHeldTogether a b (heldAfterEvent held e) rest

/-- At most one lock is held at any time, before the sequence of events and after each of its
events. -/
def atMostOneHeld : List Lock → List (Event K) → Bool
  | held, [] => decide (held.length ≤ 1)
  | held, e :: rest => decide (held.length ≤ 1) && atMostOneHeld (heldAfterEvent held e) rest

/-- The effect of one event on a piece of code that may use the frame lock only: the argument
and the result tell whether the frame lock is held; the result is `none` when the event enters
a critical section that is held or is not the frame lock, leaves one that is not held, invokes
`RecreateVolume` or is a call of `SetParams`. -/
def Event.frameLockStep (held : Bool) : Event K → Option Bool
  | Event.EnterCriticalSection lock =>
    if lock = Lock.m_lockFrame ∧ held = false then some true else none
  | Event.LeaveCriticalSection lock =>
    if lock = Lock.m_lockFrame ∧ held = true then some false else none
  | Event.RecreateVolume => none
  | Event.SetParams _ => none
  | _ => some held

/-- Runs `Event.frameLockStep` over a sequence of events. -/
def frameLockScan (held : Bool) : List (Event K) → Option Bool
  | [] => some held
  | e :: rest => (e.frameLockStep held).bind (fun h => frameLockScan h rest)

/-- The code that runs between the two states leaves the controller's requests, the volume and
its creation status alone, keeps Kinect Fusion initialised if it was, and its calls use no
lock but the frame lock, held on entry as `h` says and on exit as `h'` says, with neither an
invocation of `RecreateVolume` nor a call of `SetParams` among them. -/
structure SameControl (h h' : Bool) (s s' : KinectFusionProcessor K) : Prop where
  paramsNext : s'.m_paramsNext = s.m_paramsNext
  reset : s'.m_bResetReconstruction = s.m_bResetReconstruction
  resolve : s'.m_bResolveSensorConflict = s.m_bResolveSensorConflict
  stop : s'.m_bStopProcessing = s.m_bStopProcessing
  hrRecreate : s'.m_hrRecreateVolume = s.m_hrRecreateVolume
  volume : s'.m_pVolume = s.m_pVolume
  initialized : s.m_bKinectFusionInitialized = true → s'.m_bKinectFusionInitialized = true
  events : ∃ evs, s'.trace = s.trace ++ evs ∧ frameLockScan h evs = some h'

/-- The argument of the most recent `SetParams` step of a run, or the first argument when the
run has none. -/
def lastSetParams (d : KinectFusionParams K) : List (Step K) → KinectFusionParams K
  | [] => d
  | Step.SetParams params :: rest => lastSetParams params rest
  | _ :: rest => lastSetParams d rest

/-- Whether `RecreateVolume` has been invoked since the most recent call of `SetParams` (or at
all, when `SetParams` was never called), according to the trace. -/
def recreatedSinceSetParams (trace : List (Event K)) : Bool :=
  trace.foldl (fun b e => (b && !e.isSetParams) || e.isRecreateVolume) false

/-- The values of the local `bResetReconstruction` in the passes of the worker loop made during
a run, in order. -/
def resetObservations [FloorRing K] (sdk : Sdk) :
    Bool × KinectFusionProcessor K → List (Step K) → List Bool
  | _, [] => []
  | w, Step.pass env :: rest =>
    (if w.1 then [] else [(MainLoop.acquireParams w.2).1.bResetReconstruction]) ++
      resetObservations sdk (applyStep sdk w (Step.pass env)) rest
  | w, step :: rest => resetObservations sdk (applyStep sdk w step) rest

/-- The values of the local `bResolveSensorConflict` in the passes of the worker loop made
during a run, in order. -/
def resolveObservations [FloorRing K] (sdk : Sdk) :
    Bool × KinectFusionProcessor K → List (Step K) → List Bool
  | _, [] => []
  | w, Step.pass env :: rest =>
    (if w.1 then [] else [(MainLoop.acquireParams w.2).1.bResolveSensorConflict]) ++
      resolveObservations sdk (applyStep sdk w (Step.pass env)) rest
  | w, step :: rest => resolveObservations sdk (applyStep sdk w step) rest

/-- The discipline of the worker over a sequence of events, started with the locks `held` and
ended with the locks `held'`: the parameter lock is never held together with the frame lock,
nor together with the volume lock. -/
def LockSafe (held held' : List Lock) (evs : List (Event K)) : Prop :=
  heldAfter held evs = held' ∧
  neverHeldTogether Lock.m_lockParams Lock.m_lockFrame held evs = true ∧
  neverHeldTogether Lock.m_lockParams Lock.m_lockVolume held evs = true

/-- What a stretch of code of the worker does to the state shared with the controller: the
requests of the controller are left alone, no call of `SetParams` is among its events, its
lock operations are safe, and `m_paramsNext` is either unchanged or has lost its pause flag,
the latter only when `RecreateVolume` is invoked. -/
structure WorkerStretch (held held' : List Lock) (s s' : KinectFusionProcessor K) :
    Prop where
  reset : s'.m_bResetReconstruction = s.m_bResetReconstruction
  resolve : s'.m_bResolveSensorConflict = s.m_bResolveSensorConflict
  stop : s'.m_bStopProcessing = s.m_bStopProcessing
  events : ∃ evs, s'.trace = s.trace ++ evs ∧ evs.any Event.isSetParams = false ∧
    LockSafe held held' evs ∧
    (s'.m_paramsNext = s.m_paramsNext ∨
      (evs.any Event.isRecreateVolume = true ∧
        s'.m_paramsNext = { s.m_paramsNext with m_bPauseIntegration := false }))

/-- What one iteration of the worker loop does to the state shared with the controller: the
one-shot flags end cleared, the stop flag is left alone, no call of `SetParams` is among the
events, the lock operations are safe and leave no lock held, and `m_paramsNext` is either
unchanged or has lost its pause flag, the latter only when `RecreateVolume` is invoked. -/
structure IterationOutcome (s s' : KinectFusionProcessor K) : Prop where
  reset : s'.m_bResetReconstruction = false
  resolve : s'.m_bResolveSensorConflict = false
  stop : s'.m_bStopProcessing = s.m_bStopProcessing
  events : ∃ evs, s'.trace = s.trace ++ evs ∧ evs.any Event.isSetParams = false ∧
    LockSafe [] [] evs ∧
    (s'.m_paramsNext = s.m_paramsNext ∨
      (evs.any Event.isRecreateVolume = true ∧
        s'.m_paramsNext = { s.m_paramsNext with m_bPauseIntegration := false }))

/-- The step is a call of `ResetReconstruction()`. -/
def Step.isResetReconstruction : Step K → Bool
  | Step.ResetReconstruction => true
  | _ => false

/-- The step is a call of `ResolveSensorConflict()`. -/
def Step.isResolveSensorConflict : Step K → Bool
  | Step.ResolveSensorConflict => true
  | _ => false

/-- The step is a pass of the worker loop. -/
def Step.isPass : Step K → Bool
  | Step.pass _ => true
  | _ => false

/-- The raycast decision in the words of the specification, for the stored time of the most
recent raycast of `s` and the answers `env`: no next depth frame is signalled already, or the
current time minus the time of the most recent raycast is strictly greater than a tenth of a
second. -/
def raycastDue (s : KinectFusionProcessor K) (env : ProcessDepthEnv K) : Bool :=
  !env.nextDepthFrameSignalled ||
    decide (env.currentTime - s.m_fMostRecentRaycastTime > 1 / 10)

/-- The code that runs between the two states leaves the stored time of the most recent raycast
alone and makes no call of `CalculatePointCloud`. -/
structure NoRaycast (s s' : KinectFusionProcessor K) : Prop where
  time : s'.m_fMostRecentRaycastTime = s.m_fMostRecentRaycastTime
  events : ∃ evs, s'.trace = s.trace ++ evs ∧ evs.any Event.isCalculatePointCloud = false

/-- A part of `ProcessDepth` before the label `FinishFrame`, entered in `s` and giving `r`,
either runs the raycast decision as its last step, entered in a state reached without a
raycast, or leaves without a raycast and with the local `raycastFrame` false. -/
def RaycastReached (s : KinectFusionProcessor K) (env : ProcessDepthEnv K)
    (r : ProcessDepthLocals × KinectFusionProcessor K) : Prop :=
  (∃ y hr, NoRaycast s y ∧ r = ProcessDepth.raycast y env hr) ∨
    (NoRaycast s r.2 ∧ r.1.raycastFrame = false)

/-- Between the two states the trace grows, and a call that satisfies `p` is among the new
calls exactly when `b` is true. -/
def Emits (p : Event K → Bool) (b : Bool) (s s' : KinectFusionProcessor K) : Prop :=
  ∃ evs, s'.trace = s.trace ++ evs ∧ evs.any p = b

/-- The status message `ProcessDepth` sets when there is no volume (lines 969 to 974). -/
def volumeNotInitializedMessage : String :=
  "Kinect Fusion reconstruction volume not initialized. " ++
    "Please try reducing volume size or restarting."

/-! ## Vocabulary of the specification for the tracking state -/

/-- The tracking-state invariant: the lost-frame counter is not negative, and it is 0
whenever the tracking flag is false. -/
def TrackingInvariant (s : KinectFusionProcessor K) : Prop :=
  0 ≤ s.m_cLostFrameCounter ∧ (s.m_bTrackingFailed = false → s.m_cLostFrameCounter = 0)

/-- One call of the three functions that write the tracking state, with the answers of the
collaborators during that call. -/
inductive PipelineCall (K : Type) where
  | processDepth (env : ProcessDepthEnv K)
  | internalReset (hrVolumeReset : HRESULT) (absoluteTime : K)
  | recreateVolume (env : RecreateVolumeEnv K)

/-- The state after one call. -/
def applyCall [FloorRing K] (sdk : Sdk) (s : KinectFusionProcessor K) :
    PipelineCall K → KinectFusionProcessor K
  | PipelineCall.processDepth env => ProcessDepth sdk s env
  | PipelineCall.internalReset hrVolumeReset absoluteTime =>
    (InternalResetReconstruction s hrVolumeReset absoluteTime).2
  | PipelineCall.recreateVolume env => (RecreateVolume sdk s env).2

/-- The state reached from the constructed state by a sequence of calls, oldest first. -/
def stateAfterCalls [FloorRing K] (sdk : Sdk) (params : KinectFusionParams K)
    (calls : List (PipelineCall K)) : KinectFusionProcessor K :=
  calls.foldl (applyCall sdk) (KinectFusionProcessor.new params)

/-! ## Vocabulary of the specification for the mesh files and the depth image -/

/-- The number of bytes a call asks the C runtime to write: `size * count` for `fwrite`, none
for the other calls. -/
def FileCall.byteCount : FileCall K → Nat
  | FileCall.fwrite _ size count => size * count
  | _ => 0

/-- The number of bytes a sequence of calls asks the C runtime to write. -/
def bytesWritten (calls : List (FileCall K)) : Nat :=
  (calls.map FileCall.byteCount).sum

/-- The comment header of an OBJ file. -/
def objHeader : String :=
  "#\r\n# OBJ file created by Microsoft Kinect Fusion\r\n#\r\n"

/-- The face line `f a//a b//b c//c` of the specification, with its line end. -/
def objFaceLine (a b c : Nat) : String :=
  "f " ++ toString a ++ "//" ++ toString a ++ " " ++ toString b ++ "//" ++ toString b ++ " " ++
    toString c ++ "//" ++ toString c ++ "\r\n"

/-- The three floats written for a vector `(x, y, z)`: `(x, -y, -z)` when `flipYZ` is set. -/
def stlVector (flipYZ : Bool) (v : Vector3 K) : List K :=
  if flipYZ then [v.x, -v.y, -v.z] else [v.x, v.y, v.z]

/-- The record of one triangle in an STL file, as the specification describes it: the normal,
the three vertices (three 4-byte floats each) and the 2-byte attribute 0. -/
def stlRecord (flipYZ : Bool) (normal v0 v1 v2 : Vector3 K) : List (FileCall K) :=
  [FileCall.fwrite (Payload.floats (stlVector flipYZ normal)) 4 3,
   FileCall.fwrite (Payload.floats (stlVector flipYZ v0)) 4 3,
   FileCall.fwrite (Payload.floats (stlVector flipYZ v1)) 4 3,
   FileCall.fwrite (Payload.floats (stlVector flipYZ v2)) 4 3,
   FileCall.fwrite (Payload.unsignedShort 0) 2 1]

/-- A mesh the writers must reject: the pointer is null, or the vertex count is 0, or the
triangle-index count is 0, or the vertex count is not a multiple of 3, or the two counts
differ. -/
def MalformedMesh (mesh : Option (INuiFusionMesh K)) : Prop :=
  match mesh with
  | none => True
  | some m =>
    m.VertexCount = 0 ∨ m.TriangleVertexIndexCount = 0 ∨ ¬ ((3 : Int) ∣ m.VertexCount) ∨
      m.VertexCount ≠ m.TriangleVertexIndexCount

instance MalformedMesh.decidable (mesh : Option (INuiFusionMesh K)) :
    Decidable (MalformedMesh mesh) := by
  unfold MalformedMesh
  cases mesh <;> infer_instance

/-- A value for the SDK constants: three distinct negative codes stand for
`E_NUI_FUSION_TRACKING_ERROR`, `E_NUI_GPU_FAIL` and `E_NUI_GPU_OUTOFMEMORY`. -/
def sampleSdk : Sdk :=
  { E_NUI_FUSION_TRACKING_ERROR := -1
    E_NUI_GPU_FAIL := -2
    E_NUI_GPU_OUTOFMEMORY := -3 }

/-- The parameters set by the constructor of `KinectFusionParams`, with the automatic reset
enabled. -/
def sampleParams : KinectFusionParams ℚ :=
  { m_deviceIndex := -1
    m_processorType :=
      NUI_FUSION_RECONSTRUCTION_PROCESSOR_TYPE.NUI_FUSION_RECONSTRUCTION_PROCESSOR_TYPE_AMP
    m_bPauseIntegration := false
    m_bNearMode := true
    m_imageResolution := 2
    m_cDepthWidth := 640
    m_cDepthHeight := 480
    m_cImageSize := 307200
    m_reconstructionParams :=
      { voxelsPerMeter := 256, voxelCountX := 512, voxelCountY := 384, voxelCountZ := 512 }
    m_bAutoResetReconstructionWhenLost := true
    m_fMinDepthThreshold := 7 / 20
    m_fMaxDepthThreshold := 8
    m_bMirrorDepthFrame := false
    m_cMaxIntegrationWeight := 200
    m_bDisplaySurfaceNormals := false
    m_bTranslateResetPoseByMinDepthThreshold := true }

/-- A processor that tracks: the worker thread runs, a sensor is held, a volume exists, the
pixel buffer is allocated, the pose is the identity, all counters are 0 and no call has been
made yet. The window messages are `WM_USER + 0` and `WM_USER + 1`, as in
`KinectFusionExplorer.cpp`. -/
def sampleState : KinectFusionProcessor ℚ :=
  { m_paramsNext := sampleParams
    m_paramsCurrent := sampleParams
    m_pNuiSensor := true
    m_cLastFrameTimeStamp := 0
    m_statusMessage := ""
    m_frame := { m_bIntegrationResumed := false, m_fFramesPerSecond := 0, m_statusMessage := "" }
    m_bKinectFusionInitialized := true
    m_bResetReconstruction := false
    m_bStopProcessing := false
    m_bResolveSensorConflict := false
    m_bIntegrationResumed := false
    m_hrRecreateVolume := S_OK
    m_pVolume := some
      { reconstructionParams := sampleParams.m_reconstructionParams
        processorType := sampleParams.m_processorType
        deviceIndex := sampleParams.m_deviceIndex }
    m_worldToCameraTransform := zTurnPose 1 0
    m_defaultWorldToVolumeTransform := zTurnPose 1 0
    m_pDepthImagePixelBuffer := true
    m_cLostFrameCounter := 0
    m_bTrackingFailed := false
    m_cFrameCounter := 0
    m_fFrameCounterStartTime := 0
    m_fMostRecentRaycastTime := 0
    m_hWnd := true
    m_msgFrameReady := 1024
    m_msgUpdateSensorStatus := 1025
    m_hThread := true
    m_pSensorChooser := true
    m_cPixelBufferLength := 307200
    trace := [] }

/-- A depth frame on which everything succeeds and alignment reports a quarter turn about the
z axis; no next frame is waiting and all clock readings are 0. -/
def trackedEnv : ProcessDepthEnv ℚ :=
  { hrGetNextFrame := S_OK
    hrGetDepthImagePixelFrameTexture := S_OK
    hrLockRect := S_OK
    lockedRectPitch := 1280
    memcpyErr := 0
    liTimeStamp := 0
    hrResetOnTimeStamp := S_OK
    timeResetOnTimeStamp := 0
    hrDepthToDepthFloat := S_OK
    tracking := S_OK
    currentWorldToCameraTransform := zTurnPose 0 1
    hrResetWhenLost := S_OK
    timeResetWhenLost := 0
    hrIntegrateFrame := S_OK
    currentTime := 0
    nextDepthFrameSignalled := false
    hrCalculatePointCloud := S_OK
    hrShadePointCloud := S_OK
    hrColorResiduals := S_OK
    timeAtFrameEnd := 0
    timeAtCounterRestart := 0 }

/-- A depth frame on which alignment fails with the tracking error and everything else
succeeds. -/
def lostEnv : ProcessDepthEnv ℚ :=
  { trackedEnv with tracking := sampleSdk.E_NUI_FUSION_TRACKING_ERROR }

/-- A processor that has lost 99 frames in a row. -/
def lostState : KinectFusionProcessor ℚ :=
  { sampleState with m_cLostFrameCounter := 99, m_bTrackingFailed := true }

/-- A depth frame on which everything succeeds, stamped 10000 ms after the previous one. -/
def lateEnv : ProcessDepthEnv ℚ :=
  { trackedEnv with liTimeStamp := 10000 }

/-- A processor that has published one frame since the frame counter was last cleared. -/
def runningState : KinectFusionProcessor ℚ :=
  { sampleState with m_cFrameCounter := 1 }

/-- One hundred depth frames on which alignment fails, each with the sample parameters. -/
def lostFrames : List (KinectFusionParams ℚ × ProcessDepthEnv ℚ) :=
  List.replicate 100 (sampleParams, lostEnv)

/-- A sensor chooser and a sensor that answer every call with success. -/
def readySensorEnv : UpdateSensorEnv :=
  { hrGetSensor := S_OK
    sensorReturned := true
    hrNuiImageStreamOpen := S_OK
    hrInitializeFrame := S_OK
    hrCreateFrame := fun _ => S_OK
    pixelBufferAllocated := true
    hrGetStatus := S_OK
    dwSensorStatus := 1 }

/-- A volume backend that creates and resets the volume with success; the default
world-to-volume transform it reports is the identity. -/
def readyVolumeEnv : RecreateVolumeEnv ℚ :=
  { hrCreateReconstruction := S_OK
    hrGetCurrentWorldToVolumeTransform := S_OK
    worldToVolumeTransform := zTurnPose 1 0
    hrResetReconstruction := S_OK
    timeReset := 0 }

/-- An iteration of the worker loop woken by the next-depth-frame event, in which every
collaborator succeeds and the depth frame is tracked. -/
def depthFrameEnv : MainLoopEnv ℚ :=
  { waitResult := WaitResult.WAIT_OBJECT_0
    hrTryResolveConflict := S_OK
    dwChangeFlagsResolved := SensorChange.other
    sensorResolved := readySensorEnv
    volume := readyVolumeEnv
    hrResetRequested := S_OK
    timeResetRequested := 0
    depth := trackedEnv
    hrHandleNuiStatusChanged := S_OK
    dwChangeFlagsStatus := SensorChange.other
    sensorStatus := readySensorEnv }

/-- An iteration of the worker loop in which the wait of 100 ms times out. -/
def timeoutEnv : MainLoopEnv ℚ :=
  { depthFrameEnv with waitResult := WaitResult.WAIT_TIMEOUT }

/-- The sample parameters with a wider volume: 640 voxels along x instead of 512. -/
def widerParams : KinectFusionParams ℚ :=
  { sampleParams with
    m_reconstructionParams := { sampleParams.m_reconstructionParams with voxelCountX := 640 } }

/-- The sample parameters with the integration paused. -/
def pausedParams : KinectFusionParams ℚ :=
  { sampleParams with m_bPauseIntegration := true }

/-- A processor whose worker loop is running with a sensor and Kinect Fusion initialised, before
the first depth frame: no volume has been created yet. -/
def startedState : KinectFusionProcessor ℚ :=
  { sampleState with m_pVolume := none }

/-- A processor like the sample one whose controller has asked it to stop. -/
def stoppingState : KinectFusionProcessor ℚ :=
  { sampleState with m_bStopProcessing := true }

/-- An explorer that owns the sample processor, with the same parameters, not saving a mesh. -/
def sampleExplorer : CKinectFusionExplorer ℚ :=
  { m_params := sampleParams
    m_bSavingMesh := false
    m_bStlMeshFormat := true
    m_processor := sampleState }

/-- A mesh export in which meshing succeeds and the file dialog is cancelled
(`HRESULT_FROM_WIN32(ERROR_CANCELLED)` is `0x800704C7`), after two completed frames have been
handled while it was shown, the first of which says that the integration resumed. -/
def cancelledExport : ProcessUIEnv ℚ :=
  { hrVolumeMesh := S_OK
    absoluteTime := 0
    hrSaveMeshFile := -2147023673
    framesDuringSave := [true, false] }

/-- An explorer like the sample one whose user has paused the integration. -/
def pausedExplorer : CKinectFusionExplorer ℚ :=
  { sampleExplorer with m_params := pausedParams }

/-- An explorer like the sample one whose processor has published a frame that says that the
integration resumed. -/
def resumedExplorer : CKinectFusionExplorer ℚ :=
  { sampleExplorer with
    m_processor := { sampleState with
      m_frame := { sampleState.m_frame with m_bIntegrationResumed := true } } }

/-- A processor like the sample one that has no volume because the creation failed. -/
def failedVolumeState : KinectFusionProcessor ℚ :=
  { sampleState with m_pVolume := none, m_hrRecreateVolume := E_FAIL }

/-- A mesh of one triangle in the plane `z = 1`, all normals `(0, 0, -1)`; the accessors
succeed. -/
def sampleMesh : INuiFusionMesh ℚ :=
  { VertexCount := 3
    TriangleVertexIndexCount := 3
    hrGetVertices := S_OK
    vertices := fun i => if i = 0 then ⟨0, 0, 1⟩ else if i = 1 then ⟨1, 0, 1⟩ else ⟨0, 1, 1⟩
    hrGetNormals := S_OK
    normals := fun _ => ⟨0, 0, -1⟩
    hrGetTriangleIndices := S_OK }

/-- A mesh with four vertices and four indices: the vertex count is not a multiple of 3. -/
def unevenMesh : INuiFusionMesh ℚ :=
  { sampleMesh with VertexCount := 4, TriangleVertexIndexCount := 4 }

/-- A C runtime in which the file name converts and the file opens. The stand-in for
`_gcvt_s` over the rationals always succeeds and prints the value as a fraction. -/
def sampleFileEnv : MeshFileEnv ℚ :=
  { fileNameConverted := true
    fopenErr := 0
    meshFileOpened := true
    gcvt_s := fun q => (0, toString q.num ++ "/" ++ toString q.den) }

/-- A depth float image of 640 x 480 pixels in which every pixel is at 4 m. -/
def wallAtFourMetres : NUI_FUSION_IMAGE_FRAME ℚ :=
  { width := 640
    height := 480
    imageType := NUI_FUSION_IMAGE_TYPE.NUI_FUSION_IMAGE_TYPE_FLOAT
    pFrameTexture := true
    Pitch := 2560
    floats := fun _ => 4
    bytes := fun _ => 0 }

/-- A frame buffer in which every byte is 255. -/
def whiteBuffer : Nat → Nat :=
  fun _ => 255

/-- A stand-in for `memcpy_s` when the count fits the destination: the first `count` bytes
come from the source. -/
def copyBytes (dest : Nat → Nat) (_destSize : Nat) (src : Nat → Nat) (count : Nat) :
    Nat → Nat :=
  fun i => if i < count then src i else dest i

/-- Entries of `Rᵀ * R = 1`, obtained from `R * Rᵀ = 1`. -/
theorem Orthonormal.transpose_mul (T : Matrix4 K) (h : Orthonormal T) :
    (rotationBlock T).transpose * rotationBlock T = 1 := by
  unfold Orthonormal at h
  exact (Matrix.mul_eq_one_comm).mp h

/-- Scalar form of `Rᵀ * R = 1` for an orthonormal 3x3 block: the columns of `R` are
orthonormal too. -/
theorem Orthonormal.columns (T : Matrix4 K) (h : Orthonormal T) :
    (T.M11 * T.M11 + T.M21 * T.M21 + T.M31 * T.M31 = 1 ∧
     T.M11 * T.M12 + T.M21 * T.M22 + T.M31 * T.M32 = 0 ∧
     T.M11 * T.M13 + T.M21 * T.M23 + T.M31 * T.M33 = 0) ∧
    (T.M12 * T.M11 + T.M22 * T.M21 + T.M32 * T.M31 = 0 ∧
     T.M12 * T.M12 + T.M22 * T.M22 + T.M32 * T.M32 = 1 ∧
     T.M12 * T.M13 + T.M22 * T.M23 + T.M32 * T.M33 = 0) ∧
    (T.M13 * T.M11 + T.M23 * T.M21 + T.M33 * T.M31 = 0 ∧
     T.M13 * T.M12 + T.M23 * T.M22 + T.M33 * T.M32 = 0 ∧
     T.M13 * T.M13 + T.M23 * T.M23 + T.M33 * T.M33 = 1) := by
  have h2 := Orthonormal.transpose_mul T h
  have e : ∀ i j : Fin 3,
      ((rotationBlock T).transpose * rotationBlock T) i j = (1 : Matrix (Fin 3) (Fin 3) K) i j :=
    fun i j => by rw [h2]
  have e00 := e 0 0
  have e01 := e 0 1
  have e02 := e 0 2
  have e10 := e 1 0
  have e11 := e 1 1
  have e12 := e 1 2
  have e20 := e 2 0
  have e21 := e 2 1
  have e22 := e 2 2
  simp [rotationBlock, Matrix.mul_apply, Fin.sum_univ_three, Matrix.transpose_apply]
    at e00 e01 e02 e10 e11 e12 e20 e21 e22
  exact ⟨⟨e00, e01, e02⟩, ⟨e10, e11, e12⟩, ⟨e20, e21, e22⟩⟩

/-- Scalar form of `R * Rᵀ = 1`: the rows of `R` are orthonormal. -/
theorem Orthonormal.rows (T : Matrix4 K) (h : Orthonormal T) :
    (T.M11 * T.M11 + T.M12 * T.M12 + T.M13 * T.M13 = 1 ∧
     T.M11 * T.M21 + T.M12 * T.M22 + T.M13 * T.M23 = 0 ∧
     T.M11 * T.M31 + T.M12 * T.M32 + T.M13 * T.M33 = 0) ∧
    (T.M21 * T.M11 + T.M22 * T.M12 + T.M23 * T.M13 = 0 ∧
     T.M21 * T.M21 + T.M22 * T.M22 + T.M23 * T.M23 = 1 ∧
     T.M21 * T.M31 + T.M22 * T.M32 + T.M23 * T.M33 = 0) ∧
    (T.M31 * T.M11 + T.M32 * T.M12 + T.M33 * T.M13 = 0 ∧
     T.M31 * T.M21 + T.M32 * T.M22 + T.M33 * T.M23 = 0 ∧
     T.M31 * T.M31 + T.M32 * T.M32 + T.M33 * T.M33 = 1) := by
  have e : ∀ i j : Fin 3,
      (rotationBlock T * (rotationBlock T).transpose) i j = (1 : Matrix (Fin 3) (Fin 3) K) i j :=
    fun i j => by rw [h]
  have e00 := e 0 0
  have e01 := e 0 1
  have e02 := e 0 2
  have e10 := e 1 0
  have e11 := e 1 1
  have e12 := e 1 2
  have e20 := e 2 0
  have e21 := e 2 1
  have e22 := e 2 2
  simp [rotationBlock, Matrix.mul_apply, Fin.sum_univ_three, Matrix.transpose_apply]
    at e00 e01 e02 e10 e11 e12 e20 e21 e22
  exact ⟨⟨e00, e01, e02⟩, ⟨e10, e11, e12⟩, ⟨e20, e21, e22⟩⟩

/-- C1. Round trip of pose inversion: for every `Matrix4` whose 3x3 block is orthonormal
(`R * Rᵀ = 1`) and whose fourth column is `(0, 0, 0, 1)`, inverting the pose twice gives the
pose back, field by field, in exact arithmetic over any ordered field (so over the reals). -/
theorem InvertMatrix4Pose_involutive (T : Matrix4 K)
    (hR : Orthonormal T) (hcol : AffineColumn T) :
    InvertMatrix4Pose (InvertMatrix4Pose T) = T := by
  obtain ⟨⟨c11, c12, c13⟩, ⟨c21, c22, c23⟩, ⟨c31, c32, c33⟩⟩ :=
    Orthonormal.columns T hR
  obtain ⟨h14, h24, h34, h44⟩ := hcol
  rcases T with ⟨m11, m12, m13, m14, m21, m22, m23, m24, m31, m32, m33, m34, t1, t2, t3, m44⟩
  simp only [InvertMatrix4Pose, Extract3x3Rotation, InvertRotation, NegateRotation,
    RotateVector, ExtractVector3Translation, Matrix4.mk.injEq] at *
  refine ⟨trivial, trivial, trivial, h14.symm, trivial, trivial, trivial, h24.symm,
    trivial, trivial, trivial, h34.symm, ?_, ?_, ?_, h44.symm⟩
  · linear_combination t1 * c11 + t2 * c12 + t3 * c13
  · linear_combination t1 * c21 + t2 * c22 + t3 * c23
  · linear_combination t1 * c31 + t2 * c32 + t3 * c33

theorem quarterTurnPose_orthonormal : Orthonormal quarterTurnPose := by
  unfold Orthonormal rotationBlock quarterTurnPose
  ext i j
  fin_cases i <;> fin_cases j <;>
    simp [Matrix.mul_apply, Fin.sum_univ_three, Matrix.transpose_apply, Matrix.vecHead,
      Matrix.vecTail]

theorem quarterTurnPose_affine : AffineColumn quarterTurnPose := by
  simp [AffineColumn, quarterTurnPose]

/-- Witness of C1 at the quarter-turn pose. -/
theorem InvertMatrix4Pose_involutive_witness :
    Orthonormal quarterTurnPose ∧ AffineColumn quarterTurnPose ∧
      InvertMatrix4Pose (InvertMatrix4Pose quarterTurnPose) = quarterTurnPose :=
  ⟨quarterTurnPose_orthonormal, quarterTurnPose_affine,
    InvertMatrix4Pose_involutive quarterTurnPose quarterTurnPose_orthonormal
      quarterTurnPose_affine⟩

/-- The inverted pose computed field by field. -/
theorem InvertMatrix4Pose_fields (T : Matrix4 K) :
    InvertMatrix4Pose T =
      { M11 := T.M11, M12 := T.M21, M13 := T.M31, M14 := 0,
        M21 := T.M12, M22 := T.M22, M23 := T.M32, M24 := 0,
        M31 := T.M13, M32 := T.M23, M33 := T.M33, M34 := 0,
        M41 := -T.M11 * T.M41 + -T.M12 * T.M42 + -T.M13 * T.M43,
        M42 := -T.M21 * T.M41 + -T.M22 * T.M42 + -T.M23 * T.M43,
        M43 := -T.M31 * T.M41 + -T.M32 * T.M42 + -T.M33 * T.M43,
        M44 := 1 } := rfl

set_option maxHeartbeats 4000000 in
/-- C2. The function returns the matrix inverse of a rigid pose: for every `Matrix4` whose 3x3
block is orthonormal and whose fourth column is `(0, 0, 0, 1)`, both 4x4 products of the pose
with its inverted pose are the identity matrix. -/
theorem InvertMatrix4Pose_is_inverse (T : Matrix4 K)
    (hR : Orthonormal T) (hcol : AffineColumn T) :
    toMatrix T * toMatrix (InvertMatrix4Pose T) = 1 ∧
      toMatrix (InvertMatrix4Pose T) * toMatrix T = 1 := by
  have hc := Orthonormal.columns T hR
  have hr := Orthonormal.rows T hR
  rw [InvertMatrix4Pose_fields]
  rcases T with ⟨m11, m12, m13, m14, m21, m22, m23, m24, m31, m32, m33, m34, t1, t2, t3, m44⟩
  simp only [AffineColumn] at hcol hc hr
  obtain ⟨⟨c11, c12, c13⟩, ⟨c21, c22, c23⟩, ⟨c31, c32, c33⟩⟩ := hc
  obtain ⟨⟨r11, r12, r13⟩, ⟨r21, r22, r23⟩, ⟨r31, r32, r33⟩⟩ := hr
  obtain ⟨h14, h24, h34, h44⟩ := hcol
  subst h14 h24 h34 h44
  clear hR
  simp only [toMatrix]
  constructor
  · ext i j
    fin_cases i <;> fin_cases j <;>
      simp [Matrix.mul_apply, Fin.sum_univ_four] <;>
      first
        | assumption
        | ring1
  · ext i j
    fin_cases i <;> fin_cases j <;>
      simp [Matrix.mul_apply, Fin.sum_univ_four] <;>
      first
        | assumption
        | ring1
        | linear_combination (-t1) * c11 + (-t2) * c12 + (-t3) * c13
        | linear_combination (-t1) * c21 + (-t2) * c22 + (-t3) * c23
        | linear_combination (-t1) * c31 + (-t2) * c32 + (-t3) * c33

/-- Witness of C2 at the quarter-turn pose. -/
theorem InvertMatrix4Pose_is_inverse_witness :
    Orthonormal quarterTurnPose ∧ AffineColumn quarterTurnPose ∧
      (toMatrix quarterTurnPose * toMatrix (InvertMatrix4Pose quarterTurnPose) = 1 ∧
        toMatrix (InvertMatrix4Pose quarterTurnPose) * toMatrix quarterTurnPose = 1) :=
  ⟨quarterTurnPose_orthonormal, quarterTurnPose_affine,
    InvertMatrix4Pose_is_inverse quarterTurnPose quarterTurnPose_orthonormal
      quarterTurnPose_affine⟩

/-- C6 as stated fails: at the quarter-turn pose with translation `(1, 2, 3)` the translation
row of the inverted pose is `(-2, 1, -3)`, whereas rotating the negated translation by the
transposed rotation with `RotateVector` gives `(2, -1, -3)`. -/
theorem InvertMatrix4Pose_translation_not_transposed :
    ExtractVector3Translation (InvertMatrix4Pose quarterTurnPose) = ⟨-2, 1, -3⟩ ∧
      RotateVector (negTranslation quarterTurnPose) (InvertRotation quarterTurnPose)
        = ⟨2, -1, -3⟩ ∧
      ExtractVector3Translation (InvertMatrix4Pose quarterTurnPose) ≠
        RotateVector (negTranslation quarterTurnPose) (InvertRotation quarterTurnPose) := by
  refine ⟨?_, ?_, ?_⟩
  · simp [ExtractVector3Translation, InvertMatrix4Pose, RotateVector, NegateRotation,
      InvertRotation, Extract3x3Rotation, quarterTurnPose]
  · simp [RotateVector, negTranslation, InvertRotation, quarterTurnPose]
  · simp [ExtractVector3Translation, InvertMatrix4Pose, RotateVector, NegateRotation,
      InvertRotation, Extract3x3Rotation, quarterTurnPose, negTranslation]
    norm_num

/-- C6, amended. For every `Matrix4`, the 3x3 block of the inverted pose is the transpose of
the block `R` of the pose, its fourth column is `(0, 0, 0, 1)`, and its translation row is the
negated translation rotated by `R` itself (not by the transpose): `RotateVector(-t, R)`, which
is also `RotateVector(t, -R)`, component `i` being `-Σ_j R_ij * t_j`. -/
theorem InvertMatrix4Pose_formula (T : Matrix4 K) :
    rotationBlock (InvertMatrix4Pose T) = (rotationBlock T).transpose ∧
      AffineColumn (InvertMatrix4Pose T) ∧
      ExtractVector3Translation (InvertMatrix4Pose T) = RotateVector (negTranslation T) T ∧
      ExtractVector3Translation (InvertMatrix4Pose T)
        = RotateVector (ExtractVector3Translation T) (NegateRotation T) ∧
      (InvertMatrix4Pose T).M41 = -(T.M11 * T.M41 + T.M12 * T.M42 + T.M13 * T.M43) ∧
      (InvertMatrix4Pose T).M42 = -(T.M21 * T.M41 + T.M22 * T.M42 + T.M23 * T.M43) ∧
      (InvertMatrix4Pose T).M43 = -(T.M31 * T.M41 + T.M32 * T.M42 + T.M33 * T.M43) := by
  rw [InvertMatrix4Pose_fields]
  refine ⟨?_, ⟨rfl, rfl, rfl, rfl⟩, ?_, ?_, ?_, ?_, ?_⟩
  · ext i j
    fin_cases i <;> fin_cases j <;> rfl
  · simp only [ExtractVector3Translation, RotateVector, negTranslation, Vector3.mk.injEq]
    refine ⟨?_, ?_, ?_⟩ <;> ring
  · simp only [ExtractVector3Translation, RotateVector, NegateRotation]
  · simp only
    ring
  · simp only
    ring
  · simp only
    ring

/-! ## Theorems: the pose-jump test -/

/-- The loop reports a failure exactly when some visited axis exceeds a threshold. -/
theorem CameraTransformFailed.loop_fails_iff (pi deltaRot deltaTrans : K)
    (eulerInitial eulerFinal transInitial transFinal : Fin 3 → K) (axes : List (Fin 3)) :
    ((CameraTransformFailed.loop pi deltaRot deltaTrans eulerInitial eulerFinal
        transInitial transFinal axes).1 ||
      (CameraTransformFailed.loop pi deltaRot deltaTrans eulerInitial eulerFinal
        transInitial transFinal axes).2) = true ↔
    ∃ i ∈ axes, |adjustedDelta pi deltaRot (eulerInitial i) (eulerFinal i)| > deltaRot ∨
      |transInitial i - transFinal i| > deltaTrans := by
  induction axes with
  | nil => simp [CameraTransformFailed.loop]
  | cons i rest ih =>
    simp only [CameraTransformFailed.loop, List.mem_cons, exists_eq_or_imp]
    have hd :
        (if (decide (eulerInitial i ≥ pi - deltaRot) &&
              decide (eulerFinal i < deltaRot - pi)) = true
          then eulerInitial i - pi * 2 else eulerInitial i) -
        (if (!(decide (eulerInitial i ≥ pi - deltaRot) &&
              decide (eulerFinal i < deltaRot - pi)) &&
            (decide (eulerFinal i ≥ pi - deltaRot) &&
              decide (eulerInitial i < deltaRot - pi))) = true
          then eulerFinal i - pi * 2 else eulerFinal i)
        = adjustedDelta pi deltaRot (eulerInitial i) (eulerFinal i) := by
      rfl
    rw [hd]
    by_cases h1 : |adjustedDelta pi deltaRot (eulerInitial i) (eulerFinal i)| > deltaRot
    · simp [h1]
    · by_cases h2 : |transInitial i - transFinal i| > deltaTrans
      · simp [h1, h2]
      · simp only [h1, h2, if_false, false_or]
        exact ih

/-- The pose-jump test fails exactly when some axis exceeds a threshold, the rotation
difference being taken after the wraparound adjustment. -/
theorem CameraTransformFailed_iff (libm : Libm K) (T_initial T_final : Matrix4 K)
    (maxTrans maxRotDegrees : K) :
    CameraTransformFailed libm T_initial T_final maxTrans maxRotDegrees = true ↔
    ∃ i : Fin 3,
      |adjustedDelta libm.pi (rotationThreshold libm maxRotDegrees)
          (ExtractRot2Euler libm T_initial i) (ExtractRot2Euler libm T_final i)|
        > rotationThreshold libm maxRotDegrees ∨
      |ExtractVector3TranslationArray T_initial i - ExtractVector3TranslationArray T_final i|
        > maxTrans := by
  unfold CameraTransformFailed
  simp only [CameraTransformFailed.loop_fails_iff, rotationThreshold]
  constructor
  · rintro ⟨i, -, h⟩
    exact ⟨i, h⟩
  · rintro ⟨i, h⟩
    refine ⟨i, ?_, h⟩
    fin_cases i <;> simp

/-- Without wraparound adjustment the rotation difference is the plain difference. -/
theorem adjustedDelta_of_lt (pi deltaRot eI eF : K)
    (hI : eI < pi - deltaRot) (hF : eF < pi - deltaRot) :
    adjustedDelta pi deltaRot eI eF = eI - eF := by
  simp [adjustedDelta, not_le.mpr hI, not_le.mpr hF]

/-- C5. Threshold characterisation: when the Euler angles of both poses lie strictly inside
`(-π + δ, π - δ)` on every axis, with `δ = maxRotDegrees * π / 180`, the pose-jump test
returns true if and only if on some axis the difference of the Euler angles exceeds `δ` or the
difference of the translations exceeds `maxTrans`, both strictly (a difference equal to a
threshold does not fail). -/
theorem CameraTransformFailed_iff_threshold (libm : Libm K) (T_initial T_final : Matrix4 K)
    (maxTrans maxRotDegrees : K)
    (hI : ∀ i : Fin 3,
      -libm.pi + rotationThreshold libm maxRotDegrees < ExtractRot2Euler libm T_initial i ∧
      ExtractRot2Euler libm T_initial i < libm.pi - rotationThreshold libm maxRotDegrees)
    (hF : ∀ i : Fin 3,
      -libm.pi + rotationThreshold libm maxRotDegrees < ExtractRot2Euler libm T_final i ∧
      ExtractRot2Euler libm T_final i < libm.pi - rotationThreshold libm maxRotDegrees) :
    CameraTransformFailed libm T_initial T_final maxTrans maxRotDegrees = true ↔
    ∃ i : Fin 3,
      |ExtractRot2Euler libm T_initial i - ExtractRot2Euler libm T_final i|
        > rotationThreshold libm maxRotDegrees ∨
      |ExtractVector3TranslationArray T_initial i - ExtractVector3TranslationArray T_final i|
        > maxTrans := by
  rw [CameraTransformFailed_iff]
  constructor
  · rintro ⟨i, h⟩
    rw [adjustedDelta_of_lt _ _ _ _ (hI i).2 (hF i).2] at h
    exact ⟨i, h⟩
  · rintro ⟨i, h⟩
    refine ⟨i, ?_⟩
    rw [adjustedDelta_of_lt _ _ _ _ (hI i).2 (hF i).2]
    exact h

/-- The argument of `cos θ + i sin θ` is `θ` for `θ` in `(-π, π]`. -/
theorem realLibm_atan2f_sin_cos (θ : ℝ) (h : θ ∈ Set.Ioc (-Real.pi) Real.pi) :
    realLibm.atan2f (Real.sin θ) (Real.cos θ) = θ := by
  have e : (⟨Real.cos θ, Real.sin θ⟩ : ℂ) =
      Complex.cos θ + Complex.sin θ * Complex.I := by
    apply Complex.ext <;> simp [Complex.cos_ofReal_re, Complex.sin_ofReal_re]
  show Complex.arg ⟨Real.cos θ, Real.sin θ⟩ = θ
  rw [e]
  exact Complex.arg_cos_add_sin_mul_I h

/-- Euler angles of a turn by `θ` about the z axis: `(0, 0, θ)`. -/
theorem ExtractRot2Euler_zTurnPose (θ : ℝ) (h : θ ∈ Set.Ioc (-Real.pi) Real.pi) :
    ExtractRot2Euler realLibm (zTurnPose (Real.cos θ) (Real.sin θ)) = ![0, 0, θ] := by
  have h0 : realLibm.atan2f 0 1 = 0 := by
    have := realLibm_atan2f_sin_cos 0 ⟨by linarith [Real.pi_pos], Real.pi_pos.le⟩
    simpa using this
  have h1 : realLibm.asinf (-0) = 0 := by simp [realLibm]
  simp only [ExtractRot2Euler, zTurnPose]
  rw [h0, h1, realLibm_atan2f_sin_cos θ h]

/-- Euler angles of the identity pose: `(0, 0, 0)`. -/
theorem ExtractRot2Euler_identity :
    ExtractRot2Euler realLibm (zTurnPose 1 0) = ![0, 0, 0] := by
  have := ExtractRot2Euler_zTurnPose 0 ⟨by linarith [Real.pi_pos], Real.pi_pos.le⟩
  simpa using this

/-- Euler angles of a quarter turn about the z axis: `(0, 0, π/2)`. -/
theorem ExtractRot2Euler_quarterTurn :
    ExtractRot2Euler realLibm (zTurnPose 0 1) = ![0, 0, Real.pi / 2] := by
  have hp := Real.pi_pos
  have := ExtractRot2Euler_zTurnPose (Real.pi / 2) ⟨by linarith, by linarith⟩
  simpa using this

/-- Witness of C5 over the reals, with thresholds of 20 degrees and 0.1 m. The identity pose
against a quarter turn about the z axis: the Euler angles `(0, 0, 0)` and `(0, 0, π/2)` lie
inside the interval, the third differs by more than the threshold, and the test returns true.
The identity pose against a turn of exactly 20 degrees: the difference equals the threshold
and the test returns false. -/
theorem CameraTransformFailed_iff_threshold_witness :
    ExtractRot2Euler realLibm (zTurnPose 1 0) = ![0, 0, 0] ∧
    ExtractRot2Euler realLibm (zTurnPose 0 1) = ![0, 0, Real.pi / 2] ∧
    |ExtractRot2Euler realLibm (zTurnPose 1 0) 2 - ExtractRot2Euler realLibm (zTurnPose 0 1) 2|
      > rotationThreshold realLibm 20 ∧
    CameraTransformFailed realLibm (zTurnPose 1 0) (zTurnPose 0 1) (1 / 10) 20 = true ∧
    ExtractRot2Euler realLibm
        (zTurnPose (Real.cos (20 * Real.pi / 180)) (Real.sin (20 * Real.pi / 180))) =
      ![0, 0, 20 * Real.pi / 180] ∧
    CameraTransformFailed realLibm (zTurnPose 1 0)
      (zTurnPose (Real.cos (20 * Real.pi / 180)) (Real.sin (20 * Real.pi / 180)))
      (1 / 10) 20 = false := by
  have hp := Real.pi_pos
  have ht : rotationThreshold realLibm 20 = 20 * Real.pi / 180 := rfl
  have h20 : 20 * Real.pi / 180 ∈ Set.Ioc (-Real.pi) Real.pi := ⟨by linarith, by linarith⟩
  have e20 := ExtractRot2Euler_zTurnPose _ h20
  have inside0 : ∀ i : Fin 3,
      -realLibm.pi + rotationThreshold realLibm 20 < ExtractRot2Euler realLibm (zTurnPose 1 0) i ∧
      ExtractRot2Euler realLibm (zTurnPose 1 0) i <
        realLibm.pi - rotationThreshold realLibm 20 := by
    intro i
    rw [ExtractRot2Euler_identity, ht]
    fin_cases i <;> simp [realLibm] <;> linarith
  have inside90 : ∀ i : Fin 3,
      -realLibm.pi + rotationThreshold realLibm 20 < ExtractRot2Euler realLibm (zTurnPose 0 1) i ∧
      ExtractRot2Euler realLibm (zTurnPose 0 1) i <
        realLibm.pi - rotationThreshold realLibm 20 := by
    intro i
    rw [ExtractRot2Euler_quarterTurn, ht]
    fin_cases i <;> simp [realLibm] <;> first | linarith | (constructor <;> linarith)
  have inside20 : ∀ i : Fin 3,
      -realLibm.pi + rotationThreshold realLibm 20 < ExtractRot2Euler realLibm
        (zTurnPose (Real.cos (20 * Real.pi / 180)) (Real.sin (20 * Real.pi / 180))) i ∧
      ExtractRot2Euler realLibm
        (zTurnPose (Real.cos (20 * Real.pi / 180)) (Real.sin (20 * Real.pi / 180))) i <
        realLibm.pi - rotationThreshold realLibm 20 := by
    intro i
    rw [e20, ht]
    fin_cases i <;> simp [realLibm] <;> first | linarith | (constructor <;> linarith)
  have big : |ExtractRot2Euler realLibm (zTurnPose 1 0) 2 -
      ExtractRot2Euler realLibm (zTurnPose 0 1) 2| > rotationThreshold realLibm 20 := by
    rw [ExtractRot2Euler_identity, ExtractRot2Euler_quarterTurn, ht]
    simp only [Matrix.cons_val_two, Matrix.tail_cons, Matrix.head_cons, zero_sub, abs_neg]
    rw [abs_of_pos (by linarith)]
    linarith
  refine ⟨ExtractRot2Euler_identity, ExtractRot2Euler_quarterTurn, big, ?_, e20, ?_⟩
  · exact (CameraTransformFailed_iff_threshold realLibm (zTurnPose 1 0) (zTurnPose 0 1)
      (1 / 10) 20 inside0 inside90).mpr ⟨2, Or.inl big⟩
  · rw [Bool.eq_false_iff, ne_eq,
      CameraTransformFailed_iff_threshold realLibm (zTurnPose 1 0) _ (1 / 10) 20 inside0
        inside20]
    rintro ⟨i, h | h⟩
    · rw [ExtractRot2Euler_identity, e20, ht] at h
      fin_cases i
      · simp at h
        linarith
      · simp at h
        linarith
      · have e : (![(0 : ℝ), 0, 0] : Fin 3 → ℝ) ⟨2, by decide⟩ -
            (![0, 0, 20 * Real.pi / 180] : Fin 3 → ℝ) ⟨2, by decide⟩
            = -(20 * Real.pi / 180) := by
          simp
        rw [e, abs_neg, abs_of_pos (by linarith)] at h
        exact lt_irrefl _ h
    · fin_cases i <;> simp [ExtractVector3TranslationArray, zTurnPose] at h <;> linarith

/-- C3, the failing input. At a rotation threshold of 270 degrees the identity pose compared
with itself, with `maxTrans = 0`, is reported as a pose jump (over the reals, with the real
`π`, `atan2` and `asin`): the function returns true where the claim, and the summary of the
function in the source, require false. -/
theorem CameraTransformFailed_identity_270 :
    CameraTransformFailed realLibm (zTurnPose 1 0) (zTurnPose 1 0) 0 270 = true := by
  rw [CameraTransformFailed_iff]
  refine ⟨0, Or.inl ?_⟩
  rw [ExtractRot2Euler_identity]
  have hp := Real.pi_pos
  have h1 : ((0 : ℝ) ≥ Real.pi - 270 * Real.pi / 180) := by linarith
  have h2 : ((0 : ℝ) < 270 * Real.pi / 180 - Real.pi) := by linarith
  simp only [adjustedDelta, rotationThreshold, realLibm, Matrix.cons_val_zero, h1, h2,
    decide_True, Bool.and_self, if_true, Bool.not_true, Bool.false_and]
  rw [show (0 - Real.pi * 2 - (if false = true then 0 - Real.pi * 2 else 0) : ℝ)
    = -(2 * Real.pi) by simp; ring]
  rw [abs_neg, abs_of_pos (by linarith)]
  linarith

/-- Identical poses do not count as a jump when the rotation threshold is at most 180
degrees (and `π > 0`, thresholds nonnegative). -/
theorem CameraTransformFailed_self_of_le_180 (libm : Libm K) (T : Matrix4 K)
    (maxTrans maxRotDegrees : K) (hpi : 0 < libm.pi)
    (hT : 0 ≤ maxTrans) (hR : 0 ≤ maxRotDegrees) (h180 : maxRotDegrees ≤ 180) :
    CameraTransformFailed libm T T maxTrans maxRotDegrees = false := by
  rw [Bool.eq_false_iff, ne_eq, CameraTransformFailed_iff]
  have hd0 : 0 ≤ rotationThreshold libm maxRotDegrees := by
    unfold rotationThreshold; positivity
  have hd1 : rotationThreshold libm maxRotDegrees ≤ libm.pi := by
    unfold rotationThreshold
    rw [div_le_iff₀ (by norm_num)]
    nlinarith
  rintro ⟨i, h | h⟩
  · have : adjustedDelta libm.pi (rotationThreshold libm maxRotDegrees)
        (ExtractRot2Euler libm T i) (ExtractRot2Euler libm T i) = 0 := by
      unfold adjustedDelta
      by_cases c1 : ExtractRot2Euler libm T i ≥ libm.pi - rotationThreshold libm maxRotDegrees
      · have c2 : ¬ ExtractRot2Euler libm T i <
            rotationThreshold libm maxRotDegrees - libm.pi := by
          intro c2; linarith
        simp [c1, c2]
      · simp [c1]
    rw [this, abs_zero] at h
    exact absurd h (not_lt.mpr hd0)
  · rw [sub_self, abs_zero] at h
    exact absurd h (not_lt.mpr hT)

/-- Equal angles give a zero difference when the threshold is at most `π`. -/
theorem adjustedDelta_self (pi deltaRot e : K) (h : deltaRot ≤ pi) :
    adjustedDelta pi deltaRot e e = 0 := by
  unfold adjustedDelta
  by_cases c1 : e ≥ pi - deltaRot
  · have c2 : ¬ e < deltaRot - pi := by
      intro c2; linarith
    simp [c1, c2]
  · simp [c1]

/-- The first branch of the wraparound adjustment: the initial angle is shifted by `2π`. -/
theorem adjustedDelta_wrap_initial (pi deltaRot a b : K)
    (ha : pi - deltaRot ≤ a) (hb : b < deltaRot - pi) :
    adjustedDelta pi deltaRot a b = a - pi * 2 - b := by
  simp [adjustedDelta, ha, hb]

/-- The second branch of the wraparound adjustment: the final angle is shifted by `2π`. -/
theorem adjustedDelta_wrap_final (pi deltaRot a b : K) (h : deltaRot ≤ pi)
    (ha : pi - deltaRot ≤ a) (hb : b < deltaRot - pi) :
    adjustedDelta pi deltaRot b a = b - (a - pi * 2) := by
  have c1 : ¬ (pi - deltaRot ≤ b) := by
    intro c1; linarith
  simp [adjustedDelta, ha, hb, c1]

/-- One direction of the wraparound property, for either order of the two poses. -/
theorem CameraTransformFailed_false_of_axes (libm : Libm K) (T1 T2 : Matrix4 K)
    (maxTrans maxRotDegrees : K) (hT : 0 ≤ maxTrans)
    (htr : ExtractVector3Translation T1 = ExtractVector3Translation T2)
    (hrot : ∀ i : Fin 3,
      |adjustedDelta libm.pi (rotationThreshold libm maxRotDegrees)
        (ExtractRot2Euler libm T1 i) (ExtractRot2Euler libm T2 i)|
        ≤ rotationThreshold libm maxRotDegrees) :
    CameraTransformFailed libm T1 T2 maxTrans maxRotDegrees = false := by
  rw [Bool.eq_false_iff, ne_eq, CameraTransformFailed_iff]
  rintro ⟨i, h | h⟩
  · exact absurd h (not_lt.mpr (hrot i))
  · have e : ExtractVector3TranslationArray T1 i = ExtractVector3TranslationArray T2 i := by
      simp only [ExtractVector3Translation, Vector3.mk.injEq] at htr
      obtain ⟨h1, h2, h3⟩ := htr
      fin_cases i <;> simp [ExtractVector3TranslationArray, h1, h2, h3]
    rw [e, sub_self, abs_zero] at h
    exact absurd h (not_lt.mpr hT)

/-- C4. Wraparound near `±π`: for a rotation threshold of `maxRotDegrees` degrees with
`0 < maxRotDegrees ≤ 180` (so `δ = maxRotDegrees * π / 180`) and two poses with equal
translations whose Euler angles agree on two axes and, on the third axis `k`, are `a` in
`[π - δ, π]` and `b` in `[-π, -π + δ)` with circular difference `2π - (a - b) < δ`, the
pose-jump test returns false in either argument order. The translation threshold is a
distance, `maxTrans ≥ 0`, and the constant `pi` of the mathematical library is positive. -/
theorem CameraTransformFailed_wraparound (libm : Libm K) (T1 T2 : Matrix4 K)
    (maxTrans maxRotDegrees : K) (k : Fin 3) (hpi : 0 < libm.pi)
    (hpos : 0 < maxRotDegrees) (h180 : maxRotDegrees ≤ 180) (hT : 0 ≤ maxTrans)
    (htr : ExtractVector3Translation T1 = ExtractVector3Translation T2)
    (hother : ∀ i : Fin 3, i ≠ k → ExtractRot2Euler libm T1 i = ExtractRot2Euler libm T2 i)
    (ha : libm.pi - rotationThreshold libm maxRotDegrees ≤ ExtractRot2Euler libm T1 k ∧
      ExtractRot2Euler libm T1 k ≤ libm.pi)
    (hb : -libm.pi ≤ ExtractRot2Euler libm T2 k ∧
      ExtractRot2Euler libm T2 k < -libm.pi + rotationThreshold libm maxRotDegrees)
    (hcirc : 2 * libm.pi - (ExtractRot2Euler libm T1 k - ExtractRot2Euler libm T2 k)
      < rotationThreshold libm maxRotDegrees) :
    CameraTransformFailed libm T1 T2 maxTrans maxRotDegrees = false ∧
      CameraTransformFailed libm T2 T1 maxTrans maxRotDegrees = false := by
  have hd0 : 0 ≤ rotationThreshold libm maxRotDegrees := by
    unfold rotationThreshold; positivity
  have hd1 : rotationThreshold libm maxRotDegrees ≤ libm.pi := by
    unfold rotationThreshold
    rw [div_le_iff₀ (by norm_num)]
    nlinarith
  have hb2 : ExtractRot2Euler libm T2 k < rotationThreshold libm maxRotDegrees - libm.pi := by
    linarith [hb.2]
  constructor
  · apply CameraTransformFailed_false_of_axes libm T1 T2 maxTrans maxRotDegrees hT htr
    intro i
    by_cases hik : i = k
    · subst hik
      rw [adjustedDelta_wrap_initial _ _ _ _ ha.1 hb2, abs_le]
      constructor <;> linarith [ha.2, hb.1]
    · rw [hother i hik, adjustedDelta_self _ _ _ hd1, abs_zero]
      exact hd0
  · apply CameraTransformFailed_false_of_axes libm T2 T1 maxTrans maxRotDegrees hT htr.symm
    intro i
    by_cases hik : i = k
    · subst hik
      rw [adjustedDelta_wrap_final _ _ _ _ hd1 ha.1 hb2, abs_le]
      constructor <;> linarith [ha.2, hb.1]
    · rw [hother i hik, adjustedDelta_self _ _ _ hd1, abs_zero]
      exact hd0

/-- The half-open interval condition for the angle of 179 degrees. -/
theorem deg179_mem : 179 * Real.pi / 180 ∈ Set.Ioc (-Real.pi) Real.pi := by
  have hp := Real.pi_pos
  constructor <;> linarith

/-- The half-open interval condition for the angle of -179 degrees. -/
theorem negDeg179_mem : -(179 * Real.pi / 180) ∈ Set.Ioc (-Real.pi) Real.pi := by
  have hp := Real.pi_pos
  constructor <;> linarith

/-- Witness of C4: turns of 179 and -179 degrees about the z axis (the Euler angle
`psi`) with a rotation threshold of 5 degrees and a translation threshold of 0, over the
reals. -/
theorem CameraTransformFailed_wraparound_witness :
    CameraTransformFailed realLibm
        (zTurnPose (Real.cos (179 * Real.pi / 180)) (Real.sin (179 * Real.pi / 180)))
        (zTurnPose (Real.cos (-(179 * Real.pi / 180))) (Real.sin (-(179 * Real.pi / 180))))
        0 5 = false ∧
      CameraTransformFailed realLibm
        (zTurnPose (Real.cos (-(179 * Real.pi / 180))) (Real.sin (-(179 * Real.pi / 180))))
        (zTurnPose (Real.cos (179 * Real.pi / 180)) (Real.sin (179 * Real.pi / 180)))
        0 5 = false := by
  have hp := Real.pi_pos
  refine CameraTransformFailed_wraparound realLibm _ _ 0 5 2 Real.pi_pos (by norm_num)
    (by norm_num) le_rfl (by simp only [ExtractVector3Translation, zTurnPose]) ?_ ?_ ?_ ?_
  · intro i hi
    rw [ExtractRot2Euler_zTurnPose _ deg179_mem, ExtractRot2Euler_zTurnPose _ negDeg179_mem]
    fin_cases i
    · rfl
    · rfl
    · exact absurd rfl hi
  · rw [ExtractRot2Euler_zTurnPose _ deg179_mem]
    simp only [rotationThreshold, realLibm, Matrix.cons_val_two, Matrix.tail_cons,
      Matrix.head_cons]
    constructor <;> linarith
  · rw [ExtractRot2Euler_zTurnPose _ negDeg179_mem]
    simp only [rotationThreshold, realLibm, Matrix.cons_val_two, Matrix.tail_cons,
      Matrix.head_cons]
    constructor <;> linarith
  · rw [ExtractRot2Euler_zTurnPose _ deg179_mem, ExtractRot2Euler_zTurnPose _ negDeg179_mem]
    simp only [rotationThreshold, realLibm, Matrix.cons_val_two, Matrix.tail_cons,
      Matrix.head_cons]
    linarith

/-! ## Theorems: effect of each stage of the frame pipeline -/

@[simp] theorem log_trace (s : KinectFusionProcessor K) (e : Event K) :
    (s.log e).trace = s.trace ++ [e] := rfl

@[simp] theorem resetCount_append (a b : List (Event K)) :
    resetCount (a ++ b) = resetCount a + resetCount b := by
  simp [resetCount]

@[simp] theorem integrateCount_append (a b : List (Event K)) :
    integrateCount (a ++ b) = integrateCount a + integrateCount b := by
  simp [integrateCount]

/-- What `InternalResetReconstruction` does when a volume exists and the volume reset
succeeds. -/
theorem InternalResetReconstruction_ok (s : KinectFusionProcessor K) (hr : HRESULT) (t : K)
    (hvol : s.m_pVolume.isSome = true) (hok : SUCCEEDED hr = true) :
    (InternalResetReconstruction s hr t).1 = hr ∧
    (InternalResetReconstruction s hr t).2.m_bTrackingFailed = false ∧
    (InternalResetReconstruction s hr t).2.m_cLostFrameCounter = 0 ∧
    (InternalResetReconstruction s hr t).2.m_cFrameCounter = 0 ∧
    (InternalResetReconstruction s hr t).2.m_paramsCurrent =
      { s.m_paramsCurrent with m_bPauseIntegration := false } ∧
    (InternalResetReconstruction s hr t).2.m_pVolume = s.m_pVolume ∧
    (InternalResetReconstruction s hr t).2.m_pDepthImagePixelBuffer =
      s.m_pDepthImagePixelBuffer ∧
    (InternalResetReconstruction s hr t).2.m_cLastFrameTimeStamp = s.m_cLastFrameTimeStamp ∧
    (InternalResetReconstruction s hr t).2.m_worldToCameraTransform =
      SetIdentityMatrix s.m_worldToCameraTransform := by
  have hv : s.m_pVolume.isNone = false := by
    cases h : s.m_pVolume <;> simp_all
  unfold InternalResetReconstruction
  simp only [KinectFusionProcessor.log, hv, hok, if_true, Bool.false_eq_true, if_false]
  split_ifs <;> simp

/-- The trace only grows in `InternalResetReconstruction`, by one invocation. -/
theorem InternalResetReconstruction_trace (s : KinectFusionProcessor K) (hr : HRESULT) (t : K) :
    ∃ evs, (InternalResetReconstruction s hr t).2.trace =
        s.trace ++ Event.InternalResetReconstruction :: evs ∧
      resetCount evs = 0 ∧ integrateCount evs = 0 := by
  unfold InternalResetReconstruction
  simp only [KinectFusionProcessor.log]
  split_ifs <;> simp [resetCount, integrateCount, Event.isInternalReset, Event.isIntegrateFrame]

theorem SameTracking.refl (s : KinectFusionProcessor K) : SameTracking s s :=
  ⟨rfl, rfl, rfl, rfl, rfl, rfl, rfl, List.prefix_refl _, rfl, rfl⟩

theorem SameTracking.trans {s s' s'' : KinectFusionProcessor K}
    (h : SameTracking s s') (h' : SameTracking s' s'') : SameTracking s s'' :=
  ⟨h'.lost.trans h.lost, h'.failed.trans h.failed, h'.volume.trans h.volume,
    h'.buffer.trans h.buffer, h'.stamp.trans h.stamp, h'.pose.trans h.pose,
    h'.params.trans h.params, h.grows.trans h'.grows, h'.resets.trans h.resets,
    h'.integrates.trans h.integrates⟩

theorem SetStatusMessage_sameTracking (s : KinectFusionProcessor K) (m : String) :
    SameTracking s (SetStatusMessage s m) :=
  ⟨rfl, rfl, rfl, rfl, rfl, rfl, rfl, List.prefix_refl _, rfl, rfl⟩

/-- The raycast stage leaves the tracking state alone. -/
theorem raycast_sameTracking (s : KinectFusionProcessor K) (env : ProcessDepthEnv K)
    (hr : HRESULT) : SameTracking s (ProcessDepth.raycast s env hr).2 := by
  unfold ProcessDepth.raycast
  simp only [KinectFusionProcessor.log, SetStatusMessage]
  split_ifs <;> constructor <;>
    simp [resetCount, integrateCount, Event.isInternalReset, Event.isIntegrateFrame]

theorem enterFrame_sameTracking (s : KinectFusionProcessor K) :
    SameTracking s (ProcessDepth.enterFrame s) := by
  unfold ProcessDepth.enterFrame
  constructor <;>
    simp [KinectFusionProcessor.log, resetCount, integrateCount, Event.isInternalReset,
      Event.isIntegrateFrame]

theorem storeImages_sameTracking (s : KinectFusionProcessor K) (env : ProcessDepthEnv K)
    (l : ProcessDepthLocals) : SameTracking s (ProcessDepth.storeImages s env l).2 := by
  unfold ProcessDepth.storeImages
  simp only [KinectFusionProcessor.log]
  split_ifs <;> constructor <;>
    simp [resetCount, integrateCount, Event.isInternalReset, Event.isIntegrateFrame]

theorem updateFps_sameTracking [FloorRing K] (s : KinectFusionProcessor K)
    (env : ProcessDepthEnv K) (hr : HRESULT) :
    SameTracking s (ProcessDepth.updateFps s env hr) := by
  unfold ProcessDepth.updateFps
  simp only [KinectFusionProcessor.log]
  split_ifs <;> constructor <;> simp

theorem leaveFrame_sameTracking (s : KinectFusionProcessor K) :
    SameTracking s (ProcessDepth.leaveFrame s) := by
  unfold ProcessDepth.leaveFrame
  constructor <;>
    simp [KinectFusionProcessor.log, resetCount, integrateCount, Event.isInternalReset,
      Event.isIntegrateFrame]

/-- The publication stage leaves the tracking state alone. -/
theorem FinishFrame_sameTracking [FloorRing K] (s : KinectFusionProcessor K)
    (env : ProcessDepthEnv K) (l : ProcessDepthLocals) :
    SameTracking s (ProcessDepth.FinishFrame s env l) :=
  (((enterFrame_sameTracking s).trans (storeImages_sameTracking _ env l)).trans
    (updateFps_sameTracking _ env _)).trans (leaveFrame_sameTracking _)

/-- What `InternalResetReconstruction` does on every path: the volume, the pixel buffer and
the last timestamp are kept. -/
theorem InternalResetReconstruction_keeps (s : KinectFusionProcessor K) (hr : HRESULT) (t : K) :
    (InternalResetReconstruction s hr t).2.m_pVolume = s.m_pVolume ∧
    (InternalResetReconstruction s hr t).2.m_pDepthImagePixelBuffer =
      s.m_pDepthImagePixelBuffer ∧
    (InternalResetReconstruction s hr t).2.m_cLastFrameTimeStamp = s.m_cLastFrameTimeStamp := by
  unfold InternalResetReconstruction
  simp only [KinectFusionProcessor.log]
  split_ifs <;> simp

/-- Counts of the trace after `InternalResetReconstruction`: one more invocation of the
function itself, no call of `IntegrateFrame`. -/
theorem InternalResetReconstruction_counts (s : KinectFusionProcessor K) (hr : HRESULT)
    (t : K) :
    s.trace <+: (InternalResetReconstruction s hr t).2.trace ∧
    resetCount (InternalResetReconstruction s hr t).2.trace = resetCount s.trace + 1 ∧
    integrateCount (InternalResetReconstruction s hr t).2.trace = integrateCount s.trace := by
  obtain ⟨evs, h, h1, h2⟩ := InternalResetReconstruction_trace s hr t
  rw [h]
  refine ⟨List.prefix_append _ _, ?_, ?_⟩
  · rw [resetCount_append]
    simp [resetCount, Event.isInternalReset] at h1 ⊢
    exact h1
  · rw [integrateCount_append]
    simp [integrateCount, Event.isIntegrateFrame] at h2 ⊢
    exact h2

/-- The timestamp guard always stores the new timestamp and keeps the volume and the pixel
buffer. -/
theorem timeStampGuard_keeps (s : KinectFusionProcessor K) (env : ProcessDepthEnv K) (t : Int) :
    (ProcessDepth.timeStampGuard s env t).m_cLastFrameTimeStamp = t ∧
    (ProcessDepth.timeStampGuard s env t).m_pVolume = s.m_pVolume ∧
    (ProcessDepth.timeStampGuard s env t).m_pDepthImagePixelBuffer =
      s.m_pDepthImagePixelBuffer := by
  obtain ⟨h1, h2, -⟩ :=
    InternalResetReconstruction_keeps s env.hrResetOnTimeStamp env.timeResetOnTimeStamp
  unfold ProcessDepth.timeStampGuard
  simp only [SetStatusMessage]
  split_ifs <;> simp [h1, h2]

/-- When the timestamp test is negative the guard only stores the new timestamp. -/
theorem timeStampGuard_of_not_skipped (s : KinectFusionProcessor K) (env : ProcessDepthEnv K)
    (t : Int) (h : ProcessDepth.timeStampSkipped s t = false) :
    ProcessDepth.timeStampGuard s env t = { s with m_cLastFrameTimeStamp := t } := by
  unfold ProcessDepth.timeStampGuard
  simp [h]

/-- When the timestamp test is positive the guard invokes `InternalResetReconstruction`
first. -/
theorem timeStampGuard_of_skipped (s : KinectFusionProcessor K) (env : ProcessDepthEnv K)
    (t : Int) (h : ProcessDepth.timeStampSkipped s t = true) :
    ∃ evs, (ProcessDepth.timeStampGuard s env t).trace =
      s.trace ++ Event.InternalResetReconstruction :: evs := by
  obtain ⟨evs, h1, -, -⟩ :=
    InternalResetReconstruction_trace s env.hrResetOnTimeStamp env.timeResetOnTimeStamp
  refine ⟨evs, ?_⟩
  unfold ProcessDepth.timeStampGuard
  simp only [h, if_true, SetStatusMessage]
  split_ifs <;> simp [h1]

/-- Counts of the trace after the timestamp guard. -/
theorem timeStampGuard_counts (s : KinectFusionProcessor K) (env : ProcessDepthEnv K)
    (t : Int) :
    s.trace <+: (ProcessDepth.timeStampGuard s env t).trace ∧
    resetCount (ProcessDepth.timeStampGuard s env t).trace =
      resetCount s.trace + (if ProcessDepth.timeStampSkipped s t then 1 else 0) ∧
    integrateCount (ProcessDepth.timeStampGuard s env t).trace = integrateCount s.trace := by
  obtain ⟨h1, h2, h3⟩ :=
    InternalResetReconstruction_counts s env.hrResetOnTimeStamp env.timeResetOnTimeStamp
  unfold ProcessDepth.timeStampGuard
  simp only [SetStatusMessage]
  split_ifs <;> simp [h1, h2, h3]

/-- The tracking step when alignment fails: the counter goes up by one, the tracking flag is
set and nothing else of the tracking state changes. -/
theorem track_of_failed (sdk : Sdk) (s : KinectFusionProcessor K) (env : ProcessDepthEnv K)
    (hr : HRESULT) (h : FAILED env.tracking = true) :
    (ProcessDepth.track sdk s env hr).2.m_cLostFrameCounter = s.m_cLostFrameCounter + 1 ∧
    (ProcessDepth.track sdk s env hr).2.m_bTrackingFailed = true ∧
    (ProcessDepth.track sdk s env hr).2.m_worldToCameraTransform =
      s.m_worldToCameraTransform ∧
    (ProcessDepth.track sdk s env hr).2.m_pVolume = s.m_pVolume ∧
    (ProcessDepth.track sdk s env hr).2.m_pDepthImagePixelBuffer =
      s.m_pDepthImagePixelBuffer ∧
    (ProcessDepth.track sdk s env hr).2.m_cLastFrameTimeStamp = s.m_cLastFrameTimeStamp ∧
    (ProcessDepth.track sdk s env hr).2.m_paramsCurrent = s.m_paramsCurrent ∧
    (ProcessDepth.track sdk s env hr).2.trace =
      s.trace ++ [Event.AlignDepthFloatToReconstruction] := by
  unfold ProcessDepth.track
  simp only [h, if_true, SetStatusMessage, KinectFusionProcessor.log]
  split_ifs <;> simp

/-- The tracking step when alignment succeeds: the pose reported by the volume is stored, the
counter is cleared and the tracking flag is reset. -/
theorem track_of_succeeded (sdk : Sdk) (s : KinectFusionProcessor K) (env : ProcessDepthEnv K)
    (hr : HRESULT) (h : FAILED env.tracking = false) :
    (ProcessDepth.track sdk s env hr).1 = hr ∧
    (ProcessDepth.track sdk s env hr).2.m_cLostFrameCounter = 0 ∧
    (ProcessDepth.track sdk s env hr).2.m_bTrackingFailed = false ∧
    (ProcessDepth.track sdk s env hr).2.m_worldToCameraTransform =
      env.currentWorldToCameraTransform ∧
    (ProcessDepth.track sdk s env hr).2.m_pVolume = s.m_pVolume ∧
    (ProcessDepth.track sdk s env hr).2.m_pDepthImagePixelBuffer =
      s.m_pDepthImagePixelBuffer ∧
    (ProcessDepth.track sdk s env hr).2.m_cLastFrameTimeStamp = s.m_cLastFrameTimeStamp ∧
    (ProcessDepth.track sdk s env hr).2.m_paramsCurrent = s.m_paramsCurrent ∧
    (ProcessDepth.track sdk s env hr).2.trace =
      s.trace ++ [Event.AlignDepthFloatToReconstruction,
        Event.GetCurrentWorldToCameraTransform] := by
  unfold ProcessDepth.track
  simp [h, KinectFusionProcessor.log]

/-- The integration step: `IntegrateFrame` is called exactly when the tracking flag and the
pause flag are both false at that point; the tracking state is kept. -/
theorem integrate_spec (s : KinectFusionProcessor K) (env : ProcessDepthEnv K) (hr : HRESULT) :
    (ProcessDepth.integrate s env hr).2.m_cLostFrameCounter = s.m_cLostFrameCounter ∧
    (ProcessDepth.integrate s env hr).2.m_bTrackingFailed = s.m_bTrackingFailed ∧
    (ProcessDepth.integrate s env hr).2.m_worldToCameraTransform =
      s.m_worldToCameraTransform ∧
    (ProcessDepth.integrate s env hr).2.m_pVolume = s.m_pVolume ∧
    (ProcessDepth.integrate s env hr).2.m_pDepthImagePixelBuffer =
      s.m_pDepthImagePixelBuffer ∧
    (ProcessDepth.integrate s env hr).2.m_cLastFrameTimeStamp = s.m_cLastFrameTimeStamp ∧
    (ProcessDepth.integrate s env hr).2.m_paramsCurrent = s.m_paramsCurrent ∧
    s.trace <+: (ProcessDepth.integrate s env hr).2.trace ∧
    resetCount (ProcessDepth.integrate s env hr).2.trace = resetCount s.trace ∧
    integrateCount (ProcessDepth.integrate s env hr).2.trace =
      integrateCount s.trace +
        (if (!s.m_bTrackingFailed && !s.m_paramsCurrent.m_bPauseIntegration) = true
          then 1 else 0) := by
  unfold ProcessDepth.integrate
  by_cases c : (!s.m_bTrackingFailed && !s.m_paramsCurrent.m_bPauseIntegration) = true
  · simp only [c, if_true]
    by_cases f : FAILED env.hrIntegrateFrame = true
    · simp [f, SetStatusMessage, KinectFusionProcessor.log, resetCount, integrateCount,
        Event.isInternalReset, Event.isIntegrateFrame]
    · simp only [f, if_false, Bool.false_eq_true]
      have h := raycast_sameTracking
        (s.log (Event.IntegrateFrame s.m_paramsCurrent.m_cMaxIntegrationWeight
          s.m_worldToCameraTransform)) env env.hrIntegrateFrame
      refine ⟨h.lost, h.failed, h.pose, h.volume, h.buffer, h.stamp, h.params, ?_, ?_, ?_⟩
      · exact (List.prefix_append _ _).trans h.grows
      · rw [h.resets]
        simp [resetCount, Event.isInternalReset]
      · rw [h.integrates]
        simp [integrateCount, Event.isIntegrateFrame]
  · simp only [c, if_false, Bool.false_eq_true]
    have h := raycast_sameTracking s env hr
    exact ⟨h.lost, h.failed, h.pose, h.volume, h.buffer, h.stamp, h.params, h.grows,
      h.resets, by rw [h.integrates]; simp⟩

/-- Without the automatic reset the stage is the integration step. -/
theorem resetWhenLost_of_not_due (s : KinectFusionProcessor K) (env : ProcessDepthEnv K)
    (hr : HRESULT) (h : ProcessDepth.lostTooLong s = false) :
    ProcessDepth.resetWhenLost s env hr = ProcessDepth.integrate s env hr := by
  unfold ProcessDepth.resetWhenLost
  simp [h]

/-- The automatic reset, on every path: one more invocation of `InternalResetReconstruction`;
the volume, the pixel buffer and the last timestamp are kept. -/
theorem resetWhenLost_of_due (s : KinectFusionProcessor K) (env : ProcessDepthEnv K)
    (hr : HRESULT) (h : ProcessDepth.lostTooLong s = true) :
    (ProcessDepth.resetWhenLost s env hr).2.m_pVolume = s.m_pVolume ∧
    (ProcessDepth.resetWhenLost s env hr).2.m_pDepthImagePixelBuffer =
      s.m_pDepthImagePixelBuffer ∧
    (ProcessDepth.resetWhenLost s env hr).2.m_cLastFrameTimeStamp = s.m_cLastFrameTimeStamp ∧
    s.trace <+: (ProcessDepth.resetWhenLost s env hr).2.trace ∧
    resetCount (ProcessDepth.resetWhenLost s env hr).2.trace = resetCount s.trace + 1 := by
  obtain ⟨k1, k2, k3⟩ :=
    InternalResetReconstruction_keeps s env.hrResetWhenLost env.timeResetWhenLost
  obtain ⟨c1, c2, -⟩ :=
    InternalResetReconstruction_counts s env.hrResetWhenLost env.timeResetWhenLost
  unfold ProcessDepth.resetWhenLost
  simp only [h, if_true]
  split_ifs
  · have i := integrate_spec
      (SetStatusMessage (InternalResetReconstruction s env.hrResetWhenLost
        env.timeResetWhenLost).2
        "Kinect Fusion camera tracking failed, automatically reset volume.") env
      (InternalResetReconstruction s env.hrResetWhenLost env.timeResetWhenLost).1
    obtain ⟨-, -, -, i4, i5, i6, -, i8, i9, -⟩ := i
    refine ⟨i4.trans k1, i5.trans k2, i6.trans k3, c1.trans i8, ?_⟩
    rw [i9]
    exact c2
  · exact ⟨k1, k2, k3, c1, c2⟩

/-- The automatic reset when a volume exists and the volume reset succeeds: tracking is
restored, the counter is cleared, the pose is the identity, and the frame is integrated. -/
theorem resetWhenLost_of_due_ok (s : KinectFusionProcessor K) (env : ProcessDepthEnv K)
    (hr : HRESULT) (h : ProcessDepth.lostTooLong s = true)
    (hvol : s.m_pVolume.isSome = true) (hok : SUCCEEDED env.hrResetWhenLost = true) :
    (ProcessDepth.resetWhenLost s env hr).2.m_bTrackingFailed = false ∧
    (ProcessDepth.resetWhenLost s env hr).2.m_cLostFrameCounter = 0 ∧
    (ProcessDepth.resetWhenLost s env hr).2.m_worldToCameraTransform =
      SetIdentityMatrix s.m_worldToCameraTransform ∧
    integrateCount (ProcessDepth.resetWhenLost s env hr).2.trace =
      integrateCount s.trace + 1 := by
  obtain ⟨o1, o2, o3, -, o5, -, -, -, o9⟩ :=
    InternalResetReconstruction_ok s env.hrResetWhenLost env.timeResetWhenLost hvol hok
  obtain ⟨-, -, c3⟩ :=
    InternalResetReconstruction_counts s env.hrResetWhenLost env.timeResetWhenLost
  unfold ProcessDepth.resetWhenLost
  simp only [h, if_true, o1, hok]
  obtain ⟨i1, i2, i3, -, -, -, -, -, -, i10⟩ := integrate_spec
      (SetStatusMessage (InternalResetReconstruction s env.hrResetWhenLost
        env.timeResetWhenLost).2
        "Kinect Fusion camera tracking failed, automatically reset volume.") env
      env.hrResetWhenLost
  refine ⟨i2.trans o2, i1.trans o3, i3.trans o9, ?_⟩
  rw [i10]
  simp only [SetStatusMessage, o2, o5, c3]
  simp

/-- The body of `ProcessDepth` when the frame is acquired and copied. -/
theorem body_of_frameCopied (sdk : Sdk) (s : KinectFusionProcessor K) (env : ProcessDepthEnv K)
    (hbuf : s.m_pDepthImagePixelBuffer = true) (hcopy : env.frameCopied = true) :
    ProcessDepth.body sdk s env =
      if FAILED env.hrDepthToDepthFloat then
        (⟨env.hrDepthToDepthFloat, false, false⟩,
          SetStatusMessage (convertedState s env)
            "Kinect Fusion NuiFusionDepthToDepthFloatFrame call failed.")
      else if (convertedState s env).m_pVolume.isNone then
        (⟨env.hrDepthToDepthFloat, true, false⟩,
          SetStatusMessage (convertedState s env)
            ("Kinect Fusion reconstruction volume not initialized. " ++
              "Please try reducing volume size or restarting."))
      else
        ProcessDepth.resetWhenLost
          (ProcessDepth.track sdk (convertedState s env) env env.hrDepthToDepthFloat).2 env
          (ProcessDepth.track sdk (convertedState s env) env env.hrDepthToDepthFloat).1 := by
  simp only [ProcessDepthEnv.frameCopied, Bool.and_eq_true, Bool.not_eq_true',
    bne_iff_ne, ne_eq, beq_iff_eq] at hcopy
  obtain ⟨⟨⟨⟨h1, h2⟩, h3⟩, h4⟩, h5⟩ := hcopy
  unfold ProcessDepth.body CopyExtendedDepth
  simp [h1, h2, h3, h4, h5, hbuf, KinectFusionProcessor.log, convertedState, acquiredState]

theorem log_sameTracking (s : KinectFusionProcessor K) (e : Event K)
    (h1 : e.isInternalReset = false) (h2 : e.isIntegrateFrame = false) :
    SameTracking s (s.log e) := by
  constructor <;> simp [KinectFusionProcessor.log, resetCount, integrateCount, h1, h2]

/-- Copying the depth pixels leaves the tracking state alone. -/
theorem CopyExtendedDepth_sameTracking (s : KinectFusionProcessor K)
    (env : ProcessDepthEnv K) : SameTracking s (CopyExtendedDepth s env).2 := by
  unfold CopyExtendedDepth
  simp only [KinectFusionProcessor.log, SetStatusMessage]
  split_ifs <;> constructor <;>
    simp [resetCount, integrateCount, Event.isInternalReset, Event.isIntegrateFrame]

/-- The trace of the second state is the trace of the first followed by the calls made in
between, when the first is a prefix of the second. -/
theorem trace_eq_append_eventsSince {s s' : KinectFusionProcessor K}
    (h : s.trace <+: s'.trace) : s'.trace = s.trace ++ eventsSince s s' := by
  obtain ⟨evs, he⟩ := h
  simp [eventsSince, ← he]

/-- A kind of call occurs between two states exactly when its count goes up. -/
theorem any_eventsSince_iff {s s' : KinectFusionProcessor K} (p : Event K → Bool)
    (h : s.trace <+: s'.trace) :
    (eventsSince s s').any p = true ↔ s'.trace.countP p ≠ s.trace.countP p := by
  have e := trace_eq_append_eventsSince h
  rw [e, List.countP_append, List.any_eq_true]
  constructor
  · intro hx
    have : 0 < List.countP p (eventsSince s s') := List.countP_pos_iff.mpr hx
    omega
  · intro hx
    have : 0 < List.countP p (eventsSince s s') := by omega
    exact List.countP_pos_iff.mp this

/-- Fields of the state in which the tracking step is entered. -/
theorem convertedState_keeps (s : KinectFusionProcessor K) (env : ProcessDepthEnv K) :
    (convertedState s env).m_cLastFrameTimeStamp = env.liTimeStamp ∧
    (convertedState s env).m_pVolume = s.m_pVolume ∧
    (convertedState s env).m_pDepthImagePixelBuffer = s.m_pDepthImagePixelBuffer ∧
    s.trace <+: (convertedState s env).trace ∧
    resetCount (convertedState s env).trace =
      resetCount s.trace +
        (if ProcessDepth.timeStampSkipped s env.liTimeStamp then 1 else 0) ∧
    integrateCount (convertedState s env).trace = integrateCount s.trace := by
  obtain ⟨k1, k2, k3⟩ := timeStampGuard_keeps (acquiredState s) env env.liTimeStamp
  obtain ⟨c1, c2, c3⟩ := timeStampGuard_counts (acquiredState s) env env.liTimeStamp
  have hs : ProcessDepth.timeStampSkipped (acquiredState s) env.liTimeStamp =
      ProcessDepth.timeStampSkipped s env.liTimeStamp := rfl
  have ha : s.trace <+: (acquiredState s).trace := by
    simp [acquiredState, KinectFusionProcessor.log]
  have hr : resetCount (acquiredState s).trace = resetCount s.trace := by
    simp [acquiredState, KinectFusionProcessor.log, resetCount, Event.isInternalReset]
  have hi : integrateCount (acquiredState s).trace = integrateCount s.trace := by
    simp [acquiredState, KinectFusionProcessor.log, integrateCount, Event.isIntegrateFrame]
  unfold convertedState
  refine ⟨k1, k2, k3, ?_, ?_, ?_⟩
  · exact (ha.trans c1).trans (by simp [KinectFusionProcessor.log])
  · simp only [log_trace, resetCount_append, c2, hs, hr]
    simp [resetCount, Event.isInternalReset]
  · simp only [log_trace, integrateCount_append, c3, hi]
    simp [integrateCount, Event.isIntegrateFrame]

/-- When the timestamp test is negative, the tracking step is entered with the tracking state
of the start of the iteration. -/
theorem convertedState_of_not_skipped (s : KinectFusionProcessor K) (env : ProcessDepthEnv K)
    (h : ProcessDepth.timeStampSkipped s env.liTimeStamp = false) :
    (convertedState s env).m_cLostFrameCounter = s.m_cLostFrameCounter ∧
    (convertedState s env).m_bTrackingFailed = s.m_bTrackingFailed ∧
    (convertedState s env).m_worldToCameraTransform = s.m_worldToCameraTransform ∧
    (convertedState s env).m_paramsCurrent = s.m_paramsCurrent := by
  have hs : ProcessDepth.timeStampSkipped (acquiredState s) env.liTimeStamp = false := h
  unfold convertedState
  rw [timeStampGuard_of_not_skipped _ _ _ hs]
  simp [acquiredState, KinectFusionProcessor.log]

/-- The trace only grows in the body of `ProcessDepth`, and if it gains a call of
`IntegrateFrame` without gaining an invocation of `InternalResetReconstruction`, then
alignment did not fail and the pause flag was false on entry. -/
theorem body_gating (sdk : Sdk) (s : KinectFusionProcessor K) (env : ProcessDepthEnv K) :
    s.trace <+: (ProcessDepth.body sdk s env).2.trace ∧
    (integrateCount (ProcessDepth.body sdk s env).2.trace ≠ integrateCount s.trace →
      resetCount (ProcessDepth.body sdk s env).2.trace = resetCount s.trace →
      FAILED env.tracking = false ∧ s.m_paramsCurrent.m_bPauseIntegration = false) := by
  unfold ProcessDepth.body
  by_cases g : FAILED env.hrGetNextFrame = true
  · simp [g, SetStatusMessage, KinectFusionProcessor.log, integrateCount,
      Event.isIntegrateFrame]
  simp only [g, if_false, Bool.false_eq_true]
  -- the state when the frame has been released
  have h0 : SameTracking s
      ((CopyExtendedDepth (s.log Event.NuiImageStreamGetNextFrame) env).2.log
        Event.NuiImageStreamReleaseFrame) :=
    ((log_sameTracking s Event.NuiImageStreamGetNextFrame rfl rfl).trans
      (CopyExtendedDepth_sameTracking _ env)).trans
      (log_sameTracking _ Event.NuiImageStreamReleaseFrame rfl rfl)
  generalize ((CopyExtendedDepth (s.log Event.NuiImageStreamGetNextFrame) env).2.log
        Event.NuiImageStreamReleaseFrame) = s0 at h0 ⊢
  by_cases c : FAILED (CopyExtendedDepth (s.log Event.NuiImageStreamGetNextFrame) env).1 = true
  · simp only [c, if_true]
    exact ⟨h0.grows, fun h => absurd h0.integrates h⟩
  simp only [c, if_false, Bool.false_eq_true]
  -- the state after the timestamp guard and the conversion call
  obtain ⟨c1, c2, c3⟩ := timeStampGuard_counts s0 env env.liTimeStamp
  have h1 : s.trace <+:
      ((ProcessDepth.timeStampGuard s0 env env.liTimeStamp).log
        Event.NuiFusionDepthToDepthFloatFrame).trace :=
    (h0.grows.trans c1).trans (by simp [KinectFusionProcessor.log])
  have r1 : resetCount ((ProcessDepth.timeStampGuard s0 env env.liTimeStamp).log
        Event.NuiFusionDepthToDepthFloatFrame).trace =
      resetCount s.trace + (if ProcessDepth.timeStampSkipped s0 env.liTimeStamp then 1 else 0) := by
    simp only [log_trace, resetCount_append, c2, h0.resets]
    simp [resetCount, Event.isInternalReset]
  have i1 : integrateCount ((ProcessDepth.timeStampGuard s0 env env.liTimeStamp).log
        Event.NuiFusionDepthToDepthFloatFrame).trace = integrateCount s.trace := by
    simp only [log_trace, integrateCount_append, c3, h0.integrates]
    simp [integrateCount, Event.isIntegrateFrame]
  have p1 : ProcessDepth.timeStampSkipped s0 env.liTimeStamp = false →
      ((ProcessDepth.timeStampGuard s0 env env.liTimeStamp).log
        Event.NuiFusionDepthToDepthFloatFrame).m_paramsCurrent = s.m_paramsCurrent := by
    intro hs
    rw [timeStampGuard_of_not_skipped _ _ _ hs]
    simp [KinectFusionProcessor.log, h0.params]
  generalize ((ProcessDepth.timeStampGuard s0 env env.liTimeStamp).log
        Event.NuiFusionDepthToDepthFloatFrame) = s1 at h1 r1 i1 p1 ⊢
  by_cases d : FAILED env.hrDepthToDepthFloat = true
  · simp only [d, if_true, SetStatusMessage]
    exact ⟨h1, fun h => absurd i1 h⟩
  simp only [d, if_false, Bool.false_eq_true]
  by_cases v : s1.m_pVolume.isNone = true
  · simp only [v, if_true, SetStatusMessage]
    exact ⟨h1, fun h => absurd i1 h⟩
  simp only [v, if_false, Bool.false_eq_true]
  -- the tracking step
  have ht : s1.trace <+: (ProcessDepth.track sdk s1 env env.hrDepthToDepthFloat).2.trace ∧
      resetCount (ProcessDepth.track sdk s1 env env.hrDepthToDepthFloat).2.trace =
        resetCount s1.trace ∧
      integrateCount (ProcessDepth.track sdk s1 env env.hrDepthToDepthFloat).2.trace =
        integrateCount s1.trace ∧
      (ProcessDepth.track sdk s1 env env.hrDepthToDepthFloat).2.m_paramsCurrent =
        s1.m_paramsCurrent ∧
      (ProcessDepth.track sdk s1 env env.hrDepthToDepthFloat).2.m_bTrackingFailed =
        FAILED env.tracking := by
    by_cases f : FAILED env.tracking = true
    · obtain ⟨-, t2, -, -, -, -, t7, t8⟩ :=
        track_of_failed sdk s1 env env.hrDepthToDepthFloat f
      rw [t8, t2, t7, f]
      simp [resetCount, integrateCount, Event.isInternalReset, Event.isIntegrateFrame]
    · have f' : FAILED env.tracking = false := by simpa using f
      obtain ⟨-, -, t3, -, -, -, -, t8, t9⟩ :=
        track_of_succeeded sdk s1 env env.hrDepthToDepthFloat f'
      rw [t9, t3, t8, f']
      simp [resetCount, integrateCount, Event.isInternalReset, Event.isIntegrateFrame]
  obtain ⟨t1, t2, t3, t4, t5⟩ := ht
  generalize (ProcessDepth.track sdk s1 env env.hrDepthToDepthFloat).2 = s2 at t1 t2 t3 t4 t5 ⊢
  generalize (ProcessDepth.track sdk s1 env env.hrDepthToDepthFloat).1 = hr2
  by_cases a : ProcessDepth.lostTooLong s2 = true
  · obtain ⟨-, -, -, a4, a5⟩ := resetWhenLost_of_due s2 env hr2 a
    refine ⟨(h1.trans t1).trans a4, fun _ hreset => ?_⟩
    rw [a5, t2, r1] at hreset
    omega
  · have a' : ProcessDepth.lostTooLong s2 = false := by simpa using a
    rw [resetWhenLost_of_not_due s2 env hr2 a']
    obtain ⟨-, -, -, -, -, -, -, i8, i9, i10⟩ := integrate_spec s2 env hr2
    refine ⟨(h1.trans t1).trans i8, fun hint hreset => ?_⟩
    rw [i9, t2, r1] at hreset
    have hs : ProcessDepth.timeStampSkipped s0 env.liTimeStamp = false := by
      by_contra hc
      simp only [Bool.not_eq_false] at hc
      simp [hc] at hreset
    rw [i10, t3, i1] at hint
    have hcond : (!s2.m_bTrackingFailed && !s2.m_paramsCurrent.m_bPauseIntegration) = true := by
      by_contra hc
      simp [hc] at hint
    rw [t5, t4, p1 hs] at hcond
    simpa using hcond

/-- From the tracking step on, the volume, the pixel buffer and the last timestamp are kept
and the trace only grows. -/
theorem fusion_keeps (sdk : Sdk) (s : KinectFusionProcessor K) (env : ProcessDepthEnv K)
    (hr : HRESULT) :
    (ProcessDepth.resetWhenLost (ProcessDepth.track sdk s env hr).2 env
      (ProcessDepth.track sdk s env hr).1).2.m_pVolume = s.m_pVolume ∧
    (ProcessDepth.resetWhenLost (ProcessDepth.track sdk s env hr).2 env
      (ProcessDepth.track sdk s env hr).1).2.m_pDepthImagePixelBuffer =
        s.m_pDepthImagePixelBuffer ∧
    (ProcessDepth.resetWhenLost (ProcessDepth.track sdk s env hr).2 env
      (ProcessDepth.track sdk s env hr).1).2.m_cLastFrameTimeStamp =
        s.m_cLastFrameTimeStamp ∧
    s.trace <+: (ProcessDepth.resetWhenLost (ProcessDepth.track sdk s env hr).2 env
      (ProcessDepth.track sdk s env hr).1).2.trace := by
  have ht : (ProcessDepth.track sdk s env hr).2.m_pVolume = s.m_pVolume ∧
      (ProcessDepth.track sdk s env hr).2.m_pDepthImagePixelBuffer =
        s.m_pDepthImagePixelBuffer ∧
      (ProcessDepth.track sdk s env hr).2.m_cLastFrameTimeStamp = s.m_cLastFrameTimeStamp ∧
      s.trace <+: (ProcessDepth.track sdk s env hr).2.trace := by
    by_cases f : FAILED env.tracking = true
    · obtain ⟨-, -, -, t4, t5, t6, -, t8⟩ := track_of_failed sdk s env hr f
      exact ⟨t4, t5, t6, by rw [t8]; exact List.prefix_append _ _⟩
    · have f' : FAILED env.tracking = false := by simpa using f
      obtain ⟨-, -, -, -, t5, t6, t7, -, t9⟩ := track_of_succeeded sdk s env hr f'
      exact ⟨t5, t6, t7, by rw [t9]; exact List.prefix_append _ _⟩
  obtain ⟨t1, t2, t3, t4⟩ := ht
  generalize (ProcessDepth.track sdk s env hr).2 = s2 at t1 t2 t3 t4 ⊢
  generalize (ProcessDepth.track sdk s env hr).1 = hr2
  by_cases a : ProcessDepth.lostTooLong s2 = true
  · obtain ⟨a1, a2, a3, a4, -⟩ := resetWhenLost_of_due s2 env hr2 a
    exact ⟨a1.trans t1, a2.trans t2, a3.trans t3, t4.trans a4⟩
  · have a' : ProcessDepth.lostTooLong s2 = false := by simpa using a
    rw [resetWhenLost_of_not_due s2 env hr2 a']
    obtain ⟨-, -, -, i4, i5, i6, -, i8, -, -⟩ := integrate_spec s2 env hr2
    exact ⟨i4.trans t1, i5.trans t2, i6.trans t3, t4.trans i8⟩

/-- An iteration that acquires and copies a depth frame stores its timestamp, keeps the volume
and the pixel buffer, and its trace extends the trace built up to the depth conversion. -/
theorem ProcessDepth_of_frameCopied [FloorRing K] (sdk : Sdk) (s : KinectFusionProcessor K)
    (env : ProcessDepthEnv K) (hbuf : s.m_pDepthImagePixelBuffer = true)
    (hcopy : env.frameCopied = true) :
    (ProcessDepth sdk s env).m_cLastFrameTimeStamp = env.liTimeStamp ∧
    (ProcessDepth sdk s env).m_pVolume = s.m_pVolume ∧
    (ProcessDepth sdk s env).m_pDepthImagePixelBuffer = true ∧
    (convertedState s env).trace <+: (ProcessDepth sdk s env).trace := by
  obtain ⟨k1, k2, k3, -, -, -⟩ := convertedState_keeps s env
  have hb : (ProcessDepth.body sdk s env).2.m_cLastFrameTimeStamp = env.liTimeStamp ∧
      (ProcessDepth.body sdk s env).2.m_pVolume = s.m_pVolume ∧
      (ProcessDepth.body sdk s env).2.m_pDepthImagePixelBuffer = true ∧
      (convertedState s env).trace <+: (ProcessDepth.body sdk s env).2.trace := by
    rw [body_of_frameCopied sdk s env hbuf hcopy]
    split_ifs
    · exact ⟨k1, k2, k3.trans hbuf, List.prefix_refl _⟩
    · exact ⟨k1, k2, k3.trans hbuf, List.prefix_refl _⟩
    · obtain ⟨f1, f2, f3, f4⟩ :=
        fusion_keeps sdk (convertedState s env) env env.hrDepthToDepthFloat
      exact ⟨f3.trans k1, f1.trans k2, (f2.trans k3).trans hbuf, f4⟩
  obtain ⟨b1, b2, b3, b4⟩ := hb
  have hf := FinishFrame_sameTracking (ProcessDepth.body sdk s env).2 env
    (ProcessDepth.body sdk s env).1
  unfold ProcessDepth
  exact ⟨hf.stamp.trans b1, hf.volume.trans b2, hf.buffer.trans b3, b4.trans hf.grows⟩

/-- The trace only grows in `ProcessDepth`. -/
theorem ProcessDepth_trace_grows [FloorRing K] (sdk : Sdk) (s : KinectFusionProcessor K)
    (env : ProcessDepthEnv K) : s.trace <+: (ProcessDepth sdk s env).trace := by
  have hf := FinishFrame_sameTracking (ProcessDepth.body sdk s env).2 env
    (ProcessDepth.body sdk s env).1
  exact (body_gating sdk s env).1.trans hf.grows

/-- C10, amended with the frame-counter gate. In every iteration of `ProcessDepth` that
acquires and copies a depth frame, the stored timestamp is replaced by the timestamp of the
new frame; the threshold is 6000 for the CPU processor type and 1000 for every other type; and
if the frame counter is positive and the absolute difference between the new and the stored
timestamp is greater than the threshold, `InternalResetReconstruction` is invoked before the
depth-to-float conversion. -/
theorem ProcessDepth_timestamp_guard [FloorRing K] (sdk : Sdk) (s : KinectFusionProcessor K)
    (env : ProcessDepthEnv K) (hbuf : s.m_pDepthImagePixelBuffer = true)
    (hcopy : env.frameCopied = true) :
    (ProcessDepth sdk s env).m_cLastFrameTimeStamp = env.liTimeStamp ∧
    ProcessDepth.cResetOnTimeStampSkippedMilliseconds s =
      (if s.m_paramsCurrent.m_processorType =
          NUI_FUSION_RECONSTRUCTION_PROCESSOR_TYPE.NUI_FUSION_RECONSTRUCTION_PROCESSOR_TYPE_CPU
        then 6000 else 1000) ∧
    (s.m_cFrameCounter > 0 →
      |env.liTimeStamp - s.m_cLastFrameTimeStamp| >
        ProcessDepth.cResetOnTimeStampSkippedMilliseconds s →
      ∃ pre post,
        eventsSince s (ProcessDepth sdk s env) =
          pre ++ Event.InternalResetReconstruction :: post ∧
        Event.NuiFusionDepthToDepthFloatFrame ∉ pre ∧
        Event.NuiFusionDepthToDepthFloatFrame ∈ post) := by
  obtain ⟨h1, -, -, h4⟩ := ProcessDepth_of_frameCopied sdk s env hbuf hcopy
  refine ⟨h1, rfl, fun hc hd => ?_⟩
  have hs : ProcessDepth.timeStampSkipped (acquiredState s) env.liTimeStamp = true := by
    simp only [ProcessDepth.timeStampSkipped, Bool.and_eq_true, decide_eq_true_eq]
    exact ⟨hc, hd⟩
  obtain ⟨evs, he⟩ := timeStampGuard_of_skipped (acquiredState s) env env.liTimeStamp hs
  obtain ⟨rest, hrest⟩ := h4
  refine ⟨[Event.NuiImageStreamGetNextFrame, Event.NuiImageFrameGetDepthImagePixelFrameTexture,
    Event.NuiImageStreamReleaseFrame], evs ++ Event.NuiFusionDepthToDepthFloatFrame :: rest,
    ?_, by simp, by simp⟩
  unfold eventsSince
  rw [← hrest]
  simp only [convertedState, log_trace, he]
  simp [acquiredState, KinectFusionProcessor.log]

/-- The integration gate inside `ProcessDepth`: in every call of `ProcessDepth` in which
`InternalResetReconstruction` is not invoked, the volume method `IntegrateFrame` is invoked
only if the alignment performed in that call did not fail and the pause flag of
`m_paramsCurrent` on entry to `ProcessDepth` is false. (A reset that succeeds clears the
tracking flag and the pause flag, and the frame is then integrated whatever alignment and the
pause flag were.) -/
theorem ProcessDepth_integration_gating [FloorRing K] (sdk : Sdk)
    (s : KinectFusionProcessor K) (env : ProcessDepthEnv K)
    (hnoreset : (eventsSince s (ProcessDepth sdk s env)).any Event.isInternalReset = false)
    (hint : (eventsSince s (ProcessDepth sdk s env)).any Event.isIntegrateFrame = true) :
    FAILED env.tracking = false ∧ s.m_paramsCurrent.m_bPauseIntegration = false := by
  have hp := ProcessDepth_trace_grows sdk s env
  have hf := FinishFrame_sameTracking (ProcessDepth.body sdk s env).2 env
    (ProcessDepth.body sdk s env).1
  have hi := (any_eventsSince_iff Event.isIntegrateFrame hp).mp hint
  have hr : List.countP Event.isInternalReset (ProcessDepth sdk s env).trace =
      List.countP Event.isInternalReset s.trace := by
    by_contra hc
    have := (any_eventsSince_iff Event.isInternalReset hp).mpr hc
    rw [hnoreset] at this
    exact Bool.false_ne_true this
  apply (body_gating sdk s env).2
  · intro hc
    apply hi
    have := hf.integrates
    unfold integrateCount at this hc
    unfold ProcessDepth
    rw [this, hc]
  · have := hf.resets
    unfold resetCount at this ⊢
    unfold ProcessDepth at hr
    rw [← this, hr]

/-- The body of `ProcessDepth` when the frame is acquired, copied and converted and a volume
exists: the tracking step is entered in the converted state, and the automatic reset and the
integration follow. -/
theorem body_of_frameConverted (sdk : Sdk) (s : KinectFusionProcessor K)
    (env : ProcessDepthEnv K) (hbuf : s.m_pDepthImagePixelBuffer = true)
    (hconv : env.frameConverted = true) (hvol : s.m_pVolume.isSome = true) :
    ProcessDepth.body sdk s env =
      ProcessDepth.resetWhenLost
        (ProcessDepth.track sdk (convertedState s env) env env.hrDepthToDepthFloat).2 env
        (ProcessDepth.track sdk (convertedState s env) env env.hrDepthToDepthFloat).1 := by
  simp only [ProcessDepthEnv.frameConverted, Bool.and_eq_true, Bool.not_eq_true'] at hconv
  obtain ⟨hcopy, hd⟩ := hconv
  obtain ⟨-, k2, -, -, -, -⟩ := convertedState_keeps s env
  have hv : (convertedState s env).m_pVolume.isNone = false := by
    rw [k2]
    cases h : s.m_pVolume <;> simp_all
  rw [body_of_frameCopied sdk s env hbuf hcopy]
  simp [hd, hv]

/-- C9. Tracking step: in an iteration of `ProcessDepth` that acquires, copies and converts a
depth frame with a volume present, the tracking step is executed, and
(1) if alignment succeeds, the stored world-to-camera pose is the pose reported by the volume,
the lost-frame counter is 0 and the tracking flag is false, right after the step and at the
end of the iteration;
(2) if alignment fails, with any failure code, the step increases the lost-frame counter by
exactly 1, sets the tracking flag and leaves the pose unchanged; and when no reset is invoked
in the iteration, the iteration ends with the pose it started with, the counter increased by
exactly 1 and the tracking flag set. -/
theorem ProcessDepth_tracking_step [FloorRing K] (sdk : Sdk) (s : KinectFusionProcessor K)
    (env : ProcessDepthEnv K) (hbuf : s.m_pDepthImagePixelBuffer = true)
    (hconv : env.frameConverted = true) (hvol : s.m_pVolume.isSome = true) :
    ProcessDepth.body sdk s env =
      ProcessDepth.resetWhenLost
        (ProcessDepth.track sdk (convertedState s env) env env.hrDepthToDepthFloat).2 env
        (ProcessDepth.track sdk (convertedState s env) env env.hrDepthToDepthFloat).1 ∧
    (FAILED env.tracking = false →
      ((ProcessDepth.track sdk (convertedState s env) env
          env.hrDepthToDepthFloat).2.m_worldToCameraTransform =
          env.currentWorldToCameraTransform ∧
        (ProcessDepth.track sdk (convertedState s env) env
          env.hrDepthToDepthFloat).2.m_cLostFrameCounter = 0 ∧
        (ProcessDepth.track sdk (convertedState s env) env
          env.hrDepthToDepthFloat).2.m_bTrackingFailed = false) ∧
      (ProcessDepth sdk s env).m_worldToCameraTransform = env.currentWorldToCameraTransform ∧
      (ProcessDepth sdk s env).m_cLostFrameCounter = 0 ∧
      (ProcessDepth sdk s env).m_bTrackingFailed = false) ∧
    (FAILED env.tracking = true →
      ((ProcessDepth.track sdk (convertedState s env) env
          env.hrDepthToDepthFloat).2.m_cLostFrameCounter =
          (convertedState s env).m_cLostFrameCounter + 1 ∧
        (ProcessDepth.track sdk (convertedState s env) env
          env.hrDepthToDepthFloat).2.m_bTrackingFailed = true ∧
        (ProcessDepth.track sdk (convertedState s env) env
          env.hrDepthToDepthFloat).2.m_worldToCameraTransform =
          (convertedState s env).m_worldToCameraTransform) ∧
      ((eventsSince s (ProcessDepth sdk s env)).any Event.isInternalReset = false →
        (ProcessDepth sdk s env).m_worldToCameraTransform = s.m_worldToCameraTransform ∧
        (ProcessDepth sdk s env).m_cLostFrameCounter = s.m_cLostFrameCounter + 1 ∧
        (ProcessDepth sdk s env).m_bTrackingFailed = true)) := by
  have hbody := body_of_frameConverted sdk s env hbuf hconv hvol
  obtain ⟨-, -, -, -, k5, -⟩ := convertedState_keeps s env
  have hf := FinishFrame_sameTracking (ProcessDepth.body sdk s env).2 env
    (ProcessDepth.body sdk s env).1
  refine ⟨hbody, fun hok => ?_, fun hfail => ?_⟩
  · obtain ⟨-, t2, t3, t4, -, -, -, -, -⟩ :=
      track_of_succeeded sdk (convertedState s env) env env.hrDepthToDepthFloat hok
    refine ⟨⟨t4, t2, t3⟩, ?_⟩
    have a : ProcessDepth.lostTooLong
        (ProcessDepth.track sdk (convertedState s env) env env.hrDepthToDepthFloat).2
          = false := by
      simp [ProcessDepth.lostTooLong, t3]
    obtain ⟨i1, i2, i3, -, -, -, -, -, -, -⟩ := integrate_spec
      (ProcessDepth.track sdk (convertedState s env) env env.hrDepthToDepthFloat).2 env
      (ProcessDepth.track sdk (convertedState s env) env env.hrDepthToDepthFloat).1
    unfold ProcessDepth
    rw [hf.pose, hf.lost, hf.failed, hbody, resetWhenLost_of_not_due _ _ _ a]
    exact ⟨i3.trans t4, i1.trans t2, i2.trans t3⟩
  · obtain ⟨t1, t2, t3, -, -, -, -, t8⟩ :=
      track_of_failed sdk (convertedState s env) env env.hrDepthToDepthFloat hfail
    refine ⟨⟨t1, t2, t3⟩, fun hnoreset => ?_⟩
    have hp := ProcessDepth_trace_grows sdk s env
    have hr : resetCount (ProcessDepth.body sdk s env).2.trace = resetCount s.trace := by
      by_contra hc
      have hc' : List.countP Event.isInternalReset (ProcessDepth sdk s env).trace ≠
          List.countP Event.isInternalReset s.trace := by
        have := hf.resets
        unfold resetCount at this hc
        unfold ProcessDepth
        rw [this]
        exact hc
      have := (any_eventsSince_iff Event.isInternalReset hp).mpr hc'
      rw [hnoreset] at this
      exact Bool.false_ne_true this
    have rt : resetCount
        (ProcessDepth.track sdk (convertedState s env) env env.hrDepthToDepthFloat).2.trace =
        resetCount s.trace +
          (if ProcessDepth.timeStampSkipped s env.liTimeStamp then 1 else 0) := by
      rw [t8, resetCount_append, k5]
      simp [resetCount, Event.isInternalReset]
    have a : ProcessDepth.lostTooLong
        (ProcessDepth.track sdk (convertedState s env) env env.hrDepthToDepthFloat).2
          = false := by
      by_contra hc
      simp only [Bool.not_eq_false] at hc
      obtain ⟨-, -, -, -, a5⟩ := resetWhenLost_of_due _ env
        (ProcessDepth.track sdk (convertedState s env) env env.hrDepthToDepthFloat).1 hc
      rw [hbody, a5, rt] at hr
      omega
    obtain ⟨i1, i2, i3, -, -, -, -, -, i9, -⟩ := integrate_spec
      (ProcessDepth.track sdk (convertedState s env) env env.hrDepthToDepthFloat).2 env
      (ProcessDepth.track sdk (convertedState s env) env env.hrDepthToDepthFloat).1
    have hs : ProcessDepth.timeStampSkipped s env.liTimeStamp = false := by
      by_contra hc
      simp only [Bool.not_eq_false] at hc
      rw [hbody, resetWhenLost_of_not_due _ _ _ a, i9, rt] at hr
      simp [hc] at hr
    obtain ⟨n1, -, n3, -⟩ := convertedState_of_not_skipped s env hs
    unfold ProcessDepth
    rw [hf.pose, hf.lost, hf.failed, hbody, resetWhenLost_of_not_due _ _ _ a]
    exact ⟨(i3.trans t3).trans n3, by rw [i1, t1, n1], i2.trans t2⟩

/-- One depth-frame iteration in which alignment fails, with auto-reset enabled, a volume
present and no timestamp reset: below the limit the lost-frame counter goes up by one and no
reset is invoked; at the limit `InternalResetReconstruction` is invoked once and tracking is
restored. -/
theorem depthFrameIteration_lost [FloorRing K] (sdk : Sdk) (s : KinectFusionProcessor K)
    (it : KinectFusionParams K × ProcessDepthEnv K)
    (hvol : s.m_pVolume.isSome = true) (hbuf : s.m_pDepthImagePixelBuffer = true)
    (hauto : it.1.m_bAutoResetReconstructionWhenLost = true)
    (hconv : it.2.frameConverted = true) (hfail : FAILED it.2.tracking = true)
    (hreset : SUCCEEDED it.2.hrResetWhenLost = true)
    (hquiet : ProcessDepth.timeStampSkipped { s with m_paramsCurrent := it.1 }
      it.2.liTimeStamp = false) :
    (depthFrameIteration sdk s it).m_pVolume.isSome = true ∧
    (depthFrameIteration sdk s it).m_pDepthImagePixelBuffer = true ∧
    (s.m_cLostFrameCounter + 1 < cResetOnNumberOfLostFrames →
      (depthFrameIteration sdk s it).m_cLostFrameCounter = s.m_cLostFrameCounter + 1 ∧
      (depthFrameIteration sdk s it).m_bTrackingFailed = true ∧
      resetCount (depthFrameIteration sdk s it).trace = resetCount s.trace) ∧
    (s.m_cLostFrameCounter + 1 ≥ cResetOnNumberOfLostFrames →
      (depthFrameIteration sdk s it).m_cLostFrameCounter = 0 ∧
      (depthFrameIteration sdk s it).m_bTrackingFailed = false ∧
      resetCount (depthFrameIteration sdk s it).trace = resetCount s.trace + 1) := by
  obtain ⟨p, env⟩ := it
  simp only at hauto hconv hfail hreset hquiet
  unfold depthFrameIteration
  simp only
  generalize hs0 : ({ s with m_paramsCurrent := p } : KinectFusionProcessor K) = s0 at hquiet ⊢
  have e1 : s0.m_pVolume = s.m_pVolume := by rw [← hs0]
  have e2 : s0.m_pDepthImagePixelBuffer = true := by rw [← hs0]; exact hbuf
  have e3 : s0.m_cLostFrameCounter = s.m_cLostFrameCounter := by rw [← hs0]
  have e4 : s0.trace = s.trace := by rw [← hs0]
  have e5 : s0.m_paramsCurrent = p := by rw [← hs0]
  have hvol0 : s0.m_pVolume.isSome = true := by rw [e1]; exact hvol
  have hcopy : env.frameCopied = true := by
    simp only [ProcessDepthEnv.frameConverted, Bool.and_eq_true] at hconv
    exact hconv.1
  have hbody := body_of_frameConverted sdk s0 env e2 hconv hvol0
  obtain ⟨-, k2, k3, -, k5, -⟩ := convertedState_keeps s0 env
  obtain ⟨n1, -, -, n4⟩ := convertedState_of_not_skipped s0 env hquiet
  obtain ⟨t1, t2, -, tv, tb, -, tp, tt⟩ :=
    track_of_failed sdk (convertedState s0 env) env env.hrDepthToDepthFloat hfail
  have hf := FinishFrame_sameTracking (ProcessDepth.body sdk s0 env).2 env
    (ProcessDepth.body sdk s0 env).1
  have rt : resetCount
      (ProcessDepth.track sdk (convertedState s0 env) env env.hrDepthToDepthFloat).2.trace =
      resetCount s.trace := by
    rw [tt, resetCount_append, k5, hquiet, e4]
    simp [resetCount, Event.isInternalReset]
  have hdue : ProcessDepth.lostTooLong
      (ProcessDepth.track sdk (convertedState s0 env) env env.hrDepthToDepthFloat).2 =
      decide (s.m_cLostFrameCounter + 1 ≥ cResetOnNumberOfLostFrames) := by
    simp only [ProcessDepth.lostTooLong, t2, tp, n4, e5, hauto, t1, n1, e3, Bool.true_and]
  generalize (ProcessDepth.track sdk (convertedState s0 env) env env.hrDepthToDepthFloat).2
    = s2 at hbody t1 t2 tv tb tp tt rt hdue
  generalize (ProcessDepth.track sdk (convertedState s0 env) env env.hrDepthToDepthFloat).1
    = hr2 at hbody
  have hv2 : s2.m_pVolume.isSome = true := by rw [tv, k2]; exact hvol0
  have hb2 : s2.m_pDepthImagePixelBuffer = true := by rw [tb, k3]; exact e2
  unfold ProcessDepth
  rw [hf.volume, hf.buffer, hf.lost, hf.failed, hf.resets, hbody]
  by_cases hlim : s.m_cLostFrameCounter + 1 ≥ cResetOnNumberOfLostFrames
  · have a : ProcessDepth.lostTooLong s2 = true := by rw [hdue]; simpa using hlim
    obtain ⟨a1, a2, -, -, a5⟩ := resetWhenLost_of_due s2 env hr2 a
    obtain ⟨o1, o2, -, -⟩ := resetWhenLost_of_due_ok s2 env hr2 a hv2 hreset
    refine ⟨by rw [a1]; exact hv2, a2.trans hb2, fun h => absurd hlim (not_le.mpr h),
      fun _ => ⟨o2, o1, by rw [a5, rt]⟩⟩
  · have a : ProcessDepth.lostTooLong s2 = false := by rw [hdue]; simpa using hlim
    rw [resetWhenLost_of_not_due s2 env hr2 a]
    obtain ⟨i1, i2, -, i4, i5, -, -, -, i9, -⟩ := integrate_spec s2 env hr2
    refine ⟨by rw [i4]; exact hv2, i5.trans hb2,
      fun _ => ⟨by rw [i1, t1, n1, e3], i2.trans t2, by rw [i9, rt]⟩,
      fun h => absurd h hlim⟩

theorem depthFrameIterations_nil [FloorRing K] (sdk : Sdk) (s : KinectFusionProcessor K) :
    depthFrameIterations sdk s [] = s := rfl

theorem depthFrameIterations_cons [FloorRing K] (sdk : Sdk) (s : KinectFusionProcessor K)
    (it : KinectFusionParams K × ProcessDepthEnv K)
    (its : List (KinectFusionParams K × ProcessDepthEnv K)) :
    depthFrameIterations sdk s (it :: its) =
      depthFrameIterations sdk (depthFrameIteration sdk s it) its := rfl

theorem depthFrameIterations_append [FloorRing K] (sdk : Sdk) (s : KinectFusionProcessor K)
    (its its' : List (KinectFusionParams K × ProcessDepthEnv K)) :
    depthFrameIterations sdk s (its ++ its') =
      depthFrameIterations sdk (depthFrameIterations sdk s its) its' := by
  simp [depthFrameIterations, List.foldl_append]

/-- Consecutive iterations in which alignment fails, as long as the lost-frame counter stays
below the limit: the counter counts them and no reset is invoked. -/
theorem depthFrameIterations_lost [FloorRing K] (sdk : Sdk)
    (its : List (KinectFusionParams K × ProcessDepthEnv K)) :
    ∀ (s : KinectFusionProcessor K),
      s.m_pVolume.isSome = true → s.m_pDepthImagePixelBuffer = true →
      s.m_cLostFrameCounter + its.length < cResetOnNumberOfLostFrames →
      (∀ it ∈ its, it.1.m_bAutoResetReconstructionWhenLost = true) →
      (∀ it ∈ its, it.2.frameConverted = true) →
      (∀ it ∈ its, FAILED it.2.tracking = true) →
      (∀ it ∈ its, SUCCEEDED it.2.hrResetWhenLost = true) →
      (∀ k it, its[k]? = some it →
        ProcessDepth.timeStampSkipped
          { depthFrameIterations sdk s (its.take k) with m_paramsCurrent := it.1 }
          it.2.liTimeStamp = false) →
      (depthFrameIterations sdk s its).m_pVolume.isSome = true ∧
      (depthFrameIterations sdk s its).m_pDepthImagePixelBuffer = true ∧
      (depthFrameIterations sdk s its).m_cLostFrameCounter =
        s.m_cLostFrameCounter + its.length ∧
      resetCount (depthFrameIterations sdk s its).trace = resetCount s.trace := by
  induction its with
  | nil =>
    intro s hvol hbuf _ _ _ _ _ _
    simp [depthFrameIterations_nil, hvol, hbuf]
  | cons it rest ih =>
    intro s hvol hbuf hlen hauto hconv hfail hreset hquiet
    simp only [List.length_cons, Nat.cast_add, Nat.cast_one] at hlen
    have hq0 := hquiet 0 it (by simp)
    simp only [List.take_zero, depthFrameIterations_nil] at hq0
    obtain ⟨v1, b1, hlt, -⟩ := depthFrameIteration_lost sdk s it hvol hbuf
      (hauto it (List.mem_cons_self _ _)) (hconv it (List.mem_cons_self _ _))
      (hfail it (List.mem_cons_self _ _)) (hreset it (List.mem_cons_self _ _)) hq0
    obtain ⟨c1, -, r1⟩ := hlt (by
      have : (0 : Int) ≤ (rest.length : Int) := Int.natCast_nonneg _
      omega)
    have := ih (depthFrameIteration sdk s it) v1 b1 (by rw [c1]; omega)
      (fun x hx => hauto x (List.mem_cons_of_mem _ hx))
      (fun x hx => hconv x (List.mem_cons_of_mem _ hx))
      (fun x hx => hfail x (List.mem_cons_of_mem _ hx))
      (fun x hx => hreset x (List.mem_cons_of_mem _ hx))
      (fun k x hx => by
        have := hquiet (k + 1) x (by simpa using hx)
        simpa [depthFrameIterations_cons] using this)
    obtain ⟨v2, b2, c2, r2⟩ := this
    rw [depthFrameIterations_cons]
    refine ⟨v2, b2, ?_, r2.trans r1⟩
    rw [c2, c1]
    simp only [List.length_cons, Nat.cast_add, Nat.cast_one]
    ring

/-- C7. Auto-reset on tracking loss: with `m_bAutoResetReconstructionWhenLost` enabled in every
parameter snapshot, a volume present, the lost-frame counter starting at 0 and every volume
reset succeeding, over 100 consecutive depth-frame iterations in which the frame is acquired
and converted, alignment fails and the timestamp test does not fire,
`InternalResetReconstruction` is invoked exactly once, in the 100th iteration: after each of
the first 99 iterations the number of invocations is what it was at the start, after the 100th
it is one more, and the 100th iteration ends with the tracking flag false and the lost-frame
counter 0. -/
theorem auto_reset_on_tracking_loss [FloorRing K] (sdk : Sdk) (s : KinectFusionProcessor K)
    (its : List (KinectFusionParams K × ProcessDepthEnv K))
    (hlen : its.length = 100)
    (hvol : s.m_pVolume.isSome = true) (hbuf : s.m_pDepthImagePixelBuffer = true)
    (hcount : s.m_cLostFrameCounter = 0)
    (hauto : ∀ it ∈ its, it.1.m_bAutoResetReconstructionWhenLost = true)
    (hconv : ∀ it ∈ its, it.2.frameConverted = true)
    (hfail : ∀ it ∈ its, FAILED it.2.tracking = true)
    (hreset : ∀ it ∈ its, SUCCEEDED it.2.hrResetWhenLost = true)
    (hquiet : ∀ k it, its[k]? = some it →
      ProcessDepth.timeStampSkipped
        { depthFrameIterations sdk s (its.take k) with m_paramsCurrent := it.1 }
        it.2.liTimeStamp = false) :
    (∀ k, k ≤ 99 →
      resetCount (depthFrameIterations sdk s (its.take k)).trace = resetCount s.trace) ∧
    resetCount (depthFrameIterations sdk s its).trace = resetCount s.trace + 1 ∧
    (depthFrameIterations sdk s its).m_bTrackingFailed = false ∧
    (depthFrameIterations sdk s its).m_cLostFrameCounter = 0 := by
  have hfirst : ∀ k, k ≤ 99 →
      (depthFrameIterations sdk s (its.take k)).m_pVolume.isSome = true ∧
      (depthFrameIterations sdk s (its.take k)).m_pDepthImagePixelBuffer = true ∧
      (depthFrameIterations sdk s (its.take k)).m_cLostFrameCounter = (k : Int) ∧
      resetCount (depthFrameIterations sdk s (its.take k)).trace = resetCount s.trace := by
    intro k hk
    have hl : (its.take k).length = k := by
      rw [List.length_take, hlen]
      omega
    have h := depthFrameIterations_lost sdk (its.take k) s hvol hbuf
      (by rw [hl, hcount]; simp only [cResetOnNumberOfLostFrames]; omega)
      (fun x hx => hauto x (List.mem_of_mem_take hx))
      (fun x hx => hconv x (List.mem_of_mem_take hx))
      (fun x hx => hfail x (List.mem_of_mem_take hx))
      (fun x hx => hreset x (List.mem_of_mem_take hx))
      (fun j x hx => by
        have hj : j < k := by
          by_contra hc
          rw [List.getElem?_eq_none (by rw [hl]; omega)] at hx
          exact Option.noConfusion hx
        have hx' : its[j]? = some x := by
          rw [List.getElem?_take_of_lt hj] at hx
          exact hx
        have := hquiet j x hx'
        rw [List.take_take, Nat.min_eq_left (Nat.le_of_lt hj)]
        exact this)
    rw [hl, hcount] at h
    obtain ⟨v, b, c, r⟩ := h
    exact ⟨v, b, by rw [c]; simp, r⟩
  refine ⟨fun k hk => (hfirst k hk).2.2.2, ?_⟩
  obtain ⟨v, b, c, r⟩ := hfirst 99 (le_refl _)
  have h99 : 99 < its.length := by rw [hlen]; omega
  have hsplit : its = its.take 99 ++ [its[99]] := by
    have hd : its.drop 99 = [its[99]] := by
      rw [List.drop_eq_getElem_cons h99]
      have : its.drop (99 + 1) = [] := by
        apply List.drop_eq_nil_of_le
        rw [hlen]
      rw [this]
    rw [← hd, List.take_append_drop]
  have hmem : its[99] ∈ its := List.getElem_mem _
  have hget : its[99]? = some its[99] := List.getElem?_eq_getElem h99
  obtain ⟨-, -, -, hlast⟩ := depthFrameIteration_lost sdk
    (depthFrameIterations sdk s (its.take 99)) its[99] v b
    (hauto _ hmem) (hconv _ hmem) (hfail _ hmem) (hreset _ hmem) (hquiet 99 _ hget)
  obtain ⟨l1, l2, l3⟩ := hlast (by rw [c]; simp [cResetOnNumberOfLostFrames])
  have hrun : depthFrameIterations sdk s its =
      depthFrameIteration sdk (depthFrameIterations sdk s (its.take 99)) its[99] := by
    conv_lhs => rw [hsplit]
    rw [depthFrameIterations_append]
    rfl
  rw [hrun]
  exact ⟨by rw [l3, r], l2, l1⟩

/-! ## Theorems: the frame pipeline on concrete inputs -/

/-- The calls of `ProcessDepth` on the 100th lost frame in a row: alignment fails, the
reconstruction is reset, and the frame is integrated at the identity pose. -/
theorem ProcessDepth_lostState_trace :
    (ProcessDepth sampleSdk lostState lostEnv).trace =
      [Event.NuiImageStreamGetNextFrame, Event.NuiImageFrameGetDepthImagePixelFrameTexture,
        Event.NuiImageStreamReleaseFrame, Event.NuiFusionDepthToDepthFloatFrame,
        Event.AlignDepthFloatToReconstruction, Event.InternalResetReconstruction,
        Event.ResetReconstruction (zTurnPose (1 : ℚ) 0)
          (some { zTurnPose (1 : ℚ) 0 with M43 := -(448 / 5) }),
        Event.EnterCriticalSection Lock.m_lockFrame,
        Event.LeaveCriticalSection Lock.m_lockFrame,
        Event.IntegrateFrame 200 (zTurnPose (1 : ℚ) 0),
        Event.CalculatePointCloud (zTurnPose (1 : ℚ) 0),
        Event.NuiFusionShadePointCloud (zTurnPose (1 : ℚ) 0)
          (ProcessDepth.worldToBGRTransform sampleParams),
        Event.EnterCriticalSection Lock.m_lockFrame,
        Event.StoreImageToFrameBuffer FusionImage.m_pDepthFloatImage FrameBuffer.m_pDepthRGBX,
        Event.StoreImageToFrameBuffer FusionImage.m_pShadedSurface
          FrameBuffer.m_pReconstructionRGBX,
        Event.ColorResiduals,
        Event.StoreImageToFrameBuffer FusionImage.m_pShadedDeltaFromReference
          FrameBuffer.m_pTrackingDataRGBX,
        Event.LeaveCriticalSection Lock.m_lockFrame] := by
  simp [ProcessDepth, ProcessDepth.body, ProcessDepth.FinishFrame, ProcessDepth.enterFrame,
    ProcessDepth.storeImages, ProcessDepth.updateFps, ProcessDepth.leaveFrame,
    ProcessDepth.resetWhenLost, ProcessDepth.lostTooLong, ProcessDepth.integrate,
    ProcessDepth.raycast, ProcessDepth.track, ProcessDepth.timeStampGuard,
    ProcessDepth.timeStampSkipped, CopyExtendedDepth, InternalResetReconstruction,
    KinectFusionProcessor.log, SetStatusMessage, lostState, lostEnv, sampleState, trackedEnv,
    sampleSdk, sampleParams, FAILED, SUCCEEDED, S_OK, cResetOnNumberOfLostFrames, truncToInt,
    cTimeDisplayInterval, SetIdentityMatrix, zTurnPose]
  norm_num

/-- The call of `ProcessDepth` that resets automatically: on the 100th lost frame in a row
alignment fails, yet `IntegrateFrame` is invoked (after the reset, at the identity pose). -/
theorem ProcessDepth_integrates_after_auto_reset :
    FAILED lostEnv.tracking = true ∧
    Event.AlignDepthFloatToReconstruction ∈
      eventsSince lostState (ProcessDepth sampleSdk lostState lostEnv) ∧
    Event.IntegrateFrame 200 (zTurnPose (1 : ℚ) 0) ∈
      eventsSince lostState (ProcessDepth sampleSdk lostState lostEnv) ∧
    (eventsSince lostState (ProcessDepth sampleSdk lostState lostEnv)).any
      Event.isIntegrateFrame = true := by
  have h : eventsSince lostState (ProcessDepth sampleSdk lostState lostEnv) =
      (ProcessDepth sampleSdk lostState lostEnv).trace := by
    simp [eventsSince, lostState, sampleState]
  rw [h, ProcessDepth_lostState_trace]
  refine ⟨by decide, by simp, by simp, by simp [Event.isIntegrateFrame]⟩

/-- The calls of `ProcessDepth` on a frame that is tracked. -/
theorem ProcessDepth_sampleState_trace :
    (ProcessDepth sampleSdk sampleState trackedEnv).trace =
      [Event.NuiImageStreamGetNextFrame, Event.NuiImageFrameGetDepthImagePixelFrameTexture,
        Event.NuiImageStreamReleaseFrame, Event.NuiFusionDepthToDepthFloatFrame,
        Event.AlignDepthFloatToReconstruction, Event.GetCurrentWorldToCameraTransform,
        Event.IntegrateFrame 200 (zTurnPose (0 : ℚ) 1),
        Event.CalculatePointCloud (zTurnPose (0 : ℚ) 1),
        Event.NuiFusionShadePointCloud (zTurnPose (0 : ℚ) 1)
          (ProcessDepth.worldToBGRTransform sampleParams),
        Event.EnterCriticalSection Lock.m_lockFrame,
        Event.StoreImageToFrameBuffer FusionImage.m_pDepthFloatImage FrameBuffer.m_pDepthRGBX,
        Event.StoreImageToFrameBuffer FusionImage.m_pShadedSurface
          FrameBuffer.m_pReconstructionRGBX,
        Event.ColorResiduals,
        Event.StoreImageToFrameBuffer FusionImage.m_pShadedDeltaFromReference
          FrameBuffer.m_pTrackingDataRGBX,
        Event.LeaveCriticalSection Lock.m_lockFrame] := by
  simp [ProcessDepth, ProcessDepth.body, ProcessDepth.FinishFrame, ProcessDepth.enterFrame,
    ProcessDepth.storeImages, ProcessDepth.updateFps, ProcessDepth.leaveFrame,
    ProcessDepth.resetWhenLost, ProcessDepth.lostTooLong, ProcessDepth.integrate,
    ProcessDepth.raycast, ProcessDepth.track, ProcessDepth.timeStampGuard,
    ProcessDepth.timeStampSkipped, CopyExtendedDepth, InternalResetReconstruction,
    KinectFusionProcessor.log, SetStatusMessage, sampleState, trackedEnv,
    sampleSdk, sampleParams, FAILED, SUCCEEDED, S_OK, cResetOnNumberOfLostFrames, truncToInt,
    cTimeDisplayInterval, SetIdentityMatrix, zTurnPose]

/-- The gate inside `ProcessDepth` on the sample frame: a tracked frame, with no reset, is
integrated. -/
theorem ProcessDepth_gating_sampleState :
    (eventsSince sampleState (ProcessDepth sampleSdk sampleState trackedEnv)).any
        Event.isInternalReset = false ∧
    (eventsSince sampleState (ProcessDepth sampleSdk sampleState trackedEnv)).any
        Event.isIntegrateFrame = true ∧
    FAILED trackedEnv.tracking = false ∧
    sampleState.m_paramsCurrent.m_bPauseIntegration = false := by
  have h : eventsSince sampleState (ProcessDepth sampleSdk sampleState trackedEnv) =
      (ProcessDepth sampleSdk sampleState trackedEnv).trace := by
    simp [eventsSince, sampleState]
  have h1 : (eventsSince sampleState (ProcessDepth sampleSdk sampleState trackedEnv)).any
        Event.isInternalReset = false := by
    rw [h, ProcessDepth_sampleState_trace]
    simp [Event.isInternalReset]
  have h2 : (eventsSince sampleState (ProcessDepth sampleSdk sampleState trackedEnv)).any
        Event.isIntegrateFrame = true := by
    rw [h, ProcessDepth_sampleState_trace]
    simp [Event.isIntegrateFrame]
  exact ⟨h1, h2, ProcessDepth_integration_gating sampleSdk sampleState trackedEnv h1 h2⟩

/-- Witness of C9 on a tracked frame: the pose reported by the volume is stored, the counter
is 0 and the tracking flag is false at the end of the iteration. -/
theorem ProcessDepth_tracking_step_witness :
    sampleState.m_pDepthImagePixelBuffer = true ∧ trackedEnv.frameConverted = true ∧
    sampleState.m_pVolume.isSome = true ∧ FAILED trackedEnv.tracking = false ∧
    (ProcessDepth sampleSdk sampleState trackedEnv).m_worldToCameraTransform =
      trackedEnv.currentWorldToCameraTransform ∧
    (ProcessDepth sampleSdk sampleState trackedEnv).m_cLostFrameCounter = 0 ∧
    (ProcessDepth sampleSdk sampleState trackedEnv).m_bTrackingFailed = false :=
  ⟨rfl, by decide, rfl, by decide,
    ((ProcessDepth_tracking_step sampleSdk sampleState trackedEnv rfl (by decide) rfl).2.1
      (by decide)).2⟩

/-- The calls of `ProcessDepth` on a frame stamped 10000 ms after the previous one when the
frame counter is 0: no reset. -/
theorem ProcessDepth_lateEnv_trace :
    (ProcessDepth sampleSdk sampleState lateEnv).trace =
      (ProcessDepth sampleSdk sampleState trackedEnv).trace := by
  rw [ProcessDepth_sampleState_trace]
  simp [ProcessDepth, ProcessDepth.body, ProcessDepth.FinishFrame, ProcessDepth.enterFrame,
    ProcessDepth.storeImages, ProcessDepth.updateFps, ProcessDepth.leaveFrame,
    ProcessDepth.resetWhenLost, ProcessDepth.lostTooLong, ProcessDepth.integrate,
    ProcessDepth.raycast, ProcessDepth.track, ProcessDepth.timeStampGuard,
    ProcessDepth.timeStampSkipped, CopyExtendedDepth, InternalResetReconstruction,
    KinectFusionProcessor.log, SetStatusMessage, sampleState, trackedEnv, lateEnv,
    sampleSdk, sampleParams, FAILED, SUCCEEDED, S_OK, cResetOnNumberOfLostFrames, truncToInt,
    cTimeDisplayInterval, SetIdentityMatrix, zTurnPose]

/-- C10 as stated fails when the frame counter is 0: the frame is acquired and copied, its
timestamp differs from the stored one by 10000 ms, more than both thresholds, and
`InternalResetReconstruction` is not invoked. -/
theorem ProcessDepth_no_reset_at_frame_counter_zero :
    sampleState.m_pDepthImagePixelBuffer = true ∧ lateEnv.frameCopied = true ∧
    sampleState.m_cFrameCounter = 0 ∧
    |lateEnv.liTimeStamp - sampleState.m_cLastFrameTimeStamp| = 10000 ∧
    ProcessDepth.cResetOnTimeStampSkippedMilliseconds sampleState = 1000 ∧
    Event.NuiFusionDepthToDepthFloatFrame ∈
      eventsSince sampleState (ProcessDepth sampleSdk sampleState lateEnv) ∧
    Event.InternalResetReconstruction ∉
      eventsSince sampleState (ProcessDepth sampleSdk sampleState lateEnv) := by
  have h : eventsSince sampleState (ProcessDepth sampleSdk sampleState lateEnv) =
      (ProcessDepth sampleSdk sampleState lateEnv).trace := by
    simp [eventsSince, sampleState]
  rw [h, ProcessDepth_lateEnv_trace, ProcessDepth_sampleState_trace]
  refine ⟨rfl, by decide, rfl, by decide, by decide, by simp, by simp⟩

/-- Witness of the amended C10: with a positive frame counter the same late frame makes
`ProcessDepth` invoke `InternalResetReconstruction` before the depth conversion. -/
theorem ProcessDepth_timestamp_guard_witness :
    runningState.m_pDepthImagePixelBuffer = true ∧ lateEnv.frameCopied = true ∧
    runningState.m_cFrameCounter > 0 ∧
    |lateEnv.liTimeStamp - runningState.m_cLastFrameTimeStamp| >
      ProcessDepth.cResetOnTimeStampSkippedMilliseconds runningState ∧
    (ProcessDepth sampleSdk runningState lateEnv).m_cLastFrameTimeStamp = 10000 ∧
    ∃ pre post,
      eventsSince runningState (ProcessDepth sampleSdk runningState lateEnv) =
        pre ++ Event.InternalResetReconstruction :: post ∧
      Event.NuiFusionDepthToDepthFloatFrame ∉ pre ∧
      Event.NuiFusionDepthToDepthFloatFrame ∈ post :=
  ⟨rfl, by decide, by decide, by decide,
    (ProcessDepth_timestamp_guard sampleSdk runningState lateEnv rfl (by decide)).1,
    (ProcessDepth_timestamp_guard sampleSdk runningState lateEnv rfl (by decide)).2.2
      (by decide) (by decide)⟩

/-- Consecutive iterations that acquire and copy frames all stamped `t`, started with the
stored timestamp `t`, keep the pixel buffer and the stored timestamp. -/
theorem depthFrameIterations_stamp [FloorRing K] (sdk : Sdk) (t : Int)
    (its : List (KinectFusionParams K × ProcessDepthEnv K)) :
    ∀ (s : KinectFusionProcessor K), s.m_pDepthImagePixelBuffer = true →
      s.m_cLastFrameTimeStamp = t →
      (∀ it ∈ its, it.2.frameCopied = true ∧ it.2.liTimeStamp = t) →
      (depthFrameIterations sdk s its).m_pDepthImagePixelBuffer = true ∧
      (depthFrameIterations sdk s its).m_cLastFrameTimeStamp = t := by
  induction its with
  | nil =>
    intro s hb hs _
    exact ⟨hb, hs⟩
  | cons it rest ih =>
    intro s hb _ hall
    obtain ⟨hc, ht⟩ := hall it (List.mem_cons_self _ _)
    obtain ⟨h1, -, h3, -⟩ :=
      ProcessDepth_of_frameCopied sdk { s with m_paramsCurrent := it.1 } it.2 hb hc
    rw [depthFrameIterations_cons]
    exact ih (depthFrameIteration sdk s it) h3 (h1.trans ht)
      (fun x hx => hall x (List.mem_cons_of_mem _ hx))

/-- Witness of C7: from the sample processor, one hundred frames on which alignment fails
invoke `InternalResetReconstruction` once, in the 100th iteration. -/
theorem auto_reset_on_tracking_loss_witness :
    (∀ k, k ≤ 99 →
      resetCount (depthFrameIterations sampleSdk sampleState (lostFrames.take k)).trace
        = 0) ∧
    resetCount (depthFrameIterations sampleSdk sampleState lostFrames).trace = 1 ∧
    (depthFrameIterations sampleSdk sampleState lostFrames).m_bTrackingFailed = false ∧
    (depthFrameIterations sampleSdk sampleState lostFrames).m_cLostFrameCounter = 0 := by
  have hmem : ∀ it ∈ lostFrames, it = (sampleParams, lostEnv) :=
    fun it h => List.eq_of_mem_replicate h
  have h := auto_reset_on_tracking_loss sampleSdk sampleState lostFrames
    (by simp [lostFrames]) rfl rfl rfl
    (fun it h => by rw [hmem it h]; rfl)
    (fun it h => by rw [hmem it h]; decide)
    (fun it h => by rw [hmem it h]; decide)
    (fun it h => by rw [hmem it h]; decide)
    (fun k it hk => by
      have hit := hmem it (List.getElem?_mem hk)
      obtain ⟨-, hs⟩ := depthFrameIterations_stamp sampleSdk 0 (lostFrames.take k)
        sampleState rfl rfl
        (fun x hx => by
          rw [hmem x (List.mem_of_mem_take hx)]
          exact ⟨by decide, rfl⟩)
      rw [hit]
      simp [ProcessDepth.timeStampSkipped, ProcessDepth.cResetOnTimeStampSkippedMilliseconds,
        hs, lostEnv, trackedEnv, sampleParams, cResetOnTimeStampSkippedMillisecondsGPU])
  have h0 : resetCount sampleState.trace = 0 := rfl
  rw [h0] at h
  exact h

/-! ## Theorems: what the frame pipeline and the sensor code leave alone -/

@[simp] theorem frameLockScan_nil (h : Bool) :
    frameLockScan h ([] : List (Event K)) = some h := rfl

theorem frameLockScan_append (a b : List (Event K)) :
    ∀ h : Bool, frameLockScan h (a ++ b) =
      (frameLockScan h a).bind (fun h' => frameLockScan h' b) := by
  induction a with
  | nil => intro h; rfl
  | cons e rest ih =>
    intro h
    simp only [List.cons_append, frameLockScan]
    cases e.frameLockStep h with
    | none => rfl
    | some h1 => simp [ih]

theorem SameControl.same (h : Bool) (s : KinectFusionProcessor K) : SameControl h h s s :=
  ⟨rfl, rfl, rfl, rfl, rfl, rfl, id, [], by simp, rfl⟩

theorem SameControl.andThen {h h' h'' : Bool} {s s' s'' : KinectFusionProcessor K}
    (a : SameControl h h' s s') (b : SameControl h' h'' s' s'') : SameControl h h'' s s'' := by
  obtain ⟨e1, t1, l1⟩ := a.events
  obtain ⟨e2, t2, l2⟩ := b.events
  refine ⟨b.paramsNext.trans a.paramsNext, b.reset.trans a.reset, b.resolve.trans a.resolve,
    b.stop.trans a.stop, b.hrRecreate.trans a.hrRecreate, b.volume.trans a.volume,
    fun i => b.initialized (a.initialized i), e1 ++ e2, ?_, ?_⟩
  · rw [t2, t1, List.append_assoc]
  · rw [frameLockScan_append, l1]
    exact l2

/-- A call that is neither a lock operation, nor an invocation of `RecreateVolume`, nor a call
of `SetParams`. -/
theorem SameControl.logged (h h' : Bool) (s : KinectFusionProcessor K) (e : Event K)
    (he : e.frameLockStep h = some h') : SameControl h h' s (s.log e) :=
  ⟨rfl, rfl, rfl, rfl, rfl, rfl, id, [e], rfl, by simp [frameLockScan, he]⟩

theorem SetStatusMessage_sameControl (h : Bool) (s : KinectFusionProcessor K) (m : String) :
    SameControl h h s (SetStatusMessage s m) :=
  ⟨rfl, rfl, rfl, rfl, rfl, rfl, id, [], by simp [SetStatusMessage], rfl⟩

theorem InternalResetReconstruction_sameControl (s : KinectFusionProcessor K) (hr : HRESULT)
    (t : K) : SameControl false false s (InternalResetReconstruction s hr t).2 := by
  unfold InternalResetReconstruction
  simp only [KinectFusionProcessor.log]
  split_ifs <;> constructor <;> simp [frameLockScan, Event.frameLockStep]

theorem CopyExtendedDepth_sameControl (h : Bool) (s : KinectFusionProcessor K)
    (env : ProcessDepthEnv K) : SameControl h h s (CopyExtendedDepth s env).2 := by
  unfold CopyExtendedDepth
  simp only [KinectFusionProcessor.log, SetStatusMessage]
  split_ifs <;> constructor <;> simp [frameLockScan, Event.frameLockStep]

theorem SameControl.of_fields (h : Bool) {s s' : KinectFusionProcessor K}
    (p1 : s'.m_paramsNext = s.m_paramsNext)
    (p2 : s'.m_bResetReconstruction = s.m_bResetReconstruction)
    (p3 : s'.m_bResolveSensorConflict = s.m_bResolveSensorConflict)
    (p4 : s'.m_bStopProcessing = s.m_bStopProcessing)
    (p5 : s'.m_hrRecreateVolume = s.m_hrRecreateVolume)
    (p6 : s'.m_pVolume = s.m_pVolume)
    (p7 : s.m_bKinectFusionInitialized = true → s'.m_bKinectFusionInitialized = true)
    (p8 : s'.trace = s.trace) : SameControl h h s s' :=
  ⟨p1, p2, p3, p4, p5, p6, p7, [], by simp [p8], rfl⟩

theorem timeStampGuard_sameControl (s : KinectFusionProcessor K) (env : ProcessDepthEnv K)
    (t : Int) : SameControl false false s (ProcessDepth.timeStampGuard s env t) := by
  obtain ⟨p1, p2, p3, p4, p5, p6, p7, evs, ht, hl⟩ :=
    InternalResetReconstruction_sameControl s env.hrResetOnTimeStamp env.timeResetOnTimeStamp
  simp only [ProcessDepth.timeStampGuard, SetStatusMessage]
  split_ifs <;> constructor <;> first | assumption | simp [*]

theorem track_sameControl (h : Bool) (sdk : Sdk) (s : KinectFusionProcessor K)
    (env : ProcessDepthEnv K) (hr : HRESULT) :
    SameControl h h s (ProcessDepth.track sdk s env hr).2 := by
  simp only [ProcessDepth.track, KinectFusionProcessor.log, SetStatusMessage]
  split_ifs <;> constructor <;> simp [frameLockScan, Event.frameLockStep]

theorem raycast_sameControl (h : Bool) (s : KinectFusionProcessor K) (env : ProcessDepthEnv K)
    (hr : HRESULT) : SameControl h h s (ProcessDepth.raycast s env hr).2 := by
  simp only [ProcessDepth.raycast, KinectFusionProcessor.log, SetStatusMessage]
  split_ifs <;> constructor <;> simp [frameLockScan, Event.frameLockStep]

theorem integrate_sameControl (h : Bool) (s : KinectFusionProcessor K)
    (env : ProcessDepthEnv K) (hr : HRESULT) :
    SameControl h h s (ProcessDepth.integrate s env hr).2 := by
  simp only [ProcessDepth.integrate]
  split_ifs
  · exact (SameControl.logged h h s (Event.IntegrateFrame _ _) rfl).andThen
      (SetStatusMessage_sameControl h _ _)
  · exact (SameControl.logged h h s (Event.IntegrateFrame _ _) rfl).andThen
      (raycast_sameControl h _ env _)
  · exact raycast_sameControl h s env hr

theorem resetWhenLost_sameControl (s : KinectFusionProcessor K) (env : ProcessDepthEnv K)
    (hr : HRESULT) : SameControl false false s (ProcessDepth.resetWhenLost s env hr).2 := by
  have h := InternalResetReconstruction_sameControl s env.hrResetWhenLost env.timeResetWhenLost
  simp only [ProcessDepth.resetWhenLost]
  split_ifs
  · exact (h.andThen (SetStatusMessage_sameControl false _ _)).andThen
      (integrate_sameControl false _ env _)
  · exact h.andThen (SetStatusMessage_sameControl false _ _)
  · exact integrate_sameControl false s env hr

theorem body_sameControl (sdk : Sdk) (s : KinectFusionProcessor K) (env : ProcessDepthEnv K) :
    SameControl false false s (ProcessDepth.body sdk s env).2 := by
  have h0 := SameControl.logged false false s Event.NuiImageStreamGetNextFrame rfl
  have h1 := (h0.andThen (CopyExtendedDepth_sameControl false _ env)).andThen
      (SameControl.logged false false _ Event.NuiImageStreamReleaseFrame rfl)
  have h2 := (h1.andThen (timeStampGuard_sameControl _ env env.liTimeStamp)).andThen
      (SameControl.logged false false _ Event.NuiFusionDepthToDepthFloatFrame rfl)
  simp only [ProcessDepth.body]
  split_ifs
  · exact h0.andThen (SetStatusMessage_sameControl false _ _)
  · exact h1
  · exact h2.andThen (SetStatusMessage_sameControl false _ _)
  · exact h2.andThen (SetStatusMessage_sameControl false _ _)
  · exact (h2.andThen (track_sameControl false sdk _ env _)).andThen
      (resetWhenLost_sameControl _ env _)

theorem enterFrame_sameControl (s : KinectFusionProcessor K) :
    SameControl false true s (ProcessDepth.enterFrame s) := by
  unfold ProcessDepth.enterFrame
  constructor <;> simp [KinectFusionProcessor.log, frameLockScan, Event.frameLockStep]

theorem storeImages_sameControl (h : Bool) (s : KinectFusionProcessor K)
    (env : ProcessDepthEnv K) (l : ProcessDepthLocals) :
    SameControl h h s (ProcessDepth.storeImages s env l).2 := by
  simp only [ProcessDepth.storeImages, KinectFusionProcessor.log]
  split_ifs <;> constructor <;> simp [frameLockScan, Event.frameLockStep]

theorem updateFps_sameControl [FloorRing K] (h : Bool) (s : KinectFusionProcessor K)
    (env : ProcessDepthEnv K) (hr : HRESULT) :
    SameControl h h s (ProcessDepth.updateFps s env hr) := by
  simp only [ProcessDepth.updateFps]
  split_ifs <;> exact SameControl.of_fields h rfl rfl rfl rfl rfl rfl id rfl

theorem leaveFrame_sameControl (s : KinectFusionProcessor K) :
    SameControl true false s (ProcessDepth.leaveFrame s) := by
  unfold ProcessDepth.leaveFrame
  constructor <;> simp [KinectFusionProcessor.log, frameLockScan, Event.frameLockStep]

theorem FinishFrame_sameControl [FloorRing K] (s : KinectFusionProcessor K)
    (env : ProcessDepthEnv K) (l : ProcessDepthLocals) :
    SameControl false false s (ProcessDepth.FinishFrame s env l) :=
  (((enterFrame_sameControl s).andThen (storeImages_sameControl true _ env l)).andThen
    (updateFps_sameControl true _ env _)).andThen (leaveFrame_sameControl _)

/-- All of `ProcessDepth` leaves the controller's requests, the volume and its creation status
alone and uses no lock but the frame lock, which it releases. -/
theorem ProcessDepth_sameControl [FloorRing K] (sdk : Sdk) (s : KinectFusionProcessor K)
    (env : ProcessDepthEnv K) : SameControl false false s (ProcessDepth sdk s env) :=
  (body_sameControl sdk s env).andThen (FinishFrame_sameControl _ env _)

theorem NotifyFrameReady_sameControl (h : Bool) (s : KinectFusionProcessor K) :
    SameControl h h s (NotifyFrameReady s) := by
  simp only [NotifyFrameReady]
  split_ifs
  · exact SameControl.logged h h s (Event.PostMessage _ _) rfl
  · exact SameControl.same h s

theorem NotifyEmptyFrame_sameControl (s : KinectFusionProcessor K) :
    SameControl false false s (NotifyEmptyFrame s) := by
  have h : SameControl false false s
      ({ (s.log (Event.EnterCriticalSection Lock.m_lockFrame)) with
          m_frame := { m_bIntegrationResumed := s.m_frame.m_bIntegrationResumed
                       m_fFramesPerSecond := 0
                       m_statusMessage := s.m_statusMessage } }.log
        (Event.LeaveCriticalSection Lock.m_lockFrame)) := by
    constructor <;> simp [KinectFusionProcessor.log, frameLockScan, Event.frameLockStep]
  exact h.andThen (NotifyFrameReady_sameControl false _)

theorem ShutdownSensor_sameControl (h : Bool) (s : KinectFusionProcessor K) :
    SameControl h h s (ShutdownSensor s) := by
  simp only [ShutdownSensor, KinectFusionProcessor.log]
  split_ifs <;> constructor <;> simp [frameLockScan, Event.frameLockStep]

theorem CreateFirstConnected_sameControl (h : Bool) (s : KinectFusionProcessor K)
    (env : UpdateSensorEnv) : SameControl h h s (CreateFirstConnected s env).2 := by
  simp only [CreateFirstConnected, KinectFusionProcessor.log, SetStatusMessage]
  split_ifs <;> constructor <;> simp [frameLockScan, Event.frameLockStep]

theorem CreateFrame_sameControl (h : Bool) (s : KinectFusionProcessor K)
    (env : UpdateSensorEnv) (image : FusionImage) :
    SameControl h h s (CreateFrame s env image).2 := by
  simp only [CreateFrame, KinectFusionProcessor.log, SetStatusMessage]
  split_ifs <;> constructor <;> simp [frameLockScan, Event.frameLockStep]

theorem pixelBuffer_sameControl (h : Bool) (s : KinectFusionProcessor K)
    (env : UpdateSensorEnv) (hr : HRESULT) :
    SameControl h h s (InitializeKinectFusion.pixelBuffer s env hr).2 := by
  simp only [InitializeKinectFusion.pixelBuffer, SetStatusMessage]
  split_ifs <;> exact SameControl.of_fields h rfl rfl rfl rfl rfl rfl id rfl

theorem InitializeKinectFusion_sameControl (h : Bool) (s : KinectFusionProcessor K)
    (env : UpdateSensorEnv) : SameControl h h s (InitializeKinectFusion s env).2 := by
  have h0 := SameControl.logged h h s
    (Event.InitializeFrameBuffers s.m_paramsCurrent.m_cImageSize) rfl
  have h1 := h0.andThen (CreateFrame_sameControl h _ env FusionImage.m_pDepthFloatImage)
  have h2 := h1.andThen (CreateFrame_sameControl h _ env FusionImage.m_pPointCloud)
  have h3 := h2.andThen (CreateFrame_sameControl h _ env FusionImage.m_pShadedSurface)
  have h4 := h3.andThen (CreateFrame_sameControl h _ env FusionImage.m_pShadedSurfaceNormals)
  have h5 := h4.andThen (CreateFrame_sameControl h _ env FusionImage.m_pFloatDeltaFromReference)
  have h6 := h5.andThen (CreateFrame_sameControl h _ env FusionImage.m_pShadedDeltaFromReference)
  simp only [InitializeKinectFusion]
  split_ifs
  · exact h0.andThen (SetStatusMessage_sameControl h _ _)
  · exact h1
  · exact h2
  · exact h3
  · exact h4
  · exact h5
  · exact h6
  · exact h6.andThen (pixelBuffer_sameControl h _ env _)

theorem postStatus_sameControl (h : Bool) (s : KinectFusionProcessor K)
    (env : UpdateSensorEnv) : SameControl h h s (UpdateSensorAndStatus.postStatus s env) := by
  simp only [UpdateSensorAndStatus.postStatus, KinectFusionProcessor.log]
  split_ifs <;> constructor <;> simp [frameLockScan, Event.frameLockStep]

theorem sensorChanged_sameControl (s : KinectFusionProcessor K) (env : UpdateSensorEnv) :
    SameControl false false s (UpdateSensorAndStatus.sensorChanged s env) := by
  have h0 : SameControl false false s { s with m_pNuiSensor := false } :=
    SameControl.of_fields false rfl rfl rfl rfl rfl rfl id rfl
  have h1 := h0.andThen (CreateFirstConnected_sameControl false _ env)
  have h2 := h1.andThen (InitializeKinectFusion_sameControl false _ env)
  simp only [UpdateSensorAndStatus.sensorChanged]
  split_ifs
  · exact h2.andThen (SameControl.of_fields false rfl rfl rfl rfl rfl rfl (fun _ => rfl) rfl)
  · exact h2.andThen (NotifyEmptyFrame_sameControl _)
  · exact h1

/-- The sensor session code leaves the controller's requests, the volume and its creation
status alone, keeps Kinect Fusion initialised if it was, and uses no lock but the frame
lock. -/
theorem UpdateSensorAndStatus_sameControl (s : KinectFusionProcessor K)
    (env : UpdateSensorEnv) (dwChangeFlags : SensorChange) :
    SameControl false false s (UpdateSensorAndStatus s env dwChangeFlags) := by
  cases dwChangeFlags
  · exact (sensorChanged_sameControl s env).andThen (postStatus_sameControl false _ env)
  · exact postStatus_sameControl false s env
  · exact SameControl.same false s

theorem resolveConflict_sameControl (s : KinectFusionProcessor K) (env : MainLoopEnv K)
    (l : MainLoopLocals) : SameControl false false s (MainLoop.resolveConflict s env l) := by
  simp only [MainLoop.resolveConflict]
  split_ifs
  · exact ((SameControl.logged false false s Event.TryResolveConflict rfl).andThen
      (SetStatusMessage_sameControl false _ _)).andThen
      (UpdateSensorAndStatus_sameControl _ _ _)
  · exact SameControl.logged false false s Event.TryResolveConflict rfl
  · exact SameControl.same false s

theorem statusChange_sameControl (s : KinectFusionProcessor K) (env : MainLoopEnv K) :
    SameControl false false s (MainLoop.statusChange s env) := by
  simp only [MainLoop.statusChange]
  split_ifs
  · exact (SameControl.logged false false s Event.HandleNuiStatusChanged rfl).andThen
      (UpdateSensorAndStatus_sameControl _ _ _)
  · exact SameControl.logged false false s Event.HandleNuiStatusChanged rfl
  · exact SameControl.same false s

theorem changeNearMode_sameControl (h : Bool) (s : KinectFusionProcessor K)
    (l : MainLoopLocals) : SameControl h h s (MainLoop.changeNearMode s l) := by
  simp only [MainLoop.changeNearMode]
  split_ifs
  · exact SameControl.logged h h s (Event.NuiImageStreamSetImageFrameFlags _) rfl
  · exact SameControl.same h s
  · exact SameControl.same h s

theorem notifyWithoutSensor_sameControl (s : KinectFusionProcessor K) :
    SameControl false false s (MainLoop.notifyWithoutSensor s) := by
  simp only [MainLoop.notifyWithoutSensor]
  split_ifs
  · exact NotifyEmptyFrame_sameControl s
  · exact SameControl.same false s

/-! ## Theorems: lock discipline of sequences of events -/

theorem heldAfter_append (held : List Lock) (a b : List (Event K)) :
    heldAfter held (a ++ b) = heldAfter (heldAfter held a) b := by
  simp [heldAfter, List.foldl_append]

theorem neverHeldTogether_append (x y : Lock) (a b : List (Event K)) :
    ∀ held : List Lock, neverHeldTogether x y held (a ++ b) =
      (neverHeldTogether x y held a && neverHeldTogether x y (heldAfter held a) b) := by
  induction a with
  | nil =>
    intro held
    cases b with
    | nil => simp [neverHeldTogether, heldAfter]
    | cons e rest => simp [neverHeldTogether, heldAfter]
  | cons e rest ih =>
    intro held
    rw [List.cons_append]
    simp only [neverHeldTogether]
    rw [ih]
    simp [heldAfter, Bool.and_assoc]

theorem LockSafe.nil (held : List Lock) (hp : Lock.m_lockParams ∉ held) :
    LockSafe held held ([] : List (Event K)) := by
  simp [LockSafe, heldAfter, neverHeldTogether, hp]

theorem LockSafe.append {h h' h'' : List Lock} {a b : List (Event K)}
    (x : LockSafe h h' a) (y : LockSafe h' h'' b) : LockSafe h h'' (a ++ b) := by
  obtain ⟨x1, x2, x3⟩ := x
  obtain ⟨y1, y2, y3⟩ := y
  refine ⟨?_, ?_, ?_⟩
  · rw [heldAfter_append, x1, y1]
  · rw [neverHeldTogether_append, x1, x2, y2]
    rfl
  · rw [neverHeldTogether_append, x1, x3, y3]
    rfl

/-- One step of the frame-lock scan moves the set of held locks accordingly. -/
theorem heldAfterEvent_of_frameLockStep (held0 : List Lock) (e : Event K) (hb h1 : Bool)
    (hstep : e.frameLockStep hb = some h1) :
    heldAfterEvent (if hb then Lock.m_lockFrame :: held0 else held0) e =
      (if h1 then Lock.m_lockFrame :: held0 else held0) := by
  cases e <;> simp [Event.frameLockStep] at hstep <;>
    (obtain ⟨⟨rfl, rfl⟩, rfl⟩ := hstep; simp [heldAfterEvent])

/-- Events that pass the frame-lock scan are safe when run with locks held that include neither
the frame lock nor the parameter lock. -/
theorem frameLockScan_lockSafe (held0 : List Lock)
    (hp : Lock.m_lockParams ∉ held0) :
    ∀ (evs : List (Event K)) (hb hb' : Bool), frameLockScan hb evs = some hb' →
      LockSafe (if hb then Lock.m_lockFrame :: held0 else held0)
        (if hb' then Lock.m_lockFrame :: held0 else held0) evs := by
  have hp' : ∀ b : Bool,
      Lock.m_lockParams ∉ (if b then Lock.m_lockFrame :: held0 else held0) := by
    intro b
    cases b <;> simp [hp]
  intro evs
  induction evs with
  | nil =>
    intro hb hb' h
    simp only [frameLockScan, Option.some.injEq] at h
    subst h
    exact LockSafe.nil _ (hp' hb)
  | cons e rest ih =>
    intro hb hb' h
    simp only [frameLockScan] at h
    cases hs : e.frameLockStep hb with
    | none => simp [hs] at h
    | some h1 =>
      simp only [hs, Option.some_bind] at h
      obtain ⟨i1, i2, i3⟩ := ih h1 hb' h
      have ha := heldAfterEvent_of_frameLockStep held0 e hb h1 hs
      refine ⟨?_, ?_, ?_⟩
      · simp only [heldAfter, List.foldl_cons, ha]
        exact i1
      · simp only [neverHeldTogether, ha, i2, hp' hb]
        simp
      · simp only [neverHeldTogether, ha, i3, hp' hb]
        simp

/-- Events that pass the frame-lock scan contain neither a call of `SetParams` nor an
invocation of `RecreateVolume`. -/
theorem frameLockScan_no_markers :
    ∀ (evs : List (Event K)) (hb hb' : Bool), frameLockScan hb evs = some hb' →
      evs.any Event.isSetParams = false ∧ evs.any Event.isRecreateVolume = false := by
  intro evs
  induction evs with
  | nil => intro _ _ _; simp
  | cons e rest ih =>
    intro hb hb' h
    simp only [frameLockScan] at h
    cases hs : e.frameLockStep hb with
    | none => simp [hs] at h
    | some h1 =>
      simp only [hs, Option.some_bind] at h
      obtain ⟨i1, i2⟩ := ih h1 hb' h
      have : e.isSetParams = false ∧ e.isRecreateVolume = false := by
        cases e <;> simp [Event.frameLockStep] at hs <;>
          simp [Event.isSetParams, Event.isRecreateVolume]
      simp [this.1, this.2, i1, i2]

theorem LockSafe.cons_quiet {held held' : List Lock} {evs : List (Event K)} (e : Event K)
    (hp : Lock.m_lockParams ∉ held) (he : heldAfterEvent held e = held)
    (x : LockSafe held held' evs) : LockSafe held held' (e :: evs) := by
  obtain ⟨x1, x2, x3⟩ := x
  refine ⟨?_, ?_, ?_⟩
  · simp only [heldAfter, List.foldl_cons, he]
    exact x1
  · simp only [neverHeldTogether, he, x2]
    simp [hp]
  · simp only [neverHeldTogether, he, x3]
    simp [hp]

/-! ## Theorems: what one pass of the worker loop does to the shared state -/

theorem WorkerStretch.followedBy {h h' h'' : List Lock} {s s' s'' : KinectFusionProcessor K}
    (a : WorkerStretch h h' s s') (b : WorkerStretch h' h'' s' s'') :
    WorkerStretch h h'' s s'' := by
  obtain ⟨e1, t1, n1, l1, p1⟩ := a.events
  obtain ⟨e2, t2, n2, l2, p2⟩ := b.events
  refine ⟨b.reset.trans a.reset, b.resolve.trans a.resolve, b.stop.trans a.stop,
    e1 ++ e2, ?_, ?_, l1.append l2, ?_⟩
  · rw [t2, t1, List.append_assoc]
  · simp [n1, n2]
  · rcases p1 with p1 | ⟨r1, p1⟩ <;> rcases p2 with p2 | ⟨r2, p2⟩
    · exact Or.inl (p2.trans p1)
    · exact Or.inr ⟨by simp [r2], by rw [p2, p1]⟩
    · exact Or.inr ⟨by simp [r1], by rw [p2, p1]⟩
    · exact Or.inr ⟨by simp [r1], by rw [p2, p1]⟩

/-- Code that satisfies `SameControl` is a stretch of the worker, whatever locks other than
the frame lock and the parameter lock are held around it. -/
theorem WorkerStretch.of_sameControl (held : List Lock) (hp : Lock.m_lockParams ∉ held)
    {s s' : KinectFusionProcessor K} (c : SameControl false false s s') :
    WorkerStretch held held s s' := by
  obtain ⟨evs, t, l⟩ := c.events
  obtain ⟨n1, -⟩ := frameLockScan_no_markers evs false false l
  have ls := frameLockScan_lockSafe held hp evs false false l
  exact ⟨c.reset, c.resolve, c.stop, evs, t, n1, by simpa using ls, Or.inl c.paramsNext⟩

theorem WorkerStretch.of_quiet (held : List Lock) (hp : Lock.m_lockParams ∉ held)
    {s s' : KinectFusionProcessor K}
    (p1 : s'.m_bResetReconstruction = s.m_bResetReconstruction)
    (p2 : s'.m_bResolveSensorConflict = s.m_bResolveSensorConflict)
    (p3 : s'.m_bStopProcessing = s.m_bStopProcessing)
    (p4 : s'.m_paramsNext = s.m_paramsNext)
    (p5 : s'.trace = s.trace) : WorkerStretch held held s s' :=
  ⟨p1, p2, p3, [], by simp [p5], by simp, LockSafe.nil held hp, Or.inl p4⟩

/-- The branch of `RecreateVolume` entered when the volume has been created: its events start
with the call of `GetCurrentWorldToVolumeTransform` and use no lock but the frame lock, and
`m_paramsNext` either is unchanged or has lost its pause flag. -/
theorem created_spec (s : KinectFusionProcessor K) (env : RecreateVolumeEnv K) :
    (RecreateVolume.created s env).2.m_bResetReconstruction = s.m_bResetReconstruction ∧
    (RecreateVolume.created s env).2.m_bResolveSensorConflict = s.m_bResolveSensorConflict ∧
    (RecreateVolume.created s env).2.m_bStopProcessing = s.m_bStopProcessing ∧
    (∃ evs, (RecreateVolume.created s env).2.trace =
        s.trace ++ Event.GetCurrentWorldToVolumeTransform :: evs ∧
      frameLockScan false evs = some false) ∧
    ((RecreateVolume.created s env).2.m_paramsNext = s.m_paramsNext ∨
      (RecreateVolume.created s env).2.m_paramsNext =
        { s.m_paramsNext with m_bPauseIntegration := false }) := by
  obtain ⟨p1, p2, p3, p4, -, -, -, evs, ht, hl⟩ := InternalResetReconstruction_sameControl
    ({ (s.log Event.GetCurrentWorldToVolumeTransform) with
      m_defaultWorldToVolumeTransform := env.worldToVolumeTransform })
    env.hrResetReconstruction env.timeReset
  simp only [RecreateVolume.created, RecreateVolume.resume, SetStatusMessage]
  split_ifs <;> simp_all [KinectFusionProcessor.log]

theorem begin_spec (s : KinectFusionProcessor K) :
    (RecreateVolume.begin s).m_bResetReconstruction = s.m_bResetReconstruction ∧
    (RecreateVolume.begin s).m_bResolveSensorConflict = s.m_bResolveSensorConflict ∧
    (RecreateVolume.begin s).m_bStopProcessing = s.m_bStopProcessing ∧
    (RecreateVolume.begin s).m_paramsNext = s.m_paramsNext ∧
    (RecreateVolume.begin s).m_bKinectFusionInitialized = s.m_bKinectFusionInitialized ∧
    (RecreateVolume.begin s).m_pVolume = none ∧
    (RecreateVolume.begin s).trace = s.trace ++
      [Event.RecreateVolume,
        Event.NuiFusionCreateReconstruction s.m_paramsCurrent.m_reconstructionParams
          s.m_paramsCurrent.m_processorType s.m_paramsCurrent.m_deviceIndex
          (SetIdentityMatrix s.m_worldToCameraTransform)] := by
  simp [RecreateVolume.begin, KinectFusionProcessor.log]

/-- The function `RecreateVolume` as a stretch of the worker. -/
theorem RecreateVolume_stretch (held : List Lock) (hp : Lock.m_lockParams ∉ held)
    (sdk : Sdk) (s : KinectFusionProcessor K) (env : RecreateVolumeEnv K) :
    WorkerStretch held held s (RecreateVolume sdk s env).2 ∧
    ∃ evs, (RecreateVolume sdk s env).2.trace = s.trace ++ Event.RecreateVolume :: evs := by
  obtain ⟨b1, b2, b3, b4, -, -, bt⟩ := begin_spec s
  obtain ⟨c1, c2, c3, ⟨evs, ct, cl⟩, c5⟩ := created_spec
    ({ RecreateVolume.begin s with
      m_pVolume := some
        { reconstructionParams := (RecreateVolume.begin s).m_paramsCurrent.m_reconstructionParams
          processorType := (RecreateVolume.begin s).m_paramsCurrent.m_processorType
          deviceIndex := (RecreateVolume.begin s).m_paramsCurrent.m_deviceIndex } }) env
  obtain ⟨n1, -⟩ := frameLockScan_no_markers evs false false cl
  have ls : LockSafe held held evs := by
    simpa using frameLockScan_lockSafe held hp evs false false cl
  simp only [RecreateVolume, SetStatusMessage]
  split_ifs
  · refine ⟨⟨b1, b2, b3, _, bt, ?_, ?_, Or.inl b4⟩, _, by rw [bt]⟩
    · simp [Event.isSetParams]
    · exact LockSafe.cons_quiet _ hp rfl (LockSafe.cons_quiet _ hp rfl (LockSafe.nil held hp))
  · refine ⟨⟨c1.trans b1, c2.trans b2, c3.trans b3, _,
      by rw [ct]; simp only [bt, List.append_assoc]; rfl, ?_, ?_, ?_⟩,
      _, by rw [ct]; simp only [bt, List.append_assoc]; rfl⟩
    · simp [Event.isSetParams, n1]
    · exact LockSafe.cons_quiet _ hp rfl (LockSafe.cons_quiet _ hp rfl
        (LockSafe.cons_quiet _ hp rfl ls))
    · rcases c5 with c5 | c5
      · exact Or.inl (c5.trans b4)
      · refine Or.inr ⟨by simp [Event.isRecreateVolume], ?_⟩
        rw [c5]
        simp only [b4]

theorem volumeLifecycle_stretch (held : List Lock) (hp : Lock.m_lockParams ∉ held)
    (sdk : Sdk) (s : KinectFusionProcessor K) (env : MainLoopEnv K) (l : MainLoopLocals) :
    WorkerStretch held held s (MainLoop.volumeLifecycle sdk s env l) := by
  have hr := (RecreateVolume_stretch held hp sdk s env.volume).1
  have hi := WorkerStretch.of_sameControl held hp
    (InternalResetReconstruction_sameControl s env.hrResetRequested env.timeResetRequested)
  simp only [MainLoop.volumeLifecycle, SetStatusMessage]
  split_ifs
  · exact hr.followedBy (WorkerStretch.of_quiet held hp rfl rfl rfl rfl rfl)
  · exact hr.followedBy (WorkerStretch.of_quiet held hp rfl rfl rfl rfl rfl)
  · exact hr.followedBy (WorkerStretch.of_quiet held hp rfl rfl rfl rfl rfl)
  · exact hi.followedBy (WorkerStretch.of_quiet held hp rfl rfl rfl rfl rfl)
  · exact hi.followedBy (WorkerStretch.of_quiet held hp rfl rfl rfl rfl rfl)
  · exact WorkerStretch.of_quiet held hp rfl rfl rfl rfl rfl

theorem WorkerStretch.enterVolume (s : KinectFusionProcessor K) :
    WorkerStretch [] [Lock.m_lockVolume] s
      (s.log (Event.EnterCriticalSection Lock.m_lockVolume)) :=
  ⟨rfl, rfl, rfl, [Event.EnterCriticalSection Lock.m_lockVolume], rfl,
    by simp [Event.isSetParams],
    by simp [LockSafe, heldAfter, heldAfterEvent, neverHeldTogether], Or.inl rfl⟩

theorem WorkerStretch.leaveVolume (s : KinectFusionProcessor K) :
    WorkerStretch [Lock.m_lockVolume] [] s
      (s.log (Event.LeaveCriticalSection Lock.m_lockVolume)) :=
  ⟨rfl, rfl, rfl, [Event.LeaveCriticalSection Lock.m_lockVolume], rfl,
    by simp [Event.isSetParams],
    by simp [LockSafe, heldAfter, heldAfterEvent, neverHeldTogether], Or.inl rfl⟩

theorem depthFrame_stretch [FloorRing K] (sdk : Sdk) (s : KinectFusionProcessor K)
    (env : MainLoopEnv K) (l : MainLoopLocals) :
    WorkerStretch [] [] s (MainLoop.depthFrame sdk s env l) := by
  have hv : Lock.m_lockParams ∉ [Lock.m_lockVolume] := by decide
  have hn : Lock.m_lockParams ∉ ([] : List Lock) := by decide
  simp only [MainLoop.depthFrame]
  split_ifs
  · exact ((((((WorkerStretch.of_sameControl [] hn
        (SetStatusMessage_sameControl false s "")).followedBy
      (WorkerStretch.of_sameControl [] hn (changeNearMode_sameControl false _ l))).followedBy
      (WorkerStretch.enterVolume _)).followedBy
      (volumeLifecycle_stretch _ hv sdk _ env l)).followedBy
      (WorkerStretch.of_sameControl _ hv (ProcessDepth_sameControl sdk _ env.depth))).followedBy
      (WorkerStretch.leaveVolume _)).followedBy
      (WorkerStretch.of_sameControl [] hn (NotifyFrameReady_sameControl false _))
  · exact WorkerStretch.of_quiet [] hn rfl rfl rfl rfl rfl

theorem dispatch_stretch [FloorRing K] (sdk : Sdk) (s : KinectFusionProcessor K)
    (env : MainLoopEnv K) (l : MainLoopLocals) :
    WorkerStretch [] [] s (MainLoop.dispatch sdk s env l).2 := by
  have hn : Lock.m_lockParams ∉ ([] : List Lock) := by decide
  simp only [MainLoop.dispatch]
  cases env.waitResult
  · exact depthFrame_stretch sdk s env l
  · exact WorkerStretch.of_sameControl [] hn (statusChange_sameControl s env)
  · exact WorkerStretch.of_quiet [] hn rfl rfl rfl rfl rfl
  · exact WorkerStretch.of_quiet [] hn rfl rfl rfl rfl rfl

/-- The parameter-acquisition step: the locals are the values the shared state had, the
one-shot flags are cleared, the snapshot is `m_paramsNext`, and the two calls made are the
entry to and the exit from the parameter lock. -/
theorem acquireParams_spec (s : KinectFusionProcessor K) :
    (MainLoop.acquireParams s).1.bStopProcessing = s.m_bStopProcessing ∧
    (MainLoop.acquireParams s).1.bResetReconstruction = s.m_bResetReconstruction ∧
    (MainLoop.acquireParams s).1.bResolveSensorConflict = s.m_bResolveSensorConflict ∧
    (MainLoop.acquireParams s).1.bRecreateVolume =
      s.m_paramsCurrent.VolumeChanged s.m_paramsNext ∧
    (MainLoop.acquireParams s).2.m_bResetReconstruction = false ∧
    (MainLoop.acquireParams s).2.m_bResolveSensorConflict = false ∧
    (MainLoop.acquireParams s).2.m_bStopProcessing = s.m_bStopProcessing ∧
    (MainLoop.acquireParams s).2.m_paramsCurrent = s.m_paramsNext ∧
    (MainLoop.acquireParams s).2.m_paramsNext = s.m_paramsNext ∧
    (MainLoop.acquireParams s).2.trace = s.trace ++
      [Event.EnterCriticalSection Lock.m_lockParams,
        Event.LeaveCriticalSection Lock.m_lockParams] := by
  simp [MainLoop.acquireParams, KinectFusionProcessor.log]

theorem IterationOutcome.then {s s' s'' : KinectFusionProcessor K}
    (a : IterationOutcome s s') (b : WorkerStretch [] [] s' s'') : IterationOutcome s s'' := by
  obtain ⟨e1, t1, n1, l1, p1⟩ := a.events
  obtain ⟨e2, t2, n2, l2, p2⟩ := b.events
  refine ⟨b.reset.trans a.reset, b.resolve.trans a.resolve, b.stop.trans a.stop,
    e1 ++ e2, ?_, ?_, l1.append l2, ?_⟩
  · rw [t2, t1, List.append_assoc]
  · simp [n1, n2]
  · rcases p1 with p1 | ⟨r1, p1⟩ <;> rcases p2 with p2 | ⟨r2, p2⟩
    · exact Or.inl (p2.trans p1)
    · exact Or.inr ⟨by simp [r2], by rw [p2, p1]⟩
    · exact Or.inr ⟨by simp [r1], by rw [p2, p1]⟩
    · exact Or.inr ⟨by simp [r1], by rw [p2, p1]⟩

theorem acquireParams_outcome (s : KinectFusionProcessor K) :
    IterationOutcome s (MainLoop.acquireParams s).2 := by
  obtain ⟨-, -, -, -, a5, a6, a7, -, a9, a10⟩ := acquireParams_spec s
  exact ⟨a5, a6, a7, _, a10, by simp [Event.isSetParams],
    by simp [LockSafe, heldAfter, heldAfterEvent, neverHeldTogether], Or.inl a9⟩

theorem iteration_outcome [FloorRing K] (sdk : Sdk) (s : KinectFusionProcessor K)
    (env : MainLoopEnv K) : IterationOutcome s (MainLoop.iteration sdk s env).2 := by
  have hn : Lock.m_lockParams ∉ ([] : List Lock) := by decide
  have ha := acquireParams_outcome s
  simp only [MainLoop.iteration]
  split_ifs
  · exact ha
  · exact ha.then (((WorkerStretch.of_sameControl [] hn
      (resolveConflict_sameControl _ env _)).followedBy (dispatch_stretch sdk _ env _)).followedBy
      (WorkerStretch.of_sameControl [] hn (notifyWithoutSensor_sameControl _)))

theorem pass_outcome [FloorRing K] (sdk : Sdk) (s : KinectFusionProcessor K)
    (env : MainLoopEnv K) : IterationOutcome s (MainLoop.pass sdk s env).2 := by
  have hn : Lock.m_lockParams ∉ ([] : List Lock) := by decide
  have hi := iteration_outcome sdk s env
  simp only [MainLoop.pass]
  split_ifs
  · exact hi.then (WorkerStretch.of_sameControl [] hn (ShutdownSensor_sameControl false _))
  · exact hi

/-! ## Theorems: runs of the controller and the worker -/

theorem run_nil [FloorRing K] (sdk : Sdk) (w : Bool × KinectFusionProcessor K) :
    run sdk w [] = w := rfl

theorem run_cons [FloorRing K] (sdk : Sdk) (w : Bool × KinectFusionProcessor K)
    (step : Step K) (steps : List (Step K)) :
    run sdk w (step :: steps) = run sdk (applyStep sdk w step) steps := rfl

theorem run_append [FloorRing K] (sdk : Sdk) (w : Bool × KinectFusionProcessor K)
    (a b : List (Step K)) : run sdk w (a ++ b) = run sdk (run sdk w a) b := by
  simp [run, List.foldl_append]

/-- A step that is not a call of `ResetReconstruction()` leaves the reset request alone, except
that a pass of the worker clears it. -/
theorem applyStep_reset [FloorRing K] (sdk : Sdk) (w : Bool × KinectFusionProcessor K)
    (step : Step K) (h : step.isResetReconstruction = false) :
    (applyStep sdk w step).2.m_bResetReconstruction = w.2.m_bResetReconstruction ∨
    ((applyStep sdk w step).2.m_bResetReconstruction = false ∧
      step.isPass = true ∧ w.1 = false) := by
  cases step with
  | pass env =>
    by_cases hx : w.1 = true
    · left; simp [applyStep, hx]
    · right
      simp only [Bool.not_eq_true] at hx
      exact ⟨by simp [applyStep, hx, (pass_outcome sdk w.2 env).reset], rfl, hx⟩
  | ResetReconstruction => simp [Step.isResetReconstruction] at h
  | StopProcessing =>
    left
    simp only [applyStep, StopProcessing.request, KinectFusionProcessor.log]
    split_ifs <;> rfl
  | CalculateMesh hrVolumeMesh absoluteTime =>
    left
    simp only [applyStep, CalculateMesh, KinectFusionProcessor.log]
    split_ifs <;> rfl
  | _ => left; rfl

/-- A step that is not a call of `ResolveSensorConflict()` leaves the conflict-resolution
request alone, except that a pass of the worker clears it. -/
theorem applyStep_resolve [FloorRing K] (sdk : Sdk) (w : Bool × KinectFusionProcessor K)
    (step : Step K) (h : step.isResolveSensorConflict = false) :
    (applyStep sdk w step).2.m_bResolveSensorConflict = w.2.m_bResolveSensorConflict ∨
    ((applyStep sdk w step).2.m_bResolveSensorConflict = false ∧
      step.isPass = true ∧ w.1 = false) := by
  cases step with
  | pass env =>
    by_cases hx : w.1 = true
    · left; simp [applyStep, hx]
    · right
      simp only [Bool.not_eq_true] at hx
      exact ⟨by simp [applyStep, hx, (pass_outcome sdk w.2 env).resolve], rfl, hx⟩
  | ResolveSensorConflict => simp [Step.isResolveSensorConflict] at h
  | StopProcessing =>
    left
    simp only [applyStep, StopProcessing.request, KinectFusionProcessor.log]
    split_ifs <;> rfl
  | CalculateMesh hrVolumeMesh absoluteTime =>
    left
    simp only [applyStep, CalculateMesh, KinectFusionProcessor.log]
    split_ifs <;> rfl
  | _ => left; rfl

/-- Once the reset request is clear, no pass sees it until it is requested again. -/
theorem resetObservations_of_clear [FloorRing K] (sdk : Sdk) (steps : List (Step K)) :
    ∀ w : Bool × KinectFusionProcessor K, w.2.m_bResetReconstruction = false →
      steps.any Step.isResetReconstruction = false →
      resetObservations sdk w steps = List.replicate (resetObservations sdk w steps).length
        false := by
  induction steps with
  | nil => intro w _ _; rfl
  | cons step rest ih =>
    intro w hw hall
    simp only [List.any_cons, Bool.or_eq_false_iff] at hall
    obtain ⟨h1, h2⟩ := hall
    have hnext : (applyStep sdk w step).2.m_bResetReconstruction = false := by
      rcases applyStep_reset sdk w step h1 with h | ⟨h, -, -⟩
      · rw [h, hw]
      · exact h
    have := ih (applyStep sdk w step) hnext h2
    cases step with
    | pass env =>
      simp only [resetObservations]
      by_cases hx : w.1 = true
      · simp only [hx, if_true, List.nil_append]
        exact this
      · simp only [hx, if_false, Bool.false_eq_true, List.singleton_append, List.length_cons,
          List.replicate_succ, (acquireParams_spec w.2).2.1, hw]
        rw [← this]
    | _ => simpa [resetObservations] using this

/-- Once the conflict-resolution request is clear, no pass sees it until it is requested
again. -/
theorem resolveObservations_of_clear [FloorRing K] (sdk : Sdk) (steps : List (Step K)) :
    ∀ w : Bool × KinectFusionProcessor K, w.2.m_bResolveSensorConflict = false →
      steps.any Step.isResolveSensorConflict = false →
      resolveObservations sdk w steps =
        List.replicate (resolveObservations sdk w steps).length false := by
  induction steps with
  | nil => intro w _ _; rfl
  | cons step rest ih =>
    intro w hw hall
    simp only [List.any_cons, Bool.or_eq_false_iff] at hall
    obtain ⟨h1, h2⟩ := hall
    have hnext : (applyStep sdk w step).2.m_bResolveSensorConflict = false := by
      rcases applyStep_resolve sdk w step h1 with h | ⟨h, -, -⟩
      · rw [h, hw]
      · exact h
    have := ih (applyStep sdk w step) hnext h2
    cases step with
    | pass env =>
      simp only [resolveObservations]
      by_cases hx : w.1 = true
      · simp only [hx, if_true, List.nil_append]
        exact this
      · simp only [hx, if_false, Bool.false_eq_true, List.singleton_append, List.length_cons,
          List.replicate_succ, (acquireParams_spec w.2).2.2.1, hw]
        rw [← this]
    | _ => simpa [resolveObservations] using this

/-- A pending reset request is seen by the next pass of the worker and by no later one. -/
theorem resetObservations_of_set [FloorRing K] (sdk : Sdk) (steps : List (Step K)) :
    ∀ w : Bool × KinectFusionProcessor K, w.2.m_bResetReconstruction = true →
      steps.any Step.isResetReconstruction = false →
      resetObservations sdk w steps = [] ∨
      resetObservations sdk w steps =
        true :: List.replicate ((resetObservations sdk w steps).length - 1) false := by
  induction steps with
  | nil => intro w _ _; left; rfl
  | cons step rest ih =>
    intro w hw hall
    simp only [List.any_cons, Bool.or_eq_false_iff] at hall
    obtain ⟨h1, h2⟩ := hall
    rcases applyStep_reset sdk w step h1 with h | ⟨h, hp, hx⟩
    · have := ih (applyStep sdk w step) (by rw [h, hw]) h2
      cases step with
      | pass env =>
        have hx : w.1 = true := by
          by_contra hc
          simp only [Bool.not_eq_true] at hc
          have := (pass_outcome sdk w.2 env).reset
          simp only [applyStep, hc, Bool.false_eq_true, if_false] at h
          rw [this, hw] at h
          exact Bool.false_ne_true h
        simpa [resetObservations, hx] using this
      | _ => simpa [resetObservations] using this
    · cases step with
      | pass env =>
        right
        have hc := resetObservations_of_clear sdk rest (applyStep sdk w (Step.pass env)) h h2
        simp only [resetObservations, hx, Bool.false_eq_true, if_false,
          List.singleton_append, List.length_cons, Nat.add_sub_cancel,
          (acquireParams_spec w.2).2.1, hw]
        rw [← hc]
      | _ => simp [Step.isPass] at hp

/-- A pending conflict-resolution request is seen by the next pass of the worker and by no
later one. -/
theorem resolveObservations_of_set [FloorRing K] (sdk : Sdk) (steps : List (Step K)) :
    ∀ w : Bool × KinectFusionProcessor K, w.2.m_bResolveSensorConflict = true →
      steps.any Step.isResolveSensorConflict = false →
      resolveObservations sdk w steps = [] ∨
      resolveObservations sdk w steps =
        true :: List.replicate ((resolveObservations sdk w steps).length - 1) false := by
  induction steps with
  | nil => intro w _ _; left; rfl
  | cons step rest ih =>
    intro w hw hall
    simp only [List.any_cons, Bool.or_eq_false_iff] at hall
    obtain ⟨h1, h2⟩ := hall
    rcases applyStep_resolve sdk w step h1 with h | ⟨h, hp, hx⟩
    · have := ih (applyStep sdk w step) (by rw [h, hw]) h2
      cases step with
      | pass env =>
        have hx : w.1 = true := by
          by_contra hc
          simp only [Bool.not_eq_true] at hc
          have := (pass_outcome sdk w.2 env).resolve
          simp only [applyStep, hc, Bool.false_eq_true, if_false] at h
          rw [this, hw] at h
          exact Bool.false_ne_true h
        simpa [resolveObservations, hx] using this
      | _ => simpa [resolveObservations] using this
    · cases step with
      | pass env =>
        right
        have hc := resolveObservations_of_clear sdk rest (applyStep sdk w (Step.pass env)) h h2
        simp only [resolveObservations, hx, Bool.false_eq_true, if_false,
          List.singleton_append, List.length_cons, Nat.add_sub_cancel,
          (acquireParams_spec w.2).2.2.1, hw]
        rw [← hc]
      | _ => simp [Step.isPass] at hp

theorem recreatedSinceSetParams_append (pre evs : List (Event K))
    (h : evs.any Event.isSetParams = false) :
    recreatedSinceSetParams (pre ++ evs) =
      (recreatedSinceSetParams pre || evs.any Event.isRecreateVolume) := by
  unfold recreatedSinceSetParams
  rw [List.foldl_append]
  generalize List.foldl (fun b e => (b && !Event.isSetParams e) || Event.isRecreateVolume e)
    false pre = b
  induction evs generalizing b with
  | nil => simp
  | cons e rest ih =>
    simp only [List.any_cons, Bool.or_eq_false_iff] at h
    simp only [List.foldl_cons, List.any_cons, h.1, Bool.not_false, Bool.and_true]
    rw [ih h.2, Bool.or_assoc]

theorem recreatedSinceSetParams_setParams (pre : List (Event K))
    (params : KinectFusionParams K) :
    recreatedSinceSetParams (pre ++ [Event.SetParams params,
      Event.EnterCriticalSection Lock.m_lockParams,
      Event.LeaveCriticalSection Lock.m_lockParams]) = false := by
  unfold recreatedSinceSetParams
  rw [List.foldl_append]
  simp [Event.isSetParams, Event.isRecreateVolume]

/-- What a step other than a call of `SetParams` does to `m_paramsNext` and to the trace. -/
theorem applyStep_paramsNext [FloorRing K] (sdk : Sdk) (w : Bool × KinectFusionProcessor K)
    (step : Step K) (h : ∀ params, step ≠ Step.SetParams params) :
    ∃ evs, (applyStep sdk w step).2.trace = w.2.trace ++ evs ∧
      evs.any Event.isSetParams = false ∧
      ((applyStep sdk w step).2.m_paramsNext = w.2.m_paramsNext ∨
        (evs.any Event.isRecreateVolume = true ∧
          (applyStep sdk w step).2.m_paramsNext =
            { w.2.m_paramsNext with m_bPauseIntegration := false })) := by
  cases step with
  | SetParams params => exact absurd rfl (h params)
  | pass env =>
    by_cases hx : w.1 = true
    · exact ⟨[], by simp [applyStep, hx], rfl, Or.inl (by simp [applyStep, hx])⟩
    · simp only [Bool.not_eq_true] at hx
      obtain ⟨evs, t, n, -, p⟩ := (pass_outcome sdk w.2 env).events
      refine ⟨evs, ?_, n, ?_⟩
      · simpa [applyStep, hx] using t
      · simpa [applyStep, hx] using p
  | SetWindow hWnd msgFrameReady msgUpdateSensorStatus =>
    exact ⟨[], by simp [applyStep, SetWindow], rfl, Or.inl rfl⟩
  | ResetReconstruction =>
    exact ⟨[Event.EnterCriticalSection Lock.m_lockParams,
      Event.LeaveCriticalSection Lock.m_lockParams],
      by simp [applyStep, ResetReconstruction, KinectFusionProcessor.log],
      by simp [Event.isSetParams], Or.inl rfl⟩
  | ResolveSensorConflict =>
    exact ⟨[Event.EnterCriticalSection Lock.m_lockParams,
      Event.LeaveCriticalSection Lock.m_lockParams],
      by simp [applyStep, ResolveSensorConflict, KinectFusionProcessor.log],
      by simp [Event.isSetParams], Or.inl rfl⟩
  | StopProcessing =>
    simp only [applyStep, StopProcessing.request, KinectFusionProcessor.log]
    split_ifs
    · exact ⟨[Event.EnterCriticalSection Lock.m_lockParams,
        Event.LeaveCriticalSection Lock.m_lockParams], by simp,
        by simp [Event.isSetParams], Or.inl rfl⟩
    · exact ⟨[], by simp, rfl, Or.inl rfl⟩
  | CalculateMesh hrVolumeMesh absoluteTime =>
    simp only [applyStep, CalculateMesh, KinectFusionProcessor.log]
    split_ifs
    · exact ⟨[Event.EnterCriticalSection Lock.m_lockVolume, Event.CalculateMesh,
        Event.LeaveCriticalSection Lock.m_lockVolume], by simp,
        by simp [Event.isSetParams], Or.inl rfl⟩
    · exact ⟨[Event.EnterCriticalSection Lock.m_lockVolume,
        Event.LeaveCriticalSection Lock.m_lockVolume], by simp,
        by simp [Event.isSetParams], Or.inl rfl⟩
  | LockFrame =>
    exact ⟨[Event.EnterCriticalSection Lock.m_lockFrame],
      by simp [applyStep, LockFrame, KinectFusionProcessor.log],
      by simp [Event.isSetParams], Or.inl rfl⟩
  | UnlockFrame =>
    exact ⟨[Event.LeaveCriticalSection Lock.m_lockFrame],
      by simp [applyStep, UnlockFrame, KinectFusionProcessor.log],
      by simp [Event.isSetParams], Or.inl rfl⟩

theorem lastSetParams_cons (d : KinectFusionParams K) (step : Step K)
    (rest : List (Step K)) :
    lastSetParams d (step :: rest) = lastSetParams (lastSetParams d [step]) rest := by
  cases step <;> rfl

/-- Along a run, `m_paramsNext` is the argument of the most recent call of `SetParams`, except
that its pause flag may have been cleared, which happens only when `RecreateVolume` is invoked
after that call. The list `pre` holds the events made before the run. -/
theorem run_paramsNext [FloorRing K] (sdk : Sdk) (steps : List (Step K)) :
    ∀ (w : Bool × KinectFusionProcessor K) (d : KinectFusionParams K) (pre : List (Event K)),
      { w.2.m_paramsNext with m_bPauseIntegration := d.m_bPauseIntegration } = d →
      (w.2.m_paramsNext.m_bPauseIntegration = true → d.m_bPauseIntegration = true) →
      (recreatedSinceSetParams pre = false → w.2.m_paramsNext = d) →
      ∃ evs, (run sdk w steps).2.trace = w.2.trace ++ evs ∧
        { (run sdk w steps).2.m_paramsNext with
            m_bPauseIntegration := (lastSetParams d steps).m_bPauseIntegration } =
          lastSetParams d steps ∧
        ((run sdk w steps).2.m_paramsNext.m_bPauseIntegration = true →
          (lastSetParams d steps).m_bPauseIntegration = true) ∧
        (recreatedSinceSetParams (pre ++ evs) = false →
          (run sdk w steps).2.m_paramsNext = lastSetParams d steps) := by
  induction steps with
  | nil =>
    intro w d pre h1 h2 h3
    exact ⟨[], by simp [run_nil], h1, h2, by simpa using h3⟩
  | cons step rest ih =>
    intro w d pre h1 h2 h3
    rw [run_cons, lastSetParams_cons]
    by_cases hs : ∃ params, step = Step.SetParams params
    · obtain ⟨params, rfl⟩ := hs
      obtain ⟨evs, t, i1, i2, i3⟩ := ih (applyStep sdk w (Step.SetParams params)) params
        (pre ++ [Event.SetParams params, Event.EnterCriticalSection Lock.m_lockParams,
          Event.LeaveCriticalSection Lock.m_lockParams]) rfl (fun h => h) (fun _ => rfl)
      refine ⟨[Event.SetParams params, Event.EnterCriticalSection Lock.m_lockParams,
          Event.LeaveCriticalSection Lock.m_lockParams] ++ evs, ?_, i1, i2, ?_⟩
      · rw [t]
        simp [applyStep, SetParams, KinectFusionProcessor.log]
      · intro hr
        apply i3
        rw [← List.append_assoc] at hr
        exact hr
    · have hs' : ∀ params, step ≠ Step.SetParams params := fun p hp => hs ⟨p, hp⟩
      have hd : lastSetParams d [step] = d := by
        cases step <;> first | rfl | exact absurd rfl (hs' _)
      obtain ⟨e1, t1, n1, p1⟩ := applyStep_paramsNext sdk w step hs'
      have hrec := recreatedSinceSetParams_append pre e1 n1
      rw [hd]
      obtain ⟨evs, t, i1, i2, i3⟩ := ih (applyStep sdk w step) d (pre ++ e1)
        (by
          rcases p1 with p1 | ⟨-, p1⟩
          · rw [p1]; exact h1
          · rw [p1]; exact h1)
        (by
          rcases p1 with p1 | ⟨-, p1⟩
          · rw [p1]; exact h2
          · rw [p1]; intro hc; exact absurd hc (by simp))
        (by
          intro hr
          rw [hrec, Bool.or_eq_false_iff] at hr
          rcases p1 with p1 | ⟨r1, -⟩
          · rw [p1]; exact h3 hr.1
          · rw [r1] at hr
            exact absurd hr.2 (by simp))
      refine ⟨e1 ++ evs, ?_, i1, i2, ?_⟩
      · rw [t, t1, List.append_assoc]
      · intro hr
        apply i3
        rw [← List.append_assoc] at hr
        exact hr

/-! ## Theorems: the claims about the worker loop -/

/-- C13. One-shot flags are consumed exactly once. After the parameter-acquisition step of any
iteration of the worker loop the reset-requested flag and the resolve-conflict-requested flag
are false, and the local copies of the iteration are the values the flags had just before the
step. Hence, in every run that follows a call of `ResetReconstruction()` and contains no
further such call, the values of the local `bResetReconstruction` in the passes of the worker,
in order, are `true` in the first pass made (if any) and `false` in all later ones; the same
holds for `ResolveSensorConflict()` and the local `bResolveSensorConflict`. -/
theorem one_shot_flags_consumed_once [FloorRing K] (sdk : Sdk) (s : KinectFusionProcessor K)
    (exited : Bool) (steps : List (Step K)) :
    ((MainLoop.acquireParams s).2.m_bResetReconstruction = false ∧
      (MainLoop.acquireParams s).2.m_bResolveSensorConflict = false ∧
      (MainLoop.acquireParams s).1.bResetReconstruction = s.m_bResetReconstruction ∧
      (MainLoop.acquireParams s).1.bResolveSensorConflict = s.m_bResolveSensorConflict) ∧
    (steps.any Step.isResetReconstruction = false →
      resetObservations sdk (exited, ResetReconstruction s) steps = [] ∨
      resetObservations sdk (exited, ResetReconstruction s) steps =
        true :: List.replicate
          ((resetObservations sdk (exited, ResetReconstruction s) steps).length - 1) false) ∧
    (steps.any Step.isResolveSensorConflict = false →
      resolveObservations sdk (exited, ResolveSensorConflict s) steps = [] ∨
      resolveObservations sdk (exited, ResolveSensorConflict s) steps =
        true :: List.replicate
          ((resolveObservations sdk (exited, ResolveSensorConflict s) steps).length - 1)
          false) := by
  obtain ⟨-, a2, a3, -, a5, a6, -, -, -, -⟩ := acquireParams_spec s
  exact ⟨⟨a5, a6, a2, a3⟩,
    fun h => resetObservations_of_set sdk steps (exited, ResetReconstruction s) rfl h,
    fun h => resolveObservations_of_set sdk steps (exited, ResolveSensorConflict s) rfl h⟩

/-- Witness of C13: after a reset request, a timeout pass, a call of `SetParams`, a depth-frame
pass and another timeout pass see the request at most in the first pass made. -/
theorem one_shot_flags_consumed_once_witness :
    [Step.pass timeoutEnv, Step.SetParams widerParams, Step.pass depthFrameEnv,
      Step.pass timeoutEnv].any Step.isResetReconstruction = false ∧
    (resetObservations sampleSdk (false, ResetReconstruction sampleState)
        [Step.pass timeoutEnv, Step.SetParams widerParams, Step.pass depthFrameEnv,
          Step.pass timeoutEnv] = [] ∨
      resetObservations sampleSdk (false, ResetReconstruction sampleState)
        [Step.pass timeoutEnv, Step.SetParams widerParams, Step.pass depthFrameEnv,
          Step.pass timeoutEnv] =
        true :: List.replicate
          ((resetObservations sampleSdk (false, ResetReconstruction sampleState)
            [Step.pass timeoutEnv, Step.SetParams widerParams, Step.pass depthFrameEnv,
              Step.pass timeoutEnv]).length - 1) false) :=
  ⟨rfl, (one_shot_flags_consumed_once sampleSdk sampleState false
    [Step.pass timeoutEnv, Step.SetParams widerParams, Step.pass depthFrameEnv,
      Step.pass timeoutEnv]).2.1 rfl⟩

/-- C11, amended. Parameter visibility: after every run of controller calls and worker passes,
the parameter snapshot `m_paramsCurrent` that the next iteration holds right after its
parameter-acquisition step is `m_paramsNext` as it was before the step; it equals the argument
of the most recent call of `SetParams` (or the value of `m_paramsNext` at the start of the run
when there was none) in every field other than `m_bPauseIntegration`; its pause flag is set
only if the flag of that argument is; and it equals that argument in every field when
`RecreateVolume` has not been invoked since that call. -/
theorem MainLoop_parameter_visibility [FloorRing K] (sdk : Sdk) (s : KinectFusionProcessor K)
    (exited : Bool) (steps : List (Step K)) :
    (MainLoop.acquireParams (run sdk (exited, s) steps).2).2.m_paramsCurrent =
      (run sdk (exited, s) steps).2.m_paramsNext ∧
    { (MainLoop.acquireParams (run sdk (exited, s) steps).2).2.m_paramsCurrent with
        m_bPauseIntegration := (lastSetParams s.m_paramsNext steps).m_bPauseIntegration } =
      lastSetParams s.m_paramsNext steps ∧
    ((MainLoop.acquireParams
        (run sdk (exited, s) steps).2).2.m_paramsCurrent.m_bPauseIntegration = true →
      (lastSetParams s.m_paramsNext steps).m_bPauseIntegration = true) ∧
    (recreatedSinceSetParams (eventsSince s (run sdk (exited, s) steps).2) = false →
      (MainLoop.acquireParams (run sdk (exited, s) steps).2).2.m_paramsCurrent =
        lastSetParams s.m_paramsNext steps) := by
  obtain ⟨evs, t, i1, i2, i3⟩ := run_paramsNext sdk steps (exited, s) s.m_paramsNext []
    rfl (fun h => h) (fun _ => rfl)
  have ha := (acquireParams_spec (run sdk (exited, s) steps).2).2.2.2.2.2.2.2.1
  have he : eventsSince s (run sdk (exited, s) steps).2 = evs := by
    simp only [eventsSince, t]
    simp
  rw [ha, he]
  exact ⟨rfl, i1, i2, by simpa using i3⟩

/-- The state of the sample run of C11: from a started processor without a volume, the
controller pauses the integration and the worker then handles a depth frame, creating the
volume. `RecreateVolume` clears the pause flag of `m_paramsNext`. -/
theorem run_startedState_paused :
    (run sampleSdk (false, startedState)
      [Step.SetParams pausedParams, Step.pass depthFrameEnv]).2.m_paramsNext = sampleParams := by
  simp [run, applyStep, SetParams, MainLoop.pass, MainLoop.iteration, MainLoop.acquireParams,
    MainLoop.resolveConflict, MainLoop.dispatch, MainLoop.depthFrame, MainLoop.changeNearMode,
    MainLoop.volumeLifecycle, MainLoop.notifyWithoutSensor, NotifyFrameReady, ShutdownSensor,
    WM_NULL, KinectFusionParams.VolumeChanged, depthFrameEnv, readyVolumeEnv, startedState,
    pausedParams, RecreateVolume, RecreateVolume.begin, RecreateVolume.created,
    RecreateVolume.resume,
    ProcessDepth, ProcessDepth.body, ProcessDepth.FinishFrame, ProcessDepth.enterFrame,
    ProcessDepth.storeImages, ProcessDepth.updateFps, ProcessDepth.leaveFrame,
    ProcessDepth.resetWhenLost, ProcessDepth.lostTooLong, ProcessDepth.integrate,
    ProcessDepth.raycast, ProcessDepth.track, ProcessDepth.timeStampGuard,
    ProcessDepth.timeStampSkipped, CopyExtendedDepth, InternalResetReconstruction,
    KinectFusionProcessor.log, SetStatusMessage, sampleState, trackedEnv,
    sampleSdk, sampleParams, FAILED, SUCCEEDED, S_OK, cResetOnNumberOfLostFrames, truncToInt,
    cTimeDisplayInterval, SetIdentityMatrix, zTurnPose]

/-- C11 as stated fails after a volume creation: the controller calls `SetParams` with the
pause flag set, the worker handles a depth frame and creates the volume, and the snapshot the
next iteration takes has the pause flag cleared, unlike the argument of the most recent call
of `SetParams`. -/
theorem snapshot_differs_after_volume_creation :
    lastSetParams startedState.m_paramsNext
      [Step.SetParams pausedParams, Step.pass depthFrameEnv] = pausedParams ∧
    pausedParams.m_bPauseIntegration = true ∧
    (MainLoop.acquireParams (run sampleSdk (false, startedState)
      [Step.SetParams pausedParams, Step.pass depthFrameEnv]).2).2.m_paramsCurrent =
        sampleParams ∧
    sampleParams.m_bPauseIntegration = false ∧
    (MainLoop.acquireParams (run sampleSdk (false, startedState)
      [Step.SetParams pausedParams, Step.pass depthFrameEnv]).2).2.m_paramsCurrent ≠
        lastSetParams startedState.m_paramsNext
          [Step.SetParams pausedParams, Step.pass depthFrameEnv] := by
  have h := (acquireParams_spec (run sampleSdk (false, startedState)
      [Step.SetParams pausedParams, Step.pass depthFrameEnv]).2).2.2.2.2.2.2.2.1
  rw [h, run_startedState_paused]
  refine ⟨rfl, rfl, rfl, rfl, ?_⟩
  intro hc
  have : sampleParams.m_bPauseIntegration = pausedParams.m_bPauseIntegration := by
    rw [hc]
    rfl
  exact Bool.false_ne_true this

/-- The events of the sample run of the witness of C11: a call of `SetParams` followed by a
pass of the worker whose wait times out. -/
theorem run_sampleState_wider_trace :
    (run sampleSdk (false, sampleState)
      [Step.SetParams widerParams, Step.pass timeoutEnv]).2.trace =
      [Event.SetParams widerParams, Event.EnterCriticalSection Lock.m_lockParams,
        Event.LeaveCriticalSection Lock.m_lockParams,
        Event.EnterCriticalSection Lock.m_lockParams,
        Event.LeaveCriticalSection Lock.m_lockParams] := by
  simp [run, applyStep, SetParams, MainLoop.pass, MainLoop.iteration, MainLoop.acquireParams,
    MainLoop.resolveConflict, MainLoop.dispatch, MainLoop.notifyWithoutSensor, timeoutEnv,
    depthFrameEnv, KinectFusionProcessor.log, sampleState]

/-- Witness of the amended C11: after a call of `SetParams` and a pass of the worker that
invokes no `RecreateVolume`, the snapshot of the next iteration is the argument of the
call. -/
theorem MainLoop_parameter_visibility_witness :
    recreatedSinceSetParams (eventsSince sampleState (run sampleSdk (false, sampleState)
      [Step.SetParams widerParams, Step.pass timeoutEnv]).2) = false ∧
    (MainLoop.acquireParams (run sampleSdk (false, sampleState)
      [Step.SetParams widerParams, Step.pass timeoutEnv]).2).2.m_paramsCurrent =
      widerParams := by
  have h : recreatedSinceSetParams (eventsSince sampleState (run sampleSdk (false, sampleState)
      [Step.SetParams widerParams, Step.pass timeoutEnv]).2) = false := by
    have e : eventsSince sampleState (run sampleSdk (false, sampleState)
        [Step.SetParams widerParams, Step.pass timeoutEnv]).2 =
        (run sampleSdk (false, sampleState)
          [Step.SetParams widerParams, Step.pass timeoutEnv]).2.trace := by
      simp [eventsSince, sampleState]
    rw [e, run_sampleState_wider_trace]
    simp [recreatedSinceSetParams, Event.isSetParams, Event.isRecreateVolume]
  exact ⟨h, (MainLoop_parameter_visibility sampleSdk sampleState false
    [Step.SetParams widerParams, Step.pass timeoutEnv]).2.2.2 h⟩

/-- C15. Nothing is published after stop is observed: in the iteration of the worker loop whose
parameter-acquisition step reads the stop flag as set, the only calls made are the entry to
and the exit from the parameter lock; the output bundle and the volume are left as they were;
the loop condition fails, so that the loop ends without another iteration whatever answers
further iterations would get, and the statements after the loop only shut the sensor down.
No call of the whole pass is an operation on the volume, a write of a frame buffer or a
posted message. -/
theorem nothing_published_after_stop [FloorRing K] (sdk : Sdk) (s : KinectFusionProcessor K)
    (env : MainLoopEnv K) (rest : List (MainLoopEnv K)) (hstop : s.m_bStopProcessing = true) :
    (MainLoop.iteration sdk s env).1 = true ∧
    eventsSince s (MainLoop.iteration sdk s env).2 =
      [Event.EnterCriticalSection Lock.m_lockParams,
        Event.LeaveCriticalSection Lock.m_lockParams] ∧
    (MainLoop.iteration sdk s env).2.m_frame = s.m_frame ∧
    (MainLoop.iteration sdk s env).2.m_pVolume = s.m_pVolume ∧
    MainLoop.loop sdk s (env :: rest) = some (MainLoop.pass sdk s env).2 ∧
    eventsSince s (MainLoop.pass sdk s env).2 =
      [Event.EnterCriticalSection Lock.m_lockParams,
        Event.LeaveCriticalSection Lock.m_lockParams] ++
        (if s.m_pNuiSensor then [Event.NuiShutdown] else []) ∧
    (MainLoop.pass sdk s env).2.m_frame = s.m_frame ∧
    (MainLoop.pass sdk s env).2.m_pVolume = s.m_pVolume ∧
    (eventsSince s (MainLoop.pass sdk s env).2).any
      (fun e => e.isVolumeOperation || e.isStoreImage || e.isPostMessage) = false := by
  have hb : (MainLoop.acquireParams s).1.bStopProcessing = true :=
    (acquireParams_spec s).1.trans hstop
  have hi : MainLoop.iteration sdk s env = (true, (MainLoop.acquireParams s).2) := by
    simp only [MainLoop.iteration]
    rw [if_pos hb, hb]
  have hp : MainLoop.pass sdk s env = (true, ShutdownSensor (MainLoop.acquireParams s).2) := by
    simp [MainLoop.pass, hi]
  have hl : MainLoop.loop sdk s (env :: rest) = some (MainLoop.pass sdk s env).2 := by
    simp [MainLoop.loop, hp]
  rw [hl, hp, hi]
  refine ⟨rfl, by simp [eventsSince, MainLoop.acquireParams, KinectFusionProcessor.log],
    rfl, rfl, rfl, ?_, ?_, ?_, ?_⟩
  · cases hs : s.m_pNuiSensor <;>
      simp [eventsSince, ShutdownSensor, MainLoop.acquireParams, KinectFusionProcessor.log, hs]
  · cases hs : s.m_pNuiSensor <;>
      simp [ShutdownSensor, MainLoop.acquireParams, KinectFusionProcessor.log, hs]
  · cases hs : s.m_pNuiSensor <;>
      simp [ShutdownSensor, MainLoop.acquireParams, KinectFusionProcessor.log, hs]
  · cases hs : s.m_pNuiSensor <;>
      simp [eventsSince, ShutdownSensor, MainLoop.acquireParams, KinectFusionProcessor.log, hs,
        Event.isVolumeOperation, Event.isStoreImage, Event.isPostMessage]

/-- Witness of C15: the sample processor with the stop flag set, woken by a depth frame. -/
theorem nothing_published_after_stop_witness :
    stoppingState.m_bStopProcessing = true ∧
    MainLoop.loop sampleSdk stoppingState [depthFrameEnv, depthFrameEnv] =
      some (MainLoop.pass sampleSdk stoppingState depthFrameEnv).2 ∧
    eventsSince stoppingState (MainLoop.pass sampleSdk stoppingState depthFrameEnv).2 =
      [Event.EnterCriticalSection Lock.m_lockParams,
        Event.LeaveCriticalSection Lock.m_lockParams] ++
        (if stoppingState.m_pNuiSensor then [Event.NuiShutdown] else []) :=
  ⟨rfl,
    (nothing_published_after_stop sampleSdk stoppingState depthFrameEnv [depthFrameEnv]
      rfl).2.2.2.2.1,
    (nothing_published_after_stop sampleSdk stoppingState depthFrameEnv [depthFrameEnv]
      rfl).2.2.2.2.2.1⟩

/-! ## Theorems: the raycast decision -/

theorem NoRaycast.still (s : KinectFusionProcessor K) : NoRaycast s s :=
  ⟨rfl, [], by simp, rfl⟩

theorem NoRaycast.next {s s' s'' : KinectFusionProcessor K}
    (a : NoRaycast s s') (b : NoRaycast s' s'') : NoRaycast s s'' := by
  obtain ⟨e1, t1, l1⟩ := a.events
  obtain ⟨e2, t2, l2⟩ := b.events
  refine ⟨b.time.trans a.time, e1 ++ e2, ?_, ?_⟩
  · rw [t2, t1, List.append_assoc]
  · rw [List.any_append, l1, l2]
    rfl

theorem NoRaycast.call (s : KinectFusionProcessor K) (e : Event K)
    (he : e.isCalculatePointCloud = false) : NoRaycast s (s.log e) :=
  ⟨rfl, [e], rfl, by simp [he]⟩

theorem NoRaycast.of_same {s s' : KinectFusionProcessor K}
    (p1 : s'.m_fMostRecentRaycastTime = s.m_fMostRecentRaycastTime)
    (p2 : s'.trace = s.trace) : NoRaycast s s' :=
  ⟨p1, [], by simp [p2], rfl⟩

theorem SetStatusMessage_noRaycast (s : KinectFusionProcessor K) (m : String) :
    NoRaycast s (SetStatusMessage s m) :=
  NoRaycast.of_same rfl rfl

theorem InternalResetReconstruction_noRaycast (s : KinectFusionProcessor K) (hr : HRESULT)
    (t : K) : NoRaycast s (InternalResetReconstruction s hr t).2 := by
  unfold InternalResetReconstruction
  simp only [KinectFusionProcessor.log]
  split_ifs <;> constructor <;> simp [Event.isCalculatePointCloud]

theorem CopyExtendedDepth_noRaycast (s : KinectFusionProcessor K)
    (env : ProcessDepthEnv K) : NoRaycast s (CopyExtendedDepth s env).2 := by
  unfold CopyExtendedDepth
  simp only [KinectFusionProcessor.log, SetStatusMessage]
  split_ifs <;> constructor <;> simp [Event.isCalculatePointCloud]

theorem timeStampGuard_noRaycast (s : KinectFusionProcessor K) (env : ProcessDepthEnv K)
    (t : Int) : NoRaycast s (ProcessDepth.timeStampGuard s env t) := by
  obtain ⟨p1, evs, ht, hl⟩ :=
    InternalResetReconstruction_noRaycast s env.hrResetOnTimeStamp env.timeResetOnTimeStamp
  simp only [ProcessDepth.timeStampGuard, SetStatusMessage]
  split_ifs
  · exact ⟨p1, evs, ht, hl⟩
  · exact ⟨p1, evs, ht, hl⟩
  · exact NoRaycast.of_same rfl rfl

theorem track_noRaycast (sdk : Sdk) (s : KinectFusionProcessor K)
    (env : ProcessDepthEnv K) (hr : HRESULT) :
    NoRaycast s (ProcessDepth.track sdk s env hr).2 := by
  simp only [ProcessDepth.track, KinectFusionProcessor.log, SetStatusMessage]
  split_ifs <;> constructor <;> simp [Event.isCalculatePointCloud]

theorem enterFrame_noRaycast (s : KinectFusionProcessor K) :
    NoRaycast s (ProcessDepth.enterFrame s) := by
  unfold ProcessDepth.enterFrame
  constructor <;> simp [KinectFusionProcessor.log, Event.isCalculatePointCloud]

theorem storeImages_noRaycast (s : KinectFusionProcessor K)
    (env : ProcessDepthEnv K) (l : ProcessDepthLocals) :
    NoRaycast s (ProcessDepth.storeImages s env l).2 := by
  simp only [ProcessDepth.storeImages, KinectFusionProcessor.log]
  split_ifs <;> constructor <;> simp [Event.isCalculatePointCloud]

theorem updateFps_noRaycast [FloorRing K] (s : KinectFusionProcessor K)
    (env : ProcessDepthEnv K) (hr : HRESULT) :
    NoRaycast s (ProcessDepth.updateFps s env hr) := by
  simp only [ProcessDepth.updateFps]
  split_ifs <;> exact NoRaycast.of_same rfl rfl

theorem leaveFrame_noRaycast (s : KinectFusionProcessor K) :
    NoRaycast s (ProcessDepth.leaveFrame s) := by
  unfold ProcessDepth.leaveFrame
  constructor <;> simp [KinectFusionProcessor.log, Event.isCalculatePointCloud]

theorem FinishFrame_noRaycast [FloorRing K] (s : KinectFusionProcessor K)
    (env : ProcessDepthEnv K) (l : ProcessDepthLocals) :
    NoRaycast s (ProcessDepth.FinishFrame s env l) := by
  unfold ProcessDepth.FinishFrame
  exact (((enterFrame_noRaycast s).next (storeImages_noRaycast _ env l)).next
    (updateFps_noRaycast _ env _)).next (leaveFrame_noRaycast _)

theorem RaycastReached.after {s y : KinectFusionProcessor K} {env : ProcessDepthEnv K}
    {r : ProcessDepthLocals × KinectFusionProcessor K} (a : NoRaycast s y)
    (b : RaycastReached y env r) : RaycastReached s env r := by
  rcases b with ⟨z, hr, hz, e⟩ | ⟨hn, hf⟩
  · exact Or.inl ⟨z, hr, a.next hz, e⟩
  · exact Or.inr ⟨a.next hn, hf⟩

theorem integrate_raycastReached (s : KinectFusionProcessor K) (env : ProcessDepthEnv K)
    (hr : HRESULT) : RaycastReached s env (ProcessDepth.integrate s env hr) := by
  simp only [ProcessDepth.integrate]
  split_ifs
  · exact Or.inr ⟨(NoRaycast.call s (Event.IntegrateFrame _ _) rfl).next
      (SetStatusMessage_noRaycast _ _), rfl⟩
  · exact Or.inl ⟨_, _, NoRaycast.call s (Event.IntegrateFrame _ _) rfl, rfl⟩
  · exact Or.inl ⟨_, _, NoRaycast.still s, rfl⟩

theorem resetWhenLost_raycastReached (s : KinectFusionProcessor K) (env : ProcessDepthEnv K)
    (hr : HRESULT) : RaycastReached s env (ProcessDepth.resetWhenLost s env hr) := by
  have h := InternalResetReconstruction_noRaycast s env.hrResetWhenLost env.timeResetWhenLost
  simp only [ProcessDepth.resetWhenLost]
  split_ifs
  · exact RaycastReached.after (h.next (SetStatusMessage_noRaycast _ _))
      (integrate_raycastReached _ env _)
  · exact Or.inr ⟨h.next (SetStatusMessage_noRaycast _ _), rfl⟩
  · exact integrate_raycastReached s env hr

theorem body_raycastReached (sdk : Sdk) (s : KinectFusionProcessor K)
    (env : ProcessDepthEnv K) : RaycastReached s env (ProcessDepth.body sdk s env) := by
  have h0 := NoRaycast.call s Event.NuiImageStreamGetNextFrame rfl
  have h1 := (h0.next (CopyExtendedDepth_noRaycast _ env)).next
      (NoRaycast.call _ Event.NuiImageStreamReleaseFrame rfl)
  have h2 := (h1.next (timeStampGuard_noRaycast _ env env.liTimeStamp)).next
      (NoRaycast.call _ Event.NuiFusionDepthToDepthFloatFrame rfl)
  simp only [ProcessDepth.body]
  split_ifs
  · exact Or.inr ⟨h0.next (SetStatusMessage_noRaycast _ _), rfl⟩
  · exact Or.inr ⟨h1, rfl⟩
  · exact Or.inr ⟨h2.next (SetStatusMessage_noRaycast _ _), rfl⟩
  · exact Or.inr ⟨h2.next (SetStatusMessage_noRaycast _ _), rfl⟩
  · exact RaycastReached.after (h2.next (track_noRaycast sdk _ env _))
      (resetWhenLost_raycastReached _ env _)

theorem renderIntervalSeconds_eq :
    (1 / 1000 : K) * (cRenderIntervalMilliseconds : K) = 1 / 10 := by
  simp only [cRenderIntervalMilliseconds]
  norm_num

theorem raycast_spec (y : KinectFusionProcessor K) (env : ProcessDepthEnv K) (hr : HRESULT) :
    (ProcessDepth.raycast y env hr).1.raycastFrame = raycastDue y env ∧
    (∃ evs, (ProcessDepth.raycast y env hr).2.trace = y.trace ++ evs ∧
      evs.any Event.isCalculatePointCloud = raycastDue y env) ∧
    (ProcessDepth.raycast y env hr).2.m_fMostRecentRaycastTime =
      if raycastDue y env then env.currentTime else y.m_fMostRecentRaycastTime := by
  have hd : (if (!env.nextDepthFrameSignalled) = true then true
      else decide (env.currentTime - y.m_fMostRecentRaycastTime >
        (1 / 1000 : K) * (cRenderIntervalMilliseconds : K))) = raycastDue y env := by
    rw [renderIntervalSeconds_eq]
    cases h : env.nextDepthFrameSignalled <;> simp [raycastDue, h]
  simp only [ProcessDepth.raycast, hd, KinectFusionProcessor.log, SetStatusMessage]
  cases raycastDue y env
  · exact ⟨rfl, ⟨[], by simp, rfl⟩, rfl⟩
  · simp only [if_true]
    split_ifs
    · exact ⟨rfl, ⟨[Event.CalculatePointCloud _], rfl, rfl⟩, rfl⟩
    · exact ⟨rfl, ⟨[Event.CalculatePointCloud y.m_worldToCameraTransform,
        Event.NuiFusionShadePointCloud y.m_worldToCameraTransform
          (ProcessDepth.worldToBGRTransform y.m_paramsCurrent)], by simp, rfl⟩, rfl⟩
    · exact ⟨rfl, ⟨[Event.CalculatePointCloud y.m_worldToCameraTransform,
        Event.NuiFusionShadePointCloud y.m_worldToCameraTransform
          (ProcessDepth.worldToBGRTransform y.m_paramsCurrent)], by simp, rfl⟩, rfl⟩

/-- C16. Raycast throttling. For every state `y` in which the raycast decision of
`ProcessDepth` is entered, the volume is raycast (the local `raycastFrame` is set and
`CalculatePointCloud` is called) if and only if no next depth frame is signalled already or
the current time minus the stored time of the most recent raycast is strictly greater than a
tenth of a second, and the stored time becomes the current time exactly in that case and is
otherwise unchanged. Every call of `ProcessDepth` either runs that decision, entered with the
stored time it was called with and without an earlier raycast, or makes no raycast at all;
the statements after the label `FinishFrame` make no raycast and keep the stored time. So the
stored time after the call is the current time when the call made a raycast and the stored
time before the call otherwise, and a raycast is made only if the condition holds for the
stored time before the call. -/
theorem raycast_throttling [FloorRing K] (sdk : Sdk) (s : KinectFusionProcessor K)
    (env : ProcessDepthEnv K) :
    (∀ (y : KinectFusionProcessor K) (hr : HRESULT),
      (ProcessDepth.raycast y env hr).1.raycastFrame = raycastDue y env ∧
      (eventsSince y (ProcessDepth.raycast y env hr).2).any Event.isCalculatePointCloud =
        raycastDue y env ∧
      (ProcessDepth.raycast y env hr).2.m_fMostRecentRaycastTime =
        if raycastDue y env then env.currentTime else y.m_fMostRecentRaycastTime) ∧
    RaycastReached s env (ProcessDepth.body sdk s env) ∧
    NoRaycast (ProcessDepth.body sdk s env).2 (ProcessDepth sdk s env) ∧
    ((eventsSince s (ProcessDepth sdk s env)).any Event.isCalculatePointCloud = true →
      raycastDue s env = true) ∧
    (ProcessDepth sdk s env).m_fMostRecentRaycastTime =
      if (eventsSince s (ProcessDepth sdk s env)).any Event.isCalculatePointCloud
      then env.currentTime else s.m_fMostRecentRaycastTime := by
  have hstage : ∀ (y : KinectFusionProcessor K) (hr : HRESULT),
      (ProcessDepth.raycast y env hr).1.raycastFrame = raycastDue y env ∧
      (eventsSince y (ProcessDepth.raycast y env hr).2).any Event.isCalculatePointCloud =
        raycastDue y env ∧
      (ProcessDepth.raycast y env hr).2.m_fMostRecentRaycastTime =
        if raycastDue y env then env.currentTime else y.m_fMostRecentRaycastTime := by
    intro y hr
    obtain ⟨h1, ⟨evs, ht, he⟩, h3⟩ := raycast_spec y env hr
    refine ⟨h1, ?_, h3⟩
    rw [eventsSince, ht, List.drop_left]
    exact he
  have hreach := body_raycastReached sdk s env
  have hfin : NoRaycast (ProcessDepth.body sdk s env).2 (ProcessDepth sdk s env) :=
    FinishFrame_noRaycast _ env _
  obtain ⟨ft, fe, ftr, fany⟩ := hfin
  have hdue : ∀ y : KinectFusionProcessor K,
      y.m_fMostRecentRaycastTime = s.m_fMostRecentRaycastTime →
      raycastDue y env = raycastDue s env := by
    intro y hy
    simp [raycastDue, hy]
  refine ⟨hstage, hreach, ⟨ft, fe, ftr, fany⟩, ?_, ?_⟩
  · rcases hreach with ⟨y, hr, ⟨yt, ye, ytr, yany⟩, e⟩ | ⟨⟨bt, be, btr, bany⟩, -⟩
    · obtain ⟨-, ⟨evs, ht, he⟩, -⟩ := raycast_spec y env hr
      rw [eventsSince, ftr, e, ht, ytr]
      simp only [List.append_assoc, List.drop_left, List.any_append, yany, fany, he,
        Bool.false_or, Bool.or_false]
      intro h
      rw [← hdue y yt]
      exact h
    · rw [eventsSince, ftr, btr]
      simp [List.append_assoc, bany, fany]
  · rw [ft]
    rcases hreach with ⟨y, hr, ⟨yt, ye, ytr, yany⟩, e⟩ | ⟨⟨bt, be, btr, bany⟩, -⟩
    · obtain ⟨-, ⟨evs, ht, he⟩, h3⟩ := raycast_spec y env hr
      rw [eventsSince, ftr, e, ht, ytr, h3]
      simp only [List.append_assoc, List.drop_left, List.any_append, yany, fany, he,
        Bool.false_or, Bool.or_false, yt]
    · rw [eventsSince, ftr, btr, bt]
      simp [List.append_assoc, bany, fany]

/-! ## Theorems: the explorer -/

theorem eventsSince_of_trace {s s' : KinectFusionProcessor K} {evs : List (Event K)}
    (h : s'.trace = s.trace ++ evs) : eventsSince s s' = evs := by
  simp [eventsSince, h]

/-- The calls `HandleCompletedFrame` makes on its processor, and what it does to the
parameters of the explorer. -/
theorem HandleCompletedFrame_spec (e : CKinectFusionExplorer K) :
    e.HandleCompletedFrame.m_params =
      (if e.m_processor.m_frame.m_bIntegrationResumed
        then { e.m_params with m_bPauseIntegration := false } else e.m_params) ∧
    e.HandleCompletedFrame.m_bSavingMesh = e.m_bSavingMesh ∧
    e.HandleCompletedFrame.m_bStlMeshFormat = e.m_bStlMeshFormat ∧
    e.HandleCompletedFrame.m_processor.trace = e.m_processor.trace ++
      (if e.m_processor.m_frame.m_bIntegrationResumed then
        [Event.EnterCriticalSection Lock.m_lockFrame,
          Event.SetParams { e.m_params with m_bPauseIntegration := false },
          Event.EnterCriticalSection Lock.m_lockParams,
          Event.LeaveCriticalSection Lock.m_lockParams,
          Event.LeaveCriticalSection Lock.m_lockFrame]
      else
        [Event.EnterCriticalSection Lock.m_lockFrame,
          Event.LeaveCriticalSection Lock.m_lockFrame]) := by
  cases h : e.m_processor.m_frame.m_bIntegrationResumed <;>
    simp [CKinectFusionExplorer.HandleCompletedFrame, LockFrame, UnlockFrame, SetParams,
      KinectFusionProcessor.log, h]

/-- The completed frames handled while the file dialog is shown leave the parameters of the
explorer alone or clear their pause flag, and every call of `SetParams` they make passes the
parameters with the pause flag cleared. -/
theorem handledFrames_spec (frames : List Bool) :
    ∀ e : CKinectFusionExplorer K,
      let e' := frames.foldl
        (fun e resumed =>
          CKinectFusionExplorer.HandleCompletedFrame
            { e with m_processor := { e.m_processor with
              m_frame := { e.m_processor.m_frame with m_bIntegrationResumed := resumed } } }) e
      (e'.m_params = e.m_params ∨
        e'.m_params = { e.m_params with m_bPauseIntegration := false }) ∧
      e'.m_bSavingMesh = e.m_bSavingMesh ∧
      ∃ evs mid, e'.m_processor.trace = e.m_processor.trace ++ evs ∧
        evs.filter Event.isSetParams = mid ∧
        (∀ x ∈ mid, x = Event.SetParams { e.m_params with m_bPauseIntegration := false }) ∧
        mid.length ≤ frames.length := by
  induction frames with
  | nil =>
    intro e
    exact ⟨Or.inl rfl, rfl, [], [], by simp, rfl, by simp, by simp⟩
  | cons resumed rest ih =>
    intro e
    obtain ⟨h1, h2, h3, h4⟩ := HandleCompletedFrame_spec
      { e with m_processor := { e.m_processor with
        m_frame := { e.m_processor.m_frame with m_bIntegrationResumed := resumed } } }
    obtain ⟨i1, i2, evs, mid, i3, i4, i5, i6⟩ := ih (CKinectFusionExplorer.HandleCompletedFrame
      { e with m_processor := { e.m_processor with
        m_frame := { e.m_processor.m_frame with m_bIntegrationResumed := resumed } } })
    simp only [List.foldl_cons]
    cases resumed
    · simp only [Bool.false_eq_true, if_false] at h1 h4
      rw [h1] at i1 i5
      refine ⟨i1, i2.trans h2, _, mid, by rw [i3, h4, List.append_assoc], ?_, i5, ?_⟩
      · simp [List.filter_append, Event.isSetParams, i4]
      · simp only [List.length_cons]
        omega
    · simp only [if_true] at h1 h4
      rw [h1] at i1 i5
      refine ⟨Or.inr (by rcases i1 with i1 | i1 <;> rw [i1]), i2.trans h2, _,
        Event.SetParams { e.m_params with m_bPauseIntegration := false } :: mid,
        by rw [i3, h4, List.append_assoc], ?_, ?_, ?_⟩
      · simp [List.filter_append, Event.isSetParams, i4]
      · intro x hx
        rcases List.mem_cons.mp hx with hx | hx
        · exact hx
        · exact i5 x hx
      · simp only [List.length_cons]
        omega

/-- The function `SaveMeshFile`, by `handledFrames_spec`. -/
theorem SaveMeshFile_spec (e : CKinectFusionExplorer K) (env : ProcessUIEnv K) :
    ((e.SaveMeshFile env).2.m_params = e.m_params ∨
      (e.SaveMeshFile env).2.m_params = { e.m_params with m_bPauseIntegration := false }) ∧
    (e.SaveMeshFile env).2.m_bSavingMesh = e.m_bSavingMesh ∧
    ∃ evs mid, (e.SaveMeshFile env).2.m_processor.trace = e.m_processor.trace ++ evs ∧
      evs.filter Event.isSetParams = mid ∧
      (∀ x ∈ mid, x = Event.SetParams { e.m_params with m_bPauseIntegration := false }) ∧
      mid.length ≤ env.framesDuringSave.length :=
  handledFrames_spec env.framesDuringSave e

/-- The calls `CalculateMesh` makes. -/
theorem CalculateMesh_trace (s : KinectFusionProcessor K) (hr : HRESULT) (t : K) :
    ∃ cm, (CalculateMesh s hr t).2.trace = s.trace ++ cm ∧
      cm.filter Event.isSetParams = [] := by
  simp only [CalculateMesh, KinectFusionProcessor.log]
  split_ifs
  · exact ⟨[Event.EnterCriticalSection Lock.m_lockVolume, Event.CalculateMesh,
      Event.LeaveCriticalSection Lock.m_lockVolume], by simp, by simp [Event.isSetParams]⟩
  · exact ⟨[Event.EnterCriticalSection Lock.m_lockVolume,
      Event.LeaveCriticalSection Lock.m_lockVolume], by simp, by simp [Event.isSetParams]⟩

theorem SetParams_trace (s : KinectFusionProcessor K) (params : KinectFusionParams K) :
    (SetParams s params).trace = s.trace ++
      [Event.SetParams params, Event.EnterCriticalSection Lock.m_lockParams,
        Event.LeaveCriticalSection Lock.m_lockParams] := by
  simp [SetParams, KinectFusionProcessor.log]

/-- The branch of `ProcessUI` for the mesh button. -/
theorem meshButton_spec (e : CKinectFusionExplorer K) (env : ProcessUIEnv K) :
    (ProcessUI.meshButton e env).m_params = e.m_params ∧
    (ProcessUI.meshButton e env).m_bSavingMesh = false ∧
    ∃ evs mid, (ProcessUI.meshButton e env).m_processor.trace = e.m_processor.trace ++ evs ∧
      evs.filter Event.isSetParams =
        Event.SetParams { e.m_params with m_bPauseIntegration := true } ::
          (mid ++ [Event.SetParams e.m_params]) ∧
      (∀ x ∈ mid, x = Event.SetParams { e.m_params with m_bPauseIntegration := false }) ∧
      mid.length ≤ env.framesDuringSave.length := by
  obtain ⟨cm, hc1, hc2⟩ := CalculateMesh_trace
    (SetParams e.m_processor { e.m_params with m_bPauseIntegration := true })
    env.hrVolumeMesh env.absoluteTime
  -- the explorer when the pause state is about to be restored
  have h3 : ∃ e3 : CKinectFusionExplorer K,
      ProcessUI.meshButton e env =
        { m_params :=
            { e3.m_params with m_bPauseIntegration := e.m_params.m_bPauseIntegration }
          m_bSavingMesh := false
          m_bStlMeshFormat := e3.m_bStlMeshFormat
          m_processor := SetParams e3.m_processor
            { e3.m_params with m_bPauseIntegration := e.m_params.m_bPauseIntegration } } ∧
      (e3.m_params = { e.m_params with m_bPauseIntegration := true } ∨
        e3.m_params = { e.m_params with m_bPauseIntegration := false }) ∧
      ∃ evs mid, e3.m_processor.trace =
          (CalculateMesh (SetParams e.m_processor
            { e.m_params with m_bPauseIntegration := true }) env.hrVolumeMesh
              env.absoluteTime).2.trace ++ evs ∧
        evs.filter Event.isSetParams = mid ∧
        (∀ x ∈ mid, x = Event.SetParams { e.m_params with m_bPauseIntegration := false }) ∧
        mid.length ≤ env.framesDuringSave.length := by
    by_cases hs : SUCCEEDED (CalculateMesh (SetParams e.m_processor
        { e.m_params with m_bPauseIntegration := true }) env.hrVolumeMesh
          env.absoluteTime).1 = true
    · obtain ⟨f1, -, f3⟩ := SaveMeshFile_spec
        ({ m_params := { e.m_params with m_bPauseIntegration := true }
           m_bSavingMesh := true
           m_bStlMeshFormat := e.m_bStlMeshFormat
           m_processor := (CalculateMesh (SetParams e.m_processor
            { e.m_params with m_bPauseIntegration := true }) env.hrVolumeMesh
              env.absoluteTime).2 } : CKinectFusionExplorer K) env
      refine ⟨_, ?_, f1, f3⟩
      unfold ProcessUI.meshButton
      simp only [hs, if_true]
    · refine ⟨⟨{ e.m_params with m_bPauseIntegration := true }, true, e.m_bStlMeshFormat,
        (CalculateMesh (SetParams e.m_processor
          { e.m_params with m_bPauseIntegration := true }) env.hrVolumeMesh
            env.absoluteTime).2⟩, ?_, Or.inl rfl, [], [], by simp, rfl, by simp, by simp⟩
      unfold ProcessUI.meshButton
      simp only [hs, if_false]
      rfl
  obtain ⟨e3, hm, hpar, evs, mid, t3, f3, a3, l3⟩ := h3
  have hrestore : ({ e3.m_params with m_bPauseIntegration := e.m_params.m_bPauseIntegration } :
      KinectFusionParams K) = e.m_params := by
    rcases hpar with hpar | hpar <;> rw [hpar]
  rw [hm]
  refine ⟨hrestore, rfl,
    [Event.SetParams { e.m_params with m_bPauseIntegration := true },
      Event.EnterCriticalSection Lock.m_lockParams,
      Event.LeaveCriticalSection Lock.m_lockParams] ++ cm ++ evs ++
      [Event.SetParams e.m_params, Event.EnterCriticalSection Lock.m_lockParams,
        Event.LeaveCriticalSection Lock.m_lockParams], mid, ?_, ?_, a3, l3⟩
  · simp only [hrestore, SetParams_trace, t3, hc1, List.append_assoc]
  · simp [List.filter_append, Event.isSetParams, hc2, f3]

/-- C20. Mesh export restores the pause state. For every state of the explorer, every outcome
of `CalculateMesh` and of `SaveMeshFile` and whatever completed frames are handled while the
file dialog is shown, handling a click on the mesh button in `ProcessUI` leaves every field
of the parameters of the explorer as it was, the pause flag included. The first call of
`SetParams` it makes passes the parameters with the pause flag set; its last two calls (the
restoring one and the one that ends `ProcessUI`) pass the parameters as they were before;
any call in between comes from a completed frame that says that the integration resumed, and
passes the parameters with the pause flag cleared. The processor ends with the prior
parameters as its next parameters. -/
theorem mesh_export_restores_pause (e : CKinectFusionExplorer K) (wParam : Nat)
    (env : ProcessUIEnv K)
    (hclick : ProcessUI.clicked IDC_BUTTON_MESH_RECONSTRUCTION wParam = true) :
    (e.ProcessUI wParam env).m_params = e.m_params ∧
    (e.ProcessUI wParam env).m_processor.m_paramsNext = e.m_params ∧
    (e.ProcessUI wParam env).m_bSavingMesh = false ∧
    ∃ mid, (eventsSince e.m_processor (e.ProcessUI wParam env).m_processor).filter
        Event.isSetParams =
        Event.SetParams { e.m_params with m_bPauseIntegration := true } ::
          (mid ++ [Event.SetParams e.m_params, Event.SetParams e.m_params]) ∧
      (∀ x ∈ mid, x = Event.SetParams { e.m_params with m_bPauseIntegration := false }) ∧
      mid.length ≤ env.framesDuringSave.length := by
  have hw : LOWORD wParam = 1014 ∧ HIWORD wParam = 0 := by
    simp only [ProcessUI.clicked, IDC_BUTTON_MESH_RECONSTRUCTION, BN_CLICKED,
      Bool.and_eq_true, beq_iff_eq] at hclick
    exact ⟨hclick.1.symm, hclick.2.symm⟩
  obtain ⟨hl, hh⟩ := hw
  have hu : e.ProcessUI wParam env =
      { ProcessUI.meshButton e env with
        m_processor := SetParams (ProcessUI.meshButton e env).m_processor
          (ProcessUI.meshButton e env).m_params } := by
    simp [CKinectFusionExplorer.ProcessUI, ProcessUI.clicked, hl, hh, BN_CLICKED,
      IDC_CHECK_NEARMODE, IDC_BUTTON_RESET_RECONSTRUCTION, IDC_BUTTON_MESH_RECONSTRUCTION,
      IDC_CHECK_PAUSE_INTEGRATION, IDC_CHECK_MIRROR_DEPTH, IDC_CHECK_DISPLAY_SURFACE_NORMALS,
      IDC_VPM_512, IDC_VPM_384, IDC_VPM_256, IDC_VPM_128, IDC_VPM_64, IDC_VPM_640,
      IDC_VOXELS_X_512, IDC_VOXELS_X_384, IDC_VOXELS_X_256, IDC_VOXELS_X_128, IDC_VOXELS_X_640,
      IDC_VOXELS_Y_512, IDC_VOXELS_Y_384, IDC_VOXELS_Y_256, IDC_VOXELS_Y_128, IDC_VOXELS_Y_640,
      IDC_VOXELS_Z_512, IDC_VOXELS_Z_384, IDC_VOXELS_Z_256, IDC_VOXELS_Z_128, IDC_VOXELS_Z_640,
      IDC_MESH_FORMAT_OBJ_RADIO, IDC_MESH_FORMAT_STL_RADIO]
  obtain ⟨m1, m2, evs, mid, m3, m4, m5, m6⟩ := meshButton_spec e env
  rw [hu]
  refine ⟨m1, ?_, m2, mid, ?_, m5, m6⟩
  · simp [SetParams, KinectFusionProcessor.log, m1]
  · have ht : (SetParams (ProcessUI.meshButton e env).m_processor
        (ProcessUI.meshButton e env).m_params).trace = e.m_processor.trace ++
          (evs ++ [Event.SetParams e.m_params, Event.EnterCriticalSection Lock.m_lockParams,
            Event.LeaveCriticalSection Lock.m_lockParams]) := by
      simp [SetParams, KinectFusionProcessor.log, m1, m3]
    rw [eventsSince_of_trace ht]
    simp [List.filter_append, Event.isSetParams, m4]

/-- Witness of C20: the integration is paused when the mesh button is clicked, meshing succeeds,
a completed frame that says that the integration resumed is handled while the file dialog is
shown, and the dialog is cancelled. -/
theorem mesh_export_restores_pause_witness :
    ProcessUI.clicked IDC_BUTTON_MESH_RECONSTRUCTION 1014 = true ∧
    (pausedExplorer.ProcessUI 1014 cancelledExport).m_params = pausedParams ∧
    (pausedExplorer.ProcessUI 1014 cancelledExport).m_processor.m_paramsNext = pausedParams :=
  ⟨by decide,
    (mesh_export_restores_pause pausedExplorer 1014 cancelledExport (by decide)).1,
    (mesh_export_restores_pause pausedExplorer 1014 cancelledExport (by decide)).2.1⟩

/-! ## Theorems: kinds of calls between two states -/

theorem Emits.eventsSince {p : Event K → Bool} {b : Bool} {s s' : KinectFusionProcessor K}
    (h : Emits p b s s') : (eventsSince s s').any p = b := by
  obtain ⟨evs, t, l⟩ := h
  rw [eventsSince_of_trace t]
  exact l

/-- Without a volume, on a depth frame that is acquired, copied and converted, `ProcessDepth`
publishes the depth image and the tracking-data image with the status that the volume is not
initialised. -/
theorem ProcessDepth_converted_without_volume [FloorRing K] (sdk : Sdk)
    (s : KinectFusionProcessor K) (env : ProcessDepthEnv K) (hvol : s.m_pVolume = none)
    (hbuf : s.m_pDepthImagePixelBuffer = true) (hconv : env.frameConverted = true) :
    (ProcessDepth sdk s env).trace = (convertedState s env).trace ++
      [Event.EnterCriticalSection Lock.m_lockFrame,
        Event.StoreImageToFrameBuffer FusionImage.m_pDepthFloatImage FrameBuffer.m_pDepthRGBX,
        Event.ColorResiduals,
        Event.StoreImageToFrameBuffer FusionImage.m_pShadedDeltaFromReference
          FrameBuffer.m_pTrackingDataRGBX,
        Event.LeaveCriticalSection Lock.m_lockFrame] ∧
    (ProcessDepth sdk s env).m_frame.m_statusMessage = volumeNotInitializedMessage := by
  simp only [ProcessDepthEnv.frameConverted, Bool.and_eq_true, Bool.not_eq_true'] at hconv
  obtain ⟨hcopy, hd⟩ := hconv
  obtain ⟨-, k2, -, -, -, -⟩ := convertedState_keeps s env
  have hv : (convertedState s env).m_pVolume.isNone = true := by
    rw [k2, hvol]
    rfl
  have hs : SUCCEEDED env.hrDepthToDepthFloat = true := by
    simp only [FAILED, decide_eq_false_iff_not, not_lt] at hd
    simp [SUCCEEDED, hd]
  unfold ProcessDepth
  rw [body_of_frameCopied sdk s env hbuf hcopy]
  simp only [hd, hv, if_true, if_false, Bool.false_eq_true, ProcessDepth.FinishFrame,
    ProcessDepth.enterFrame, ProcessDepth.storeImages, ProcessDepth.updateFps,
    ProcessDepth.leaveFrame, SetStatusMessage, KinectFusionProcessor.log, hs,
    volumeNotInitializedMessage]
  split_ifs <;> simp

/-! ## Theorems: what `ProcessDepth` publishes without a volume -/

theorem acquireParams_keeps (s : KinectFusionProcessor K) :
    (MainLoop.acquireParams s).2.m_pVolume = s.m_pVolume ∧
    (MainLoop.acquireParams s).2.m_hrRecreateVolume = s.m_hrRecreateVolume ∧
    (MainLoop.acquireParams s).2.m_bKinectFusionInitialized = s.m_bKinectFusionInitialized ∧
    (MainLoop.acquireParams s).2.m_frame = s.m_frame ∧
    (MainLoop.acquireParams s).2.m_pNuiSensor = s.m_pNuiSensor := by
  simp [MainLoop.acquireParams, KinectFusionProcessor.log]

/-- The sample iteration without a volume in which the depth frame is acquired, copied and
converted: the calls made. -/
theorem iteration_failedVolumeState_depthFrame :
    (MainLoop.iteration sampleSdk failedVolumeState depthFrameEnv).2.trace =
      [Event.EnterCriticalSection Lock.m_lockParams,
        Event.LeaveCriticalSection Lock.m_lockParams,
        Event.EnterCriticalSection Lock.m_lockVolume,
        Event.NuiImageStreamGetNextFrame,
        Event.NuiImageFrameGetDepthImagePixelFrameTexture,
        Event.NuiImageStreamReleaseFrame,
        Event.NuiFusionDepthToDepthFloatFrame,
        Event.EnterCriticalSection Lock.m_lockFrame,
        Event.StoreImageToFrameBuffer FusionImage.m_pDepthFloatImage FrameBuffer.m_pDepthRGBX,
        Event.ColorResiduals,
        Event.StoreImageToFrameBuffer FusionImage.m_pShadedDeltaFromReference
          FrameBuffer.m_pTrackingDataRGBX,
        Event.LeaveCriticalSection Lock.m_lockFrame,
        Event.LeaveCriticalSection Lock.m_lockVolume,
        Event.PostMessage 1024 0] := by
  simp [MainLoop.iteration, MainLoop.acquireParams,
    MainLoop.resolveConflict, MainLoop.dispatch, MainLoop.depthFrame, MainLoop.changeNearMode,
    MainLoop.volumeLifecycle, MainLoop.notifyWithoutSensor, NotifyFrameReady,
    WM_NULL, KinectFusionParams.VolumeChanged, depthFrameEnv, failedVolumeState,
    ProcessDepth, ProcessDepth.body, ProcessDepth.FinishFrame, ProcessDepth.enterFrame,
    ProcessDepth.storeImages, ProcessDepth.updateFps, ProcessDepth.leaveFrame,
    ProcessDepth.timeStampGuard, ProcessDepth.timeStampSkipped, CopyExtendedDepth,
    KinectFusionProcessor.log, SetStatusMessage, sampleState, trackedEnv,
    sampleSdk, sampleParams, FAILED, SUCCEEDED, S_OK, E_FAIL, truncToInt,
    cTimeDisplayInterval]

/-- Once both locks are held, the test fails whatever follows. -/
theorem neverHeldTogether_of_mem (a b : Lock) (held : List Lock) (evs : List (Event K))
    (ha : a ∈ held) (hb : b ∈ held) : neverHeldTogether a b held evs = false := by
  cases evs <;> simp [neverHeldTogether, ha, hb]

/-- The statements after the label `FinishFrame` begin by taking the frame lock. -/
theorem FinishFrame_trace [FloorRing K] (s : KinectFusionProcessor K)
    (env : ProcessDepthEnv K) (l : ProcessDepthLocals) :
    ∃ rest, (ProcessDepth.FinishFrame s env l).trace =
      s.trace ++ Event.EnterCriticalSection Lock.m_lockFrame :: rest := by
  obtain ⟨e1, t1, -⟩ :=
    ((storeImages_sameControl true (ProcessDepth.enterFrame s) env l).andThen
      ((updateFps_sameControl true _ env _).andThen (leaveFrame_sameControl _))).events
  refine ⟨e1, ?_⟩
  unfold ProcessDepth.FinishFrame
  rw [t1]
  simp [ProcessDepth.enterFrame, KinectFusionProcessor.log]

/-- An iteration of the worker loop that handles a depth frame with Kinect Fusion initialised:
the calls made up to the label `FinishFrame` of `ProcessDepth` leave the volume lock held and
nothing else, and the next call takes the frame lock. -/
theorem pass_depthFrame_locks [FloorRing K] (sdk : Sdk) (s : KinectFusionProcessor K)
    (env : MainLoopEnv K) (hstop : s.m_bStopProcessing = false)
    (hwait : env.waitResult = WaitResult.WAIT_OBJECT_0)
    (hinit : s.m_bKinectFusionInitialized = true) :
    ∃ pre rest, (MainLoop.pass sdk s env).2.trace =
        s.trace ++ pre ++ Event.EnterCriticalSection Lock.m_lockFrame :: rest ∧
      heldAfter [] pre = [Lock.m_lockVolume] := by
  have hn : Lock.m_lockParams ∉ ([] : List Lock) := by decide
  have hv : Lock.m_lockParams ∉ [Lock.m_lockVolume] := by decide
  obtain ⟨a1, -, -, -, -, -, -, -, -, a10⟩ := acquireParams_spec s
  obtain ⟨-, -, k3, -, -⟩ := acquireParams_keeps s
  have hb : (MainLoop.acquireParams s).1.bStopProcessing = false := a1.trans hstop
  have cr := resolveConflict_sameControl (MainLoop.acquireParams s).2 env
    (MainLoop.acquireParams s).1
  have hri : (MainLoop.resolveConflict (MainLoop.acquireParams s).2 env
      (MainLoop.acquireParams s).1).m_bKinectFusionInitialized = true :=
    cr.initialized (k3.trans hinit)
  -- from the parameter acquisition to the label `FinishFrame`
  have w := (((((WorkerStretch.of_sameControl [] hn cr).followedBy
      (WorkerStretch.of_sameControl [] hn (SetStatusMessage_sameControl false _ ""))).followedBy
      (WorkerStretch.of_sameControl [] hn
        (changeNearMode_sameControl false _ (MainLoop.acquireParams s).1))).followedBy
      (WorkerStretch.enterVolume _)).followedBy
      (volumeLifecycle_stretch _ hv sdk _ env (MainLoop.acquireParams s).1)).followedBy
      (WorkerStretch.of_sameControl _ hv (body_sameControl sdk _ env.depth))
  obtain ⟨pre, tp, -, ⟨lp, -, -⟩, -⟩ := w.events
  obtain ⟨fin, tf⟩ := FinishFrame_trace (ProcessDepth.body sdk (MainLoop.volumeLifecycle sdk
    ((MainLoop.changeNearMode (SetStatusMessage (MainLoop.resolveConflict
      (MainLoop.acquireParams s).2 env (MainLoop.acquireParams s).1) "")
      (MainLoop.acquireParams s).1).log (Event.EnterCriticalSection Lock.m_lockVolume)) env
    (MainLoop.acquireParams s).1) env.depth).2 env.depth
    (ProcessDepth.body sdk (MainLoop.volumeLifecycle sdk
    ((MainLoop.changeNearMode (SetStatusMessage (MainLoop.resolveConflict
      (MainLoop.acquireParams s).2 env (MainLoop.acquireParams s).1) "")
      (MainLoop.acquireParams s).1).log (Event.EnterCriticalSection Lock.m_lockVolume)) env
    (MainLoop.acquireParams s).1) env.depth).1
  obtain ⟨post, tq, -⟩ := ((NotifyFrameReady_sameControl false ((ProcessDepth sdk
    (MainLoop.volumeLifecycle sdk
    ((MainLoop.changeNearMode (SetStatusMessage (MainLoop.resolveConflict
      (MainLoop.acquireParams s).2 env (MainLoop.acquireParams s).1) "")
      (MainLoop.acquireParams s).1).log (Event.EnterCriticalSection Lock.m_lockVolume)) env
    (MainLoop.acquireParams s).1) env.depth).log
      (Event.LeaveCriticalSection Lock.m_lockVolume))).andThen
    (notifyWithoutSensor_sameControl _)).events
  have hit : MainLoop.pass sdk s env =
      (false, MainLoop.notifyWithoutSensor (NotifyFrameReady
        ((ProcessDepth sdk (MainLoop.volumeLifecycle sdk
          ((MainLoop.changeNearMode (SetStatusMessage (MainLoop.resolveConflict
            (MainLoop.acquireParams s).2 env (MainLoop.acquireParams s).1) "")
            (MainLoop.acquireParams s).1).log
              (Event.EnterCriticalSection Lock.m_lockVolume)) env
          (MainLoop.acquireParams s).1) env.depth).log
            (Event.LeaveCriticalSection Lock.m_lockVolume)))) := by
    simp only [MainLoop.pass, MainLoop.iteration, hb, Bool.false_eq_true, if_false,
      MainLoop.dispatch, hwait, MainLoop.depthFrame, hri, if_true]
  refine ⟨[Event.EnterCriticalSection Lock.m_lockParams,
    Event.LeaveCriticalSection Lock.m_lockParams] ++ pre,
    fin ++ [Event.LeaveCriticalSection Lock.m_lockVolume] ++ post, ?_, ?_⟩
  · rw [hit]
    simp only [tq, log_trace]
    unfold ProcessDepth
    rw [tf, tp, a10]
    simp only [List.append_assoc, List.cons_append, List.nil_append]
  · rw [heldAfter_append]
    simpa [heldAfter, heldAfterEvent] using lp

/-- The calls of the sample pass of the worker on a depth frame. -/
theorem pass_sampleState_depthFrame_trace :
    (MainLoop.pass sampleSdk sampleState depthFrameEnv).2.trace =
      [Event.EnterCriticalSection Lock.m_lockParams,
        Event.LeaveCriticalSection Lock.m_lockParams,
        Event.EnterCriticalSection Lock.m_lockVolume,
        Event.NuiImageStreamGetNextFrame, Event.NuiImageFrameGetDepthImagePixelFrameTexture,
        Event.NuiImageStreamReleaseFrame, Event.NuiFusionDepthToDepthFloatFrame,
        Event.AlignDepthFloatToReconstruction, Event.GetCurrentWorldToCameraTransform,
        Event.IntegrateFrame 200 (zTurnPose (0 : ℚ) 1),
        Event.CalculatePointCloud (zTurnPose (0 : ℚ) 1),
        Event.NuiFusionShadePointCloud (zTurnPose (0 : ℚ) 1)
          (ProcessDepth.worldToBGRTransform sampleParams),
        Event.EnterCriticalSection Lock.m_lockFrame,
        Event.StoreImageToFrameBuffer FusionImage.m_pDepthFloatImage FrameBuffer.m_pDepthRGBX,
        Event.StoreImageToFrameBuffer FusionImage.m_pShadedSurface
          FrameBuffer.m_pReconstructionRGBX,
        Event.ColorResiduals,
        Event.StoreImageToFrameBuffer FusionImage.m_pShadedDeltaFromReference
          FrameBuffer.m_pTrackingDataRGBX,
        Event.LeaveCriticalSection Lock.m_lockFrame,
        Event.LeaveCriticalSection Lock.m_lockVolume,
        Event.PostMessage 1024 0] := by
  simp [MainLoop.pass, MainLoop.iteration, MainLoop.acquireParams,
    MainLoop.resolveConflict, MainLoop.dispatch, MainLoop.depthFrame, MainLoop.changeNearMode,
    MainLoop.volumeLifecycle, MainLoop.notifyWithoutSensor, NotifyFrameReady, ShutdownSensor,
    WM_NULL, KinectFusionParams.VolumeChanged, depthFrameEnv,
    ProcessDepth, ProcessDepth.body, ProcessDepth.FinishFrame, ProcessDepth.enterFrame,
    ProcessDepth.storeImages, ProcessDepth.updateFps, ProcessDepth.leaveFrame,
    ProcessDepth.resetWhenLost, ProcessDepth.lostTooLong, ProcessDepth.integrate,
    ProcessDepth.raycast, ProcessDepth.track, ProcessDepth.timeStampGuard,
    ProcessDepth.timeStampSkipped, CopyExtendedDepth, InternalResetReconstruction,
    KinectFusionProcessor.log, SetStatusMessage, sampleState, trackedEnv,
    sampleSdk, sampleParams, FAILED, SUCCEEDED, S_OK, cResetOnNumberOfLostFrames, truncToInt,
    cTimeDisplayInterval, SetIdentityMatrix, zTurnPose]

/-- C18 as stated fails in both parts. The sample pass of the worker on a depth frame takes the
frame lock while it holds the volume lock (`ProcessDepth` runs inside the volume lock), and
`HandleCompletedFrame`, on a frame that says that the integration resumed, takes the
parameter lock (in `SetParams`) while it holds the frame lock. -/
theorem locks_held_together :
    neverHeldTogether Lock.m_lockVolume Lock.m_lockFrame []
      (eventsSince sampleState (MainLoop.pass sampleSdk sampleState depthFrameEnv).2) = false ∧
    resumedExplorer.m_processor.m_frame.m_bIntegrationResumed = true ∧
    eventsSince resumedExplorer.m_processor resumedExplorer.HandleCompletedFrame.m_processor =
      [Event.EnterCriticalSection Lock.m_lockFrame,
        Event.SetParams sampleParams,
        Event.EnterCriticalSection Lock.m_lockParams,
        Event.LeaveCriticalSection Lock.m_lockParams,
        Event.LeaveCriticalSection Lock.m_lockFrame] ∧
    neverHeldTogether Lock.m_lockParams Lock.m_lockFrame []
      (eventsSince resumedExplorer.m_processor
        resumedExplorer.HandleCompletedFrame.m_processor) = false := by
  have e1 : eventsSince sampleState (MainLoop.pass sampleSdk sampleState depthFrameEnv).2 =
      (MainLoop.pass sampleSdk sampleState depthFrameEnv).2.trace := by
    simp [eventsSince, sampleState]
  have e2 : eventsSince resumedExplorer.m_processor
      resumedExplorer.HandleCompletedFrame.m_processor =
      [Event.EnterCriticalSection Lock.m_lockFrame,
        Event.SetParams sampleParams,
        Event.EnterCriticalSection Lock.m_lockParams,
        Event.LeaveCriticalSection Lock.m_lockParams,
        Event.LeaveCriticalSection Lock.m_lockFrame] := by
    simp [eventsSince, CKinectFusionExplorer.HandleCompletedFrame, LockFrame, UnlockFrame,
      SetParams, KinectFusionProcessor.log, resumedExplorer, sampleExplorer, sampleState,
      sampleParams]
  rw [e1, e2, pass_sampleState_depthFrame_trace]
  refine ⟨?_, rfl, rfl, ?_⟩
  · simp [neverHeldTogether, heldAfterEvent]
  · simp [neverHeldTogether, heldAfterEvent]

/-- C18, amended. Lock discipline, over the sequence of lock events each operation performs.
(1) In every pass of the worker loop the parameter lock is never held together with the frame
lock or with the volume lock, and no lock is held when the pass ends.
(2) Each of `SetParams`, `ResetReconstruction`, `ResolveSensorConflict`, `StopProcessing` and
`CalculateMesh` holds at most one lock at any time and none when it returns.
(3) `HandleCompletedFrame` takes the frame lock, releases it last, and in between, exactly when
the frame says that the integration resumed, calls `SetParams`, which takes and releases the
parameter lock while the frame lock is held.
(4) A pass of the worker that handles a depth frame with Kinect Fusion initialised and no stop
requested takes the frame lock while it holds the volume lock. -/
theorem lock_discipline [FloorRing K] (sdk : Sdk) (s : KinectFusionProcessor K)
    (env : MainLoopEnv K) (params : KinectFusionParams K) (hrVolumeMesh : HRESULT)
    (absoluteTime : K) (e : CKinectFusionExplorer K) :
    LockSafe [] [] (eventsSince s (MainLoop.pass sdk s env).2) ∧
    (atMostOneHeld [] (eventsSince s (SetParams s params)) = true ∧
      heldAfter [] (eventsSince s (SetParams s params)) = []) ∧
    (atMostOneHeld [] (eventsSince s (ResetReconstruction s)) = true ∧
      heldAfter [] (eventsSince s (ResetReconstruction s)) = []) ∧
    (atMostOneHeld [] (eventsSince s (ResolveSensorConflict s)) = true ∧
      heldAfter [] (eventsSince s (ResolveSensorConflict s)) = []) ∧
    (atMostOneHeld [] (eventsSince s (StopProcessing.join (StopProcessing.request s))) = true ∧
      heldAfter [] (eventsSince s (StopProcessing.join (StopProcessing.request s))) = []) ∧
    (atMostOneHeld [] (eventsSince s (CalculateMesh s hrVolumeMesh absoluteTime).2) = true ∧
      heldAfter [] (eventsSince s (CalculateMesh s hrVolumeMesh absoluteTime).2) = []) ∧
    eventsSince e.m_processor e.HandleCompletedFrame.m_processor =
      (if e.m_processor.m_frame.m_bIntegrationResumed then
        [Event.EnterCriticalSection Lock.m_lockFrame,
          Event.SetParams { e.m_params with m_bPauseIntegration := false },
          Event.EnterCriticalSection Lock.m_lockParams,
          Event.LeaveCriticalSection Lock.m_lockParams,
          Event.LeaveCriticalSection Lock.m_lockFrame]
      else
        [Event.EnterCriticalSection Lock.m_lockFrame,
          Event.LeaveCriticalSection Lock.m_lockFrame]) ∧
    (s.m_bStopProcessing = false → env.waitResult = WaitResult.WAIT_OBJECT_0 →
      s.m_bKinectFusionInitialized = true →
      neverHeldTogether Lock.m_lockVolume Lock.m_lockFrame []
        (eventsSince s (MainLoop.pass sdk s env).2) = false) := by
  refine ⟨?_, ?_, ?_, ?_, ?_, ?_, ?_, ?_⟩
  · obtain ⟨evs, t, -, ls, -⟩ := (pass_outcome sdk s env).events
    rw [eventsSince_of_trace t]
    exact ls
  · simp [eventsSince, SetParams, KinectFusionProcessor.log, atMostOneHeld, heldAfter,
      heldAfterEvent]
  · simp [eventsSince, ResetReconstruction, KinectFusionProcessor.log, atMostOneHeld,
      heldAfter, heldAfterEvent]
  · simp [eventsSince, ResolveSensorConflict, KinectFusionProcessor.log, atMostOneHeld,
      heldAfter, heldAfterEvent]
  · cases h : s.m_hThread <;>
      simp [eventsSince, StopProcessing.join, StopProcessing.request,
        KinectFusionProcessor.log, atMostOneHeld, heldAfter, heldAfterEvent, h]
  · cases h : s.m_pVolume <;>
      simp [eventsSince, CalculateMesh, KinectFusionProcessor.log, atMostOneHeld, heldAfter,
        heldAfterEvent, h]
  · exact eventsSince_of_trace (HandleCompletedFrame_spec e).2.2.2
  · intro hstop hwait hinit
    obtain ⟨pre, rest, t, hp⟩ := pass_depthFrame_locks sdk s env hstop hwait hinit
    rw [List.append_assoc] at t
    rw [eventsSince_of_trace t, neverHeldTogether_append, hp]
    have hr := neverHeldTogether_of_mem Lock.m_lockVolume Lock.m_lockFrame
      [Lock.m_lockFrame, Lock.m_lockVolume] rest (by decide) (by decide)
    simp [neverHeldTogether, heldAfterEvent, hr]

/-! ## Theorems: the write of `RecreateVolume` to the output bundle -/

/-- The lock events of `InternalResetReconstruction` leave the set of locks held as it was, and
the function leaves the integration-resumed flag of the output bundle alone. -/
theorem InternalResetReconstruction_locks (s : KinectFusionProcessor K) (hr : HRESULT) (t : K) :
    (InternalResetReconstruction s hr t).2.m_frame.m_bIntegrationResumed =
      s.m_frame.m_bIntegrationResumed ∧
    ∃ evs, (InternalResetReconstruction s hr t).2.trace = s.trace ++ evs ∧
      ∀ held : List Lock, heldAfter held evs = held := by
  unfold InternalResetReconstruction
  simp only [KinectFusionProcessor.log]
  split_ifs <;> simp [heldAfter, heldAfterEvent]

/-- C19, the divergence. When `RecreateVolume` succeeds (the creation of the volume, the query
of its default transform and the reset, if one is made, all succeed), its last statements are
those of `RecreateVolume.resume`, entered in a state `y` whose output bundle still has the
integration-resumed flag that it had on entry. The lock events from the entry to `y` leave the
set of locks held as it was, so the frame lock is not held in `y` unless the caller held it;
the last statements make no lock call, and after them the integration-resumed flag of the
output bundle is set: `m_frame` is written without the frame lock. -/
theorem RecreateVolume_writes_frame_without_lock (sdk : Sdk) (s : KinectFusionProcessor K)
    (env : RecreateVolumeEnv K) (held : List Lock)
    (hc : FAILED env.hrCreateReconstruction = false)
    (hw : FAILED env.hrGetCurrentWorldToVolumeTransform = false)
    (hr : FAILED env.hrResetReconstruction = false) :
    ∃ y : KinectFusionProcessor K,
      (RecreateVolume sdk s env).2 = RecreateVolume.resume y ∧
      y.m_frame.m_bIntegrationResumed = s.m_frame.m_bIntegrationResumed ∧
      (∃ evs, y.trace = s.trace ++ evs ∧ heldAfter held evs = held) ∧
      (RecreateVolume.resume y).trace = y.trace ∧
      (RecreateVolume.resume y).m_frame.m_bIntegrationResumed = true := by
  have hs : SUCCEEDED env.hrResetReconstruction = true := by
    simp only [FAILED, decide_eq_false_iff_not, not_lt] at hr
    simp [SUCCEEDED, hr]
  -- the state in which the default transform has been stored
  obtain ⟨x, hx⟩ : ∃ x : KinectFusionProcessor K, x =
      { ({ RecreateVolume.begin s with
          m_pVolume := some
            { reconstructionParams :=
                (RecreateVolume.begin s).m_paramsCurrent.m_reconstructionParams
              processorType := (RecreateVolume.begin s).m_paramsCurrent.m_processorType
              deviceIndex := (RecreateVolume.begin s).m_paramsCurrent.m_deviceIndex } }
          : KinectFusionProcessor K).log Event.GetCurrentWorldToVolumeTransform with
        m_defaultWorldToVolumeTransform := env.worldToVolumeTransform } := ⟨_, rfl⟩
  have hxv : x.m_pVolume.isSome = true := by rw [hx]; rfl
  have hxf : x.m_frame.m_bIntegrationResumed = s.m_frame.m_bIntegrationResumed := by
    rw [hx]; rfl
  have hxt : ∃ pre, x.trace = s.trace ++ pre ∧ heldAfter held pre = held := by
    refine ⟨[Event.RecreateVolume,
        Event.NuiFusionCreateReconstruction s.m_paramsCurrent.m_reconstructionParams
          s.m_paramsCurrent.m_processorType s.m_paramsCurrent.m_deviceIndex
          (SetIdentityMatrix s.m_worldToCameraTransform),
        Event.GetCurrentWorldToVolumeTransform], ?_, by simp [heldAfter, heldAfterEvent]⟩
    rw [hx]
    simp [RecreateVolume.begin, KinectFusionProcessor.log]
  obtain ⟨pre, hxt, hxl⟩ := hxt
  have hxp : x.m_paramsCurrent = s.m_paramsCurrent := by rw [hx]; rfl
  have hrun : (RecreateVolume sdk s env).2 =
      if x.m_paramsCurrent.m_bTranslateResetPoseByMinDepthThreshold then
        RecreateVolume.resume
          (InternalResetReconstruction x env.hrResetReconstruction env.timeReset).2
      else RecreateVolume.resume x := by
    obtain ⟨o1, -⟩ := InternalResetReconstruction_ok x env.hrResetReconstruction env.timeReset
      hxv hs
    have hf : FAILED (InternalResetReconstruction x env.hrResetReconstruction
        env.timeReset).1 = false := by rw [o1]; exact hr
    rw [hx] at hf ⊢
    simp only [RecreateVolume, RecreateVolume.created, hc, hw, Bool.false_eq_true, if_false]
    split_ifs with h1 h2
    · exact absurd h2 (by rw [hf]; simp)
    · rfl
    · rfl
  obtain ⟨i1, evs, i2, i3⟩ := InternalResetReconstruction_locks x env.hrResetReconstruction
    env.timeReset
  rw [hrun]
  split_ifs
  · refine ⟨_, rfl, i1.trans hxf, ⟨pre ++ evs, by rw [i2, hxt, List.append_assoc], ?_⟩,
      rfl, rfl⟩
    rw [heldAfter_append, i3, hxl]
  · exact ⟨_, rfl, hxf, ⟨pre, hxt, hxl⟩, rfl, rfl⟩

/-- Witness of C19: the first depth frame of the sample processor, whose worker calls
`RecreateVolume` while it holds the volume lock only. -/
theorem RecreateVolume_writes_frame_without_lock_witness :
    ∃ y : KinectFusionProcessor ℚ,
      (RecreateVolume sampleSdk startedState readyVolumeEnv).2 = RecreateVolume.resume y ∧
      y.m_frame.m_bIntegrationResumed = startedState.m_frame.m_bIntegrationResumed ∧
      (∃ evs, y.trace = startedState.trace ++ evs ∧
        heldAfter [Lock.m_lockVolume] evs = [Lock.m_lockVolume]) ∧
      (RecreateVolume.resume y).trace = y.trace ∧
      (RecreateVolume.resume y).m_frame.m_bIntegrationResumed = true :=
  RecreateVolume_writes_frame_without_lock sampleSdk startedState readyVolumeEnv
    [Lock.m_lockVolume] (by decide) (by decide) (by decide)

/-! ## Theorems: requests that a pass without a depth frame consumes -/

/-- The sample run of C12: the controller installs parameters with a wider volume, the wait of
the next pass of the worker times out, and the pass after it handles a depth frame. -/
theorem run_wider_timeout_depthFrame :
    (run sampleSdk (false, sampleState)
      [Step.SetParams widerParams, Step.pass timeoutEnv, Step.pass depthFrameEnv]).2.trace =
      [Event.SetParams widerParams,
        Event.EnterCriticalSection Lock.m_lockParams,
        Event.LeaveCriticalSection Lock.m_lockParams,
        Event.EnterCriticalSection Lock.m_lockParams,
        Event.LeaveCriticalSection Lock.m_lockParams,
        Event.EnterCriticalSection Lock.m_lockParams,
        Event.LeaveCriticalSection Lock.m_lockParams,
        Event.EnterCriticalSection Lock.m_lockVolume,
        Event.NuiImageStreamGetNextFrame, Event.NuiImageFrameGetDepthImagePixelFrameTexture,
        Event.NuiImageStreamReleaseFrame, Event.NuiFusionDepthToDepthFloatFrame,
        Event.AlignDepthFloatToReconstruction, Event.GetCurrentWorldToCameraTransform,
        Event.IntegrateFrame 200 (zTurnPose (0 : ℚ) 1),
        Event.CalculatePointCloud (zTurnPose (0 : ℚ) 1),
        Event.NuiFusionShadePointCloud (zTurnPose (0 : ℚ) 1)
          (ProcessDepth.worldToBGRTransform widerParams),
        Event.EnterCriticalSection Lock.m_lockFrame,
        Event.StoreImageToFrameBuffer FusionImage.m_pDepthFloatImage FrameBuffer.m_pDepthRGBX,
        Event.StoreImageToFrameBuffer FusionImage.m_pShadedSurface
          FrameBuffer.m_pReconstructionRGBX,
        Event.ColorResiduals,
        Event.StoreImageToFrameBuffer FusionImage.m_pShadedDeltaFromReference
          FrameBuffer.m_pTrackingDataRGBX,
        Event.LeaveCriticalSection Lock.m_lockFrame,
        Event.LeaveCriticalSection Lock.m_lockVolume,
        Event.PostMessage 1024 0] ∧
    (run sampleSdk (false, sampleState)
      [Step.SetParams widerParams, Step.pass timeoutEnv, Step.pass depthFrameEnv]).2.m_pVolume =
      sampleState.m_pVolume ∧
    (run sampleSdk (false, sampleState)
      [Step.SetParams widerParams, Step.pass timeoutEnv,
        Step.pass depthFrameEnv]).2.m_paramsCurrent = widerParams := by
  simp [run, applyStep, SetParams, MainLoop.pass, MainLoop.iteration, MainLoop.acquireParams,
    MainLoop.resolveConflict, MainLoop.dispatch, MainLoop.depthFrame, MainLoop.changeNearMode,
    MainLoop.volumeLifecycle, MainLoop.notifyWithoutSensor, NotifyFrameReady, ShutdownSensor,
    WM_NULL, KinectFusionParams.VolumeChanged, depthFrameEnv, timeoutEnv, widerParams,
    ProcessDepth, ProcessDepth.body, ProcessDepth.FinishFrame, ProcessDepth.enterFrame,
    ProcessDepth.storeImages, ProcessDepth.updateFps, ProcessDepth.leaveFrame,
    ProcessDepth.resetWhenLost, ProcessDepth.lostTooLong, ProcessDepth.integrate,
    ProcessDepth.raycast, ProcessDepth.track, ProcessDepth.timeStampGuard,
    ProcessDepth.timeStampSkipped, CopyExtendedDepth, InternalResetReconstruction,
    KinectFusionProcessor.log, SetStatusMessage, sampleState, trackedEnv,
    sampleSdk, sampleParams, FAILED, SUCCEEDED, S_OK, cResetOnNumberOfLostFrames, truncToInt,
    cTimeDisplayInterval, SetIdentityMatrix, zTurnPose]

/-- C12, the divergence. The controller installs parameters that differ from the current ones
of the worker in `voxelCountX`; the wait of the next pass of the worker times out, and the
pass after it handles a depth frame with Kinect Fusion initialised. `RecreateVolume` is not
invoked in the run: the pass that timed out has copied the new parameters into
`m_paramsCurrent`, so that the depth-frame pass sees no change. The depth frame is aligned
and integrated into the volume created with 512 voxels along x while the current parameters
say 640. -/
theorem volume_change_lost_in_timeout :
    sampleState.m_paramsCurrent.VolumeChanged widerParams = true ∧
    sampleState.m_bKinectFusionInitialized = true ∧
    (eventsSince sampleState (run sampleSdk (false, sampleState)
      [Step.SetParams widerParams, Step.pass timeoutEnv, Step.pass depthFrameEnv]).2).any
        Event.isRecreateVolume = false ∧
    (eventsSince sampleState (run sampleSdk (false, sampleState)
      [Step.SetParams widerParams, Step.pass timeoutEnv, Step.pass depthFrameEnv]).2).any
        Event.isAlign = true ∧
    (eventsSince sampleState (run sampleSdk (false, sampleState)
      [Step.SetParams widerParams, Step.pass timeoutEnv, Step.pass depthFrameEnv]).2).any
        Event.isIntegrateFrame = true ∧
    ((run sampleSdk (false, sampleState)
      [Step.SetParams widerParams, Step.pass timeoutEnv, Step.pass depthFrameEnv]).2.m_pVolume.map
        (fun v => v.reconstructionParams.voxelCountX)) = some 512 ∧
    (run sampleSdk (false, sampleState)
      [Step.SetParams widerParams, Step.pass timeoutEnv,
        Step.pass depthFrameEnv]).2.m_paramsCurrent.m_reconstructionParams.voxelCountX = 640 := by
  obtain ⟨h1, h2, h3⟩ := run_wider_timeout_depthFrame
  have e : eventsSince sampleState (run sampleSdk (false, sampleState)
      [Step.SetParams widerParams, Step.pass timeoutEnv, Step.pass depthFrameEnv]).2 =
      (run sampleSdk (false, sampleState)
        [Step.SetParams widerParams, Step.pass timeoutEnv, Step.pass depthFrameEnv]).2.trace := by
    simp [eventsSince, sampleState]
  rw [e, h1, h2, h3]
  refine ⟨?_, rfl, ?_, ?_, ?_, ?_, ?_⟩
  · simp [KinectFusionParams.VolumeChanged, sampleState, sampleParams, widerParams]
  · simp [Event.isRecreateVolume]
  · simp [Event.isAlign]
  · simp [Event.isIntegrateFrame]
  · simp [sampleState, sampleParams]
  · simp [widerParams]

/-- The sample run of C14: the controller requests a reset, the wait of the next pass of the
worker times out, and the pass after it handles a depth frame. -/
theorem run_reset_timeout_depthFrame :
    (run sampleSdk (false, sampleState)
      [Step.ResetReconstruction, Step.pass timeoutEnv, Step.pass depthFrameEnv]).2.trace =
      [Event.EnterCriticalSection Lock.m_lockParams,
        Event.LeaveCriticalSection Lock.m_lockParams,
        Event.EnterCriticalSection Lock.m_lockParams,
        Event.LeaveCriticalSection Lock.m_lockParams,
        Event.EnterCriticalSection Lock.m_lockParams,
        Event.LeaveCriticalSection Lock.m_lockParams,
        Event.EnterCriticalSection Lock.m_lockVolume,
        Event.NuiImageStreamGetNextFrame, Event.NuiImageFrameGetDepthImagePixelFrameTexture,
        Event.NuiImageStreamReleaseFrame, Event.NuiFusionDepthToDepthFloatFrame,
        Event.AlignDepthFloatToReconstruction, Event.GetCurrentWorldToCameraTransform,
        Event.IntegrateFrame 200 (zTurnPose (0 : ℚ) 1),
        Event.CalculatePointCloud (zTurnPose (0 : ℚ) 1),
        Event.NuiFusionShadePointCloud (zTurnPose (0 : ℚ) 1)
          (ProcessDepth.worldToBGRTransform sampleParams),
        Event.EnterCriticalSection Lock.m_lockFrame,
        Event.StoreImageToFrameBuffer FusionImage.m_pDepthFloatImage FrameBuffer.m_pDepthRGBX,
        Event.StoreImageToFrameBuffer FusionImage.m_pShadedSurface
          FrameBuffer.m_pReconstructionRGBX,
        Event.ColorResiduals,
        Event.StoreImageToFrameBuffer FusionImage.m_pShadedDeltaFromReference
          FrameBuffer.m_pTrackingDataRGBX,
        Event.LeaveCriticalSection Lock.m_lockFrame,
        Event.LeaveCriticalSection Lock.m_lockVolume,
        Event.PostMessage 1024 0] ∧
    (run sampleSdk (false, sampleState)
      [Step.ResetReconstruction, Step.pass timeoutEnv,
        Step.pass depthFrameEnv]).2.m_bResetReconstruction = false := by
  simp [run, applyStep, ResetReconstruction, MainLoop.pass, MainLoop.iteration,
    MainLoop.acquireParams,
    MainLoop.resolveConflict, MainLoop.dispatch, MainLoop.depthFrame, MainLoop.changeNearMode,
    MainLoop.volumeLifecycle, MainLoop.notifyWithoutSensor, NotifyFrameReady, ShutdownSensor,
    WM_NULL, KinectFusionParams.VolumeChanged, depthFrameEnv, timeoutEnv,
    ProcessDepth, ProcessDepth.body, ProcessDepth.FinishFrame, ProcessDepth.enterFrame,
    ProcessDepth.storeImages, ProcessDepth.updateFps, ProcessDepth.leaveFrame,
    ProcessDepth.resetWhenLost, ProcessDepth.lostTooLong, ProcessDepth.integrate,
    ProcessDepth.raycast, ProcessDepth.track, ProcessDepth.timeStampGuard,
    ProcessDepth.timeStampSkipped, CopyExtendedDepth, InternalResetReconstruction,
    KinectFusionProcessor.log, SetStatusMessage, sampleState, trackedEnv,
    sampleSdk, sampleParams, FAILED, SUCCEEDED, S_OK, cResetOnNumberOfLostFrames, truncToInt,
    cTimeDisplayInterval, SetIdentityMatrix, zTurnPose]

/-- C14, the divergence. The controller calls `ResetReconstruction()` on the sample processor,
which has a volume and Kinect Fusion initialised; the wait of the next pass of the worker
times out, and the pass after it handles a depth frame. Neither `InternalResetReconstruction`
nor `RecreateVolume` is invoked in the run: the pass that timed out has consumed the request.
The depth frame is aligned and integrated into the volume that was to be cleared, and the
request is no longer pending. -/
theorem reset_request_lost_in_timeout :
    sampleState.m_pVolume.isSome = true ∧
    sampleState.m_bKinectFusionInitialized = true ∧
    (ResetReconstruction sampleState).m_bResetReconstruction = true ∧
    (eventsSince sampleState (run sampleSdk (false, sampleState)
      [Step.ResetReconstruction, Step.pass timeoutEnv, Step.pass depthFrameEnv]).2).any
        (fun e => e.isInternalReset || e.isRecreateVolume) = false ∧
    (eventsSince sampleState (run sampleSdk (false, sampleState)
      [Step.ResetReconstruction, Step.pass timeoutEnv, Step.pass depthFrameEnv]).2).any
        Event.isAlign = true ∧
    (eventsSince sampleState (run sampleSdk (false, sampleState)
      [Step.ResetReconstruction, Step.pass timeoutEnv, Step.pass depthFrameEnv]).2).any
        Event.isIntegrateFrame = true ∧
    (run sampleSdk (false, sampleState)
      [Step.ResetReconstruction, Step.pass timeoutEnv,
        Step.pass depthFrameEnv]).2.m_bResetReconstruction = false := by
  obtain ⟨h1, h2⟩ := run_reset_timeout_depthFrame
  have e : eventsSince sampleState (run sampleSdk (false, sampleState)
      [Step.ResetReconstruction, Step.pass timeoutEnv, Step.pass depthFrameEnv]).2 =
      (run sampleSdk (false, sampleState)
        [Step.ResetReconstruction, Step.pass timeoutEnv, Step.pass depthFrameEnv]).2.trace := by
    simp [eventsSince, sampleState]
  rw [e, h1, h2]
  refine ⟨rfl, rfl, rfl, ?_, ?_, ?_, rfl⟩
  · simp [Event.isInternalReset, Event.isRecreateVolume]
  · simp [Event.isAlign]
  · simp [Event.isIntegrateFrame]

/-! ## Theorems: the rotation part of a pose -/

/-- C23. Rotation extraction: for every `Matrix4` `T`, `Extract3x3Rotation T` has the same
upper-left 3x3 block as `T`, a zero translation row and the fourth column `(0, 0, 0, 1)`; its
3x3 block is orthonormal whenever the block of `T` is, and extracting twice is the same as
extracting once. -/
theorem Extract3x3Rotation_contract (T : Matrix4 K) :
    rotationBlock (Extract3x3Rotation T) = rotationBlock T ∧
    ((Extract3x3Rotation T).M41 = 0 ∧ (Extract3x3Rotation T).M42 = 0 ∧
      (Extract3x3Rotation T).M43 = 0) ∧
    AffineColumn (Extract3x3Rotation T) ∧
    (Orthonormal T → Orthonormal (Extract3x3Rotation T)) ∧
    Extract3x3Rotation (Extract3x3Rotation T) = Extract3x3Rotation T := by
  have hblock : rotationBlock (Extract3x3Rotation T) = rotationBlock T := rfl
  refine ⟨hblock, ⟨rfl, rfl, rfl⟩, ⟨rfl, rfl, rfl, rfl⟩, ?_, rfl⟩
  intro h
  unfold Orthonormal at h ⊢
  rw [hblock]
  exact h

/-! ## Theorems: the pose-jump test does not depend on the order of the poses -/

/-- With a threshold of at most `π` the two wraparound conditions exclude each other, so
exchanging the two angles negates the adjusted difference. -/
theorem adjustedDelta_swap (pi deltaRot a b : K) (h : deltaRot ≤ pi) :
    adjustedDelta pi deltaRot b a = -adjustedDelta pi deltaRot a b := by
  unfold adjustedDelta
  by_cases ha : a ≥ pi - deltaRot
  · have ha' : ¬ a < deltaRot - pi := by
      intro c; linarith
    by_cases hb : b < deltaRot - pi
    · have hb' : ¬ b ≥ pi - deltaRot := by
        intro c; linarith
      simp [ha, ha', hb, hb']
    · simp [ha, ha', hb]
  · by_cases hb : b ≥ pi - deltaRot
    · have hb' : ¬ b < deltaRot - pi := by
        intro c; linarith
      by_cases ha2 : a < deltaRot - pi
      · simp [ha, hb, hb', ha2]
      · simp [ha, hb, hb', ha2]
    · simp [ha, hb]

/-- The threshold in radians is at most `π` when the threshold in degrees is at most 180. -/
theorem rotationThreshold_le_pi (libm : Libm K) (maxRotDegrees : K) (hpi : 0 ≤ libm.pi)
    (h180 : maxRotDegrees ≤ 180) : rotationThreshold libm maxRotDegrees ≤ libm.pi := by
  unfold rotationThreshold
  rw [div_le_iff₀ (by norm_num)]
  nlinarith

/-- C29. Symmetry of the pose-jump test: for every pair of poses `A`, `B`, every `maxTrans`
and every `maxRotDegrees` with `0 ≤ maxRotDegrees ≤ 180`, `CameraTransformFailed` gives the
same answer for `(A, B)` and for `(B, A)`. It holds in every ordered field and for every
mathematical library whose `pi` is not negative, so in particular over the reals. -/
theorem CameraTransformFailed_symmetric (libm : Libm K) (A B : Matrix4 K)
    (maxTrans maxRotDegrees : K) (hpi : 0 ≤ libm.pi)
    (_h0 : 0 ≤ maxRotDegrees) (h180 : maxRotDegrees ≤ 180) :
    CameraTransformFailed libm A B maxTrans maxRotDegrees =
      CameraTransformFailed libm B A maxTrans maxRotDegrees := by
  have hle := rotationThreshold_le_pi libm maxRotDegrees hpi h180
  have key : ∀ X Y : Matrix4 K,
      CameraTransformFailed libm X Y maxTrans maxRotDegrees = true →
      CameraTransformFailed libm Y X maxTrans maxRotDegrees = true := by
    intro X Y h
    rw [CameraTransformFailed_iff] at h ⊢
    obtain ⟨i, h⟩ := h
    refine ⟨i, ?_⟩
    rw [adjustedDelta_swap _ _ _ _ hle, abs_neg, abs_sub_comm]
    exact h
  cases hAB : CameraTransformFailed libm A B maxTrans maxRotDegrees
  · cases hBA : CameraTransformFailed libm B A maxTrans maxRotDegrees
    · rfl
    · rw [key B A hBA] at hAB
      exact hAB.symm
  · exact (key A B hAB).symm

/-- The symmetry at a concrete pair over the reals: the identity and a quarter turn about the
z axis, with thresholds 0.1 m and 20 degrees. -/
theorem CameraTransformFailed_symmetric_witness :
    (0 : ℝ) ≤ realLibm.pi ∧ (0 : ℝ) ≤ 20 ∧ (20 : ℝ) ≤ 180 ∧
    CameraTransformFailed realLibm (zTurnPose 1 0) (zTurnPose 0 1) (1 / 10) 20 =
      CameraTransformFailed realLibm (zTurnPose 0 1) (zTurnPose 1 0) (1 / 10) 20 :=
  ⟨Real.pi_pos.le, by norm_num, by norm_num,
    CameraTransformFailed_symmetric realLibm (zTurnPose 1 0) (zTurnPose 0 1) (1 / 10) 20
      Real.pi_pos.le (by norm_num) (by norm_num)⟩

/-! ## Theorems: the contract of `InternalResetReconstruction` -/

/-- The matrix `SetIdentityMatrix` writes is the identity matrix. -/
theorem toMatrix_SetIdentityMatrix (T : Matrix4 K) : toMatrix (SetIdentityMatrix T) = 1 := by
  ext i j
  fin_cases i <;> fin_cases j <;> rfl

/-- C25. Internal reset contract. Called with no volume, `InternalResetReconstruction`
returns a failure code and changes no member variable (only the record of calls grows).
Called with a volume it returns the code of the volume reset, sets the world-to-camera pose
to the identity, the lost-frame counter and the frame counter to 0 and the published frames
per second to 0 whatever that code is; when the volume reset succeeds it sets the tracking
flag to false, the pause flag of the current parameters to false and the integration-resumed
flag to true, and when it fails these three are unchanged. -/
theorem InternalResetReconstruction_contract (s : KinectFusionProcessor K)
    (hrVolumeReset : HRESULT) (absoluteTime : K) :
    (s.m_pVolume = none →
      FAILED (InternalResetReconstruction s hrVolumeReset absoluteTime).1 = true ∧
      { (InternalResetReconstruction s hrVolumeReset absoluteTime).2 with trace := s.trace }
        = s) ∧
    (s.m_pVolume ≠ none →
      (InternalResetReconstruction s hrVolumeReset absoluteTime).1 = hrVolumeReset ∧
      toMatrix (InternalResetReconstruction s hrVolumeReset
        absoluteTime).2.m_worldToCameraTransform = 1 ∧
      (InternalResetReconstruction s hrVolumeReset absoluteTime).2.m_cLostFrameCounter = 0 ∧
      (InternalResetReconstruction s hrVolumeReset absoluteTime).2.m_cFrameCounter = 0 ∧
      (InternalResetReconstruction s hrVolumeReset
        absoluteTime).2.m_frame.m_fFramesPerSecond = 0 ∧
      (SUCCEEDED hrVolumeReset = true →
        (InternalResetReconstruction s hrVolumeReset absoluteTime).2.m_bTrackingFailed
          = false ∧
        (InternalResetReconstruction s hrVolumeReset
          absoluteTime).2.m_paramsCurrent.m_bPauseIntegration = false ∧
        (InternalResetReconstruction s hrVolumeReset absoluteTime).2.m_bIntegrationResumed
          = true) ∧
      (SUCCEEDED hrVolumeReset = false →
        (InternalResetReconstruction s hrVolumeReset absoluteTime).2.m_bTrackingFailed
          = s.m_bTrackingFailed ∧
        (InternalResetReconstruction s hrVolumeReset
          absoluteTime).2.m_paramsCurrent.m_bPauseIntegration
          = s.m_paramsCurrent.m_bPauseIntegration ∧
        (InternalResetReconstruction s hrVolumeReset absoluteTime).2.m_bIntegrationResumed
          = s.m_bIntegrationResumed)) := by
  constructor
  · intro hvol
    have hv : s.m_pVolume.isNone = true := by simp [hvol]
    unfold InternalResetReconstruction
    simp only [KinectFusionProcessor.log, hv, if_true]
    exact ⟨by decide, trivial⟩
  · intro hvol
    have hv : s.m_pVolume.isNone = false := by
      cases h : s.m_pVolume
      · exact absurd h hvol
      · rfl
    have hid := toMatrix_SetIdentityMatrix s.m_worldToCameraTransform
    unfold InternalResetReconstruction
    simp only [KinectFusionProcessor.log, hv, Bool.false_eq_true, if_false]
    refine ⟨trivial, ?_, ?_, ?_, ?_, ?_, ?_⟩
    · split_ifs <;> exact hid
    · split_ifs <;> trivial
    · split_ifs <;> trivial
    · split_ifs <;> trivial
    · intro hok
      simp only [hok, if_true]
      exact ⟨trivial, trivial, trivial⟩
    · intro hno
      simp only [hno, Bool.false_eq_true, if_false]
      split_ifs <;> exact ⟨rfl, rfl, rfl⟩

/-! ## Theorems: the colour cube of the point cloud -/

/-- C26. Colour-cube normalisation: the world-to-BGR matrix built in `ProcessDepth` has
`M11 = voxelsPerMeter / voxelCountX`, `M22 = voxelsPerMeter / voxelCountY`,
`M33 = voxelsPerMeter / voxelCountZ`, `M41 = M42 = 1/2`, `M44 = 1` and every other entry 0;
for positive voxel counts and density and every world point `(x, y, z)` with
`|x| ≤ voxelCountX / (2 voxelsPerMeter)`, `|y| ≤ voxelCountY / (2 voxelsPerMeter)` and
`0 ≤ z ≤ voxelCountZ / voxelsPerMeter`, the first three components of the row-vector product
`(x, y, z, 1) · M` lie in `[0, 1]`. -/
theorem worldToBGRTransform_normalises (params : KinectFusionParams K) (x y z : K)
    (hX : 0 < params.m_reconstructionParams.voxelCountX)
    (hY : 0 < params.m_reconstructionParams.voxelCountY)
    (hZ : 0 < params.m_reconstructionParams.voxelCountZ)
    (hv : 0 < params.m_reconstructionParams.voxelsPerMeter)
    (hx : |x| ≤ (params.m_reconstructionParams.voxelCountX : K) /
      (2 * params.m_reconstructionParams.voxelsPerMeter))
    (hy : |y| ≤ (params.m_reconstructionParams.voxelCountY : K) /
      (2 * params.m_reconstructionParams.voxelsPerMeter))
    (hz0 : 0 ≤ z)
    (hz : z ≤ (params.m_reconstructionParams.voxelCountZ : K) /
      params.m_reconstructionParams.voxelsPerMeter) :
    toMatrix (ProcessDepth.worldToBGRTransform params) =
      !![params.m_reconstructionParams.voxelsPerMeter /
          (params.m_reconstructionParams.voxelCountX : K), 0, 0, 0;
        0, params.m_reconstructionParams.voxelsPerMeter /
          (params.m_reconstructionParams.voxelCountY : K), 0, 0;
        0, 0, params.m_reconstructionParams.voxelsPerMeter /
          (params.m_reconstructionParams.voxelCountZ : K), 0;
        1 / 2, 1 / 2, 0, 1] ∧
    ∀ i : Fin 3,
      0 ≤ Matrix.vecMul ![x, y, z, 1] (toMatrix (ProcessDepth.worldToBGRTransform params))
        i.castSucc ∧
      Matrix.vecMul ![x, y, z, 1] (toMatrix (ProcessDepth.worldToBGRTransform params))
        i.castSucc ≤ 1 := by
  refine ⟨rfl, ?_⟩
  have cX : (0 : K) < (params.m_reconstructionParams.voxelCountX : K) := by exact_mod_cast hX
  have cY : (0 : K) < (params.m_reconstructionParams.voxelCountY : K) := by exact_mod_cast hY
  have cZ : (0 : K) < (params.m_reconstructionParams.voxelCountZ : K) := by exact_mod_cast hZ
  have scale : ∀ (c b w : K), 0 < c → |w| ≤ c / (2 * b) → 0 < b →
      0 ≤ w * (b / c) + 1 / 2 ∧ w * (b / c) + 1 / 2 ≤ 1 := by
    intro c b w hc hw hb
    have h2 : (0 : K) < 2 * b := by linarith
    have e : w * (b / c) = (w * (2 * b) / c) / 2 := by
      field_simp
      ring
    have hw' := (le_div_iff₀ h2).mp hw
    have hle : w * (2 * b) ≤ c := by
      calc w * (2 * b) ≤ |w| * (2 * b) := by
            exact mul_le_mul_of_nonneg_right (le_abs_self w) h2.le
        _ ≤ c := hw'
    have hge : -c ≤ w * (2 * b) := by
      have : -w * (2 * b) ≤ c := by
        calc -w * (2 * b) ≤ |w| * (2 * b) := by
              exact mul_le_mul_of_nonneg_right (neg_le_abs w) h2.le
          _ ≤ c := hw'
      linarith
    have h1 : w * (2 * b) / c ≤ 1 := (div_le_one hc).mpr hle
    have h3 : -1 ≤ w * (2 * b) / c := by
      rw [le_div_iff₀ hc]
      linarith
    rw [e]
    constructor <;> linarith
  have depth : 0 ≤ z * (params.m_reconstructionParams.voxelsPerMeter /
        (params.m_reconstructionParams.voxelCountZ : K)) ∧
      z * (params.m_reconstructionParams.voxelsPerMeter /
        (params.m_reconstructionParams.voxelCountZ : K)) ≤ 1 := by
    have hz' := (le_div_iff₀ hv).mp hz
    constructor
    · positivity
    · rw [← mul_div_assoc, div_le_one cZ]
      exact hz'
  have e0 : Matrix.vecMul ![x, y, z, 1] (toMatrix (ProcessDepth.worldToBGRTransform params)) 0
      = x * (params.m_reconstructionParams.voxelsPerMeter /
        (params.m_reconstructionParams.voxelCountX : K)) + 1 / 2 := by
    simp [Matrix.vecMul, Matrix.dotProduct, Fin.sum_univ_four, toMatrix,
      ProcessDepth.worldToBGRTransform]
  have e1 : Matrix.vecMul ![x, y, z, 1] (toMatrix (ProcessDepth.worldToBGRTransform params)) 1
      = y * (params.m_reconstructionParams.voxelsPerMeter /
        (params.m_reconstructionParams.voxelCountY : K)) + 1 / 2 := by
    simp [Matrix.vecMul, Matrix.dotProduct, Fin.sum_univ_four, toMatrix,
      ProcessDepth.worldToBGRTransform]
  have e2 : Matrix.vecMul ![x, y, z, 1] (toMatrix (ProcessDepth.worldToBGRTransform params)) 2
      = z * (params.m_reconstructionParams.voxelsPerMeter /
        (params.m_reconstructionParams.voxelCountZ : K)) := by
    simp [Matrix.vecMul, Matrix.dotProduct, Fin.sum_univ_four, toMatrix,
      ProcessDepth.worldToBGRTransform]
  intro i
  fin_cases i
  · change 0 ≤ Matrix.vecMul _ _ 0 ∧ Matrix.vecMul _ _ 0 ≤ 1
    rw [e0]
    exact scale _ _ x cX hx hv
  · change 0 ≤ Matrix.vecMul _ _ 1 ∧ Matrix.vecMul _ _ 1 ≤ 1
    rw [e1]
    exact scale _ _ y cY hy hv
  · change 0 ≤ Matrix.vecMul _ _ 2 ∧ Matrix.vecMul _ _ 2 ≤ 1
    rw [e2]
    exact depth

/-- The normalisation at the default volume (512 x 384 x 512 voxels, 256 voxels per metre)
and the corner `(1, -3/4, 2)` of its extent. -/
theorem worldToBGRTransform_normalises_witness :
    |(1 : ℚ)| ≤ ((512 : ℕ) : ℚ) / (2 * 256) ∧ |(-3 / 4 : ℚ)| ≤ ((384 : ℕ) : ℚ) / (2 * 256) ∧
    (2 : ℚ) ≤ ((512 : ℕ) : ℚ) / 256 ∧
    ∀ i : Fin 3,
      0 ≤ Matrix.vecMul ![(1 : ℚ), -3 / 4, 2, 1]
        (toMatrix (ProcessDepth.worldToBGRTransform sampleParams)) i.castSucc ∧
      Matrix.vecMul ![(1 : ℚ), -3 / 4, 2, 1]
        (toMatrix (ProcessDepth.worldToBGRTransform sampleParams)) i.castSucc ≤ 1 :=
  ⟨by norm_num [abs_le], by norm_num [abs_le], by norm_num,
    (worldToBGRTransform_normalises sampleParams 1 (-3 / 4) 2 (by decide) (by decide)
      (by decide) (by norm_num [sampleParams])
      (by norm_num [sampleParams, abs_le]) (by norm_num [sampleParams, abs_le])
      (by norm_num) (by norm_num [sampleParams])).2⟩

/-! ## Theorems: the tracking-state invariant -/

/-- The invariant only reads the lost-frame counter and the tracking flag. -/
theorem trackingInvariant_of_fields {s s' : KinectFusionProcessor K}
    (hl : s'.m_cLostFrameCounter = s.m_cLostFrameCounter)
    (hf : s'.m_bTrackingFailed = s.m_bTrackingFailed) (h : TrackingInvariant s) :
    TrackingInvariant s' := by
  unfold TrackingInvariant at h ⊢
  rw [hl, hf]
  exact h

/-- A state whose lost-frame counter is 0 satisfies the invariant. -/
theorem trackingInvariant_of_zero {s : KinectFusionProcessor K}
    (h : s.m_cLostFrameCounter = 0) : TrackingInvariant s :=
  ⟨h.ge, fun _ => h⟩

/-- The function `InternalResetReconstruction` keeps the invariant: without a volume it
changes nothing, with a volume it clears the counter. -/
theorem InternalResetReconstruction_invariant (s : KinectFusionProcessor K) (hr : HRESULT)
    (t : K) (h : TrackingInvariant s) :
    TrackingInvariant (InternalResetReconstruction s hr t).2 := by
  unfold InternalResetReconstruction
  simp only [KinectFusionProcessor.log]
  split_ifs
  · exact h
  all_goals exact trackingInvariant_of_zero rfl

theorem timeStampGuard_invariant (s : KinectFusionProcessor K) (env : ProcessDepthEnv K)
    (t : Int) (h : TrackingInvariant s) :
    TrackingInvariant (ProcessDepth.timeStampGuard s env t) := by
  have hr := InternalResetReconstruction_invariant s env.hrResetOnTimeStamp
    env.timeResetOnTimeStamp h
  simp only [ProcessDepth.timeStampGuard, SetStatusMessage]
  split_ifs
  · exact hr
  · exact hr
  · exact h

/-- The tracking step keeps the invariant: a failure raises a counter that was not negative
and sets the flag, a success clears both. -/
theorem track_invariant (sdk : Sdk) (s : KinectFusionProcessor K) (env : ProcessDepthEnv K)
    (hr : HRESULT) (h : TrackingInvariant s) :
    TrackingInvariant (ProcessDepth.track sdk s env hr).2 := by
  cases hf : FAILED env.tracking
  · obtain ⟨-, h1, -⟩ := track_of_succeeded sdk s env hr hf
    exact trackingInvariant_of_zero h1
  · obtain ⟨h1, h2, -⟩ := track_of_failed sdk s env hr hf
    refine ⟨?_, ?_⟩
    · rw [h1]
      have := h.1
      omega
    · rw [h2]
      intro c
      exact absurd c (by decide)

theorem resetWhenLost_invariant (s : KinectFusionProcessor K) (env : ProcessDepthEnv K)
    (hr : HRESULT) (h : TrackingInvariant s) :
    TrackingInvariant (ProcessDepth.resetWhenLost s env hr).2 := by
  have hreset := InternalResetReconstruction_invariant s env.hrResetWhenLost
    env.timeResetWhenLost h
  simp only [ProcessDepth.resetWhenLost]
  split_ifs
  · obtain ⟨h1, h2, -⟩ := integrate_spec
      (SetStatusMessage (InternalResetReconstruction s env.hrResetWhenLost
        env.timeResetWhenLost).2
        "Kinect Fusion camera tracking failed, automatically reset volume.") env
      (InternalResetReconstruction s env.hrResetWhenLost env.timeResetWhenLost).1
    exact trackingInvariant_of_fields h1 h2 hreset
  · exact hreset
  · obtain ⟨h1, h2, -⟩ := integrate_spec s env hr
    exact trackingInvariant_of_fields h1 h2 h

theorem body_invariant (sdk : Sdk) (s : KinectFusionProcessor K) (env : ProcessDepthEnv K)
    (h : TrackingInvariant s) : TrackingInvariant (ProcessDepth.body sdk s env).2 := by
  have keep : ∀ {a b : KinectFusionProcessor K}, SameTracking a b → TrackingInvariant a →
      TrackingInvariant b := fun hs ha => trackingInvariant_of_fields hs.lost hs.failed ha
  have h0 : TrackingInvariant (s.log Event.NuiImageStreamGetNextFrame) := h
  have hc : TrackingInvariant (CopyExtendedDepth (s.log Event.NuiImageStreamGetNextFrame) env).2 :=
    keep (CopyExtendedDepth_sameTracking _ env) h0
  have h1 : TrackingInvariant
      ((CopyExtendedDepth (s.log Event.NuiImageStreamGetNextFrame) env).2.log
        Event.NuiImageStreamReleaseFrame) := hc
  have h2 := timeStampGuard_invariant _ env env.liTimeStamp h1
  simp only [ProcessDepth.body]
  split_ifs
  · exact h
  · exact h1
  · exact h2
  · exact h2
  · exact resetWhenLost_invariant _ env _ (track_invariant sdk _ env _ h2)

/-- Every call of `ProcessDepth` keeps the invariant. -/
theorem ProcessDepth_invariant [FloorRing K] (sdk : Sdk) (s : KinectFusionProcessor K)
    (env : ProcessDepthEnv K) (h : TrackingInvariant s) :
    TrackingInvariant (ProcessDepth sdk s env) := by
  have hs := FinishFrame_sameTracking (ProcessDepth.body sdk s env).2 env
    (ProcessDepth.body sdk s env).1
  exact trackingInvariant_of_fields hs.lost hs.failed (body_invariant sdk s env h)

/-- Every call of `RecreateVolume` keeps the invariant: the tracking state is written only by
the reset it may invoke. -/
theorem RecreateVolume_invariant (sdk : Sdk) (s : KinectFusionProcessor K)
    (env : RecreateVolumeEnv K) (h : TrackingInvariant s) :
    TrackingInvariant (RecreateVolume sdk s env).2 := by
  simp only [RecreateVolume, RecreateVolume.created, SetStatusMessage]
  split_ifs
  · exact h
  · exact h
  · exact InternalResetReconstruction_invariant _ _ _ h
  · exact InternalResetReconstruction_invariant _ _ _ h
  · exact h

/-- C28. Tracking-state invariant: in every state reached from the constructed state by a
sequence of calls of `ProcessDepth`, `InternalResetReconstruction` and `RecreateVolume`,
whatever the collaborators answer, the lost-frame counter is not negative and it is 0
whenever the tracking flag is false. Moreover each of the three functions keeps this property
from any state that has it, so it also holds when code that does not write the two variables
(such as the initialisation of the sensor) runs between the calls. -/
theorem tracking_state_invariant [FloorRing K] (sdk : Sdk) (params : KinectFusionParams K)
    (calls : List (PipelineCall K)) :
    (0 ≤ (stateAfterCalls sdk params calls).m_cLostFrameCounter ∧
      ((stateAfterCalls sdk params calls).m_bTrackingFailed = false →
        (stateAfterCalls sdk params calls).m_cLostFrameCounter = 0)) ∧
    ∀ (s : KinectFusionProcessor K) (c : PipelineCall K),
      TrackingInvariant s → TrackingInvariant (applyCall sdk s c) := by
  have step : ∀ (s : KinectFusionProcessor K) (c : PipelineCall K),
      TrackingInvariant s → TrackingInvariant (applyCall sdk s c) := by
    intro s c h
    cases c with
    | processDepth env => exact ProcessDepth_invariant sdk s env h
    | internalReset hr t => exact InternalResetReconstruction_invariant s hr t h
    | recreateVolume env => exact RecreateVolume_invariant sdk s env h
  have all : ∀ (cs : List (PipelineCall K)) (s : KinectFusionProcessor K),
      TrackingInvariant s → TrackingInvariant (cs.foldl (applyCall sdk) s) := by
    intro cs
    induction cs with
    | nil => exact fun s h => h
    | cons c rest ih => exact fun s h => ih _ (step s c h)
  exact ⟨all calls _ (trackingInvariant_of_zero rfl), step⟩

/-- The invariant is not trivial: from a tracking processor, one depth frame on which
alignment fails leads to a state with the tracking flag set and the counter at 1, and the
next frame on which alignment succeeds clears both. -/
theorem applyCall_lost_then_tracked :
    (applyCall sampleSdk sampleState (PipelineCall.processDepth lostEnv)).m_bTrackingFailed
      = true ∧
    (applyCall sampleSdk sampleState (PipelineCall.processDepth lostEnv)).m_cLostFrameCounter
      = 1 ∧
    (applyCall sampleSdk
      (applyCall sampleSdk sampleState (PipelineCall.processDepth lostEnv))
      (PipelineCall.processDepth trackedEnv)).m_bTrackingFailed = false ∧
    (applyCall sampleSdk
      (applyCall sampleSdk sampleState (PipelineCall.processDepth lostEnv))
      (PipelineCall.processDepth trackedEnv)).m_cLostFrameCounter = 0 := by
  simp [applyCall, ProcessDepth, ProcessDepth.body, ProcessDepth.FinishFrame,
    ProcessDepth.enterFrame, ProcessDepth.storeImages, ProcessDepth.updateFps,
    ProcessDepth.leaveFrame, ProcessDepth.resetWhenLost, ProcessDepth.lostTooLong,
    ProcessDepth.integrate, ProcessDepth.raycast, ProcessDepth.track,
    ProcessDepth.timeStampGuard, ProcessDepth.timeStampSkipped,
    ProcessDepth.cResetOnTimeStampSkippedMilliseconds, cResetOnTimeStampSkippedMillisecondsGPU,
    cResetOnTimeStampSkippedMillisecondsCPU, CopyExtendedDepth,
    InternalResetReconstruction, KinectFusionProcessor.log, SetStatusMessage, lostEnv,
    sampleState, trackedEnv, sampleSdk, sampleParams, FAILED, SUCCEEDED, S_OK,
    cResetOnNumberOfLostFrames, truncToInt, cTimeDisplayInterval, SetIdentityMatrix, zTurnPose]

/-! ## Theorems: the mesh writers -/

/-- A code that `SUCCEEDED` accepts is not one that `FAILED` accepts. -/
theorem FAILED_of_SUCCEEDED {hr : HRESULT} (h : SUCCEEDED hr = true) : FAILED hr = false := by
  simp only [SUCCEEDED, FAILED, decide_eq_true_eq, decide_eq_false_iff_not] at h ⊢
  exact not_lt.mpr h

/-- The test both writers make on the two counts is the test of the specification. -/
theorem meshCounts_rejected_iff (m : INuiFusionMesh K) :
    (decide (0 = m.VertexCount) || decide (0 = m.TriangleVertexIndexCount) ||
      decide (0 ≠ Int.tmod m.VertexCount 3) ||
      decide (m.VertexCount ≠ m.TriangleVertexIndexCount)) = true ↔
    MalformedMesh (some m) := by
  simp only [MalformedMesh, Bool.or_eq_true, decide_eq_true_eq, Int.dvd_iff_tmod_eq_zero,
    or_assoc, ne_eq]
  constructor
  · rintro (h | h | h | h)
    · exact Or.inl h.symm
    · exact Or.inr (Or.inl h.symm)
    · exact Or.inr (Or.inr (Or.inl fun c => h c.symm))
    · exact Or.inr (Or.inr (Or.inr h))
  · rintro (h | h | h | h)
    · exact Or.inl h.symm
    · exact Or.inr (Or.inl h.symm)
    · exact Or.inr (Or.inr (Or.inl fun c => h c.symm))
    · exact Or.inr (Or.inr (Or.inr h))

/-- A malformed mesh makes `WriteAsciiObjMeshFile` return `E_INVALIDARG` before any call on
the file. -/
theorem WriteAsciiObjMeshFile_of_malformed (mesh : Option (INuiFusionMesh K))
    (env : MeshFileEnv K) (flipYZ : Bool) (h : MalformedMesh mesh) :
    WriteAsciiObjMeshFile mesh env flipYZ = (E_INVALIDARG, []) := by
  cases mesh with
  | none => rfl
  | some m =>
    have hc := (meshCounts_rejected_iff m).mpr h
    simp only [WriteAsciiObjMeshFile, hc, if_true]

/-- With a well-formed mesh, successful accessors and a file name that converts,
`WriteAsciiObjMeshFile` reaches `fopen_s`; what follows depends on whether the file opens. -/
theorem WriteAsciiObjMeshFile_of_wellFormed (m : INuiFusionMesh K) (env : MeshFileEnv K)
    (flipYZ : Bool) (h : ¬ MalformedMesh (some m))
    (hacc : SUCCEEDED m.hrGetVertices = true ∧ SUCCEEDED m.hrGetNormals = true ∧
      SUCCEEDED m.hrGetTriangleIndices = true)
    (hname : env.fileNameConverted = true) :
    WriteAsciiObjMeshFile (some m) env flipYZ =
      if (decide (0 ≠ env.fopenErr) || !env.meshFileOpened) = true then
        (E_ACCESSDENIED, [FileCall.fopen_s "wt"])
      else
        (m.hrGetTriangleIndices,
          [FileCall.fopen_s "wt"] ++ [fwriteString objHeader] ++
            WriteAsciiObjMeshFile.vertexLoop env flipYZ m.vertices (Int.tdiv m.VertexCount 3) ++
            WriteAsciiObjMeshFile.normalLoop env flipYZ m.normals (Int.tdiv m.VertexCount 3) ++
            WriteAsciiObjMeshFile.faceLoop (Int.tdiv m.VertexCount 3) ++
            [FileCall.fflush, FileCall.fclose]) := by
  have hc : (decide (0 = m.VertexCount) || decide (0 = m.TriangleVertexIndexCount) ||
      decide (0 ≠ Int.tmod m.VertexCount 3) ||
      decide (m.VertexCount ≠ m.TriangleVertexIndexCount)) = false := by
    rw [Bool.eq_false_iff, ne_eq, meshCounts_rejected_iff]
    exact h
  simp only [WriteAsciiObjMeshFile, hc, FAILED_of_SUCCEEDED hacc.1,
    FAILED_of_SUCCEEDED hacc.2.1, FAILED_of_SUCCEEDED hacc.2.2, hname, Bool.not_true,
    Bool.false_eq_true, if_false, objHeader]

/-- A malformed mesh makes `WriteBinarySTLMeshFile` return `E_INVALIDARG` before any call on
the file. -/
theorem WriteBinarySTLMeshFile_of_malformed (mesh : Option (INuiFusionMesh K))
    (env : MeshFileEnv K) (flipYZ : Bool) (h : MalformedMesh mesh) :
    WriteBinarySTLMeshFile mesh env flipYZ = (E_INVALIDARG, []) := by
  cases mesh with
  | none => rfl
  | some m =>
    have hc := (meshCounts_rejected_iff m).mpr h
    simp only [WriteBinarySTLMeshFile, hc, if_true]

/-- With a well-formed mesh, successful accessors and a file name that converts,
`WriteBinarySTLMeshFile` reaches `fopen_s`; what follows depends on whether the file opens. -/
theorem WriteBinarySTLMeshFile_of_wellFormed (m : INuiFusionMesh K) (env : MeshFileEnv K)
    (flipYZ : Bool) (h : ¬ MalformedMesh (some m))
    (hacc : SUCCEEDED m.hrGetVertices = true ∧ SUCCEEDED m.hrGetNormals = true ∧
      SUCCEEDED m.hrGetTriangleIndices = true)
    (hname : env.fileNameConverted = true) :
    WriteBinarySTLMeshFile (some m) env flipYZ =
      if (decide (0 ≠ env.fopenErr) || !env.meshFileOpened) = true then
        (E_ACCESSDENIED, [FileCall.fopen_s "wb"])
      else
        (m.hrGetTriangleIndices,
          [FileCall.fopen_s "wb"] ++
            [FileCall.fwrite (Payload.bytes (List.replicate 80 0)) sizeofChar 80] ++
            [FileCall.fwrite (Payload.int (Int.tdiv m.VertexCount 3)) sizeofInt 1] ++
            WriteBinarySTLMeshFile.triangleLoop flipYZ m.vertices m.normals
              (Int.tdiv m.VertexCount 3) ++
            [FileCall.fflush, FileCall.fclose]) := by
  have hc : (decide (0 = m.VertexCount) || decide (0 = m.TriangleVertexIndexCount) ||
      decide (0 ≠ Int.tmod m.VertexCount 3) ||
      decide (m.VertexCount ≠ m.TriangleVertexIndexCount)) = false := by
    rw [Bool.eq_false_iff, ne_eq, meshCounts_rejected_iff]
    exact h
  simp only [WriteBinarySTLMeshFile, hc, FAILED_of_SUCCEEDED hacc.1,
    FAILED_of_SUCCEEDED hacc.2.1, FAILED_of_SUCCEEDED hacc.2.2, hname, Bool.not_true,
    Bool.false_eq_true, if_false]

/-- C30. The mesh writers reject malformed meshes before touching the file: given a file name
that converts and mesh accessors that succeed, each of `WriteAsciiObjMeshFile` and
`WriteBinarySTLMeshFile` returns `E_INVALIDARG` if and only if the mesh is null, or its
vertex count is 0, or its triangle-index count is 0, or its vertex count is not a multiple of
3, or the two counts differ; in that case it makes no call on the output file, and in the
other case it calls `fopen_s`. -/
theorem mesh_writers_reject_malformed (mesh : Option (INuiFusionMesh K))
    (env : MeshFileEnv K) (flipYZ : Bool) (hname : env.fileNameConverted = true)
    (hacc : ∀ m, mesh = some m →
      SUCCEEDED m.hrGetVertices = true ∧ SUCCEEDED m.hrGetNormals = true ∧
        SUCCEEDED m.hrGetTriangleIndices = true) :
    (((WriteAsciiObjMeshFile mesh env flipYZ).1 = E_INVALIDARG ↔ MalformedMesh mesh) ∧
      (MalformedMesh mesh → (WriteAsciiObjMeshFile mesh env flipYZ).2 = []) ∧
      (¬ MalformedMesh mesh →
        FileCall.fopen_s "wt" ∈ (WriteAsciiObjMeshFile mesh env flipYZ).2)) ∧
    (((WriteBinarySTLMeshFile mesh env flipYZ).1 = E_INVALIDARG ↔ MalformedMesh mesh) ∧
      (MalformedMesh mesh → (WriteBinarySTLMeshFile mesh env flipYZ).2 = []) ∧
      (¬ MalformedMesh mesh →
        FileCall.fopen_s "wb" ∈ (WriteBinarySTLMeshFile mesh env flipYZ).2)) := by
  have denied : E_ACCESSDENIED ≠ E_INVALIDARG := by decide
  have notInvalid : ∀ hr : HRESULT, SUCCEEDED hr = true → hr ≠ E_INVALIDARG := by
    intro hr h c
    rw [c] at h
    exact absurd h (by decide)
  constructor
  · refine ⟨⟨?_, fun h => by rw [WriteAsciiObjMeshFile_of_malformed mesh env flipYZ h]⟩,
      fun h => by rw [WriteAsciiObjMeshFile_of_malformed mesh env flipYZ h], ?_⟩
    · intro hret
      by_contra hmal
      cases mesh with
      | none => exact hmal trivial
      | some m =>
        rw [WriteAsciiObjMeshFile_of_wellFormed m env flipYZ hmal (hacc m rfl) hname] at hret
        split_ifs at hret
        · exact denied hret
        · exact notInvalid _ (hacc m rfl).2.2 hret
    · intro hmal
      cases mesh with
      | none => exact absurd trivial hmal
      | some m =>
        rw [WriteAsciiObjMeshFile_of_wellFormed m env flipYZ hmal (hacc m rfl) hname]
        split_ifs <;> simp
  · refine ⟨⟨?_, fun h => by rw [WriteBinarySTLMeshFile_of_malformed mesh env flipYZ h]⟩,
      fun h => by rw [WriteBinarySTLMeshFile_of_malformed mesh env flipYZ h], ?_⟩
    · intro hret
      by_contra hmal
      cases mesh with
      | none => exact hmal trivial
      | some m =>
        rw [WriteBinarySTLMeshFile_of_wellFormed m env flipYZ hmal (hacc m rfl) hname] at hret
        split_ifs at hret
        · exact denied hret
        · exact notInvalid _ (hacc m rfl).2.2 hret
    · intro hmal
      cases mesh with
      | none => exact absurd trivial hmal
      | some m =>
        rw [WriteBinarySTLMeshFile_of_wellFormed m env flipYZ hmal (hacc m rfl) hname]
        split_ifs <;> simp

/-- The rejection at a mesh of four vertices, and the acceptance of a mesh of one triangle. -/
theorem mesh_writers_reject_malformed_witness :
    sampleFileEnv.fileNameConverted = true ∧ MalformedMesh (some unevenMesh) ∧
    (WriteAsciiObjMeshFile (some unevenMesh) sampleFileEnv true).1 = E_INVALIDARG ∧
    (WriteAsciiObjMeshFile (some unevenMesh) sampleFileEnv true).2 = [] ∧
    (WriteBinarySTLMeshFile (some unevenMesh) sampleFileEnv true).1 = E_INVALIDARG ∧
    (WriteBinarySTLMeshFile (some unevenMesh) sampleFileEnv true).2 = [] := by
  have hmal : MalformedMesh (some unevenMesh) := by decide
  have hacc : ∀ m, some unevenMesh = some m →
      SUCCEEDED m.hrGetVertices = true ∧ SUCCEEDED m.hrGetNormals = true ∧
        SUCCEEDED m.hrGetTriangleIndices = true := by
    intro m hm
    cases hm
    decide
  have h := mesh_writers_reject_malformed (some unevenMesh) sampleFileEnv true rfl hacc
  exact ⟨rfl, hmal, h.1.1.mpr hmal, h.1.2.1 hmal, h.2.1.mpr hmal, h.2.2.1 hmal⟩

/-- The length of a list built from blocks of the same length. -/
theorem length_flatMap_of_const {α β : Type} (l : List α) (f : α → List β) (k : Nat)
    (h : ∀ a, (f a).length = k) : (l.flatMap f).length = k * l.length := by
  induction l with
  | nil => simp
  | cons a l ih => simp [List.flatMap_cons, h, ih, Nat.mul_succ, Nat.add_comm]

/-- The overload `to_string(int)` on a value that is not negative prints the natural
number. -/
theorem to_string_int_natCast (n : Nat) : to_string_int (n : Int) = toString n := rfl

/-- The face line the third loop builds for triangle `t` is the line of the specification
for the indices `3t+1`, `3t+2`, `3t+3`. -/
theorem faceLoop_eq (n : Nat) :
    (WriteAsciiObjMeshFile.faceLoop (n : Int) : List (FileCall K)) =
      ((List.range n).map fun t => objFaceLine (3 * t + 1) (3 * t + 2) (3 * t + 3)).map
        fwriteString := by
  simp only [WriteAsciiObjMeshFile.faceLoop, Int.toNat_ofNat, List.map_map]
  apply List.map_congr_left
  intro t _
  have e1 : ((t : Int) * 3) + 1 = ((3 * t + 1 : Nat) : Int) := by push_cast; ring
  have e2 : ((t : Int) * 3) + 1 + 1 = ((3 * t + 2 : Nat) : Int) := by push_cast; ring
  have e3 : ((t : Int) * 3) + 1 + 2 = ((3 * t + 3 : Nat) : Int) := by push_cast; ring
  simp only [Function.comp, objFaceLine]
  rw [e3, e2, e1]
  simp only [to_string_int_natCast]

/-- The calls of the first loop are the writes of `3 * n` lines that start with `v`. -/
theorem vertexLoop_eq (env : MeshFileEnv K) (flipYZ : Bool) (vertices : Nat → Vector3 K)
    (n : Nat) :
    ∃ vs : List String,
      WriteAsciiObjMeshFile.vertexLoop env flipYZ vertices (n : Int) = vs.map fwriteString ∧
      vs.length = 3 * n ∧ ∀ l ∈ vs, ∃ body, l = "v " ++ body ++ "\r\n" := by
  refine ⟨(List.range n).flatMap fun t => (List.range 3).map fun v =>
    WriteAsciiObjMeshFile.vectorString env "v " (flipYZVector flipYZ (vertices ((t * 3) + v))),
    ?_, ?_, ?_⟩
  · simp only [WriteAsciiObjMeshFile.vertexLoop, Int.toNat_ofNat, List.map_flatMap,
      List.map_map, Function.comp_def]
  · rw [length_flatMap_of_const _ _ 3 (fun a => by simp), List.length_range]
  · intro l hl
    obtain ⟨t, -, hl⟩ := List.mem_flatMap.mp hl
    obtain ⟨v, -, rfl⟩ := List.mem_map.mp hl
    exact ⟨to_string_float env (flipYZVector flipYZ (vertices ((t * 3) + v))).x ++ " " ++
      to_string_float env (flipYZVector flipYZ (vertices ((t * 3) + v))).y ++ " " ++
      to_string_float env (flipYZVector flipYZ (vertices ((t * 3) + v))).z,
      by simp only [WriteAsciiObjMeshFile.vectorString, String.append_assoc]⟩

/-- The calls of the second loop are the writes of `3 * n` lines that start with `vn`. -/
theorem normalLoop_eq (env : MeshFileEnv K) (flipYZ : Bool) (normals : Nat → Vector3 K)
    (n : Nat) :
    ∃ ns : List String,
      WriteAsciiObjMeshFile.normalLoop env flipYZ normals (n : Int) = ns.map fwriteString ∧
      ns.length = 3 * n ∧ ∀ l ∈ ns, ∃ body, l = "vn " ++ body ++ "\r\n" := by
  refine ⟨(List.range n).flatMap fun t => (List.range 3).map fun v =>
    WriteAsciiObjMeshFile.vectorString env "vn " (flipYZVector flipYZ (normals ((t * 3) + v))),
    ?_, ?_, ?_⟩
  · simp only [WriteAsciiObjMeshFile.normalLoop, Int.toNat_ofNat, List.map_flatMap,
      List.map_map, Function.comp_def]
  · rw [length_flatMap_of_const _ _ 3 (fun a => by simp), List.length_range]
  · intro l hl
    obtain ⟨t, -, hl⟩ := List.mem_flatMap.mp hl
    obtain ⟨v, -, rfl⟩ := List.mem_map.mp hl
    exact ⟨to_string_float env (flipYZVector flipYZ (normals ((t * 3) + v))).x ++ " " ++
      to_string_float env (flipYZVector flipYZ (normals ((t * 3) + v))).y ++ " " ++
      to_string_float env (flipYZVector flipYZ (normals ((t * 3) + v))).z,
      by simp only [WriteAsciiObjMeshFile.vectorString, String.append_assoc]⟩

/-- A mesh with `3 * n` vertices and `3 * n` indices, `n ≥ 1`, is not malformed. -/
theorem wellFormed_of_counts (m : INuiFusionMesh K) (n : Nat) (hn : 1 ≤ n)
    (hv : m.VertexCount = 3 * (n : Int)) (hi : m.TriangleVertexIndexCount = 3 * (n : Int)) :
    ¬ MalformedMesh (some m) := by
  simp only [MalformedMesh, hv, hi, not_or, not_not]
  refine ⟨?_, ?_, Dvd.intro _ rfl, trivial⟩
  · omega
  · omega

/-- C21. OBJ export layout: for every mesh with `3 * n` vertices and `3 * n` triangle indices,
`n ≥ 1`, whose accessors succeed, when the file name converts and the file opens,
`WriteAsciiObjMeshFile` opens the file, writes the comment header, then exactly `3 * n` lines
starting with `v`, then exactly `3 * n` lines starting with `vn`, then exactly `n` face lines,
in that order, and the face line of triangle `t` (counted from 0) is `f a//a b//b c//c` with
`a = 3t+1`, `b = 3t+2`, `c = 3t+3`; it then flushes and closes the file and returns the code
of the last accessor. -/
theorem WriteAsciiObjMeshFile_layout (m : INuiFusionMesh K) (env : MeshFileEnv K)
    (flipYZ : Bool) (n : Nat) (hn : 1 ≤ n)
    (hv : m.VertexCount = 3 * (n : Int)) (hi : m.TriangleVertexIndexCount = 3 * (n : Int))
    (hacc : SUCCEEDED m.hrGetVertices = true ∧ SUCCEEDED m.hrGetNormals = true ∧
      SUCCEEDED m.hrGetTriangleIndices = true)
    (hname : env.fileNameConverted = true)
    (hopen : env.fopenErr = 0 ∧ env.meshFileOpened = true) :
    ∃ vs ns fs : List String,
      WriteAsciiObjMeshFile (some m) env flipYZ =
        (m.hrGetTriangleIndices,
          FileCall.fopen_s "wt" :: fwriteString objHeader ::
            ((vs ++ ns ++ fs).map fwriteString ++ [FileCall.fflush, FileCall.fclose])) ∧
      (vs.length = 3 * n ∧ ∀ l ∈ vs, ∃ body, l = "v " ++ body ++ "\r\n") ∧
      (ns.length = 3 * n ∧ ∀ l ∈ ns, ∃ body, l = "vn " ++ body ++ "\r\n") ∧
      fs.length = n ∧
      fs = (List.range n).map fun t => objFaceLine (3 * t + 1) (3 * t + 2) (3 * t + 3) := by
  obtain ⟨vs, hvs, hvl, hvp⟩ := vertexLoop_eq env flipYZ m.vertices n
  obtain ⟨ns, hns, hnl, hnp⟩ := normalLoop_eq env flipYZ m.normals n
  refine ⟨vs, ns, _, ?_, ⟨hvl, hvp⟩, ⟨hnl, hnp⟩, ?_, rfl⟩
  · have hopen' : (decide (0 ≠ env.fopenErr) || !env.meshFileOpened) = false := by
      simp [hopen.1, hopen.2]
    have hdiv : Int.tdiv m.VertexCount 3 = (n : Int) := by
      rw [hv]
      exact Int.mul_tdiv_cancel_left _ (by decide)
    rw [WriteAsciiObjMeshFile_of_wellFormed m env flipYZ (wellFormed_of_counts m n hn hv hi)
      hacc hname, hopen', hdiv, hvs, hns, faceLoop_eq]
    simp
  · simp

/-- The layout for the mesh of one triangle: three `v` lines, three `vn` lines and the single
face line `f 1//1 2//2 3//3`. -/
theorem WriteAsciiObjMeshFile_layout_witness :
    sampleMesh.VertexCount = 3 * ((1 : Nat) : Int) ∧
    sampleMesh.TriangleVertexIndexCount = 3 * ((1 : Nat) : Int) ∧
    objFaceLine 1 2 3 = "f 1//1 2//2 3//3\r\n" ∧
    ∃ vs ns fs : List String,
      WriteAsciiObjMeshFile (some sampleMesh) sampleFileEnv true =
        (sampleMesh.hrGetTriangleIndices,
          FileCall.fopen_s "wt" :: fwriteString objHeader ::
            ((vs ++ ns ++ fs).map fwriteString ++ [FileCall.fflush, FileCall.fclose])) ∧
      (vs.length = 3 * 1 ∧ ∀ l ∈ vs, ∃ body, l = "v " ++ body ++ "\r\n") ∧
      (ns.length = 3 * 1 ∧ ∀ l ∈ ns, ∃ body, l = "vn " ++ body ++ "\r\n") ∧
      fs.length = 1 ∧
      fs = (List.range 1).map fun t => objFaceLine (3 * t + 1) (3 * t + 2) (3 * t + 3) :=
  ⟨by decide, by decide, by decide,
    WriteAsciiObjMeshFile_layout sampleMesh sampleFileEnv true 1 (by decide) (by decide)
      (by decide) (by decide) rfl (by decide)⟩

/-- The calls `WriteAsciiObjMeshFile` makes for the mesh of one triangle, with the flip: the
header, three `v` lines, three `vn` lines and one face line. -/
theorem WriteAsciiObjMeshFile_sampleMesh :
    WriteAsciiObjMeshFile (some sampleMesh) sampleFileEnv true =
      (S_OK,
        [FileCall.fopen_s "wt",
         fwriteString "#\r\n# OBJ file created by Microsoft Kinect Fusion\r\n#\r\n",
         fwriteString "v 0/1 0/1 -1/1\r\n",
         fwriteString "v 1/1 0/1 -1/1\r\n",
         fwriteString "v 0/1 -1/1 -1/1\r\n",
         fwriteString "vn 0/1 0/1 1/1\r\n",
         fwriteString "vn 0/1 0/1 1/1\r\n",
         fwriteString "vn 0/1 0/1 1/1\r\n",
         fwriteString "f 1//1 2//2 3//3\r\n",
         FileCall.fflush, FileCall.fclose]) := by
  decide

@[simp] theorem bytesWritten_nil : bytesWritten ([] : List (FileCall K)) = 0 := rfl

@[simp] theorem bytesWritten_cons (c : FileCall K) (cs : List (FileCall K)) :
    bytesWritten (c :: cs) = c.byteCount + bytesWritten cs := by
  simp [bytesWritten]

@[simp] theorem bytesWritten_append (a b : List (FileCall K)) :
    bytesWritten (a ++ b) = bytesWritten a + bytesWritten b := by
  simp [bytesWritten]

/-- The bytes of a sequence of blocks that all have the same size. -/
theorem bytesWritten_flatMap_of_const {α : Type} (l : List α) (f : α → List (FileCall K))
    (k : Nat) (h : ∀ a, bytesWritten (f a) = k) :
    bytesWritten (l.flatMap f) = k * l.length := by
  induction l with
  | nil => simp
  | cons a l ih => simp [List.flatMap_cons, h, ih, Nat.mul_succ, Nat.add_comm]

/-- The vector a writer passes to `fwrite` after the flip is the one of the specification. -/
theorem flipYZVector_floats (flipYZ : Bool) (v : Vector3 K) :
    [(flipYZVector flipYZ v).x, (flipYZVector flipYZ v).y, (flipYZVector flipYZ v).z] =
      stlVector flipYZ v := by
  cases flipYZ <;> rfl

/-- Every record of the specification has 50 bytes. -/
theorem bytesWritten_stlRecord (flipYZ : Bool) (normal v0 v1 v2 : Vector3 K) :
    bytesWritten (stlRecord flipYZ normal v0 v1 v2) = 50 := by
  simp [stlRecord, FileCall.byteCount]

/-- The calls of the loop of `WriteBinarySTLMeshFile` are the records of the specification,
one for each triangle. -/
theorem triangleLoop_eq (flipYZ : Bool) (vertices normals : Nat → Vector3 K) (n : Nat) :
    WriteBinarySTLMeshFile.triangleLoop flipYZ vertices normals (n : Int) =
      (List.range n).flatMap fun t =>
        stlRecord flipYZ (normals (3 * t)) (vertices (3 * t)) (vertices (3 * t + 1))
          (vertices (3 * t + 2)) := by
  simp only [WriteBinarySTLMeshFile.triangleLoop, Int.toNat_ofNat]
  congr 1
  funext t
  have h3 : List.range 3 = [0, 1, 2] := by decide
  simp only [h3, List.map_cons, List.map_nil, flipYZVector_floats, stlRecord, sizeofFloat,
    sizeofUnsignedShort, Nat.mul_comm t 3, Nat.add_zero, List.cons_append, List.nil_append,
    List.singleton_append]

/-- C22. STL export layout: for every mesh with `3 * n` vertices and `3 * n` triangle indices,
`n ≥ 1`, whose accessors succeed, when the file name converts and the file opens,
`WriteBinarySTLMeshFile` opens the file in binary mode and writes 80 zero bytes, the triangle
count `n` as one 4-byte integer, then for each triangle `t` a record of 50 bytes made of the
normal `normals[3t]`, the vertices `vertices[3t]`, `vertices[3t+1]`, `vertices[3t+2]` (three
4-byte floats each) and a 2-byte attribute equal to 0, every vector `(x, y, z)` being written
as `(x, -y, -z)` when `flipYZ` is set; this makes `80 + 4 + 50 * n` bytes. It then flushes and
closes the file. -/
theorem WriteBinarySTLMeshFile_layout (m : INuiFusionMesh K) (env : MeshFileEnv K)
    (flipYZ : Bool) (n : Nat) (hn : 1 ≤ n)
    (hv : m.VertexCount = 3 * (n : Int)) (hi : m.TriangleVertexIndexCount = 3 * (n : Int))
    (hacc : SUCCEEDED m.hrGetVertices = true ∧ SUCCEEDED m.hrGetNormals = true ∧
      SUCCEEDED m.hrGetTriangleIndices = true)
    (hname : env.fileNameConverted = true)
    (hopen : env.fopenErr = 0 ∧ env.meshFileOpened = true) :
    (WriteBinarySTLMeshFile (some m) env flipYZ).2 =
      FileCall.fopen_s "wb" :: FileCall.fwrite (Payload.bytes (List.replicate 80 0)) 1 80 ::
        FileCall.fwrite (Payload.int (n : Int)) 4 1 ::
        (((List.range n).flatMap fun t =>
          stlRecord flipYZ (m.normals (3 * t)) (m.vertices (3 * t)) (m.vertices (3 * t + 1))
            (m.vertices (3 * t + 2))) ++ [FileCall.fflush, FileCall.fclose]) ∧
    (∀ normal v0 v1 v2 : Vector3 K, bytesWritten (stlRecord flipYZ normal v0 v1 v2) = 50) ∧
    bytesWritten (WriteBinarySTLMeshFile (some m) env flipYZ).2 = 80 + 4 + 50 * n := by
  have hopen' : (decide (0 ≠ env.fopenErr) || !env.meshFileOpened) = false := by
    simp [hopen.1, hopen.2]
  have hdiv : Int.tdiv m.VertexCount 3 = (n : Int) := by
    rw [hv]
    exact Int.mul_tdiv_cancel_left _ (by decide)
  have hcalls : (WriteBinarySTLMeshFile (some m) env flipYZ).2 =
      FileCall.fopen_s "wb" :: FileCall.fwrite (Payload.bytes (List.replicate 80 0)) 1 80 ::
        FileCall.fwrite (Payload.int (n : Int)) 4 1 ::
        (((List.range n).flatMap fun t =>
          stlRecord flipYZ (m.normals (3 * t)) (m.vertices (3 * t)) (m.vertices (3 * t + 1))
            (m.vertices (3 * t + 2))) ++ [FileCall.fflush, FileCall.fclose]) := by
    rw [WriteBinarySTLMeshFile_of_wellFormed m env flipYZ (wellFormed_of_counts m n hn hv hi)
      hacc hname, hopen', hdiv, triangleLoop_eq]
    simp [sizeofChar, sizeofInt]
  refine ⟨hcalls, bytesWritten_stlRecord flipYZ, ?_⟩
  rw [hcalls]
  simp only [bytesWritten_cons, bytesWritten_append, bytesWritten_nil, FileCall.byteCount,
    bytesWritten_flatMap_of_const _ _ 50 (fun t => bytesWritten_stlRecord flipYZ _ _ _ _),
    List.length_range]
  omega

/-- The layout for the mesh of one triangle: 134 bytes. -/
theorem WriteBinarySTLMeshFile_layout_witness :
    sampleMesh.VertexCount = 3 * ((1 : Nat) : Int) ∧
    sampleMesh.TriangleVertexIndexCount = 3 * ((1 : Nat) : Int) ∧
    bytesWritten (WriteBinarySTLMeshFile (some sampleMesh) sampleFileEnv true).2 = 134 :=
  ⟨by decide, by decide,
    (WriteBinarySTLMeshFile_layout sampleMesh sampleFileEnv true 1 (by decide) (by decide)
      (by decide) (by decide) rfl (by decide)).2.2⟩

/-- The calls `WriteBinarySTLMeshFile` makes for the mesh of one triangle, with the flip: 80
zero bytes, the count 1, and one record of the normal, the three vertices and the
attribute. -/
theorem WriteBinarySTLMeshFile_sampleMesh :
    WriteBinarySTLMeshFile (some sampleMesh) sampleFileEnv true =
      (S_OK,
        [FileCall.fopen_s "wb",
         FileCall.fwrite (Payload.bytes (List.replicate 80 0)) 1 80,
         FileCall.fwrite (Payload.int 1) 4 1,
         FileCall.fwrite (Payload.floats [0, 0, 1]) 4 3,
         FileCall.fwrite (Payload.floats [0, 0, -1]) 4 3,
         FileCall.fwrite (Payload.floats [1, 0, -1]) 4 3,
         FileCall.fwrite (Payload.floats [0, -1, -1]) 4 3,
         FileCall.fwrite (Payload.unsignedShort 0) 2 1,
         FileCall.fflush, FileCall.fclose]) := by
  decide

/-! ## Theorems: the grey levels of the depth image -/

/-- The intensity of a depth that is not negative: the integer part of `depth / 4 * 256`,
modulo 256. -/
theorem intensity_of_nonneg [FloorRing K] (depth : K) (h : 0 ≤ depth) :
    (StoreImageToFrameBuffer.intensity depth : Int) = ⌊depth / 4 * 256⌋ % 256 := by
  have hx : (0 : K) ≤ (depth - 0) / 4 * 256 := by
    rw [sub_zero]
    positivity
  have hf : (0 : Int) ≤ ⌊(depth - 0) / 4 * 256⌋ := Int.floor_nonneg.mpr hx
  simp only [StoreImageToFrameBuffer.intensity, ge_iff_le, h, if_true, truncToInt, hx, toBYTE]
  rw [Int.tmod_eq_emod hf (by decide), Int.emod_emod_of_dvd _ (dvd_refl _),
    Int.toNat_of_nonneg (Int.emod_nonneg _ (by decide)), sub_zero]

/-- The intensity of a negative depth is 0. -/
theorem intensity_of_neg [FloorRing K] (depth : K) (h : depth < 0) :
    StoreImageToFrameBuffer.intensity depth = 0 := by
  simp [StoreImageToFrameBuffer.intensity, not_le.mpr h]

/-- The depth 0 is stored as intensity 0 (black). -/
theorem intensity_zero [FloorRing K] : StoreImageToFrameBuffer.intensity (0 : K) = 0 := by
  have h := intensity_of_nonneg (0 : K) le_rfl
  simp at h
  exact h

/-- The depth 4 is stored as intensity 0: `4 / 4 * 256` is 256, which wraps to 0. -/
theorem intensity_four [FloorRing K] : StoreImageToFrameBuffer.intensity (4 : K) = 0 := by
  have h := intensity_of_nonneg (4 : K) (by norm_num)
  have e : (4 : K) / 4 * 256 = ((256 : Int) : K) := by norm_num
  rw [e, Int.floor_intCast] at h
  exact_mod_cast h

/-- Just below 4 m, from `4 - 1/64` on, the intensity is 255 (white). -/
theorem intensity_below_four [FloorRing K] (depth : K) (h1 : 4 - 1 / 64 ≤ depth)
    (h2 : depth < 4) : StoreImageToFrameBuffer.intensity depth = 255 := by
  have h := intensity_of_nonneg depth (by linarith)
  have hfloor : ⌊depth / 4 * 256⌋ = 255 := by
    rw [Int.floor_eq_iff]
    constructor
    · push_cast
      linarith
    · push_cast
      linarith
  rw [hfloor] at h
  exact_mod_cast h

/-- The bytes of the frame buffer after the `while` loop has run over `n` pixels: the first
three bytes of each of these pixels hold the intensity of its depth, every other byte is
unchanged. -/
theorem writePixels_apply [FloorRing K] (floats : Nat → K) (bytes : Nat → Nat) (n i : Nat) :
    (List.range n).foldl (StoreImageToFrameBuffer.writePixel floats) bytes i =
      if i < 4 * n ∧ i % 4 ≠ 3 then StoreImageToFrameBuffer.intensity (floats (i / 4))
      else bytes i := by
  induction n with
  | zero => simp
  | succ n ih =>
    rw [List.range_succ, List.foldl_append, List.foldl_cons, List.foldl_nil]
    simp only [StoreImageToFrameBuffer.writePixel, Function.update_apply, ih]
    by_cases c2 : i = 4 * n + 2
    · subst c2
      have hd : (4 * n + 2) / 4 = n := by omega
      have hc : 4 * n + 2 < 4 * (n + 1) ∧ (4 * n + 2) % 4 ≠ 3 := ⟨by omega, by omega⟩
      rw [if_pos hc, hd]
      simp
    · by_cases c1 : i = 4 * n + 1
      · subst c1
        have hd : (4 * n + 1) / 4 = n := by omega
        have hc : 4 * n + 1 < 4 * (n + 1) ∧ (4 * n + 1) % 4 ≠ 3 := ⟨by omega, by omega⟩
        rw [if_pos hc, hd]
        simp
      · by_cases c0 : i = 4 * n
        · subst c0
          have hd : (4 * n) / 4 = n := by omega
          have hc : 4 * n < 4 * (n + 1) ∧ (4 * n) % 4 ≠ 3 := ⟨by omega, by omega⟩
          rw [if_pos hc, hd]
          simp
        · simp only [c2, c1, c0, if_false]
          by_cases c : i < 4 * n ∧ i % 4 ≠ 3
          · have c' : i < 4 * (n + 1) ∧ i % 4 ≠ 3 := ⟨by omega, c.2⟩
            rw [if_pos c, if_pos c']
          · have c' : ¬ (i < 4 * (n + 1) ∧ i % 4 ≠ 3) := by
              intro h
              apply c
              refine ⟨?_, h.2⟩
              omega
            rw [if_neg c, if_neg c']

/-- What `StoreImageToFrameBuffer` leaves in the frame buffer for a depth float image with a
texture, a size and a pitch that are not 0: the first three bytes of every pixel hold the
intensity of its depth, the fourth byte is unchanged. -/
theorem StoreImageToFrameBuffer_of_float [FloorRing K] (params : KinectFusionParams K)
    (memcpy_s : (Nat → Nat) → Nat → (Nat → Nat) → Nat → (Nat → Nat))
    (imageFrame : NUI_FUSION_IMAGE_FRAME K) (bytes : Nat → Nat)
    (htex : imageFrame.pFrameTexture = true)
    (htype : imageFrame.imageType = NUI_FUSION_IMAGE_TYPE.NUI_FUSION_IMAGE_TYPE_FLOAT)
    (hw : imageFrame.width ≠ 0) (hh : imageFrame.height ≠ 0) (hp : imageFrame.Pitch ≠ 0) :
    StoreImageToFrameBuffer params memcpy_s (some imageFrame) (some bytes) =
      (S_OK, some fun i =>
        if i < 4 * (params.m_cDepthWidth * params.m_cDepthHeight).toNat ∧ i % 4 ≠ 3 then
          StoreImageToFrameBuffer.intensity (imageFrame.floats (i / 4))
        else bytes i) := by
  simp only [StoreImageToFrameBuffer, htex, htype, hw, hh, hp, Bool.not_true,
    Bool.false_eq_true, if_false, ne_eq, not_true_eq_false, and_false, or_self,
    not_false_eq_true, if_true]
  congr 2
  funext i
  exact writePixels_apply imageFrame.floats bytes _ i

/-- C27 (the code at the failing input). The intensity computed for the depth 0 is 0, but the
intensity computed for the depth 4 is 0 as well, not 255: `4 / 4 * 256` is 256 and
`256 % 256` is 0. The depth `255/64`, just below 4 m, gives 255. Accordingly, for a depth
float image in which every pixel is at 4 m, `StoreImageToFrameBuffer` succeeds and stores 0 in
the blue, green and red bytes of the first pixel of a buffer that held 255 everywhere. -/
theorem depth_four_metres_stored_black :
    StoreImageToFrameBuffer.intensity (0 : ℚ) = 0 ∧
    StoreImageToFrameBuffer.intensity (4 : ℚ) = 0 ∧
    StoreImageToFrameBuffer.intensity (255 / 64 : ℚ) = 255 ∧
    ∃ bytes : Nat → Nat,
      StoreImageToFrameBuffer sampleParams copyBytes (some wallAtFourMetres)
        (some whiteBuffer) = (S_OK, some bytes) ∧
      bytes 0 = 0 ∧ bytes 1 = 0 ∧ bytes 2 = 0 ∧ bytes 3 = 255 := by
  refine ⟨intensity_zero, intensity_four, intensity_below_four _ (by norm_num) (by norm_num),
    _, StoreImageToFrameBuffer_of_float sampleParams copyBytes wallAtFourMetres whiteBuffer
      rfl rfl (by decide) (by decide) (by decide), ?_, ?_, ?_, ?_⟩
  · have h : (0 : Nat) < 4 * (sampleParams.m_cDepthWidth * sampleParams.m_cDepthHeight).toNat ∧
        0 % 4 ≠ 3 := by decide
    simp only [if_pos h]
    exact intensity_four
  · have h : (1 : Nat) < 4 * (sampleParams.m_cDepthWidth * sampleParams.m_cDepthHeight).toNat ∧
        1 % 4 ≠ 3 := by decide
    simp only [if_pos h]
    exact intensity_four
  · have h : (2 : Nat) < 4 * (sampleParams.m_cDepthWidth * sampleParams.m_cDepthHeight).toNat ∧
        2 % 4 ≠ 3 := by decide
    simp only [if_pos h]
    exact intensity_four
  · have h : ¬ ((3 : Nat) < 4 * (sampleParams.m_cDepthWidth * sampleParams.m_cDepthHeight).toNat ∧
        3 % 4 ≠ 3) := by decide
    simp only [if_neg h]
    rfl

/-! ## Theorems: the integration gate over an iteration of the worker loop -/

end KinectFusion
